import Mathlib

/-!
# XCPlite protocol layer (`xcpLite.c`)

A shallow embedding of the XCP slave driver: the command processor
`XcpCommand`, the MTA transfer helpers, the dynamic DAQ allocation
(`XcpFreeDaq`, `XcpAllocMemory`, `XcpAllocDaq`, `XcpAllocOdt`,
`XcpAllocOdtEntry`), the DAQ processor `XcpEventExt`, and of `xcpAppl.c` the
address conversion (`ApplXcpGetPointer`, `ApplXcpGetAddr`) and the event list
(`XcpCreateEvent`), followed by the properties proved about them.

Conventions of the embedding

* C unsigned integers are `Nat`; every cast and every store into a narrower
  type that the source performs is written as an explicit `% 2^w`, also
  where a `CRO_*` field is stored into a `vuint8` variable or record field.
* Host pointers are `Nat` addresses; pointer increments do not wrap.
* The global `xcp` is the record `tXcpData`; the process memory outside of
  `xcp` is the byte map `Slave.mem`.  A store through the MTA is described
  as long as it goes outside of `xcp`.
* The header `xcpLite.h` (packet field macros, record types, numeric codes)
  and `xcp_cfg.h` (sizes, feature switches) are not part of the sources at
  hand.  Sizes and feature switches are fields of `Config`; the request
  fields read through the `CRO_*` macros are the fields of `tXcpCto`; the
  DAQ arena is addressed by record index (`DaqList[i]`, `pOdt[j]`,
  `pOdtEntryAddr[n]`, `pOdtEntrySize[n]`), its byte layout is not modelled.
  An access through an arena pointer is described as long as the pointer is
  the one `XcpAllocMemory` places for the counts and the index lies inside
  the array.
* The section "Domain of the embedding" gives the predicates that say when a
  command or an event keeps to this (`XcpCommand.defined`,
  `XcpEventExt.defined`).  The theorems about command sequences and about the
  event take them as hypotheses; what the program does at the border of the
  domain is stated for concrete inputs, with the help of
  `XcpCommand.WRITE_DAQ.sizes` and `XcpWriteMta.aliased`.
-/

namespace XCPlite

/-! ## Numeric codes -/

/-- Modelled from the spec: `PID_ERR` of `xcpLite.h`, the first byte of a negative
response (§6: `0xFE`). -/
def PID_ERR : Nat := 0xFE

/-- Modelled from the spec: `CRC_CMD_SYNCH` of `xcpLite.h`, error CMD_SYNCH of §7;
the spec gives no number, this is the one of the XCP standard. -/
def CRC_CMD_SYNCH : Nat := 0x00
/-- Modelled from the spec: `CRC_CMD_UNKNOWN` of `xcpLite.h`, error CMD_UNKNOWN of
§7; the spec gives no number, this is the one of the XCP standard. -/
def CRC_CMD_UNKNOWN : Nat := 0x20
/-- Modelled from the spec: `CRC_CMD_SYNTAX` of `xcpLite.h`, error CMD_SYNTAX of §7;
the spec gives no number, this is the one of the XCP standard. -/
def CRC_CMD_SYNTAX : Nat := 0x21
/-- Modelled from the spec: `CRC_OUT_OF_RANGE` of `xcpLite.h`, error OUT_OF_RANGE of
§7; the spec gives no number, this is the one of the XCP standard. -/
def CRC_OUT_OF_RANGE : Nat := 0x22
/-- Modelled from the spec: `CRC_WRITE_PROTECTED` of `xcpLite.h`, error
WRITE_PROTECTED of §7; the spec gives no number, this is the one of the XCP standard. -/
def CRC_WRITE_PROTECTED : Nat := 0x23
/-- Modelled from the spec: `CRC_ACCESS_DENIED` of `xcpLite.h`, error ACCESS_DENIED
of §7; the spec gives no number, this is the one of the XCP standard. -/
def CRC_ACCESS_DENIED : Nat := 0x24
/-- Modelled from the spec: `CRC_SEQUENCE` of `xcpLite.h`, error SEQUENCE of §7
(§8 S4: `FE 29`). -/
def CRC_SEQUENCE : Nat := 0x29
/-- Modelled from the spec: `CRC_DAQ_CONDIF` of `xcpLite.h`, error DAQ_CONDIF of §7;
the spec gives no number, this is the one of the XCP standard. -/
def CRC_DAQ_CONDIF : Nat := 0x2A
/-- Modelled from the spec: `CRC_MEMORY_OVERFLOW` of `xcpLite.h`, error
MEMORY_OVERFLOW of §7 (§8 S5: `FE 30`). -/
def CRC_MEMORY_OVERFLOW : Nat := 0x30

/-- The return code `XCP_CMD_DENIED` of the MTA helpers (`xcpLite.h`); the four
return codes are numbered as the XCP driver of the vendor does. -/
def XCP_CMD_DENIED : Nat := 0
/-- The return code `XCP_CMD_OK` of the MTA helpers: done. -/
def XCP_CMD_OK : Nat := 1
/-- The return code `XCP_CMD_PENDING` of the MTA helpers: the response is sent
later. -/
def XCP_CMD_PENDING : Nat := 2
/-- The return code `XCP_CMD_SYNTAX` of the MTA helpers: syntax error. -/
def XCP_CMD_SYNTAX : Nat := 3

/-- The session status bit `SS_POLLING` of `xcpLite.h`, set with the session
status API; a bit above the status byte. -/
def SS_POLLING : Nat := 0x0100
/-- Modelled from the spec: `SS_CONNECTED` of `xcpLite.h`, the bit of the session
status that holds `connected` (§3); a bit of its own, here `0x20`. -/
def SS_CONNECTED : Nat := 0x20
/-- Modelled from the spec: `SS_DAQ` of `xcpLite.h`, the bit of the session status
that holds `daq_running` (§3); a bit of its own, here `0x40`. -/
def SS_DAQ : Nat := 0x40

/-- Modelled from the spec: `DAQ_FLAG_SELECTED` of `xcpLite.h`, flag SELECTED of a
DAQ list (§3); the flags are single bits, numbered as the XCP standard does. -/
def DAQ_FLAG_SELECTED : Nat := 0x01
/-- Modelled from the spec: `DAQ_FLAG_DIRECTION` of `xcpLite.h`, flag DIRECTION of
a DAQ list (§3). -/
def DAQ_FLAG_DIRECTION : Nat := 0x02
/-- Modelled from the spec: `DAQ_FLAG_TIMESTAMP` of `xcpLite.h`, flag TIMESTAMP of
a DAQ list (§3). -/
def DAQ_FLAG_TIMESTAMP : Nat := 0x10
/-- Modelled from the spec: `DAQ_FLAG_NO_PID` of `xcpLite.h`, flag NO_PID of a DAQ
list (§3). -/
def DAQ_FLAG_NO_PID : Nat := 0x20
/-- Modelled from the spec: `DAQ_FLAG_RUNNING` of `xcpLite.h`, flag RUNNING of a
DAQ list (§3). -/
def DAQ_FLAG_RUNNING : Nat := 0x40
/-- Modelled from the spec: `DAQ_FLAG_OVERRUN` of `xcpLite.h`, flag OVERRUN of a
DAQ list (§3). -/
def DAQ_FLAG_OVERRUN : Nat := 0x80

/-- Modelled from the spec: `RM_DAQ` of `xcpLite.h`, the DAQ bit of the resource
mask of CONNECT (§8 S1: `resource=01`). -/
def RM_DAQ : Nat := 0x01
/-- The bit `CMB_OPTIONAL` of the communication mode of CONNECT (`xcpLite.h`):
optional info available. -/
def CMB_OPTIONAL : Nat := 0x80
/-- The bit `PI_MOTOROLA` of the communication mode of CONNECT (`xcpLite.h`):
Motorola byte order. -/
def PI_MOTOROLA : Nat := 0x01
/-- The identification type `IDT_ASAM_NAME` of GET_ID (`xcpLite.h`): ASAM-MC2 file
name. -/
def IDT_ASAM_NAME : Nat := 1
/-- The key byte `DAQ_HDR_ODT_DAQB` (`xcpLite.h`): relative ODT number, absolute
DAQ list number as a byte. -/
def DAQ_HDR_ODT_DAQB : Nat := 0x40
/-- The DAQ property `DAQ_PROPERTY_CONFIG_TYPE` (`xcpLite.h`): dynamic
configuration. -/
def DAQ_PROPERTY_CONFIG_TYPE : Nat := 0x01
/-- The DAQ property `DAQ_PROPERTY_TIMESTAMP` (`xcpLite.h`): time stamps
supported. -/
def DAQ_PROPERTY_TIMESTAMP : Nat := 0x10
/-- The DAQ property `DAQ_OVERLOAD_INDICATION_PID` (`xcpLite.h`): overload
indication in the PID. -/
def DAQ_OVERLOAD_INDICATION_PID : Nat := 0x40
/-- The time stamp mode bit `DAQ_TIMESTAMP_FIXED` (`xcpLite.h`): fixed time stamps. -/
def DAQ_TIMESTAMP_FIXED : Nat := 0x08

/-- The C expression `~m & 0xFF`: complement of `m` within one byte. -/
def not8 (m : Nat) : Nat := 0xFF - m % 256

/-! ## Configuration (`xcp_cfg.h`) and record types -/

/-- Compile-time configuration: the sizes and feature switches the driver
takes from `xcp_cfg.h` and from the target ABI. -/
structure Config where
  /-- Maximum size of a command/response packet. -/
  kXcpMaxCTO : Nat
  /-- Maximum size of a data packet. -/
  kXcpMaxDTO : Nat
  /-- Size in bytes of the DAQ arena `xcp.Daq.u.b`. -/
  kXcpDaqMemSize : Nat
  /-- The value of `sizeof(tXcpDaqList)`. -/
  sizeofDaqList : Nat
  /-- The value of `sizeof(tXcpOdt)`. -/
  sizeofOdt : Nat
  /-- The value of `sizeof(DAQBYTEPTR)`. -/
  sizeofDaqBytePtr : Nat
  /-- Largest size of one ODT entry. -/
  XCP_MAX_ODT_ENTRY_SIZE : Nat
  /-- Protocol layer version. -/
  XCP_VERSION : Nat
  /-- Transport layer version. -/
  XCP_TRANSPORT_LAYER_VERSION : Nat
  /-- Length of the station identifier. -/
  kXcpStationIdLength : Nat
  /-- The value of `&kXcpStationId[0]`. -/
  kXcpStationId : Nat
  /-- Unit of the DAQ time stamp. -/
  kXcpDaqTimestampUnit : Nat
  /-- Size of the DAQ time stamp. -/
  kXcpDaqTimestampSize : Nat
  /-- Ticks per unit of the DAQ time stamp. -/
  kXcpDaqTimestampTicksPerUnit : Nat
  /-- Load address of the main module (`ApplXcpGetBaseAddr`). -/
  baseAddr : Nat
  /-- Switch `XCP_ENABLE_PARAMETER_CHECK`. -/
  XCP_ENABLE_PARAMETER_CHECK : Bool
  /-- Switch `XCP_ENABLE_GET_SESSION_STATUS_API`. -/
  XCP_ENABLE_GET_SESSION_STATUS_API : Bool
  /-- Switch `XCP_CPUTYPE_BIGENDIAN`. -/
  XCP_CPUTYPE_BIGENDIAN : Bool
  /-- The value of `(vuint8*)&xcp`, the address of the global `xcp`. -/
  xcpAddr : Nat
  /-- The value of `sizeof(tXcpData)`. -/
  sizeofXcp : Nat
  /-- The value of `offsetof(tXcpData, Mta)`. -/
  offsetofMta : Nat

/-- Modelled from the spec: the record type `tXcpDaqList` of `xcpLite.h`
(spec §3 "DaqList": first ODT, last ODT, event channel, flags). -/
structure tXcpDaqList where
  /-- Absolute number of the last ODT. -/
  lastOdt : Nat
  /-- Absolute number of the first ODT. -/
  firstOdt : Nat
  /-- Flag byte. -/
  flags : Nat
  /-- Event channel. -/
  eventChannel : Nat
deriving DecidableEq

/-- Modelled from the spec: the record type `tXcpOdt` of `xcpLite.h`
(spec §3 "Odt": first and last ODT entry). -/
structure tXcpOdt where
  /-- Absolute number of the first ODT entry. -/
  firstOdtEntry : Nat
  /-- Absolute number of the last ODT entry. -/
  lastOdtEntry : Nat
deriving DecidableEq

/-- The dynamic DAQ structure `xcp.Daq`: the three counts and the arena.
The arena is viewed through the record index: `DaqList i` is
`xcp.Daq.u.DaqList[i]`. -/
structure tXcpDaq where
  /-- Absolute number of ODTs. -/
  OdtCount : Nat
  /-- Absolute number of ODT entries. -/
  OdtEntryCount : Nat
  /-- Number of DAQ lists. -/
  DaqCount : Nat
  /-- The DAQ list records at the start of the arena. -/
  DaqList : Nat → tXcpDaqList

/-- The global `xcp` (`tXcpData`).  `Odt j`, `OdtEntryAddr n` and
`OdtEntrySize n` are the arena records `xcp.pOdt[j]`,
`xcp.pOdtEntryAddr[n]` and `xcp.pOdtEntrySize[n]`; the three pointers
themselves are kept as byte offsets into the arena, `none` being the null
pointer. -/
structure tXcpData where
  /-- Response buffer `xcp.Crm.b`. -/
  Crm : Nat → Nat
  /-- Length of the response. -/
  CrmLen : Nat
  /-- Session status bits. -/
  SessionStatus : Nat
  /-- Memory transfer address. -/
  Mta : Nat
  /-- DAQ counts and DAQ list records. -/
  Daq : tXcpDaq
  /-- Pointer to the ODT records. -/
  pOdt : Option Nat
  /-- Pointer to the ODT entry addresses. -/
  pOdtEntryAddr : Option Nat
  /-- Pointer to the ODT entry sizes. -/
  pOdtEntrySize : Option Nat
  /-- The ODT records. -/
  Odt : Nat → tXcpOdt
  /-- The ODT entry addresses. -/
  OdtEntryAddr : Nat → Nat
  /-- The ODT entry sizes. -/
  OdtEntrySize : Nat → Nat
  /-- Write cursor of WRITE_DAQ. -/
  DaqListPtr : Nat

/-- The slave process: the protocol layer data, the process memory outside
of it (address to byte) and the value `ApplXcpGetTimestamp` returns. -/
structure Slave where
  /-- The protocol layer data. -/
  xcp : tXcpData
  /-- Process memory. -/
  mem : Nat → Nat
  /-- Current DAQ clock. -/
  clock : Nat

/-- Command codes: the `CC_*` labels of the dispatcher's `switch`, whose
numbers are in `xcpLite.h`.  `CC_OTHER b` stands for every command byte `b`
that is none of the labels. -/
inductive CmdCode where
  | CC_CONNECT
  | CC_DISCONNECT
  | CC_GET_STATUS
  | CC_SYNC
  | CC_GET_COMM_MODE_INFO
  | CC_GET_ID
  | CC_SET_MTA
  | CC_UPLOAD
  | CC_SHORT_UPLOAD
  | CC_DOWNLOAD
  | CC_DOWNLOAD_MAX
  | CC_SET_DAQ_PTR
  | CC_WRITE_DAQ
  | CC_SET_DAQ_LIST_MODE
  | CC_GET_DAQ_LIST_MODE
  | CC_START_STOP_DAQ_LIST
  | CC_START_STOP_SYNCH
  | CC_GET_DAQ_CLOCK
  | CC_GET_DAQ_PROCESSOR_INFO
  | CC_GET_DAQ_RESOLUTION_INFO
  | CC_FREE_DAQ
  | CC_ALLOC_DAQ
  | CC_ALLOC_ODT
  | CC_ALLOC_ODT_ENTRY
  | CC_WRITE_DAQ_MULTIPLE
  | CC_OTHER (b : Nat)
deriving DecidableEq

/-- A received command packet, seen through the `CRO_*` macros of
`xcpLite.h` the dispatcher reads: every field is the value its macro
yields; data areas map an offset to a byte. -/
structure tXcpCto where
  /-- Command code. -/
  CRO_CMD : CmdCode
  /-- GET_ID: identification type. -/
  CRO_GET_ID_TYPE : Nat := 0
  /-- SET_MTA: address extension. -/
  CRO_SET_MTA_EXT : Nat := 0
  /-- SET_MTA: address. -/
  CRO_SET_MTA_ADDR : Nat := 0
  /-- DOWNLOAD: number of data bytes. -/
  CRO_DOWNLOAD_SIZE : Nat := 0
  /-- DOWNLOAD: data bytes. -/
  CRO_DOWNLOAD_DATA : Nat → Nat := fun _ => 0
  /-- DOWNLOAD_MAX: data bytes. -/
  CRO_DOWNLOAD_MAX_DATA : Nat → Nat := fun _ => 0
  /-- UPLOAD: number of data bytes. -/
  CRO_UPLOAD_SIZE : Nat := 0
  /-- SHORT_UPLOAD: number of data bytes. -/
  CRO_SHORT_UPLOAD_SIZE : Nat := 0
  /-- SHORT_UPLOAD: address extension. -/
  CRO_SHORT_UPLOAD_EXT : Nat := 0
  /-- SHORT_UPLOAD: address. -/
  CRO_SHORT_UPLOAD_ADDR : Nat := 0
  /-- ALLOC_DAQ: number of DAQ lists. -/
  CRO_ALLOC_DAQ_COUNT : Nat := 0
  /-- ALLOC_ODT: DAQ list. -/
  CRO_ALLOC_ODT_DAQ : Nat := 0
  /-- ALLOC_ODT: number of ODTs. -/
  CRO_ALLOC_ODT_COUNT : Nat := 0
  /-- ALLOC_ODT_ENTRY: DAQ list. -/
  CRO_ALLOC_ODT_ENTRY_DAQ : Nat := 0
  /-- ALLOC_ODT_ENTRY: relative ODT. -/
  CRO_ALLOC_ODT_ENTRY_ODT : Nat := 0
  /-- ALLOC_ODT_ENTRY: number of entries. -/
  CRO_ALLOC_ODT_ENTRY_COUNT : Nat := 0
  /-- GET_DAQ_LIST_MODE: DAQ list. -/
  CRO_GET_DAQ_LIST_MODE_DAQ : Nat := 0
  /-- SET_DAQ_LIST_MODE: mode byte. -/
  CRO_SET_DAQ_LIST_MODE_MODE : Nat := 0
  /-- SET_DAQ_LIST_MODE: DAQ list. -/
  CRO_SET_DAQ_LIST_MODE_DAQ : Nat := 0
  /-- SET_DAQ_LIST_MODE: event channel. -/
  CRO_SET_DAQ_LIST_MODE_EVENTCHANNEL : Nat := 0
  /-- SET_DAQ_LIST_MODE: priority. -/
  CRO_SET_DAQ_LIST_MODE_PRIORITY : Nat := 0
  /-- SET_DAQ_PTR: DAQ list. -/
  CRO_SET_DAQ_PTR_DAQ : Nat := 0
  /-- SET_DAQ_PTR: relative ODT. -/
  CRO_SET_DAQ_PTR_ODT : Nat := 0
  /-- SET_DAQ_PTR: entry index in the ODT. -/
  CRO_SET_DAQ_PTR_IDX : Nat := 0
  /-- WRITE_DAQ: size of the entry. -/
  CRO_WRITE_DAQ_SIZE : Nat := 0
  /-- WRITE_DAQ: address extension. -/
  CRO_WRITE_DAQ_EXT : Nat := 0
  /-- WRITE_DAQ: address. -/
  CRO_WRITE_DAQ_ADDR : Nat := 0
  /-- WRITE_DAQ_MULTIPLE: number of elements. -/
  CRO_WRITE_DAQ_MULTIPLE_NODAQ : Nat := 0
  /-- WRITE_DAQ_MULTIPLE: bit offset of element `i`. -/
  CRO_WRITE_DAQ_MULTIPLE_BITOFFSET : Nat → Nat := fun _ => 0
  /-- WRITE_DAQ_MULTIPLE: size of element `i`. -/
  CRO_WRITE_DAQ_MULTIPLE_SIZE : Nat → Nat := fun _ => 0
  /-- WRITE_DAQ_MULTIPLE: address of element `i`. -/
  CRO_WRITE_DAQ_MULTIPLE_ADDR : Nat → Nat := fun _ => 0
  /-- WRITE_DAQ_MULTIPLE: address extension of element `i`. -/
  CRO_WRITE_DAQ_MULTIPLE_EXT : Nat → Nat := fun _ => 0
  /-- START_STOP_DAQ_LIST and START_STOP_SYNCH: mode. -/
  CRO_START_STOP_MODE : Nat := 0
  /-- START_STOP_DAQ_LIST: DAQ list. -/
  CRO_START_STOP_DAQ : Nat := 0

/-! ## Response buffer

The lengths and field offsets of the responses are the `CRM_*` macros of
`xcpLite.h`.  Those the spec shows in its scenarios are taken from there;
the others are the ones of the packet layouts of the XCP standard. -/

/-- Modelled from the spec: `CRM_CONNECT_LEN` of `xcpLite.h`,
length of the CONNECT response (§8 S1). -/
def CRM_CONNECT_LEN : Nat := 8
/-- Length of the SYNC response. -/
def CRM_SYNCH_LEN : Nat := 2
/-- Length of the GET_COMM_MODE_INFO response. -/
def CRM_GET_COMM_MODE_INFO_LEN : Nat := 8
/-- Modelled from the spec: `CRM_DISCONNECT_LEN` of `xcpLite.h`,
length of the DISCONNECT response (§8 S1). -/
def CRM_DISCONNECT_LEN : Nat := 1
/-- Length of the GET_ID response. -/
def CRM_GET_ID_LEN : Nat := 8
/-- Length of the GET_STATUS response. -/
def CRM_GET_STATUS_LEN : Nat := 6
/-- Modelled from the spec: `CRM_UPLOAD_LEN` of `xcpLite.h`,
length of the UPLOAD response without its data (§8 S2). -/
def CRM_UPLOAD_LEN : Nat := 1
/-- Length of the SHORT_UPLOAD response without its data. -/
def CRM_SHORT_UPLOAD_LEN : Nat := 1
/-- Length of the GET_DAQ_PROCESSOR_INFO response. -/
def CRM_GET_DAQ_PROCESSOR_INFO_LEN : Nat := 8
/-- Length of the GET_DAQ_RESOLUTION_INFO response. -/
def CRM_GET_DAQ_RESOLUTION_INFO_LEN : Nat := 8
/-- Length of the GET_DAQ_LIST_MODE response. -/
def CRM_GET_DAQ_LIST_MODE_LEN : Nat := 8
/-- Length of the SET_DAQ_PTR response. -/
def CRM_SET_DAQ_PTR_LEN : Nat := 1
/-- Modelled from the spec: `CRM_START_STOP_LEN` of `xcpLite.h`,
length of the START_STOP_DAQ_LIST response (§8 S3). -/
def CRM_START_STOP_LEN : Nat := 2
/-- Length of the GET_DAQ_CLOCK response. -/
def CRM_GET_DAQ_CLOCK_LEN : Nat := 8

/-- Modelled from the spec: `CRO_DOWNLOAD_MAX_SIZE` of `xcpLite.h`, the
largest data size of a DOWNLOAD packet of at most `MAX_CTO` bytes (command
byte, size byte, data), stored in a byte. -/
def CRO_DOWNLOAD_MAX_SIZE (cfg : Config) : Nat := (cfg.kXcpMaxCTO - 2) % 256
/-- Modelled from the spec: `CRO_DOWNLOAD_MAX_MAX_SIZE` of `xcpLite.h`, the
data size of a DOWNLOAD_MAX packet (command byte, data), stored in a byte. -/
def CRO_DOWNLOAD_MAX_MAX_SIZE (cfg : Config) : Nat := (cfg.kXcpMaxCTO - 1) % 256
/-- Modelled from the spec: `CRM_UPLOAD_MAX_SIZE` of `xcpLite.h`,
the largest
data size of an UPLOAD response of at most `MAX_CTO` bytes (response byte,
data), stored in a byte. -/
def CRM_UPLOAD_MAX_SIZE (cfg : Config) : Nat := (cfg.kXcpMaxCTO - 1) % 256
/-- Modelled from the spec: `CRM_SHORT_UPLOAD_MAX_SIZE` of `xcpLite.h`,
as
`CRM_UPLOAD_MAX_SIZE`. -/
def CRM_SHORT_UPLOAD_MAX_SIZE (cfg : Config) : Nat := (cfg.kXcpMaxCTO - 1) % 256

/-- The assignment `CRM_BYTE(i) = v`. -/
def setCrmByte (x : tXcpData) (i v : Nat) : tXcpData :=
  { x with Crm := Function.update x.Crm i (v % 256) }

/-- A 16 bit store into the response buffer at byte offset `i`, in the byte
order of the CPU. -/
def setCrmWord (cfg : Config) (x : tXcpData) (i v : Nat) : tXcpData :=
  if cfg.XCP_CPUTYPE_BIGENDIAN then
    setCrmByte (setCrmByte x i (v / 256)) (i + 1) v
  else
    setCrmByte (setCrmByte x i v) (i + 1) (v / 256)

/-- A 32 bit store into the response buffer at byte offset `i`, in the byte
order of the CPU. -/
def setCrmDWord (cfg : Config) (x : tXcpData) (i v : Nat) : tXcpData :=
  if cfg.XCP_CPUTYPE_BIGENDIAN then
    setCrmWord cfg (setCrmWord cfg x i (v / 65536)) (i + 2) v
  else
    setCrmWord cfg (setCrmWord cfg x i v) (i + 2) (v / 65536)

/-- The packet `XcpSendCrm` hands to `ApplXcpSend`: the first `CrmLen` bytes
of the response buffer. -/
def XcpSendCrm (x : tXcpData) : List Nat :=
  (List.range x.CrmLen).map x.Crm

/-! ## Address conversion (`xcpAppl.c`) -/

/-- The function `ApplXcpGetPointer` of the `_WIN` and `_LINUX64` builds:
base address of the main module plus the XCP address. -/
def ApplXcpGetPointer (cfg : Config) (_addr_ext : Nat) (addr : Nat) : Nat :=
  cfg.baseAddr + addr

/-- The function `ApplXcpGetAddr` of the `_WIN` and `_LINUX64` builds: the
difference between the pointer and the base address of the main module,
converted to 32 bits. -/
def ApplXcpGetAddr (cfg : Config) (p : Nat) : Nat :=
  (((p : Int) - (cfg.baseAddr : Int)) % 2 ^ 32).toNat

/-- The assertions of `ApplXcpGetAddr` in the `_WIN` build (the second one on
`_WIN64`): the pointer is not below the base address of the main module and
the difference fits 32 bits. -/
def ApplXcpGetAddr.assert (cfg : Config) (p : Nat) : Prop :=
  p ≥ cfg.baseAddr ∧ p - cfg.baseAddr ≤ 0xffffffff

instance (cfg : Config) (p : Nat) : Decidable (ApplXcpGetAddr.assert cfg p) := by
  unfold ApplXcpGetAddr.assert
  infer_instance

/-- The function `ApplXcpGetPointer` of the `XCPSIM_ENABLE_SO` build, for
`XCP_MAX_MODULE` modules with the base addresses `gModuleProperties`: the
base address of module `addr_ext`, or zero when there is no such module,
plus the XCP address. -/
def ApplXcpGetPointer.SO (XCP_MAX_MODULE : Nat) (gModuleProperties : Nat → Nat)
    (addr_ext addr : Nat) : Nat :=
  let baseAddr := if addr_ext < XCP_MAX_MODULE then gModuleProperties addr_ext else 0
  baseAddr + addr

/-! ## Memory transfer address -/

/-- The function `XcpWriteMta`: copy `size` bytes from `data` to `xcp.Mta`,
advancing the MTA.  The bytes go to the process memory `Slave.mem`: this is
the function as long as the addresses written lie outside of the global
`xcp` (`outsideXcp`).  `XcpWriteMta.aliased` follows the source where a byte
is stored into the pointer `xcp.Mta` itself. -/
def XcpWriteMta (w : Slave) : Nat → (Nat → Nat) → Slave × Nat
  | 0, _ => (w, XCP_CMD_OK)
  | size + 1, data =>
    XcpWriteMta
      { w with
        mem := Function.update w.mem w.xcp.Mta (data 0)
        xcp := { w.xcp with Mta := w.xcp.Mta + 1 } }
      size (fun i => data (i + 1))

/-- The function `XcpReadMta`: copy `size` bytes from `xcp.Mta` to the
response buffer at offset `data`, advancing the MTA.  The bytes come from the
process memory `Slave.mem`: this is the function as long as the addresses
read lie outside of the global `xcp` (`outsideXcp`). -/
def XcpReadMta (w : Slave) : Nat → Nat → Slave × Nat
  | 0, _ => (w, XCP_CMD_OK)
  | size + 1, data =>
    XcpReadMta
      { w with
        xcp := { w.xcp with
          Crm := Function.update w.xcp.Crm data (w.mem w.xcp.Mta)
          Mta := w.xcp.Mta + 1 } }
      size (data + 1)

/-! ## Data acquisition setup -/

/-- The all-zero DAQ list record. -/
def tXcpDaqList.zero : tXcpDaqList := ⟨0, 0, 0, 0⟩

/-- The all-zero ODT record. -/
def tXcpOdt.zero : tXcpOdt := ⟨0, 0⟩

/-- The function `XcpFreeDaq`: free all dynamic DAQ lists. -/
def XcpFreeDaq (x : tXcpData) : tXcpData :=
  { x with
    SessionStatus := x.SessionStatus &&& not8 SS_DAQ
    Daq := { DaqCount := 0, OdtCount := 0, OdtEntryCount := 0,
             DaqList := fun _ => tXcpDaqList.zero }
    pOdt := none
    pOdtEntryAddr := none
    pOdtEntrySize := none
    Odt := fun _ => tXcpOdt.zero
    OdtEntryAddr := fun _ => 0
    OdtEntrySize := fun _ => 0 }

/-- The 16 bit sum `s` that `XcpAllocMemory` compares with the arena size. -/
def XcpAllocMemory.s (cfg : Config) (d : tXcpDaq) : Nat :=
  (d.DaqCount * (cfg.sizeofDaqList % 256)
    + d.OdtCount * (cfg.sizeofOdt % 65536)
    + d.OdtEntryCount * (cfg.sizeofDaqBytePtr % 256 + 1)) % 65536

/-- The function `XcpAllocMemory`: check the arena size for the current
counts and place the three arena pointers. -/
def XcpAllocMemory (cfg : Config) (x : tXcpData) : tXcpData × Nat :=
  if XcpAllocMemory.s cfg x.Daq ≥ cfg.kXcpDaqMemSize % 65536 then
    (x, CRC_MEMORY_OVERFLOW)
  else
    let pOdt := x.Daq.DaqCount * cfg.sizeofDaqList
    let pOdtEntryAddr := pOdt + x.Daq.OdtCount * cfg.sizeofOdt
    let pOdtEntrySize := pOdtEntryAddr + x.Daq.OdtEntryCount * cfg.sizeofDaqBytePtr
    ({ x with
        pOdt := some pOdt
        pOdtEntryAddr := some pOdtEntryAddr
        pOdtEntrySize := some pOdtEntrySize }, 0)

/-- The function `XcpAllocDaq`: allocate the DAQ lists. -/
def XcpAllocDaq (cfg : Config) (x : tXcpData) (daqCount : Nat) : tXcpData × Nat :=
  if cfg.XCP_ENABLE_PARAMETER_CHECK ∧ (x.Daq.OdtCount ≠ 0 ∨ x.Daq.OdtEntryCount ≠ 0) then
    (x, CRC_SEQUENCE)
  else if cfg.XCP_ENABLE_PARAMETER_CHECK ∧ daqCount = 0 then
    (x, CRC_OUT_OF_RANGE)
  else
    XcpAllocMemory cfg { x with Daq := { x.Daq with DaqCount := daqCount } }

/-- Update of the record `xcp.Daq.u.DaqList[i]`. -/
def setDaqList (x : tXcpData) (i : Nat) (f : tXcpDaqList → tXcpDaqList) : tXcpData :=
  { x with Daq := { x.Daq with DaqList := Function.update x.Daq.DaqList i (f (x.Daq.DaqList i)) } }

/-- Update of the record `xcp.pOdt[j]`. -/
def setOdt (x : tXcpData) (j : Nat) (f : tXcpOdt → tXcpOdt) : tXcpData :=
  { x with Odt := Function.update x.Odt j (f (x.Odt j)) }

/-- The function `XcpAllocOdt`: allocate all ODTs of a DAQ list. -/
def XcpAllocOdt (cfg : Config) (x : tXcpData) (daq odtCount : Nat) : tXcpData × Nat :=
  if cfg.XCP_ENABLE_PARAMETER_CHECK ∧ (x.Daq.DaqCount = 0 ∨ x.Daq.OdtEntryCount ≠ 0) then
    (x, CRC_SEQUENCE)
  else if cfg.XCP_ENABLE_PARAMETER_CHECK ∧ odtCount = 0 then
    (x, CRC_OUT_OF_RANGE)
  else
    let x1 := setDaqList x daq (fun l => { l with firstOdt := x.Daq.OdtCount })
    let x2 := { x1 with Daq := { x1.Daq with OdtCount := (x1.Daq.OdtCount + odtCount) % 65536 } }
    let x3 := setDaqList x2 daq (fun l => { l with lastOdt := (x2.Daq.OdtCount + 65535) % 65536 })
    XcpAllocMemory cfg x3

/-- The function `XcpAllocOdtEntry`: allocate all entries of one ODT; `odt`
is the ODT number relative to the DAQ list.  The ODT record
`xcp.pOdt[xcpFirstOdt+odt]` is addressed by its index, and the entry sizes
keep their index when `xcp.pOdtEntrySize` is placed anew: this is the
function as long as, where the stores are reached
(`XcpAllocOdtEntry.stores`), `xcp.pOdt` is the pointer placed for the counts,
the ODT lies below `OdtCount` and no entry size has been written
(`arenaLaidOut`, `XcpCommand.definedAlloc`). -/
def XcpAllocOdtEntry (cfg : Config) (x : tXcpData) (daq odt odtEntryCount : Nat) :
    tXcpData × Nat :=
  if cfg.XCP_ENABLE_PARAMETER_CHECK ∧ (x.Daq.DaqCount = 0 ∨ x.Daq.OdtCount = 0) then
    (x, CRC_SEQUENCE)
  else if cfg.XCP_ENABLE_PARAMETER_CHECK ∧ odtEntryCount = 0 then
    (x, CRC_OUT_OF_RANGE)
  else if x.Daq.OdtEntryCount > 0xFFFF - odtEntryCount then
    (x, CRC_MEMORY_OVERFLOW)
  else
    let xcpFirstOdt := (x.Daq.DaqList daq).firstOdt
    let x1 := setOdt x (xcpFirstOdt + odt) (fun o => { o with firstOdtEntry := x.Daq.OdtEntryCount })
    let x2 := { x1 with
      Daq := { x1.Daq with OdtEntryCount := (x1.Daq.OdtEntryCount + odtEntryCount) % 65536 } }
    let x3 := setOdt x2 (xcpFirstOdt + odt)
      (fun o => { o with lastOdtEntry := (x2.Daq.OdtEntryCount + 65535) % 65536 })
    XcpAllocMemory cfg x3

/-- Modelled from the spec: the macro `DaqListOdtCount(i)` of `xcpLite.h`,
the number of ODTs of list `i`, `last_odt - first_odt + 1` of its record,
as the `int` the C expression yields. -/
def DaqListOdtCount (x : tXcpData) (i : Nat) : Int :=
  ((x.Daq.DaqList i).lastOdt : Int) - ((x.Daq.DaqList i).firstOdt : Int) + 1

/-- Modelled from the spec: the macro `DaqListOdtEntryCount(j)` of
`xcpLite.h`, the number of entries of the ODT with absolute number `j`,
`last_odt_entry - first_odt_entry + 1` of its record, as the `int` the C
expression yields. -/
def DaqListOdtEntryCount (x : tXcpData) (j : Nat) : Int :=
  ((x.Odt j).lastOdtEntry : Int) - ((x.Odt j).firstOdtEntry : Int) + 1

/-- The cast `(vuint8)v` of an `int`. -/
def toUInt8 (v : Int) : Nat := (v % 256).toNat

/-- The function `XcpStartDaq`: start one DAQ list. -/
def XcpStartDaq (x : tXcpData) (daq : Nat) : tXcpData :=
  let x1 := setDaqList x daq (fun l => { l with flags := l.flags ||| DAQ_FLAG_RUNNING })
  { x1 with SessionStatus := x1.SessionStatus ||| SS_DAQ }

/-- The function `XcpStartAllSelectedDaq`: start all selected DAQ lists. -/
def XcpStartAllSelectedDaq (x : tXcpData) : tXcpData :=
  (List.range x.Daq.DaqCount).foldl
    (fun x daq =>
      if (x.Daq.DaqList daq).flags &&& DAQ_FLAG_SELECTED ≠ 0 then
        setDaqList (XcpStartDaq x daq) daq
          (fun l => { l with flags := l.flags &&& not8 DAQ_FLAG_SELECTED })
      else x)
    x

/-- The function `XcpStopDaq`: stop one DAQ list and clear the session's DAQ
bit when no list is running any more. -/
def XcpStopDaq (x : tXcpData) (daq : Nat) : tXcpData :=
  let x1 := setDaqList x daq (fun l =>
    { l with flags := l.flags &&& (DAQ_FLAG_DIRECTION ||| DAQ_FLAG_TIMESTAMP ||| DAQ_FLAG_NO_PID) })
  if (List.range x1.Daq.DaqCount).any
      (fun i => decide ((x1.Daq.DaqList i).flags &&& DAQ_FLAG_RUNNING ≠ 0)) then
    x1
  else
    { x1 with SessionStatus := x1.SessionStatus &&& not8 SS_DAQ }

/-- The function `XcpStopAllSelectedDaq`: stop all selected DAQ lists. -/
def XcpStopAllSelectedDaq (x : tXcpData) : tXcpData :=
  (List.range x.Daq.DaqCount).foldl
    (fun x daq =>
      if (x.Daq.DaqList daq).flags &&& DAQ_FLAG_SELECTED ≠ 0 then
        setDaqList (XcpStopDaq x daq) daq
          (fun l => { l with flags := l.flags &&& not8 DAQ_FLAG_SELECTED })
      else x)
    x

/-- The function `XcpStopAllDaq`: stop all DAQ lists. -/
def XcpStopAllDaq (x : tXcpData) : tXcpData :=
  let x1 := (List.range x.Daq.DaqCount).foldl
    (fun x daq => setDaqList x daq (fun l =>
      { l with flags := l.flags &&& (DAQ_FLAG_DIRECTION ||| DAQ_FLAG_TIMESTAMP ||| DAQ_FLAG_NO_PID) }))
    x
  { x1 with SessionStatus := x1.SessionStatus &&& not8 SS_DAQ }

/-- The function `XcpDisconnect`: leave the connected state and stop all
DAQ lists. -/
def XcpDisconnect (x : tXcpData) : tXcpData :=
  XcpStopAllDaq { x with SessionStatus := x.SessionStatus &&& not8 SS_CONNECTED }

/-- The function `XcpInit`: all protocol layer data zero. -/
def XcpInit : tXcpData :=
  { Crm := fun _ => 0
    CrmLen := 0
    SessionStatus := 0
    Mta := 0
    Daq := { DaqCount := 0, OdtCount := 0, OdtEntryCount := 0,
             DaqList := fun _ => tXcpDaqList.zero }
    pOdt := none
    pOdtEntryAddr := none
    pOdtEntrySize := none
    Odt := fun _ => tXcpOdt.zero
    OdtEntryAddr := fun _ => 0
    OdtEntrySize := fun _ => 0
    DaqListPtr := 0 }

/-! ## Data acquisition processor

The DTO buffer `dto` is the list of the bytes written for the ODT at hand; it
is not bounded, where `dto.b` has `kXcpMaxDTO` bytes (`XcpEventExt.defined`
asks for DTOs that fit).  `XCP_ASSERT` and the interrupt lock have no effect
on the state and are left out.  The type `XcpDaqTimestampType` is taken to have
`kXcpDaqTimestampSize` bytes. -/

/-- The bytes the store `*(XcpDaqTimestampType*)&dtop->b[2] = ApplXcpGetTimestamp()`
leaves in the DTO: the `kXcpDaqTimestampSize` bytes of the clock value, in
the byte order of the CPU. -/
def XcpEventExt.timestamp (cfg : Config) (clock : Nat) : List Nat :=
  if cfg.XCP_CPUTYPE_BIGENDIAN then
    ((List.range cfg.kXcpDaqTimestampSize).map (fun k => clock / 256 ^ k % 256)).reverse
  else
    (List.range cfg.kXcpDaqTimestampSize).map (fun k => clock / 256 ^ k % 256)

/-- The bytes `memcpy(d, src, n)` copies: the `n` bytes of the process memory
from `src` on. -/
def XcpEventExt.memcpy (w : Slave) (src n : Nat) : List Nat :=
  (List.range n).map (fun k => w.mem (src + k))

/-- The inner DAQ loop of `XcpEventExt`, `while (e<=el) { ... e++; }` over
the 16 bit entry number `e`: `d` holds the bytes written to the DTO so far.
The loop is left at the first entry of size zero.  `none` when the fuel runs
out. -/
def XcpEventExt.copy (w : Slave) (offset el : Nat) : Nat → Nat → List Nat → Option (List Nat)
  | 0, _, _ => none
  | fuel + 1, e, d =>
    if e ≤ el then
      let n := w.xcp.OdtEntrySize e
      if n = 0 then some d
      else
        XcpEventExt.copy w offset el fuel ((e + 1) % 65536)
          (d ++ XcpEventExt.memcpy w (offset + w.xcp.OdtEntryAddr e % 2 ^ 32) n)
    else some d

/-- The packet `XcpSendDto` hands to `ApplXcpSend`: the first `l` bytes of
the DTO buffer. -/
def XcpSendDto (l : Nat) (b : List Nat) : List Nat := b.take l

/-- The body of the ODT loop of `XcpEventExt` for the ODT with absolute
number `odt` of list `daq`.  The state is the slave and the packets handed
to the transport so far.  The ODT record and the entries are read by index
and the DTO buffer is a list: this is the body as long as `xcp.pOdt`,
`xcp.pOdtEntryAddr` and `xcp.pOdtEntrySize` are the pointers placed for the
counts, the ODT and its entries lie inside the arrays and the bytes written
fit `dto.b` (`XcpEventExt.definedOdt`, `XcpEventExt.defined`). -/
def XcpEventExt.odt (cfg : Config) (offset daq odt : Nat) (s : Slave × List (List Nat)) :
    Option (Slave × List (List Nat)) :=
  let w := s.1
  let b0 := toUInt8 ((odt : Int) - ((w.xcp.Daq.DaqList daq).firstOdt : Int))
  let b1 := daq % 256
  let overrun := (w.xcp.Daq.DaqList daq).flags &&& DAQ_FLAG_OVERRUN ≠ 0
  let b0 := if overrun then b0 ||| 0x80 else b0
  let x := if overrun then
      setDaqList w.xcp daq (fun l => { l with flags := l.flags &&& not8 DAQ_FLAG_OVERRUN })
    else w.xcp
  let w := { w with xcp := x }
  let hdr := if odt = (w.xcp.Daq.DaqList daq).firstOdt then
      [b0, b1] ++ XcpEventExt.timestamp cfg w.clock
    else [b0, b1]
  let e := (w.xcp.Odt odt).firstOdtEntry
  if w.xcp.OdtEntrySize e = 0 then some (w, s.2)
  else
    let el := (w.xcp.Odt odt).lastOdtEntry
    match XcpEventExt.copy w offset el 65537 e hdr with
    | none => none
    | some d => some (w, s.2 ++ [XcpSendDto (d.length % 256) d])

/-- The ODT loop of `XcpEventExt`,
`for (odt=DaqListFirstOdt(daq); odt<=DaqListLastOdt(daq); odt++)` over the
16 bit number `odt`.  `none` when the fuel runs out. -/
def XcpEventExt.odtLoop (cfg : Config) (offset daq : Nat) :
    Nat → Nat → Slave × List (List Nat) → Option (Slave × List (List Nat))
  | 0, _, _ => none
  | fuel + 1, odt, s =>
    if odt ≤ (s.1.xcp.Daq.DaqList daq).lastOdt then
      match XcpEventExt.odt cfg offset daq odt s with
      | none => none
      | some s1 => XcpEventExt.odtLoop cfg offset daq fuel ((odt + 1) % 65536) s1
    else some s

/-- The body of the DAQ list loop of `XcpEventExt` for list `daq`. -/
def XcpEventExt.daq (cfg : Config) (event offset daq : Nat) (s : Slave × List (List Nat)) :
    Option (Slave × List (List Nat)) :=
  if (s.1.xcp.Daq.DaqList daq).flags &&& DAQ_FLAG_RUNNING = 0 then some s
  else if (s.1.xcp.Daq.DaqList daq).eventChannel ≠ event % 256 then some s
  else XcpEventExt.odtLoop cfg offset daq 65537 (s.1.xcp.Daq.DaqList daq).firstOdt s

/-- The function `XcpEventExt`: process the event channel `event`.  The
result is the new state and the packets handed to the transport by
`XcpSendDto`, in this order; `none` when a loop does not end. -/
def XcpEventExt (cfg : Config) (w : Slave) (event offset : Nat) :
    Option (Slave × List (List Nat)) :=
  if w.xcp.SessionStatus &&& SS_DAQ = 0 then some (w, [])
  else
    (List.range w.xcp.Daq.DaqCount).foldl
      (fun r daq => r.bind (XcpEventExt.daq cfg event offset daq)) (some (w, []))

/-- The function `XcpEvent`: `XcpEventExt` without offset. -/
def XcpEvent (cfg : Config) (w : Slave) (event : Nat) : Option (Slave × List (List Nat)) :=
  XcpEventExt cfg w event 0

/-! ## Command processor -/

/-- Modelled from the spec: `CRM_CMD` of `xcpLite.h`,
offset of `CRM_CMD` in the response (§6). -/
def CRM_CMD : Nat := 0
/-- Modelled from the spec: `CRM_ERR` of `xcpLite.h`,
offset of `CRM_ERR` in the response (§6). -/
def CRM_ERR : Nat := 1
/-- Modelled from the spec: `CRM_CONNECT_PROTOCOL_VERSION` of `xcpLite.h`,
offset of the protocol version in the CONNECT response (§8 S1). -/
def CRM_CONNECT_PROTOCOL_VERSION : Nat := 1
/-- Modelled from the spec: `CRM_CONNECT_TRANSPORT_VERSION` of `xcpLite.h`,
offset of the transport version in the CONNECT response (§8 S1). -/
def CRM_CONNECT_TRANSPORT_VERSION : Nat := 2
/-- Modelled from the spec: `CRM_CONNECT_MAX_CTO_SIZE` of `xcpLite.h`,
offset of MAX_CTO in the CONNECT response (§8 S1). -/
def CRM_CONNECT_MAX_CTO_SIZE : Nat := 3
/-- Modelled from the spec: `CRM_CONNECT_MAX_DTO_SIZE` of `xcpLite.h`,
offset of MAX_DTO in the CONNECT response (§8 S1). -/
def CRM_CONNECT_MAX_DTO_SIZE : Nat := 4
/-- Modelled from the spec: `CRM_CONNECT_RESOURCE` of `xcpLite.h`,
offset of the resource mask in the CONNECT response (§8 S1). -/
def CRM_CONNECT_RESOURCE : Nat := 6
/-- Modelled from the spec: `CRM_CONNECT_COMM_BASIC` of `xcpLite.h`,
offset of the communication mode in the CONNECT response (§8 S1). -/
def CRM_CONNECT_COMM_BASIC : Nat := 7
/-- Offset of the optional communication mode in GET_COMM_MODE_INFO. -/
def CRM_GET_COMM_MODE_INFO_COMM_OPTIONAL : Nat := 2
/-- Offset of MAX_BS in GET_COMM_MODE_INFO. -/
def CRM_GET_COMM_MODE_INFO_MAX_BS : Nat := 4
/-- Offset of MIN_ST in GET_COMM_MODE_INFO. -/
def CRM_GET_COMM_MODE_INFO_MIN_ST : Nat := 5
/-- Offset of the queue size in GET_COMM_MODE_INFO. -/
def CRM_GET_COMM_MODE_INFO_QUEUE_SIZE : Nat := 6
/-- Offset of the driver version in GET_COMM_MODE_INFO. -/
def CRM_GET_COMM_MODE_INFO_DRIVER_VERSION : Nat := 7
/-- Offset of the mode in the GET_ID response. -/
def CRM_GET_ID_MODE : Nat := 1
/-- Offset of the length in the GET_ID response. -/
def CRM_GET_ID_LENGTH : Nat := 4
/-- Offset of the session status in the GET_STATUS response. -/
def CRM_GET_STATUS_STATUS : Nat := 1
/-- Offset of the protection status in the GET_STATUS response. -/
def CRM_GET_STATUS_PROTECTION : Nat := 2
/-- Offset of the configuration id in the GET_STATUS response. -/
def CRM_GET_STATUS_CONFIG_ID : Nat := 4
/-- Modelled from the spec: `CRM_UPLOAD_DATA` of `xcpLite.h`,
offset of the data in the UPLOAD response (§8 S2). -/
def CRM_UPLOAD_DATA : Nat := 1
/-- Offset of the data in the SHORT_UPLOAD response. -/
def CRM_SHORT_UPLOAD_DATA : Nat := 1
/-- Offset of the properties in GET_DAQ_PROCESSOR_INFO. -/
def CRM_GET_DAQ_PROCESSOR_INFO_PROPERTIES : Nat := 1
/-- Offset of MAX_DAQ in GET_DAQ_PROCESSOR_INFO. -/
def CRM_GET_DAQ_PROCESSOR_INFO_MAX_DAQ : Nat := 2
/-- Offset of MAX_EVENT in GET_DAQ_PROCESSOR_INFO. -/
def CRM_GET_DAQ_PROCESSOR_INFO_MAX_EVENT : Nat := 4
/-- Offset of MIN_DAQ in GET_DAQ_PROCESSOR_INFO. -/
def CRM_GET_DAQ_PROCESSOR_INFO_MIN_DAQ : Nat := 6
/-- Offset of the key byte in GET_DAQ_PROCESSOR_INFO. -/
def CRM_GET_DAQ_PROCESSOR_INFO_DAQ_KEY_BYTE : Nat := 7
/-- Offset of the DAQ granularity in GET_DAQ_RESOLUTION_INFO. -/
def CRM_GET_DAQ_RESOLUTION_INFO_GRANULARITY_DAQ : Nat := 1
/-- Offset of the DAQ entry size in GET_DAQ_RESOLUTION_INFO. -/
def CRM_GET_DAQ_RESOLUTION_INFO_MAX_SIZE_DAQ : Nat := 2
/-- Offset of the STIM granularity in GET_DAQ_RESOLUTION_INFO. -/
def CRM_GET_DAQ_RESOLUTION_INFO_GRANULARITY_STIM : Nat := 3
/-- Offset of the STIM entry size in GET_DAQ_RESOLUTION_INFO. -/
def CRM_GET_DAQ_RESOLUTION_INFO_MAX_SIZE_STIM : Nat := 4
/-- Offset of the time stamp mode in GET_DAQ_RESOLUTION_INFO. -/
def CRM_GET_DAQ_RESOLUTION_INFO_TIMESTAMP_MODE : Nat := 5
/-- Offset of the time stamp ticks in GET_DAQ_RESOLUTION_INFO. -/
def CRM_GET_DAQ_RESOLUTION_INFO_TIMESTAMP_TICKS : Nat := 6
/-- Offset of the mode in the GET_DAQ_LIST_MODE response. -/
def CRM_GET_DAQ_LIST_MODE_MODE : Nat := 1
/-- Offset of the event channel in the GET_DAQ_LIST_MODE response. -/
def CRM_GET_DAQ_LIST_MODE_EVENTCHANNEL : Nat := 4
/-- Offset of the prescaler in the GET_DAQ_LIST_MODE response. -/
def CRM_GET_DAQ_LIST_MODE_PRESCALER : Nat := 6
/-- Offset of the priority in the GET_DAQ_LIST_MODE response. -/
def CRM_GET_DAQ_LIST_MODE_PRIORITY : Nat := 7
/-- Modelled from the spec: `CRM_START_STOP_FIRST_PID` of `xcpLite.h`,
offset of the first PID in the START_STOP_DAQ_LIST response (§8 S3). -/
def CRM_START_STOP_FIRST_PID : Nat := 1
/-- Offset of the time in the GET_DAQ_CLOCK response. -/
def CRM_GET_DAQ_CLOCK_TIME : Nat := 4

/-- The label at which one case of the dispatcher leaves the `switch`. -/
inductive Exit where
  /-- Leave through `break`, that is `goto positive_response`. -/
  | positive_response
  /-- Leave through `error(e)`, that is `goto negative_response`. -/
  | negative_response (err : Nat)
  /-- Leave through `goto no_response` or `return`. -/
  | no_response
deriving DecidableEq

/-- Case `CC_SYNC`. -/
def XcpCommand.SYNC (w : Slave) : Slave × Exit :=
  let x := { w.xcp with CrmLen := CRM_SYNCH_LEN }
  let x := setCrmByte x CRM_CMD PID_ERR
  let x := setCrmByte x CRM_ERR CRC_CMD_SYNCH
  ({ w with xcp := x }, .positive_response)

/-- Case `CC_GET_COMM_MODE_INFO`. -/
def XcpCommand.GET_COMM_MODE_INFO (cfg : Config) (w : Slave) : Slave × Exit :=
  let x := { w.xcp with CrmLen := CRM_GET_COMM_MODE_INFO_LEN }
  let x := setCrmByte x CRM_GET_COMM_MODE_INFO_DRIVER_VERSION
    (((cfg.XCP_VERSION &&& 0x0F00) >>> 4) ||| (cfg.XCP_VERSION &&& 0x000F))
  let x := setCrmByte x CRM_GET_COMM_MODE_INFO_COMM_OPTIONAL 0
  let x := setCrmByte x CRM_GET_COMM_MODE_INFO_QUEUE_SIZE 0
  let x := setCrmByte x CRM_GET_COMM_MODE_INFO_MAX_BS 0
  let x := setCrmByte x CRM_GET_COMM_MODE_INFO_MIN_ST 0
  ({ w with xcp := x }, .positive_response)

/-- Case `CC_DISCONNECT`. -/
def XcpCommand.DISCONNECT (w : Slave) : Slave × Exit :=
  let x := { w.xcp with CrmLen := CRM_DISCONNECT_LEN }
  ({ w with xcp := XcpDisconnect x }, .positive_response)

/-- Case `CC_GET_ID`. -/
def XcpCommand.GET_ID (cfg : Config) (w : Slave) (pCmd : tXcpCto) : Slave × Exit :=
  let x := { w.xcp with CrmLen := CRM_GET_ID_LEN }
  let x := setCrmByte x CRM_GET_ID_MODE 0
  let x := setCrmDWord cfg x CRM_GET_ID_LENGTH 0
  if pCmd.CRO_GET_ID_TYPE = IDT_ASAM_NAME then
    let x := setCrmDWord cfg x CRM_GET_ID_LENGTH (cfg.kXcpStationIdLength % 2 ^ 32)
    let x := { x with Mta := ApplXcpGetPointer cfg 0xFF (cfg.kXcpStationId % 2 ^ 32) }
    ({ w with xcp := x }, .positive_response)
  else
    ({ w with xcp := x }, .positive_response)

/-- Case `CC_GET_STATUS`. -/
def XcpCommand.GET_STATUS (cfg : Config) (w : Slave) : Slave × Exit :=
  let x := { w.xcp with CrmLen := CRM_GET_STATUS_LEN }
  let x := setCrmByte x CRM_GET_STATUS_STATUS x.SessionStatus
  let x := setCrmByte x CRM_GET_STATUS_PROTECTION 0
  let x := setCrmWord cfg x CRM_GET_STATUS_CONFIG_ID 0
  ({ w with xcp := x }, .positive_response)

/-- Case `CC_SET_MTA`. -/
def XcpCommand.SET_MTA (cfg : Config) (w : Slave) (pCmd : tXcpCto) : Slave × Exit :=
  ({ w with xcp := { w.xcp with
      Mta := ApplXcpGetPointer cfg pCmd.CRO_SET_MTA_EXT pCmd.CRO_SET_MTA_ADDR } },
   .positive_response)

/-- Case `CC_DOWNLOAD`. -/
def XcpCommand.DOWNLOAD (cfg : Config) (w : Slave) (pCmd : tXcpCto) : Slave × Exit :=
  let size := pCmd.CRO_DOWNLOAD_SIZE % 256
  if size > CRO_DOWNLOAD_MAX_SIZE cfg then
    (w, .negative_response CRC_OUT_OF_RANGE)
  else
    let r := XcpWriteMta w size pCmd.CRO_DOWNLOAD_DATA
    if r.2 = XCP_CMD_PENDING then (r.1, .no_response)
    else if r.2 = XCP_CMD_DENIED then (r.1, .negative_response CRC_WRITE_PROTECTED)
    else if r.2 = XCP_CMD_SYNTAX then (r.1, .negative_response CRC_CMD_SYNTAX)
    else (r.1, .positive_response)

/-- Case `CC_DOWNLOAD_MAX`. -/
def XcpCommand.DOWNLOAD_MAX (cfg : Config) (w : Slave) (pCmd : tXcpCto) : Slave × Exit :=
  let r := XcpWriteMta w (CRO_DOWNLOAD_MAX_MAX_SIZE cfg) pCmd.CRO_DOWNLOAD_MAX_DATA
  if r.2 = XCP_CMD_PENDING then (r.1, .no_response)
  else if r.2 = XCP_CMD_DENIED then (r.1, .negative_response CRC_WRITE_PROTECTED)
  else if r.2 = XCP_CMD_SYNTAX then (r.1, .negative_response CRC_CMD_SYNTAX)
  else (r.1, .positive_response)

/-- Case `CC_UPLOAD`. -/
def XcpCommand.UPLOAD (cfg : Config) (w : Slave) (pCmd : tXcpCto) : Slave × Exit :=
  let size := pCmd.CRO_UPLOAD_SIZE % 256
  if size > CRM_UPLOAD_MAX_SIZE cfg % 256 then
    (w, .negative_response CRC_OUT_OF_RANGE)
  else
    let r := XcpReadMta w size CRM_UPLOAD_DATA
    let w1 := { r.1 with xcp := { r.1.xcp with CrmLen := (CRM_UPLOAD_LEN + size) % 256 } }
    if r.2 = XCP_CMD_PENDING then (w1, .no_response)
    else if r.2 = XCP_CMD_DENIED then (w1, .negative_response CRC_ACCESS_DENIED)
    else (w1, .positive_response)

/-- Case `CC_SHORT_UPLOAD`. -/
def XcpCommand.SHORT_UPLOAD (cfg : Config) (w : Slave) (pCmd : tXcpCto) : Slave × Exit :=
  if cfg.XCP_ENABLE_PARAMETER_CHECK ∧
      pCmd.CRO_SHORT_UPLOAD_SIZE > CRM_SHORT_UPLOAD_MAX_SIZE cfg % 256 then
    (w, .negative_response CRC_OUT_OF_RANGE)
  else
    let w0 := { w with xcp := { w.xcp with
      Mta := ApplXcpGetPointer cfg pCmd.CRO_SHORT_UPLOAD_EXT pCmd.CRO_SHORT_UPLOAD_ADDR } }
    let r := XcpReadMta w0 (pCmd.CRO_SHORT_UPLOAD_SIZE % 256) CRM_SHORT_UPLOAD_DATA
    let w1 := { r.1 with xcp := { r.1.xcp with
      CrmLen := (CRM_SHORT_UPLOAD_LEN + pCmd.CRO_SHORT_UPLOAD_SIZE) % 256 } }
    if r.2 = XCP_CMD_PENDING then (w1, .no_response)
    else if r.2 = XCP_CMD_DENIED then (w1, .negative_response CRC_ACCESS_DENIED)
    else (w1, .positive_response)

/-- Case `CC_GET_DAQ_PROCESSOR_INFO`. -/
def XcpCommand.GET_DAQ_PROCESSOR_INFO (cfg : Config) (w : Slave) : Slave × Exit :=
  let x := { w.xcp with CrmLen := CRM_GET_DAQ_PROCESSOR_INFO_LEN }
  let x := setCrmByte x CRM_GET_DAQ_PROCESSOR_INFO_MIN_DAQ 0
  let x := setCrmWord cfg x CRM_GET_DAQ_PROCESSOR_INFO_MAX_DAQ x.Daq.DaqCount
  let x := setCrmWord cfg x CRM_GET_DAQ_PROCESSOR_INFO_MAX_EVENT 0
  let x := setCrmByte x CRM_GET_DAQ_PROCESSOR_INFO_DAQ_KEY_BYTE DAQ_HDR_ODT_DAQB
  let x := setCrmByte x CRM_GET_DAQ_PROCESSOR_INFO_PROPERTIES
    (DAQ_PROPERTY_CONFIG_TYPE ||| DAQ_PROPERTY_TIMESTAMP ||| DAQ_OVERLOAD_INDICATION_PID)
  ({ w with xcp := x }, .positive_response)

/-- Case `CC_GET_DAQ_RESOLUTION_INFO`. -/
def XcpCommand.GET_DAQ_RESOLUTION_INFO (cfg : Config) (w : Slave) : Slave × Exit :=
  let x := { w.xcp with CrmLen := CRM_GET_DAQ_RESOLUTION_INFO_LEN }
  let x := setCrmByte x CRM_GET_DAQ_RESOLUTION_INFO_GRANULARITY_DAQ 1
  let x := setCrmByte x CRM_GET_DAQ_RESOLUTION_INFO_GRANULARITY_STIM 1
  let x := setCrmByte x CRM_GET_DAQ_RESOLUTION_INFO_MAX_SIZE_DAQ cfg.XCP_MAX_ODT_ENTRY_SIZE
  let x := setCrmByte x CRM_GET_DAQ_RESOLUTION_INFO_MAX_SIZE_STIM cfg.XCP_MAX_ODT_ENTRY_SIZE
  let x := setCrmByte x CRM_GET_DAQ_RESOLUTION_INFO_TIMESTAMP_MODE
    (cfg.kXcpDaqTimestampUnit ||| cfg.kXcpDaqTimestampSize % 256 ||| DAQ_TIMESTAMP_FIXED)
  let x := setCrmWord cfg x CRM_GET_DAQ_RESOLUTION_INFO_TIMESTAMP_TICKS
    cfg.kXcpDaqTimestampTicksPerUnit
  ({ w with xcp := x }, .positive_response)

/-- Case `CC_FREE_DAQ`. -/
def XcpCommand.FREE_DAQ (w : Slave) : Slave × Exit :=
  ({ w with xcp := XcpFreeDaq w.xcp }, .positive_response)

/-- The macro `check_error(e)`: leave through `negative_response` when the
status `e` is not zero. -/
def check_error (w : Slave) (r : tXcpData × Nat) : Slave × Exit :=
  if r.2 ≠ 0 then ({ w with xcp := r.1 }, .negative_response r.2)
  else ({ w with xcp := r.1 }, .positive_response)

/-- Case `CC_ALLOC_DAQ`. -/
def XcpCommand.ALLOC_DAQ (cfg : Config) (w : Slave) (pCmd : tXcpCto) : Slave × Exit :=
  let count := pCmd.CRO_ALLOC_DAQ_COUNT % 256
  check_error w (XcpAllocDaq cfg w.xcp count)

/-- Case `CC_ALLOC_ODT`. -/
def XcpCommand.ALLOC_ODT (cfg : Config) (w : Slave) (pCmd : tXcpCto) : Slave × Exit :=
  let daq := pCmd.CRO_ALLOC_ODT_DAQ % 256
  let count := pCmd.CRO_ALLOC_ODT_COUNT % 256
  if cfg.XCP_ENABLE_PARAMETER_CHECK ∧ daq ≥ w.xcp.Daq.DaqCount then
    (w, .negative_response CRC_OUT_OF_RANGE)
  else
    check_error w (XcpAllocOdt cfg w.xcp daq count)

/-- Case `CC_ALLOC_ODT_ENTRY`. -/
def XcpCommand.ALLOC_ODT_ENTRY (cfg : Config) (w : Slave) (pCmd : tXcpCto) : Slave × Exit :=
  let daq := pCmd.CRO_ALLOC_ODT_ENTRY_DAQ % 256
  let odt := pCmd.CRO_ALLOC_ODT_ENTRY_ODT % 256
  let count := pCmd.CRO_ALLOC_ODT_ENTRY_COUNT % 256
  if cfg.XCP_ENABLE_PARAMETER_CHECK ∧
      (daq ≥ w.xcp.Daq.DaqCount ∨ odt ≥ toUInt8 (DaqListOdtCount w.xcp daq)) then
    (w, .negative_response CRC_OUT_OF_RANGE)
  else
    check_error w (XcpAllocOdtEntry cfg w.xcp daq odt count)

/-- Case `CC_GET_DAQ_LIST_MODE`. -/
def XcpCommand.GET_DAQ_LIST_MODE (cfg : Config) (w : Slave) (pCmd : tXcpCto) : Slave × Exit :=
  let daq := pCmd.CRO_GET_DAQ_LIST_MODE_DAQ % 256
  if cfg.XCP_ENABLE_PARAMETER_CHECK ∧ daq ≥ w.xcp.Daq.DaqCount then
    (w, .negative_response CRC_OUT_OF_RANGE)
  else
    let x := { w.xcp with CrmLen := CRM_GET_DAQ_LIST_MODE_LEN }
    let x := setCrmByte x CRM_GET_DAQ_LIST_MODE_MODE (x.Daq.DaqList daq).flags
    let x := setCrmByte x CRM_GET_DAQ_LIST_MODE_PRESCALER 1
    let x := setCrmWord cfg x CRM_GET_DAQ_LIST_MODE_EVENTCHANNEL (x.Daq.DaqList daq).eventChannel
    let x := setCrmByte x CRM_GET_DAQ_LIST_MODE_PRIORITY 0
    ({ w with xcp := x }, .positive_response)

/-- Case `CC_SET_DAQ_LIST_MODE`. -/
def XcpCommand.SET_DAQ_LIST_MODE (cfg : Config) (w : Slave) (pCmd : tXcpCto) : Slave × Exit :=
  let daq := pCmd.CRO_SET_DAQ_LIST_MODE_DAQ % 256
  let event := (pCmd.CRO_SET_DAQ_LIST_MODE_EVENTCHANNEL &&& 0xFF) % 256
  if cfg.XCP_ENABLE_PARAMETER_CHECK ∧ daq ≥ w.xcp.Daq.DaqCount then
    (w, .negative_response CRC_OUT_OF_RANGE)
  else if cfg.XCP_ENABLE_PARAMETER_CHECK ∧ pCmd.CRO_SET_DAQ_LIST_MODE_PRIORITY ≠ 0 then
    (w, .negative_response CRC_OUT_OF_RANGE)
  else
    let x := setDaqList w.xcp daq (fun l => { l with eventChannel := event })
    let x := setDaqList x daq (fun l => { l with flags := pCmd.CRO_SET_DAQ_LIST_MODE_MODE % 256 })
    ({ w with xcp := x }, .positive_response)

/-- Case `CC_SET_DAQ_PTR`.  The ODT record `xcp.pOdt[odt0]` is read by its
index: this is the case as long as, where the record is read
(`XcpCommand.SET_DAQ_PTR.reads`), `xcp.pOdt` is the pointer placed for the
counts and `odt0` lies below `OdtCount` (`XcpCommand.definedEntries`). -/
def XcpCommand.SET_DAQ_PTR (cfg : Config) (w : Slave) (pCmd : tXcpCto) : Slave × Exit :=
  let daq := (pCmd.CRO_SET_DAQ_PTR_DAQ &&& 0xFF) % 256
  let odt := pCmd.CRO_SET_DAQ_PTR_ODT % 256
  let idx := pCmd.CRO_SET_DAQ_PTR_IDX % 256
  let odt0 := ((w.xcp.Daq.DaqList daq).firstOdt + odt) % 65536
  if cfg.XCP_ENABLE_PARAMETER_CHECK ∧
      (daq ≥ w.xcp.Daq.DaqCount ∨ odt ≥ toUInt8 (DaqListOdtCount w.xcp daq)
        ∨ idx ≥ toUInt8 (DaqListOdtEntryCount w.xcp odt0)) then
    (w, .negative_response CRC_OUT_OF_RANGE)
  else
    let x := { w.xcp with CrmLen := CRM_SET_DAQ_PTR_LEN }
    let x := { x with DaqListPtr := ((x.Odt odt0).firstOdtEntry + idx) % 65536 }
    ({ w with xcp := x }, .positive_response)

/-- Case `CC_WRITE_DAQ`.  Size and address are stored by the index
`xcp.DaqListPtr` in two maps: this is the case as long as, where the stores
are reached (`XcpCommand.WRITE_DAQ.stores`), the arena pointers are those
placed for the counts and the write cursor lies below `OdtEntryCount`
(`XcpCommand.definedEntries`).  With the cursor at or above `OdtEntryCount`
the address stored lies over bytes of the size array, which follows the
address array in the arena; `XcpCommand.WRITE_DAQ.sizes` follows the stores
there. -/
def XcpCommand.WRITE_DAQ (cfg : Config) (w : Slave) (pCmd : tXcpCto) : Slave × Exit :=
  if cfg.XCP_ENABLE_PARAMETER_CHECK ∧
      (pCmd.CRO_WRITE_DAQ_SIZE % 256 = 0
        ∨ pCmd.CRO_WRITE_DAQ_SIZE > cfg.XCP_MAX_ODT_ENTRY_SIZE % 256) then
    (w, .negative_response CRC_OUT_OF_RANGE)
  else if cfg.XCP_ENABLE_PARAMETER_CHECK ∧
      (0 = w.xcp.Daq.DaqCount ∨ 0 = w.xcp.Daq.OdtCount ∨ 0 = w.xcp.Daq.OdtEntryCount) then
    (w, .negative_response CRC_DAQ_CONDIF)
  else
    let addr := ApplXcpGetPointer cfg pCmd.CRO_WRITE_DAQ_EXT pCmd.CRO_WRITE_DAQ_ADDR
    let x := w.xcp
    let x := { x with OdtEntrySize := Function.update x.OdtEntrySize x.DaqListPtr
                        (pCmd.CRO_WRITE_DAQ_SIZE % 256) }
    let x := { x with OdtEntryAddr := Function.update x.OdtEntryAddr x.DaqListPtr addr }
    let x := { x with DaqListPtr := (x.DaqListPtr + 1) % 65536 }
    ({ w with xcp := x }, .positive_response)

/-- Case `CC_WRITE_DAQ_MULTIPLE`: the iterations `i, i+1, ...` of the loop,
`n` of them left.  Size and address are stored by index as in
`XcpCommand.WRITE_DAQ`: this is the loop as long as the arena pointers are
those placed for the counts and every element is stored below
`OdtEntryCount` (`XcpCommand.definedEntries`). -/
def XcpCommand.WRITE_DAQ_MULTIPLE.loop (cfg : Config) (pCmd : tXcpCto) :
    Nat → Nat → Slave → Slave × Exit
  | 0, _, w => (w, .positive_response)
  | n + 1, i, w =>
    if cfg.XCP_ENABLE_PARAMETER_CHECK ∧
        (pCmd.CRO_WRITE_DAQ_MULTIPLE_SIZE i % 256 = 0
          ∨ pCmd.CRO_WRITE_DAQ_MULTIPLE_SIZE i > cfg.XCP_MAX_ODT_ENTRY_SIZE % 256) then
      (w, .negative_response CRC_OUT_OF_RANGE)
    else if cfg.XCP_ENABLE_PARAMETER_CHECK ∧ pCmd.CRO_WRITE_DAQ_MULTIPLE_BITOFFSET i ≠ 0xFF then
      (w, .negative_response CRC_OUT_OF_RANGE)
    else if cfg.XCP_ENABLE_PARAMETER_CHECK ∧
        (0 = w.xcp.Daq.DaqCount ∨ 0 = w.xcp.Daq.OdtCount ∨ 0 = w.xcp.Daq.OdtEntryCount) then
      (w, .negative_response CRC_DAQ_CONDIF)
    else
      let addr := ApplXcpGetPointer cfg (pCmd.CRO_WRITE_DAQ_MULTIPLE_EXT i)
        (pCmd.CRO_WRITE_DAQ_MULTIPLE_ADDR i)
      let x := w.xcp
      let x := { x with OdtEntrySize := Function.update x.OdtEntrySize x.DaqListPtr
                          (pCmd.CRO_WRITE_DAQ_MULTIPLE_SIZE i % 256) }
      let x := { x with OdtEntryAddr := Function.update x.OdtEntryAddr x.DaqListPtr addr }
      let x := { x with DaqListPtr := (x.DaqListPtr + 1) % 65536 }
      XcpCommand.WRITE_DAQ_MULTIPLE.loop cfg pCmd n (i + 1) { w with xcp := x }

/-- Case `CC_WRITE_DAQ_MULTIPLE`. -/
def XcpCommand.WRITE_DAQ_MULTIPLE (cfg : Config) (w : Slave) (pCmd : tXcpCto) : Slave × Exit :=
  XcpCommand.WRITE_DAQ_MULTIPLE.loop cfg pCmd pCmd.CRO_WRITE_DAQ_MULTIPLE_NODAQ 0 w

/-- Case `CC_START_STOP_DAQ_LIST`. -/
def XcpCommand.START_STOP_DAQ_LIST (cfg : Config) (w : Slave) (pCmd : tXcpCto) : Slave × Exit :=
  let daq := (pCmd.CRO_START_STOP_DAQ &&& 0xFF) % 256
  if cfg.XCP_ENABLE_PARAMETER_CHECK ∧ daq ≥ w.xcp.Daq.DaqCount then
    (w, .negative_response CRC_OUT_OF_RANGE)
  else if pCmd.CRO_START_STOP_MODE = 1 ∨ pCmd.CRO_START_STOP_MODE = 2 then
    let x := setDaqList w.xcp daq (fun l => { l with flags := l.flags ||| DAQ_FLAG_SELECTED })
    let x := if pCmd.CRO_START_STOP_MODE = 1 then XcpStartDaq x daq else x
    let x := { x with CrmLen := CRM_START_STOP_LEN }
    let x := setCrmByte x CRM_START_STOP_FIRST_PID 0
    ({ w with xcp := x }, .positive_response)
  else
    ({ w with xcp := XcpStopDaq w.xcp daq }, .positive_response)

/-- Case `CC_START_STOP_SYNCH`. -/
def XcpCommand.START_STOP_SYNCH (w : Slave) (pCmd : tXcpCto) : Slave × Exit :=
  if 0 = w.xcp.Daq.DaqCount ∨ 0 = w.xcp.Daq.OdtCount ∨ 0 = w.xcp.Daq.OdtEntryCount then
    (w, .negative_response CRC_DAQ_CONDIF)
  else if pCmd.CRO_START_STOP_MODE = 2 then
    ({ w with xcp := XcpStopAllSelectedDaq w.xcp }, .positive_response)
  else if pCmd.CRO_START_STOP_MODE = 1 then
    ({ w with xcp := XcpStartAllSelectedDaq w.xcp }, .positive_response)
  else
    ({ w with xcp := XcpStopAllDaq w.xcp }, .positive_response)

/-- Case `CC_GET_DAQ_CLOCK`. -/
def XcpCommand.GET_DAQ_CLOCK (cfg : Config) (w : Slave) : Slave × Exit :=
  let x := { w.xcp with CrmLen := CRM_GET_DAQ_CLOCK_LEN }
  let x := setCrmDWord cfg x CRM_GET_DAQ_CLOCK_TIME (w.clock % 2 ^ 32)
  ({ w with xcp := x }, .positive_response)

/-- The `switch (CRO_CMD)` of `XcpCommand`, entered in the connected state
with the default response prepared. -/
def XcpCommand.switch (cfg : Config) (w : Slave) (pCmd : tXcpCto) : Slave × Exit :=
  match pCmd.CRO_CMD with
  | .CC_SYNC => XcpCommand.SYNC w
  | .CC_GET_COMM_MODE_INFO => XcpCommand.GET_COMM_MODE_INFO cfg w
  | .CC_DISCONNECT => XcpCommand.DISCONNECT w
  | .CC_GET_ID => XcpCommand.GET_ID cfg w pCmd
  | .CC_GET_STATUS => XcpCommand.GET_STATUS cfg w
  | .CC_SET_MTA => XcpCommand.SET_MTA cfg w pCmd
  | .CC_DOWNLOAD => XcpCommand.DOWNLOAD cfg w pCmd
  | .CC_DOWNLOAD_MAX => XcpCommand.DOWNLOAD_MAX cfg w pCmd
  | .CC_UPLOAD => XcpCommand.UPLOAD cfg w pCmd
  | .CC_SHORT_UPLOAD => XcpCommand.SHORT_UPLOAD cfg w pCmd
  | .CC_GET_DAQ_PROCESSOR_INFO => XcpCommand.GET_DAQ_PROCESSOR_INFO cfg w
  | .CC_GET_DAQ_RESOLUTION_INFO => XcpCommand.GET_DAQ_RESOLUTION_INFO cfg w
  | .CC_FREE_DAQ => XcpCommand.FREE_DAQ w
  | .CC_ALLOC_DAQ => XcpCommand.ALLOC_DAQ cfg w pCmd
  | .CC_ALLOC_ODT => XcpCommand.ALLOC_ODT cfg w pCmd
  | .CC_ALLOC_ODT_ENTRY => XcpCommand.ALLOC_ODT_ENTRY cfg w pCmd
  | .CC_GET_DAQ_LIST_MODE => XcpCommand.GET_DAQ_LIST_MODE cfg w pCmd
  | .CC_SET_DAQ_LIST_MODE => XcpCommand.SET_DAQ_LIST_MODE cfg w pCmd
  | .CC_SET_DAQ_PTR => XcpCommand.SET_DAQ_PTR cfg w pCmd
  | .CC_WRITE_DAQ => XcpCommand.WRITE_DAQ cfg w pCmd
  | .CC_WRITE_DAQ_MULTIPLE => XcpCommand.WRITE_DAQ_MULTIPLE cfg w pCmd
  | .CC_START_STOP_DAQ_LIST => XcpCommand.START_STOP_DAQ_LIST cfg w pCmd
  | .CC_START_STOP_SYNCH => XcpCommand.START_STOP_SYNCH w pCmd
  | .CC_GET_DAQ_CLOCK => XcpCommand.GET_DAQ_CLOCK cfg w
  | .CC_CONNECT => (w, .negative_response CRC_CMD_UNKNOWN)
  | .CC_OTHER _ => (w, .negative_response CRC_CMD_UNKNOWN)

/-- The CONNECT branch of `XcpCommand`. -/
def XcpCommand.CONNECT (cfg : Config) (w : Slave) : Slave × Exit :=
  let x := setCrmByte w.xcp CRM_CMD 0xFF
  let x := { x with CrmLen := 1 }
  let x := XcpFreeDaq x
  let x := { x with SessionStatus := SS_CONNECTED }
  let x := { x with CrmLen := CRM_CONNECT_LEN }
  let x := setCrmByte x CRM_CONNECT_TRANSPORT_VERSION
    ((cfg.XCP_TRANSPORT_LAYER_VERSION % 65536) >>> 8)
  let x := setCrmByte x CRM_CONNECT_PROTOCOL_VERSION ((cfg.XCP_VERSION % 65536) >>> 8)
  let x := setCrmByte x CRM_CONNECT_MAX_CTO_SIZE cfg.kXcpMaxCTO
  let x := setCrmWord cfg x CRM_CONNECT_MAX_DTO_SIZE cfg.kXcpMaxDTO
  let x := setCrmByte x CRM_CONNECT_RESOURCE 0x00
  let x := setCrmByte x CRM_CONNECT_RESOURCE (x.Crm CRM_CONNECT_RESOURCE ||| RM_DAQ)
  let x := setCrmByte x CRM_CONNECT_COMM_BASIC 0
  let x := setCrmByte x CRM_CONNECT_COMM_BASIC (x.Crm CRM_CONNECT_COMM_BASIC ||| CMB_OPTIONAL)
  let x := if cfg.XCP_CPUTYPE_BIGENDIAN then
      setCrmByte x CRM_CONNECT_COMM_BASIC (x.Crm CRM_CONNECT_COMM_BASIC ||| PI_MOTOROLA)
    else x
  ({ w with xcp := x }, .positive_response)

/-- The statements of `XcpCommand` between the test of the connected bit
and the `switch`: the polling bit (with the session status API) and the
default response. -/
def XcpCommand.entry (cfg : Config) (w : Slave) : Slave :=
  let x := if cfg.XCP_ENABLE_GET_SESSION_STATUS_API then
      { w.xcp with SessionStatus := w.xcp.SessionStatus ||| SS_POLLING }
    else w.xcp
  let x := setCrmByte x CRM_CMD 0xFF
  let x := { x with CrmLen := 1 }
  { w with xcp := x }

/-- The body of `XcpCommand` up to the exit labels: the state reached and
the label control is passed to. -/
def XcpCommand.body (cfg : Config) (w : Slave) (pCmd : tXcpCto) : Slave × Exit :=
  if pCmd.CRO_CMD = .CC_CONNECT then
    XcpCommand.CONNECT cfg w
  else if w.xcp.SessionStatus &&& SS_CONNECTED ≠ 0 then
    XcpCommand.switch cfg (XcpCommand.entry cfg w) pCmd
  else
    (w, .no_response)

/-- The function `XcpCommand`: process one command packet.  The result is
the new state and the packet handed to the transport by `XcpSendCrm`, or
`none` when no response is sent. -/
def XcpCommand (cfg : Config) (w : Slave) (pCmd : tXcpCto) : Slave × Option (List Nat) :=
  match XcpCommand.body cfg w pCmd with
  | (w1, .negative_response err) =>
    let x := { w1.xcp with CrmLen := 2 }
    let x := setCrmByte x CRM_CMD PID_ERR
    let x := setCrmByte x CRM_ERR err
    ({ w1 with xcp := x }, some (XcpSendCrm x))
  | (w1, .positive_response) => (w1, some (XcpSendCrm w1.xcp))
  | (w1, .no_response) => (w1, none)


/-! ## Event list (`xcpAppl.c`)

The capacity `XCP_MAX_EVENT` is a parameter of the functions. -/

/-- Modelled from the spec: the record type `tXcpEvent` of the event list
(spec §3 "EventDescriptor"), with the fields `XcpCreateEvent` assigns; the
name is the pointer passed in. -/
structure tXcpEvent where
  /-- Pointer to the name. -/
  name : Nat
  /-- ASAM unit code of the cycle. -/
  timeUnit : Nat
  /-- Cycle in units. -/
  timeCycle : Nat
  /-- Sample count. -/
  sampleCount : Nat
  /-- Size of the payload. -/
  size : Nat
deriving DecidableEq

/-- The globals `ApplXcpEventCount` and `ApplXcpEventList` of `xcpAppl.c`. -/
structure tXcpEventList where
  /-- Number of events created. -/
  ApplXcpEventCount : Nat
  /-- The event descriptors. -/
  ApplXcpEventList : Nat → tXcpEvent

/-- The loop `while (cycleTime >= 256) { cycleTime /= 10; timeUnit++; }` of
`XcpCreateEvent`, on the values of `cycleTime` and of the byte `timeUnit`. -/
def XcpCreateEvent.loop (cycleTime timeUnit : Nat) : Nat × Nat :=
  if h : cycleTime ≥ 256 then XcpCreateEvent.loop (cycleTime / 10) ((timeUnit + 1) % 256)
  else (cycleTime, timeUnit)
termination_by cycleTime
decreasing_by omega

/-- The function `XcpCreateEvent` for an event list of capacity
`XCP_MAX_EVENT`: the new event list and the value returned. -/
def XcpCreateEvent (XCP_MAX_EVENT : Nat) (r : tXcpEventList)
    (name cycleTime sampleCount size : Nat) : tXcpEventList × Nat :=
  let u := XcpCreateEvent.loop (cycleTime % 65536) 3
  if r.ApplXcpEventCount ≥ XCP_MAX_EVENT then (r, 0xFFFF)
  else
    ({ ApplXcpEventCount := (r.ApplXcpEventCount + 1) % 65536
       ApplXcpEventList := Function.update r.ApplXcpEventList r.ApplXcpEventCount
        { name := name, timeUnit := u.2, timeCycle := u.1 % 256,
          sampleCount := sampleCount % 65536, size := size % 2 ^ 32 } },
     r.ApplXcpEventCount)

/-! ## Vocabulary of the specification -/

/-- The session is connected: bit `SS_CONNECTED` of the session status. -/
abbrev connected (x : tXcpData) : Prop := x.SessionStatus &&& SS_CONNECTED ≠ 0

/-- DAQ is running: bit `SS_DAQ` of the session status. -/
abbrev daqRunning (x : tXcpData) : Prop := x.SessionStatus &&& SS_DAQ ≠ 0

/-- The whole arena is zero: every DAQ list, ODT and ODT entry record. -/
def arenaZero (x : tXcpData) : Prop :=
  (∀ i, x.Daq.DaqList i = tXcpDaqList.zero) ∧ (∀ j, x.Odt j = tXcpOdt.zero) ∧
    (∀ n, x.OdtEntryAddr n = 0) ∧ (∀ n, x.OdtEntrySize n = 0)

/-- The configuration of scenario S5 of the spec: a pool of 512 bytes, on a
64 bit little-endian target with parameter checks. -/
def cfg512 : Config :=
  { kXcpMaxCTO := 250, kXcpMaxDTO := 250, kXcpDaqMemSize := 512, sizeofDaqList := 8,
    sizeofOdt := 4, sizeofDaqBytePtr := 8, XCP_MAX_ODT_ENTRY_SIZE := 248,
    XCP_VERSION := 0x0100, XCP_TRANSPORT_LAYER_VERSION := 0x0100,
    kXcpStationIdLength := 7, kXcpStationId := 0x2000, kXcpDaqTimestampUnit := 0x30,
    kXcpDaqTimestampSize := 4, kXcpDaqTimestampTicksPerUnit := 1, baseAddr := 0x400000,
    XCP_ENABLE_PARAMETER_CHECK := true, XCP_ENABLE_GET_SESSION_STATUS_API := false,
    XCP_CPUTYPE_BIGENDIAN := false, xcpAddr := 0x600000, sizeofXcp := 0x400,
    offsetofMta := 0x10 }

/-- The slave after `XcpInit`, over an all-zero memory. -/
def slaveInit : Slave := { xcp := XcpInit, mem := fun _ => 0, clock := 0 }

/-- The state after a list of commands, from left to right. -/
def runCommands (cfg : Config) (w : Slave) : List tXcpCto → Slave
  | [] => w
  | pCmd :: rest => runCommands cfg (XcpCommand cfg w pCmd).1 rest

/-- The slave of `cfg512` after CONNECT. -/
def slaveConnected : Slave := (XcpCommand cfg512 slaveInit { CRO_CMD := .CC_CONNECT }).1

/-- The SET_MTA packet for extension `ext` and address `addr`. -/
def mkSET_MTA (ext addr : Nat) : tXcpCto :=
  { CRO_CMD := .CC_SET_MTA, CRO_SET_MTA_EXT := ext, CRO_SET_MTA_ADDR := addr }

/-- The DOWNLOAD packet carrying the byte string `x`. -/
def mkDOWNLOAD (x : List Nat) : tXcpCto :=
  { CRO_CMD := .CC_DOWNLOAD, CRO_DOWNLOAD_SIZE := x.length,
    CRO_DOWNLOAD_DATA := fun i => x.getD i 0 }

/-- The UPLOAD packet asking for `size` bytes. -/
def mkUPLOAD (size : Nat) : tXcpCto :=
  { CRO_CMD := .CC_UPLOAD, CRO_UPLOAD_SIZE := size }

/-- The pool of `y` is the pool of `x`: the three counts, every DAQ list,
ODT and ODT entry record and the three arena pointers. -/
def samePool (x y : tXcpData) : Prop :=
  y.Daq = x.Daq ∧ y.Odt = x.Odt ∧ y.OdtEntryAddr = x.OdtEntryAddr ∧
    y.OdtEntrySize = x.OdtEntrySize ∧ y.pOdt = x.pOdt ∧
    y.pOdtEntryAddr = x.pOdtEntryAddr ∧ y.pOdtEntrySize = x.pOdtEntrySize

/-- The bytes the counts of `d` need in the arena, in exact arithmetic:
`DaqCount * sizeof(tXcpDaqList) + OdtCount * sizeof(tXcpOdt)
 + OdtEntryCount * (sizeof(DAQBYTEPTR) + 1)`. -/
def poolBytes (cfg : Config) (d : tXcpDaq) : Nat :=
  d.DaqCount * cfg.sizeofDaqList + d.OdtCount * cfg.sizeofOdt
    + d.OdtEntryCount * (cfg.sizeofDaqBytePtr + 1)

/-- The ALLOC_DAQ packet for `count` lists. -/
def mkALLOC_DAQ (count : Nat) : tXcpCto :=
  { CRO_CMD := .CC_ALLOC_DAQ, CRO_ALLOC_DAQ_COUNT := count }

/-- The ALLOC_ODT packet for `count` ODTs of list `daq`. -/
def mkALLOC_ODT (daq count : Nat) : tXcpCto :=
  { CRO_CMD := .CC_ALLOC_ODT, CRO_ALLOC_ODT_DAQ := daq, CRO_ALLOC_ODT_COUNT := count }

/-- The ALLOC_ODT_ENTRY packet for `count` entries of ODT `odt` of list `daq`. -/
def mkALLOC_ODT_ENTRY (daq odt count : Nat) : tXcpCto :=
  { CRO_CMD := .CC_ALLOC_ODT_ENTRY, CRO_ALLOC_ODT_ENTRY_DAQ := daq,
    CRO_ALLOC_ODT_ENTRY_ODT := odt, CRO_ALLOC_ODT_ENTRY_COUNT := count }

/-- The three counts of `y` are those of `x`. -/
def sameCounts (x y : tXcpData) : Prop :=
  y.Daq.DaqCount = x.Daq.DaqCount ∧ y.Daq.OdtCount = x.Daq.OdtCount ∧
    y.Daq.OdtEntryCount = x.Daq.OdtEntryCount

/-- The states reachable from `XcpInit` by any sequence of commands, while
the application changes the memory and the clock advances in between. -/
inductive Reachable (cfg : Config) : Slave → Prop
  | init (mem : Nat → Nat) (clock : Nat) :
      Reachable cfg { xcp := XcpInit, mem := mem, clock := clock }
  | command {w : Slave} (pCmd : tXcpCto) :
      Reachable cfg w → Reachable cfg (XcpCommand cfg w pCmd).1
  | environment {w : Slave} (mem : Nat → Nat) (clock : Nat) :
      Reachable cfg w → Reachable cfg { w with mem := mem, clock := clock }

/-- The 16 bit sum of `XcpAllocMemory` cannot wrap: the sizes fit the casts
applied to them, the arena size fits 16 bits, and the arena size plus 255
records of any kind stays below `2^16`. -/
abbrev Config.noWrap (cfg : Config) : Prop :=
  cfg.sizeofDaqList < 256 ∧ cfg.sizeofOdt < 65536 ∧ cfg.sizeofDaqBytePtr < 256 ∧
    cfg.kXcpDaqMemSize + 255 * cfg.sizeofDaqList < 65536 ∧
    cfg.kXcpDaqMemSize + 255 * cfg.sizeofOdt < 65536 ∧
    cfg.kXcpDaqMemSize + 255 * (cfg.sizeofDaqBytePtr + 1) < 65536

/-- The SET_DAQ_LIST_MODE packet: mode byte, list, event channel, priority. -/
def mkSET_DAQ_LIST_MODE (mode daq event prio : Nat) : tXcpCto :=
  { CRO_CMD := .CC_SET_DAQ_LIST_MODE, CRO_SET_DAQ_LIST_MODE_MODE := mode,
    CRO_SET_DAQ_LIST_MODE_DAQ := daq, CRO_SET_DAQ_LIST_MODE_EVENTCHANNEL := event,
    CRO_SET_DAQ_LIST_MODE_PRIORITY := prio }

/-- The START_STOP_DAQ_LIST packet for mode `mode` and list `daq`. -/
def mkSTART_STOP_DAQ_LIST (mode daq : Nat) : tXcpCto :=
  { CRO_CMD := .CC_START_STOP_DAQ_LIST, CRO_START_STOP_MODE := mode, CRO_START_STOP_DAQ := daq }

/-- The START_STOP_SYNCH packet for mode `mode`. -/
def mkSTART_STOP_SYNCH (mode : Nat) : tXcpCto :=
  { CRO_CMD := .CC_START_STOP_SYNCH, CRO_START_STOP_MODE := mode }

/-- The SET_DAQ_PTR packet for entry `idx` of ODT `odt` of list `daq`. -/
def mkSET_DAQ_PTR (daq odt idx : Nat) : tXcpCto :=
  { CRO_CMD := .CC_SET_DAQ_PTR, CRO_SET_DAQ_PTR_DAQ := daq, CRO_SET_DAQ_PTR_ODT := odt,
    CRO_SET_DAQ_PTR_IDX := idx }

/-- The WRITE_DAQ packet for an entry of `size` bytes at `(ext, addr)`. -/
def mkWRITE_DAQ (size ext addr : Nat) : tXcpCto :=
  { CRO_CMD := .CC_WRITE_DAQ, CRO_WRITE_DAQ_SIZE := size, CRO_WRITE_DAQ_EXT := ext,
    CRO_WRITE_DAQ_ADDR := addr }

/-- The flags and the event channel of every DAQ list of `y` are those of `x`. -/
def sameListModes (x y : tXcpData) : Prop :=
  ∀ d, (y.Daq.DaqList d).flags = (x.Daq.DaqList d).flags ∧
    (y.Daq.DaqList d).eventChannel = (x.Daq.DaqList d).eventChannel

/-- The DAQ list number START_STOP_DAQ_LIST works on: the local `daq` of the
case, `(vuint8)(CRO_START_STOP_DAQ & 0xFF)`. -/
def startStopDaq (pCmd : tXcpCto) : Nat := (pCmd.CRO_START_STOP_DAQ &&& 0xFF) % 256

/-- List `d` has the flag RUNNING. -/
abbrev listRunning (x : tXcpData) (d : Nat) : Prop :=
  (x.Daq.DaqList d).flags &&& DAQ_FLAG_RUNNING ≠ 0

/-- List `d` has the flag SELECTED. -/
abbrev listSelected (x : tXcpData) (d : Nat) : Prop :=
  (x.Daq.DaqList d).flags &&& DAQ_FLAG_SELECTED ≠ 0

/-- Everything of `y` but the DAQ list records and the session status is as
in `x`: response buffer, MTA, write cursor, the three counts, ODT records,
ODT entries and arena pointers. -/
def sameButLists (x y : tXcpData) : Prop :=
  y.Crm = x.Crm ∧ y.CrmLen = x.CrmLen ∧ y.Mta = x.Mta ∧ y.DaqListPtr = x.DaqListPtr ∧
    y.Daq.DaqCount = x.Daq.DaqCount ∧ y.Daq.OdtCount = x.Daq.OdtCount ∧
    y.Daq.OdtEntryCount = x.Daq.OdtEntryCount ∧ y.Odt = x.Odt ∧
    y.OdtEntryAddr = x.OdtEntryAddr ∧ y.OdtEntrySize = x.OdtEntrySize ∧ y.pOdt = x.pOdt ∧
    y.pOdtEntryAddr = x.pOdtEntryAddr ∧ y.pOdtEntrySize = x.pOdtEntrySize

/-- The DAQ list number SET_DAQ_PTR works on: the local `daq` of the case,
`(vuint8)(CRO_SET_DAQ_PTR_DAQ & 0xFF)`. -/
def setDaqPtrDaq (pCmd : tXcpCto) : Nat := (pCmd.CRO_SET_DAQ_PTR_DAQ &&& 0xFF) % 256

/-- A DAQ list record as `XcpFreeDaq` and `XcpAllocOdt` leave it when the ODT
count does not wrap: a range `firstOdt .. lastOdt` of 16 bit numbers with at
most 255 members. -/
def tXcpDaqList.wf (l : tXcpDaqList) : Prop :=
  l.firstOdt ≤ l.lastOdt ∧ l.lastOdt < l.firstOdt + 255 ∧ l.lastOdt < 65536

/-- An ODT record as `XcpFreeDaq` and `XcpAllocOdtEntry` leave it: a range
`firstOdtEntry .. lastOdtEntry` of 16 bit numbers with at most 255 members. -/
def tXcpOdt.wf (o : tXcpOdt) : Prop :=
  o.firstOdtEntry ≤ o.lastOdtEntry ∧ o.lastOdtEntry < o.firstOdtEntry + 255 ∧
    o.lastOdtEntry < 65536

instance (l : tXcpDaqList) : Decidable l.wf := by unfold tXcpDaqList.wf; infer_instance

instance (o : tXcpOdt) : Decidable o.wf := by unfold tXcpOdt.wf; infer_instance

/-- The slave of `cfg512` after CONNECT, ALLOC_DAQ(1), ALLOC_ODT(0, 1) and
ALLOC_ODT_ENTRY(0, 0, 1): one list with one ODT with one entry (scenario S3
of the spec). -/
def slaveConfigured : Slave :=
  runCommands cfg512 slaveConnected [mkALLOC_DAQ 1, mkALLOC_ODT 0 1, mkALLOC_ODT_ENTRY 0 0 1]

/-- The DAQ structure (counts and list records), the ODT records and the
session status of `y` are those of `x`. -/
def sameSetup (x y : tXcpData) : Prop :=
  y.Daq = x.Daq ∧ y.Odt = x.Odt ∧ y.SessionStatus = x.SessionStatus

/-- `DaqCount`, the RUNNING flag of every list and the DAQ bit of the session
status of `y` are those of `x`. -/
def sameRunning (x y : tXcpData) : Prop :=
  y.Daq.DaqCount = x.Daq.DaqCount ∧
    (∀ d, (y.Daq.DaqList d).flags &&& DAQ_FLAG_RUNNING
      = (x.Daq.DaqList d).flags &&& DAQ_FLAG_RUNNING) ∧
    y.SessionStatus &&& SS_DAQ = x.SessionStatus &&& SS_DAQ

/-- Every list record with the flag RUNNING is a list below `DaqCount`, and
the DAQ bit of the session status is set when there is one. -/
def runningSound (x : tXcpData) : Prop :=
  ∀ d, listRunning x d → d < x.Daq.DaqCount ∧ daqRunning x

/-- When the DAQ bit of the session status is set, a list below `DaqCount`
has the flag RUNNING. -/
def runningComplete (x : tXcpData) : Prop :=
  daqRunning x → ∃ d, d < x.Daq.DaqCount ∧ listRunning x d

/-! ## Domain of the embedding

The records of the arena are addressed by index and the process memory is a
byte map apart from `xcp`.  This describes the program as long as every
access through an arena pointer goes to the array the pointer was placed for,
no allocation moves an array that holds data, and no store through the MTA
goes to `xcp` itself.  The predicates of this section say when a command or
an event keeps to that; the theorems about command sequences and about the
event take them as hypotheses.  Where the source tells what an
access outside of this does, a second function follows it:
`XcpCommand.WRITE_DAQ.sizes` for a pointer stored over the size array and
`XcpWriteMta.aliased` for a store into the pointer `xcp.Mta`. -/

/-- The `n` bytes from the address `a` on lie outside of the global `xcp`. -/
def outsideXcp (cfg : Config) (a n : Nat) : Prop :=
  n = 0 ∨ a + n ≤ cfg.xcpAddr ∨ cfg.xcpAddr + cfg.sizeofXcp ≤ a

instance (cfg : Config) (a n : Nat) : Decidable (outsideXcp cfg a n) := by
  unfold outsideXcp; infer_instance

/-- The DAQ list records below `n`, `xcp.Daq.u.DaqList[0 .. n-1]`, lie inside
the arena `xcp.Daq.u.b`. -/
def listsInArena (cfg : Config) (n : Nat) : Prop :=
  n * cfg.sizeofDaqList ≤ cfg.kXcpDaqMemSize

instance (cfg : Config) (n : Nat) : Decidable (listsInArena cfg n) := by
  unfold listsInArena; infer_instance

/-- The arena is laid out for the counts of `x`: the three pointers are those
`XcpAllocMemory` places for `DaqCount`, `OdtCount` and `OdtEntryCount`,
`pOdt = &DaqList[DaqCount]`, `pOdtEntryAddr = &pOdt[OdtCount]` and
`pOdtEntrySize = &pOdtEntryAddr[OdtEntryCount]`, none of them null, and the
arrays they delimit end inside the arena. -/
def arenaLaidOut (cfg : Config) (x : tXcpData) : Prop :=
  x.pOdt = some (x.Daq.DaqCount * cfg.sizeofDaqList) ∧
    x.pOdtEntryAddr
      = some (x.Daq.DaqCount * cfg.sizeofDaqList + x.Daq.OdtCount * cfg.sizeofOdt) ∧
    x.pOdtEntrySize
      = some (x.Daq.DaqCount * cfg.sizeofDaqList + x.Daq.OdtCount * cfg.sizeofOdt
          + x.Daq.OdtEntryCount * cfg.sizeofDaqBytePtr) ∧
    poolBytes cfg x.Daq ≤ cfg.kXcpDaqMemSize

instance (cfg : Config) (x : tXcpData) : Decidable (arenaLaidOut cfg x) := by
  unfold arenaLaidOut; infer_instance

/-- The function `XcpAllocDaq` reaches the store `xcp.Daq.DaqCount = daqCount`:
it returns at none of its checks. -/
def XcpAllocDaq.stores (cfg : Config) (x : tXcpData) (daqCount : Nat) : Prop :=
  ¬ (cfg.XCP_ENABLE_PARAMETER_CHECK ∧ (x.Daq.OdtCount ≠ 0 ∨ x.Daq.OdtEntryCount ≠ 0)) ∧
    ¬ (cfg.XCP_ENABLE_PARAMETER_CHECK ∧ daqCount = 0)

instance (cfg : Config) (x : tXcpData) (daqCount : Nat) :
    Decidable (XcpAllocDaq.stores cfg x daqCount) := by
  unfold XcpAllocDaq.stores; infer_instance

/-- The function `XcpAllocOdt` reaches its stores to
`xcp.Daq.u.DaqList[daq]`: it returns at none of its checks. -/
def XcpAllocOdt.stores (cfg : Config) (x : tXcpData) (odtCount : Nat) : Prop :=
  ¬ (cfg.XCP_ENABLE_PARAMETER_CHECK ∧ (x.Daq.DaqCount = 0 ∨ x.Daq.OdtEntryCount ≠ 0)) ∧
    ¬ (cfg.XCP_ENABLE_PARAMETER_CHECK ∧ odtCount = 0)

instance (cfg : Config) (x : tXcpData) (odtCount : Nat) :
    Decidable (XcpAllocOdt.stores cfg x odtCount) := by
  unfold XcpAllocOdt.stores; infer_instance

/-- The function `XcpAllocOdtEntry` reaches its stores through `xcp.pOdt`,
`xcp.pOdt[xcpFirstOdt+odt].firstOdtEntry = ...`: it returns at none of its
three checks. -/
def XcpAllocOdtEntry.stores (cfg : Config) (x : tXcpData) (odtEntryCount : Nat) : Prop :=
  ¬ (cfg.XCP_ENABLE_PARAMETER_CHECK ∧ (x.Daq.DaqCount = 0 ∨ x.Daq.OdtCount = 0)) ∧
    ¬ (cfg.XCP_ENABLE_PARAMETER_CHECK ∧ odtEntryCount = 0) ∧
    ¬ (x.Daq.OdtEntryCount > 0xFFFF - odtEntryCount)

instance (cfg : Config) (x : tXcpData) (odtEntryCount : Nat) :
    Decidable (XcpAllocOdtEntry.stores cfg x odtEntryCount) := by
  unfold XcpAllocOdtEntry.stores; infer_instance

/-- The case ALLOC_ODT reaches the stores of `XcpAllocOdt`: the range check
of the dispatcher passes and the function returns at none of its checks. -/
def XcpCommand.ALLOC_ODT.stores (cfg : Config) (w : Slave) (pCmd : tXcpCto) : Prop :=
  ¬ (cfg.XCP_ENABLE_PARAMETER_CHECK ∧ pCmd.CRO_ALLOC_ODT_DAQ % 256 ≥ w.xcp.Daq.DaqCount) ∧
    XcpAllocOdt.stores cfg w.xcp (pCmd.CRO_ALLOC_ODT_COUNT % 256)

instance (cfg : Config) (w : Slave) (pCmd : tXcpCto) :
    Decidable (XcpCommand.ALLOC_ODT.stores cfg w pCmd) := by
  unfold XcpCommand.ALLOC_ODT.stores; infer_instance

/-- The case ALLOC_ODT_ENTRY reaches the stores of `XcpAllocOdtEntry` through
`xcp.pOdt`: the range check of the dispatcher passes and the function returns
at none of its checks. -/
def XcpCommand.ALLOC_ODT_ENTRY.stores (cfg : Config) (w : Slave) (pCmd : tXcpCto) : Prop :=
  ¬ (cfg.XCP_ENABLE_PARAMETER_CHECK ∧
      (pCmd.CRO_ALLOC_ODT_ENTRY_DAQ % 256 ≥ w.xcp.Daq.DaqCount ∨
        pCmd.CRO_ALLOC_ODT_ENTRY_ODT % 256
          ≥ toUInt8 (DaqListOdtCount w.xcp (pCmd.CRO_ALLOC_ODT_ENTRY_DAQ % 256)))) ∧
    XcpAllocOdtEntry.stores cfg w.xcp (pCmd.CRO_ALLOC_ODT_ENTRY_COUNT % 256)

instance (cfg : Config) (w : Slave) (pCmd : tXcpCto) :
    Decidable (XcpCommand.ALLOC_ODT_ENTRY.stores cfg w pCmd) := by
  unfold XcpCommand.ALLOC_ODT_ENTRY.stores; infer_instance

/-- The case SET_DAQ_LIST_MODE reaches its stores to
`xcp.Daq.u.DaqList[daq]`: both checks pass. -/
def XcpCommand.SET_DAQ_LIST_MODE.stores (cfg : Config) (w : Slave) (pCmd : tXcpCto) : Prop :=
  ¬ (cfg.XCP_ENABLE_PARAMETER_CHECK ∧
      pCmd.CRO_SET_DAQ_LIST_MODE_DAQ % 256 ≥ w.xcp.Daq.DaqCount) ∧
    ¬ (cfg.XCP_ENABLE_PARAMETER_CHECK ∧ pCmd.CRO_SET_DAQ_LIST_MODE_PRIORITY ≠ 0)

instance (cfg : Config) (w : Slave) (pCmd : tXcpCto) :
    Decidable (XcpCommand.SET_DAQ_LIST_MODE.stores cfg w pCmd) := by
  unfold XcpCommand.SET_DAQ_LIST_MODE.stores; infer_instance

/-- The case SET_DAQ_PTR reads the ODT record `xcp.pOdt[odt0]`: with
parameter checks, the first two operands of the range check,
`daq >= xcp.Daq.DaqCount` and `odt >= (vuint8)DaqListOdtCount(daq)`, are
false, so that the third, `idx >= (vuint8)DaqListOdtEntryCount(odt0)`, is
evaluated; without them `DaqListOdtFirstEntry(odt0)` is always read. -/
def XcpCommand.SET_DAQ_PTR.reads (cfg : Config) (w : Slave) (pCmd : tXcpCto) : Prop :=
  ¬ (cfg.XCP_ENABLE_PARAMETER_CHECK ∧
      ((pCmd.CRO_SET_DAQ_PTR_DAQ &&& 0xFF) % 256 ≥ w.xcp.Daq.DaqCount ∨
        pCmd.CRO_SET_DAQ_PTR_ODT % 256
          ≥ toUInt8 (DaqListOdtCount w.xcp ((pCmd.CRO_SET_DAQ_PTR_DAQ &&& 0xFF) % 256))))

instance (cfg : Config) (w : Slave) (pCmd : tXcpCto) :
    Decidable (XcpCommand.SET_DAQ_PTR.reads cfg w pCmd) := by
  unfold XcpCommand.SET_DAQ_PTR.reads; infer_instance

/-- The case WRITE_DAQ reaches its stores through `xcp.pOdtEntrySize` and
`xcp.pOdtEntryAddr`: both checks pass. -/
def XcpCommand.WRITE_DAQ.stores (cfg : Config) (w : Slave) (pCmd : tXcpCto) : Prop :=
  ¬ (cfg.XCP_ENABLE_PARAMETER_CHECK ∧
      (pCmd.CRO_WRITE_DAQ_SIZE % 256 = 0
        ∨ pCmd.CRO_WRITE_DAQ_SIZE > cfg.XCP_MAX_ODT_ENTRY_SIZE % 256)) ∧
    ¬ (cfg.XCP_ENABLE_PARAMETER_CHECK ∧
      (0 = w.xcp.Daq.DaqCount ∨ 0 = w.xcp.Daq.OdtCount ∨ 0 = w.xcp.Daq.OdtEntryCount))

instance (cfg : Config) (w : Slave) (pCmd : tXcpCto) :
    Decidable (XcpCommand.WRITE_DAQ.stores cfg w pCmd) := by
  unfold XcpCommand.WRITE_DAQ.stores; infer_instance

/-- The case WRITE_DAQ_MULTIPLE stores its first element: there is one and
the three checks of the first pass of the loop pass. -/
def XcpCommand.WRITE_DAQ_MULTIPLE.stores (cfg : Config) (w : Slave) (pCmd : tXcpCto) : Prop :=
  0 < pCmd.CRO_WRITE_DAQ_MULTIPLE_NODAQ ∧
    ¬ (cfg.XCP_ENABLE_PARAMETER_CHECK ∧
      (pCmd.CRO_WRITE_DAQ_MULTIPLE_SIZE 0 % 256 = 0
        ∨ pCmd.CRO_WRITE_DAQ_MULTIPLE_SIZE 0 > cfg.XCP_MAX_ODT_ENTRY_SIZE % 256)) ∧
    ¬ (cfg.XCP_ENABLE_PARAMETER_CHECK ∧ pCmd.CRO_WRITE_DAQ_MULTIPLE_BITOFFSET 0 ≠ 0xFF) ∧
    ¬ (cfg.XCP_ENABLE_PARAMETER_CHECK ∧
      (0 = w.xcp.Daq.DaqCount ∨ 0 = w.xcp.Daq.OdtCount ∨ 0 = w.xcp.Daq.OdtEntryCount))

instance (cfg : Config) (w : Slave) (pCmd : tXcpCto) :
    Decidable (XcpCommand.WRITE_DAQ_MULTIPLE.stores cfg w pCmd) := by
  unfold XcpCommand.WRITE_DAQ_MULTIPLE.stores; infer_instance

/-- The stores of the command `pCmd` through the MTA keep to what the
embedding describes: DOWNLOAD of an accepted size and DOWNLOAD_MAX write
outside of `xcp`. -/
def XcpCommand.definedTransfer (cfg : Config) (w : Slave) (pCmd : tXcpCto) : Prop :=
  (pCmd.CRO_CMD = .CC_DOWNLOAD →
      pCmd.CRO_DOWNLOAD_SIZE % 256 ≤ CRO_DOWNLOAD_MAX_SIZE cfg →
      outsideXcp cfg w.xcp.Mta (pCmd.CRO_DOWNLOAD_SIZE % 256)) ∧
    (pCmd.CRO_CMD = .CC_DOWNLOAD_MAX →
      outsideXcp cfg w.xcp.Mta (CRO_DOWNLOAD_MAX_MAX_SIZE cfg))

instance (cfg : Config) (w : Slave) (pCmd : tXcpCto) :
    Decidable (XcpCommand.definedTransfer cfg w pCmd) := by
  unfold XcpCommand.definedTransfer; infer_instance

/-- The allocation `pCmd` keeps to what the embedding describes:

* ALLOC_DAQ, where it sets `DaqCount`, moves `pOdt` over no data: there are
  no ODTs and entries, and the list records that leave the array are zero;
* ALLOC_ODT, where it stores, stores to a list record of the array that lies
  inside the arena, and moves `pOdtEntryAddr` over no entries;
* ALLOC_ODT_ENTRY, where it stores, stores through a `pOdt` laid out for the
  counts to an ODT below `OdtCount` of a list of the array, and moves
  `pOdtEntrySize` over no size that has been written. -/
def XcpCommand.definedAlloc (cfg : Config) (w : Slave) (pCmd : tXcpCto) : Prop :=
  (pCmd.CRO_CMD = .CC_ALLOC_DAQ →
      XcpAllocDaq.stores cfg w.xcp (pCmd.CRO_ALLOC_DAQ_COUNT % 256) →
      w.xcp.Daq.OdtCount = 0 ∧ w.xcp.Daq.OdtEntryCount = 0 ∧
      ∀ d, d < w.xcp.Daq.DaqCount → pCmd.CRO_ALLOC_DAQ_COUNT % 256 ≤ d →
        w.xcp.Daq.DaqList d = tXcpDaqList.zero) ∧
    (pCmd.CRO_CMD = .CC_ALLOC_ODT → XcpCommand.ALLOC_ODT.stores cfg w pCmd →
      pCmd.CRO_ALLOC_ODT_DAQ % 256 < w.xcp.Daq.DaqCount ∧
      listsInArena cfg (pCmd.CRO_ALLOC_ODT_DAQ % 256 + 1) ∧
      w.xcp.Daq.OdtEntryCount = 0) ∧
    (pCmd.CRO_CMD = .CC_ALLOC_ODT_ENTRY → XcpCommand.ALLOC_ODT_ENTRY.stores cfg w pCmd →
      pCmd.CRO_ALLOC_ODT_ENTRY_DAQ % 256 < w.xcp.Daq.DaqCount ∧
      arenaLaidOut cfg w.xcp ∧
      (w.xcp.Daq.DaqList (pCmd.CRO_ALLOC_ODT_ENTRY_DAQ % 256)).firstOdt
        + pCmd.CRO_ALLOC_ODT_ENTRY_ODT % 256 < w.xcp.Daq.OdtCount ∧
      ∀ i, i < w.xcp.Daq.OdtEntryCount → w.xcp.OdtEntrySize i = 0)

instance (cfg : Config) (w : Slave) (pCmd : tXcpCto) :
    Decidable (XcpCommand.definedAlloc cfg w pCmd) := by
  unfold XcpCommand.definedAlloc; infer_instance

/-- The accesses of the command `pCmd` to ODT records and ODT entries keep
to what the embedding describes:

* SET_DAQ_PTR, where it reads `xcp.pOdt[odt0]`, reads through a `pOdt` laid
  out for the counts an ODT below `OdtCount` of a list of the array;
* WRITE_DAQ and WRITE_DAQ_MULTIPLE, where they store, store through pointers
  laid out for the counts to entries below `OdtEntryCount` (for
  WRITE_DAQ_MULTIPLE: all its elements have room). -/
def XcpCommand.definedEntries (cfg : Config) (w : Slave) (pCmd : tXcpCto) : Prop :=
  (pCmd.CRO_CMD = .CC_SET_DAQ_PTR → XcpCommand.SET_DAQ_PTR.reads cfg w pCmd →
      (pCmd.CRO_SET_DAQ_PTR_DAQ &&& 0xFF) % 256 < w.xcp.Daq.DaqCount ∧
      arenaLaidOut cfg w.xcp ∧
      (w.xcp.Daq.DaqList ((pCmd.CRO_SET_DAQ_PTR_DAQ &&& 0xFF) % 256)).firstOdt
        + pCmd.CRO_SET_DAQ_PTR_ODT % 256 < w.xcp.Daq.OdtCount) ∧
    (pCmd.CRO_CMD = .CC_WRITE_DAQ → XcpCommand.WRITE_DAQ.stores cfg w pCmd →
      arenaLaidOut cfg w.xcp ∧ w.xcp.DaqListPtr < w.xcp.Daq.OdtEntryCount) ∧
    (pCmd.CRO_CMD = .CC_WRITE_DAQ_MULTIPLE → XcpCommand.WRITE_DAQ_MULTIPLE.stores cfg w pCmd →
      arenaLaidOut cfg w.xcp ∧
      w.xcp.DaqListPtr + pCmd.CRO_WRITE_DAQ_MULTIPLE_NODAQ ≤ w.xcp.Daq.OdtEntryCount)

instance (cfg : Config) (w : Slave) (pCmd : tXcpCto) :
    Decidable (XcpCommand.definedEntries cfg w pCmd) := by
  unfold XcpCommand.definedEntries; infer_instance

/-- The accesses of the command `pCmd` to DAQ list records keep to what the
embedding describes: SET_DAQ_LIST_MODE and START_STOP_DAQ_LIST, where they
pass their range check, address a list record of the array, inside the arena;
START_STOP_DAQ_LIST, START_STOP_SYNCH and DISCONNECT scan list records that
lie inside the arena. -/
def XcpCommand.definedLists (cfg : Config) (w : Slave) (pCmd : tXcpCto) : Prop :=
  (pCmd.CRO_CMD = .CC_SET_DAQ_LIST_MODE → XcpCommand.SET_DAQ_LIST_MODE.stores cfg w pCmd →
      pCmd.CRO_SET_DAQ_LIST_MODE_DAQ % 256 < w.xcp.Daq.DaqCount ∧
      listsInArena cfg (pCmd.CRO_SET_DAQ_LIST_MODE_DAQ % 256 + 1)) ∧
    (pCmd.CRO_CMD = .CC_START_STOP_DAQ_LIST →
      ¬ (cfg.XCP_ENABLE_PARAMETER_CHECK ∧ startStopDaq pCmd ≥ w.xcp.Daq.DaqCount) →
      startStopDaq pCmd < w.xcp.Daq.DaqCount ∧ listsInArena cfg w.xcp.Daq.DaqCount) ∧
    (pCmd.CRO_CMD = .CC_START_STOP_SYNCH →
      ¬ (0 = w.xcp.Daq.DaqCount ∨ 0 = w.xcp.Daq.OdtCount ∨ 0 = w.xcp.Daq.OdtEntryCount) →
      listsInArena cfg w.xcp.Daq.DaqCount) ∧
    (pCmd.CRO_CMD = .CC_DISCONNECT → listsInArena cfg w.xcp.Daq.DaqCount)

instance (cfg : Config) (w : Slave) (pCmd : tXcpCto) :
    Decidable (XcpCommand.definedLists cfg w pCmd) := by
  unfold XcpCommand.definedLists; infer_instance

/-- The command `pCmd`, processed in the state `w`, keeps to what the
embedding describes: while the session is connected, its stores through the
MTA, its allocation and its accesses to list records, ODT records and ODT
entries do.  The other commands access neither the arena through a pointer
nor the process memory by a store; a command received while the session is
not connected is not processed. -/
def XcpCommand.defined (cfg : Config) (w : Slave) (pCmd : tXcpCto) : Prop :=
  connected w.xcp →
    XcpCommand.definedTransfer cfg w pCmd ∧ XcpCommand.definedAlloc cfg w pCmd ∧
    XcpCommand.definedEntries cfg w pCmd ∧ XcpCommand.definedLists cfg w pCmd

instance (cfg : Config) (w : Slave) (pCmd : tXcpCto) :
    Decidable (XcpCommand.defined cfg w pCmd) := by
  unfold XcpCommand.defined; infer_instance

/-- Byte `k`, in memory order, of the pointer value `v` as the CPU stores
it. -/
def ptrByte (cfg : Config) (v k : Nat) : Nat :=
  if cfg.XCP_CPUTYPE_BIGENDIAN then v / 256 ^ (cfg.sizeofDaqBytePtr - 1 - k) % 256
  else v / 256 ^ k % 256

/-- The pointer value `v` with byte `k`, in memory order, replaced by `b`. -/
def setPtrByte (cfg : Config) (v k b : Nat) : Nat :=
  let j := if cfg.XCP_CPUTYPE_BIGENDIAN then cfg.sizeofDaqBytePtr - 1 - k else k
  v - (v / 256 ^ j % 256) * 256 ^ j + b % 256 * 256 ^ j

/-- The size array after the two stores of WRITE_DAQ,
`OdtEntrySize(xcp.DaqListPtr) = size; OdtEntryAddr(xcp.DaqListPtr) = addr;`
in an arena laid out for the counts.  The size array begins where the array
of `OdtEntryCount` entry addresses ends, so the pointer stored at the index
`p >= OdtEntryCount` lies over the size bytes
`(p - OdtEntryCount) * sizeof(DAQBYTEPTR) + k`, `k < sizeof(DAQBYTEPTR)`;
it is stored after the size.  For `p < OdtEntryCount` only the size at `p`
changes. -/
def XcpCommand.WRITE_DAQ.sizes (cfg : Config) (x : tXcpData) (size addr : Nat) : Nat → Nat :=
  fun i =>
    if x.Daq.OdtEntryCount ≤ x.DaqListPtr ∧
        (x.DaqListPtr - x.Daq.OdtEntryCount) * cfg.sizeofDaqBytePtr ≤ i ∧
        i < (x.DaqListPtr - x.Daq.OdtEntryCount) * cfg.sizeofDaqBytePtr
              + cfg.sizeofDaqBytePtr then
      ptrByte cfg addr (i - (x.DaqListPtr - x.Daq.OdtEntryCount) * cfg.sizeofDaqBytePtr)
    else if i = x.DaqListPtr then size
    else x.OdtEntrySize i

/-- The function `XcpWriteMta` with the pointer `xcp.Mta` in the address
space.  A byte stored outside of `xcp` goes to the process memory; a byte
stored to the address `&xcp.Mta + k` replaces byte `k` of the MTA, which is
then incremented; `none` when a byte is stored to another part of `xcp`,
whose layout is in `xcpLite.h`. -/
def XcpWriteMta.aliased (cfg : Config) (w : Slave) : Nat → (Nat → Nat) → Option Slave
  | 0, _ => some w
  | size + 1, data =>
    if outsideXcp cfg w.xcp.Mta 1 then
      XcpWriteMta.aliased cfg
        { w with
          mem := Function.update w.mem w.xcp.Mta (data 0)
          xcp := { w.xcp with Mta := w.xcp.Mta + 1 } }
        size (fun i => data (i + 1))
    else if cfg.xcpAddr + cfg.offsetofMta ≤ w.xcp.Mta ∧
        w.xcp.Mta < cfg.xcpAddr + cfg.offsetofMta + cfg.sizeofDaqBytePtr then
      XcpWriteMta.aliased cfg
        { w with xcp := { w.xcp with
            Mta := setPtrByte cfg w.xcp.Mta (w.xcp.Mta - (cfg.xcpAddr + cfg.offsetofMta))
              (data 0) + 1 } }
        size (fun i => data (i + 1))
    else none

/-- The states reachable from `XcpInit` by commands that keep to the domain
of the embedding (`XcpCommand.defined`) and start lists through
START_STOP_DAQ_LIST and START_STOP_SYNCH only: a SET_DAQ_LIST_MODE with the
RUNNING bit in its mode byte is sent only for a list that is RUNNING, and
ALLOC_DAQ is sent only while the DAQ bit of the session status is clear. -/
inductive ReachableKeepStopped (cfg : Config) : Slave → Prop
  | init (mem : Nat → Nat) (clock : Nat) :
      ReachableKeepStopped cfg { xcp := XcpInit, mem := mem, clock := clock }
  | command {w : Slave} (pCmd : tXcpCto) :
      ReachableKeepStopped cfg w → XcpCommand.defined cfg w pCmd →
      (pCmd.CRO_CMD = .CC_SET_DAQ_LIST_MODE →
        (pCmd.CRO_SET_DAQ_LIST_MODE_MODE % 256) &&& DAQ_FLAG_RUNNING ≠ 0 →
        listRunning w.xcp (pCmd.CRO_SET_DAQ_LIST_MODE_DAQ % 256)) →
      (pCmd.CRO_CMD = .CC_ALLOC_DAQ → ¬ daqRunning w.xcp) →
      ReachableKeepStopped cfg (XcpCommand cfg w pCmd).1
  | environment {w : Slave} (mem : Nat → Nat) (clock : Nat) :
      ReachableKeepStopped cfg w → ReachableKeepStopped cfg { w with mem := mem, clock := clock }

/-- The states reachable from `XcpInit` by commands that keep to the domain
of the embedding (`XcpCommand.defined`) and stop lists through
START_STOP_DAQ_LIST, START_STOP_SYNCH, DISCONNECT, FREE_DAQ and CONNECT only:
a SET_DAQ_LIST_MODE for a list that is RUNNING has the RUNNING bit in its
mode byte, and ALLOC_DAQ is sent only while the DAQ bit of the session status
is clear. -/
inductive ReachableKeepRunning (cfg : Config) : Slave → Prop
  | init (mem : Nat → Nat) (clock : Nat) :
      ReachableKeepRunning cfg { xcp := XcpInit, mem := mem, clock := clock }
  | command {w : Slave} (pCmd : tXcpCto) :
      ReachableKeepRunning cfg w → XcpCommand.defined cfg w pCmd →
      (pCmd.CRO_CMD = .CC_SET_DAQ_LIST_MODE →
        listRunning w.xcp (pCmd.CRO_SET_DAQ_LIST_MODE_DAQ % 256) →
        (pCmd.CRO_SET_DAQ_LIST_MODE_MODE % 256) &&& DAQ_FLAG_RUNNING ≠ 0) →
      (pCmd.CRO_CMD = .CC_ALLOC_DAQ → ¬ daqRunning w.xcp) →
      ReachableKeepRunning cfg (XcpCommand cfg w pCmd).1
  | environment {w : Slave} (mem : Nat → Nat) (clock : Nat) :
      ReachableKeepRunning cfg w → ReachableKeepRunning cfg { w with mem := mem, clock := clock }

/-- The ODT range `[first_odt, last_odt]` of list `d`. -/
def odtRange (x : tXcpData) (d : Nat) : Finset Nat :=
  Finset.Icc (x.Daq.DaqList d).firstOdt (x.Daq.DaqList d).lastOdt

/-- The entry range `[first_odt_entry, last_odt_entry]` of the ODT with
absolute number `o`. -/
def entryRange (x : tXcpData) (o : Nat) : Finset Nat :=
  Finset.Icc (x.Odt o).firstOdtEntry (x.Odt o).lastOdtEntry

/-- The ODT ranges of the lists in `S` are pairwise disjoint and their sizes
sum to `OdtCount`. -/
def odtPartition (x : tXcpData) (S : Finset Nat) : Prop :=
  (∀ d ∈ S, ∀ e ∈ S, d ≠ e → Disjoint (odtRange x d) (odtRange x e)) ∧
    ∑ d in S, (odtRange x d).card = x.Daq.OdtCount

/-- The entry ranges of the ODTs in `T` are pairwise disjoint and their sizes
sum to `OdtEntryCount`. -/
def entryPartition (x : tXcpData) (T : Finset Nat) : Prop :=
  (∀ o ∈ T, ∀ p ∈ T, o ≠ p → Disjoint (entryRange x o) (entryRange x p)) ∧
    ∑ o in T, (entryRange x o).card = x.Daq.OdtEntryCount

/-- The ownership partition of the spec: the ODT ranges of the `DaqCount`
lists partition the `OdtCount` ODTs and the entry ranges of the `OdtCount`
ODTs partition the `OdtEntryCount` entries. -/
def ownershipPartition (x : tXcpData) : Prop :=
  odtPartition x (Finset.range x.Daq.DaqCount) ∧
    entryPartition x (Finset.range x.Daq.OdtCount)

/-- The ODT ranges of the lists in `S` lie below `OdtCount` and partition
it. -/
def odtInv (x : tXcpData) (S : Finset Nat) : Prop :=
  (∀ d ∈ S, ∀ j ∈ odtRange x d, j < x.Daq.OdtCount) ∧ odtPartition x S

/-- The entry ranges of the ODTs in `T` lie below `OdtEntryCount` and
partition it. -/
def entryInv (x : tXcpData) (T : Finset Nat) : Prop :=
  (∀ o ∈ T, ∀ j ∈ entryRange x o, j < x.Daq.OdtEntryCount) ∧ entryPartition x T

/-- The counts of ODTs and entries, the ODT range of every list and the ODT
records of `y` are those of `x`. -/
def sameRanges (x y : tXcpData) : Prop :=
  y.Daq.OdtCount = x.Daq.OdtCount ∧ y.Daq.OdtEntryCount = x.Daq.OdtEntryCount ∧
    (∀ d, (y.Daq.DaqList d).firstOdt = (x.Daq.DaqList d).firstOdt ∧
      (y.Daq.DaqList d).lastOdt = (x.Daq.DaqList d).lastOdt) ∧
    y.Odt = x.Odt

/-- The states of a configuration in which no list is given its ODTs twice
and no ODT its entries twice: reached from `XcpInit`, CONNECT or FREE_DAQ by
commands that keep to the domain of the embedding (`XcpCommand.defined`) and
none of which is answered CRC_MEMORY_OVERFLOW.  `S` holds the lists
ALLOC_ODT has been answered `FF` for and `T` the absolute numbers of the ODTs
ALLOC_ODT_ENTRY has been answered `FF` for, each once, since the last CONNECT
or FREE_DAQ. -/
inductive Configured (cfg : Config) : Slave → Finset Nat → Finset Nat → Prop
  | init (mem : Nat → Nat) (clock : Nat) :
      Configured cfg { xcp := XcpInit, mem := mem, clock := clock } ∅ ∅
  | reset (w : Slave) (pCmd : tXcpCto) :
      pCmd.CRO_CMD = .CC_CONNECT ∨ (pCmd.CRO_CMD = .CC_FREE_DAQ ∧ connected w.xcp) →
      Configured cfg (XcpCommand cfg w pCmd).1 ∅ ∅
  | alloc_odt {w : Slave} {S T : Finset Nat} (pCmd : tXcpCto) :
      Configured cfg w S T → XcpCommand.defined cfg w pCmd →
      pCmd.CRO_CMD = .CC_ALLOC_ODT →
      (XcpCommand cfg w pCmd).2 = some [0xFF] →
      pCmd.CRO_ALLOC_ODT_DAQ % 256 ∉ S →
      Configured cfg (XcpCommand cfg w pCmd).1 (insert (pCmd.CRO_ALLOC_ODT_DAQ % 256) S) T
  | alloc_odt_entry {w : Slave} {S T : Finset Nat} (pCmd : tXcpCto) :
      Configured cfg w S T → XcpCommand.defined cfg w pCmd →
      pCmd.CRO_CMD = .CC_ALLOC_ODT_ENTRY →
      (XcpCommand cfg w pCmd).2 = some [0xFF] →
      (w.xcp.Daq.DaqList (pCmd.CRO_ALLOC_ODT_ENTRY_DAQ % 256)).firstOdt
        + pCmd.CRO_ALLOC_ODT_ENTRY_ODT % 256 ∉ T →
      Configured cfg (XcpCommand cfg w pCmd).1 S
        (insert ((w.xcp.Daq.DaqList (pCmd.CRO_ALLOC_ODT_ENTRY_DAQ % 256)).firstOdt
          + pCmd.CRO_ALLOC_ODT_ENTRY_ODT % 256) T)
  | command {w : Slave} {S T : Finset Nat} (pCmd : tXcpCto) :
      Configured cfg w S T → XcpCommand.defined cfg w pCmd →
      pCmd.CRO_CMD ≠ .CC_CONNECT → pCmd.CRO_CMD ≠ .CC_FREE_DAQ →
      (XcpCommand cfg w pCmd).2 ≠ some [0xFF] ∨
        (pCmd.CRO_CMD ≠ .CC_ALLOC_ODT ∧ pCmd.CRO_CMD ≠ .CC_ALLOC_ODT_ENTRY) →
      (XcpCommand cfg w pCmd).2 ≠ some [PID_ERR, CRC_MEMORY_OVERFLOW] →
      Configured cfg (XcpCommand cfg w pCmd).1 S T
  | environment {w : Slave} {S T : Finset Nat} (mem : Nat → Nat) (clock : Nat) :
      Configured cfg w S T → Configured cfg { w with mem := mem, clock := clock } S T

/-- The GET_DAQ_LIST_MODE packet for list `daq`. -/
def mkGET_DAQ_LIST_MODE (daq : Nat) : tXcpCto :=
  { CRO_CMD := .CC_GET_DAQ_LIST_MODE, CRO_GET_DAQ_LIST_MODE_DAQ := daq }

/-- List `d` is bound to the event channel `event` (a byte). -/
abbrev listBound (x : tXcpData) (d event : Nat) : Prop :=
  (x.Daq.DaqList d).eventChannel = event % 256

/-- List `d` has the flag OVERRUN. -/
abbrev listOverrun (x : tXcpData) (d : Nat) : Prop :=
  (x.Daq.DaqList d).flags &&& DAQ_FLAG_OVERRUN ≠ 0

/-- The absolute numbers of the ODTs of list `d`, `first_odt .. last_odt` in
increasing order. -/
def odtsOf (x : tXcpData) (d : Nat) : List Nat :=
  List.range' (x.Daq.DaqList d).firstOdt
    ((x.Daq.DaqList d).lastOdt + 1 - (x.Daq.DaqList d).firstOdt)

/-- The entries of the ODT with absolute number `o`,
`first_odt_entry .. last_odt_entry` in increasing order. -/
def entriesOf (x : tXcpData) (o : Nat) : List Nat :=
  List.range' (x.Odt o).firstOdtEntry ((x.Odt o).lastOdtEntry + 1 - (x.Odt o).firstOdtEntry)

/-- The bytes of entry `e` as the event reads them: `size(e)` bytes of the
process memory from `offset + (vuint32)addr(e)` on. -/
def entryBytes (w : Slave) (offset e : Nat) : List Nat :=
  (List.range (w.xcp.OdtEntrySize e)).map
    (fun k => w.mem (offset + w.xcp.OdtEntryAddr e % 2 ^ 32 + k))

/-- The bytes written to the DTO buffer for ODT `o` of list `d`: the relative
ODT number as a byte, with bit 7 when `b7`, the list number, the time stamp
when `o` is the first ODT of the list, and the bytes of the entries of `o` up
to the first entry of size zero. -/
def dtoBuffer (cfg : Config) (w : Slave) (offset d o : Nat) (b7 : Bool) : List Nat :=
  [if b7 then toUInt8 ((o : Int) - ((w.xcp.Daq.DaqList d).firstOdt : Int)) ||| 0x80
    else toUInt8 ((o : Int) - ((w.xcp.Daq.DaqList d).firstOdt : Int)), d % 256]
  ++ (if o = (w.xcp.Daq.DaqList d).firstOdt then XcpEventExt.timestamp cfg w.clock else [])
  ++ ((entriesOf w.xcp o).takeWhile (fun e => decide (w.xcp.OdtEntrySize e ≠ 0))).flatMap
      (entryBytes w offset)

/-- The DTO of ODT `o` of list `d`: the first `l` bytes of the DTO buffer,
`l` being its length as a byte; bit 7 of byte 0 is set when `o` is the first
ODT of the list and the list has the flag OVERRUN. -/
def dtoOf (cfg : Config) (w : Slave) (offset d o : Nat) : List Nat :=
  (dtoBuffer cfg w offset d o
      (decide (o = (w.xcp.Daq.DaqList d).firstOdt ∧ listOverrun w.xcp d))).take
    ((dtoBuffer cfg w offset d o
      (decide (o = (w.xcp.Daq.DaqList d).firstOdt ∧ listOverrun w.xcp d))).length % 256)

/-- The ODTs an event on channel `event` emits a DTO for, as pairs of list
and absolute ODT number in the order of emission: for each list below
`DaqCount` that is RUNNING and bound to the channel, in increasing order, its
ODTs whose first entry has a size other than zero, in increasing order. -/
def eventOdts (x : tXcpData) (event : Nat) : List (Nat × Nat) :=
  (List.range x.Daq.DaqCount).flatMap (fun d =>
    if listRunning x d ∧ listBound x d event then
      ((odtsOf x d).filter
        (fun o => decide (x.OdtEntrySize (x.Odt o).firstOdtEntry ≠ 0))).map (fun o => (d, o))
    else [])

/-- The number of bytes the event writes to the DTO buffer `dto.b` for ODT
`o` of list `d`: two bytes of header, the time stamp when `o` is the first
ODT of the list, and the bytes of the entries of `o` up to the first entry of
size zero. -/
def XcpEventExt.dtoBytes (cfg : Config) (x : tXcpData) (d o : Nat) : Nat :=
  2 + (if o = (x.Daq.DaqList d).firstOdt then cfg.kXcpDaqTimestampSize else 0)
    + (((entriesOf x o).takeWhile (fun e => decide (x.OdtEntrySize e ≠ 0))).map
        x.OdtEntrySize).sum

/-- The event processes ODT `o` of list `d` inside the arrays and the DTO
buffer: the first entry of the ODT is below `OdtEntryCount`; when it has a
size other than zero (the code reads the other entries and fills the DTO only
then) the last entry is below `OdtEntryCount` too, and the bytes written fit
the DTO buffer of `kXcpMaxDTO` bytes, as `XCP_ASSERT(dtop->l<=kXcpMaxDTO)`
asks for. -/
def XcpEventExt.definedOdt (cfg : Config) (x : tXcpData) (d o : Nat) : Prop :=
  (x.Odt o).firstOdtEntry < x.Daq.OdtEntryCount ∧
    (x.OdtEntrySize (x.Odt o).firstOdtEntry ≠ 0 →
      (x.Odt o).lastOdtEntry < x.Daq.OdtEntryCount ∧
      XcpEventExt.dtoBytes cfg x d o ≤ cfg.kXcpMaxDTO)

instance (cfg : Config) (x : tXcpData) (d o : Nat) :
    Decidable (XcpEventExt.definedOdt cfg x d o) := by
  unfold XcpEventExt.definedOdt; infer_instance

/-- The event processes every ODT of list `d` inside the arrays and the DTO
buffer. -/
def XcpEventExt.definedOdts (cfg : Config) (x : tXcpData) (d : Nat) : Prop :=
  ∀ o, o < x.Daq.OdtCount → (x.Daq.DaqList d).firstOdt ≤ o →
    o ≤ (x.Daq.DaqList d).lastOdt → XcpEventExt.definedOdt cfg x d o

instance (cfg : Config) (x : tXcpData) (d : Nat) :
    Decidable (XcpEventExt.definedOdts cfg x d) := by
  unfold XcpEventExt.definedOdts; infer_instance

/-- The event reads the ODTs of list `d` inside the arrays: where the list
is RUNNING, bound to the channel and has an ODT, the arena is laid out for
the counts, the ODTs of the list are below `OdtCount`, and each of them is
processed inside the arrays and the DTO buffer. -/
def XcpEventExt.definedList (cfg : Config) (x : tXcpData) (event d : Nat) : Prop :=
  listRunning x d → listBound x d event →
    (x.Daq.DaqList d).firstOdt ≤ (x.Daq.DaqList d).lastOdt →
    arenaLaidOut cfg x ∧ (x.Daq.DaqList d).lastOdt < x.Daq.OdtCount ∧
    XcpEventExt.definedOdts cfg x d

instance (cfg : Config) (x : tXcpData) (event d : Nat) :
    Decidable (XcpEventExt.definedList cfg x event d) := by
  unfold XcpEventExt.definedList; infer_instance

/-- The event for channel `event`, processed in the state `x`, keeps to what
the embedding describes: while DAQ is running the list records lie inside the
arena, and the ODTs and entries of every list of the array are read inside
the arrays, through pointers laid out for the counts, and every DTO fits the
DTO buffer. -/
def XcpEventExt.defined (cfg : Config) (x : tXcpData) (event : Nat) : Prop :=
  daqRunning x →
    listsInArena cfg x.Daq.DaqCount ∧
    ∀ d, d < x.Daq.DaqCount → XcpEventExt.definedList cfg x event d

instance (cfg : Config) (x : tXcpData) (event : Nat) :
    Decidable (XcpEventExt.defined cfg x event) := by
  unfold XcpEventExt.defined; infer_instance

/-- The list records after an event on channel `event` has processed the
lists below `n`: OVERRUN is cleared on those that are RUNNING, bound to the
channel and have an ODT. -/
def eventCleared (x : tXcpData) (event n : Nat) : tXcpData :=
  { x with Daq := { x.Daq with DaqList := (fun d =>
      if d < n ∧ listRunning x d ∧ listBound x d event ∧
          (x.Daq.DaqList d).firstOdt ≤ (x.Daq.DaqList d).lastOdt ∧ listOverrun x d then
        { x.Daq.DaqList d with flags := (x.Daq.DaqList d).flags &&& not8 DAQ_FLAG_OVERRUN }
      else x.Daq.DaqList d) } }

/-- The event returns in the state `x` for the channel `event`: no list
that is RUNNING and bound to the channel ends at ODT `0xFFFF`, and none of
its ODTs with a first entry of size other than zero ends at entry `0xFFFF`. -/
def eventReturns (x : tXcpData) (event : Nat) : Prop :=
  ∀ d, d < x.Daq.DaqCount → listRunning x d → listBound x d event →
    (x.Daq.DaqList d).lastOdt < 65535 ∧
    ∀ o ∈ odtsOf x d, x.OdtEntrySize (x.Odt o).firstOdtEntry ≠ 0 →
      (x.Odt o).lastOdtEntry < 65535

/-- The state after one ODT of list `d` has been processed: OVERRUN is
cleared on `d`. -/
def clearOverrun (x : tXcpData) (d : Nat) : tXcpData :=
  if listOverrun x d then
    setDaqList x d (fun l => { l with flags := l.flags &&& not8 DAQ_FLAG_OVERRUN })
  else x

/-- The packets one pass of the ODT loop hands to the transport for ODT `o`
of list `d`: none when the first entry of `o` has size zero, else the first
`l` bytes of the DTO buffer, `l` being its length as a byte. -/
def odtDtos (cfg : Config) (w : Slave) (offset d o : Nat) (b7 : Bool) : List (List Nat) :=
  if w.xcp.OdtEntrySize (w.xcp.Odt o).firstOdtEntry = 0 then []
  else [(dtoBuffer cfg w offset d o b7).take ((dtoBuffer cfg w offset d o b7).length % 256)]

/-- The packets an event hands to the transport for list `d`: none unless
the list is RUNNING and bound to the channel, else those of its ODTs in
increasing order, the first of which sees the flag OVERRUN. -/
def listDtos (cfg : Config) (w : Slave) (event offset d : Nat) : List (List Nat) :=
  if listRunning w.xcp d ∧ listBound w.xcp d event then
    (odtsOf w.xcp d).flatMap (fun o =>
      odtDtos cfg w offset d o
        (decide (o = (w.xcp.Daq.DaqList d).firstOdt ∧ listOverrun w.xcp d)))
  else []

instance (x : tXcpData) (event : Nat) : Decidable (eventReturns x event) := by
  unfold eventReturns; infer_instance

/-- The slave of scenario S3, started. -/
def slaveMeasuring : Slave :=
  { runCommands cfg512 slaveConfigured
      [mkSET_DAQ_LIST_MODE 0x10 0 7 0, mkSET_DAQ_PTR 0 0 0, mkWRITE_DAQ 4 0 0x1000,
       mkSTART_STOP_DAQ_LIST 1 0] with
    mem := fun a => if a = 0x401000 then 0xDE else if a = 0x401001 then 0xAD
      else if a = 0x401002 then 0xBE else if a = 0x401003 then 0xEF else 0
    clock := 0x04030201 }

/-- The slave of scenario S3 without its WRITE_DAQ: list 0 is bound to
channel 7 and started while the entry of its ODT has never been written. -/
def slaveUnwritten : Slave :=
  runCommands cfg512 slaveConfigured [mkSET_DAQ_LIST_MODE 0x10 0 7 0, mkSTART_STOP_DAQ_LIST 1 0]

/-- Scenario S3 with two entries of 200 and 48 bytes in the one ODT: every
WRITE_DAQ passes the size check, the ODT holds 2 + 4 + 248 bytes. -/
def slaveOverpacked : Slave :=
  runCommands cfg512 slaveConnected
    [mkALLOC_DAQ 1, mkALLOC_ODT 0 1, mkALLOC_ODT_ENTRY 0 0 2, mkSET_DAQ_LIST_MODE 0x10 0 7 0,
     mkSET_DAQ_PTR 0 0 0, mkWRITE_DAQ 200 0 0x1000, mkWRITE_DAQ 48 0 0x2000,
     mkSTART_STOP_DAQ_LIST 1 0]

/-- Scenario S3 with two entries of 200 and 50 bytes in the one ODT: every
WRITE_DAQ passes the size check, the ODT holds 2 + 4 + 250 bytes. -/
def slaveWrapped : Slave :=
  runCommands cfg512 slaveConnected
    [mkALLOC_DAQ 1, mkALLOC_ODT 0 1, mkALLOC_ODT_ENTRY 0 0 2, mkSET_DAQ_LIST_MODE 0x10 0 7 0,
     mkSET_DAQ_PTR 0 0 0, mkWRITE_DAQ 200 0 0x1000, mkWRITE_DAQ 50 0 0x2000,
     mkSTART_STOP_DAQ_LIST 1 0]

/-- The configuration `cfg512` with a pool of 4096 bytes. -/
def cfg4096 : Config := { cfg512 with kXcpDaqMemSize := 4096, sizeofXcp := 0x1200 }

/-- A list of 129 ODTs on the pool of 4096 bytes, started on channel 7: ODT 0
has entry 0, never written, ODT 128 has entry 1, of 4 bytes. -/
def slaveManyOdts : Slave :=
  runCommands cfg4096 (XcpCommand cfg4096 slaveInit { CRO_CMD := .CC_CONNECT }).1
    [mkALLOC_DAQ 1, mkALLOC_ODT 0 129, mkALLOC_ODT_ENTRY 0 0 1, mkALLOC_ODT_ENTRY 0 128 1,
     mkSET_DAQ_LIST_MODE 0x10 0 7 0, mkSET_DAQ_PTR 0 128 0, mkWRITE_DAQ 4 0 0x1000,
     mkSTART_STOP_DAQ_LIST 1 0]

/-- The responses to a list of commands, from left to right. -/
def runResponses (cfg : Config) (w : Slave) : List tXcpCto → List (Option (List Nat))
  | [] => []
  | pCmd :: rest => (XcpCommand cfg w pCmd).2 :: runResponses cfg (XcpCommand cfg w pCmd).1 rest

/-- The event list at program start. -/
def eventListInit : tXcpEventList :=
  { ApplXcpEventCount := 0, ApplXcpEventList := fun _ => ⟨0, 0, 0, 0, 0⟩ }

/-- The arguments of one call of `XcpCreateEvent`. -/
structure tCreateEventArgs where
  /-- Pointer to the name. -/
  name : Nat
  /-- Cycle time. -/
  cycleTime : Nat
  /-- Sample count. -/
  sampleCount : Nat
  /-- Size of the payload. -/
  size : Nat

/-- A sequence of calls of `XcpCreateEvent`: the event list after them and
the values returned, in the order of the calls. -/
def createEvents (XCP_MAX_EVENT : Nat) (r : tXcpEventList) :
    List tCreateEventArgs → tXcpEventList × List Nat
  | [] => (r, [])
  | a :: rest =>
    let r1 := XcpCreateEvent XCP_MAX_EVENT r a.name a.cycleTime a.sampleCount a.size
    let r2 := createEvents XCP_MAX_EVENT r1.1 rest
    (r2.1, r1.2 :: r2.2)

/-- The cycle time a pair of ASAM time unit and time cycle denotes, in
nanoseconds: the unit codes count the powers of ten from 1 ns on, 3 being
1 us and 6 being 1 ms. -/
def asamCycleNs (timeUnit timeCycle : Nat) : Nat := timeCycle * 10 ^ timeUnit

/-- The result of `k` successive floor divisions of `c` by 10. -/
def divs10 : Nat → Nat → Nat
  | 0, c => c
  | k + 1, c => divs10 k (c / 10)

/-- The GET_ID packet for the identification type `type`. -/
def mkGET_ID (type : Nat) : tXcpCto := { CRO_CMD := .CC_GET_ID, CRO_GET_ID_TYPE := type }

/-- The configuration `cfg512` with the station identifier inside the main
module, at offset `0x2000` from its base address `0x400000`. -/
def cfgStation : Config := { cfg512 with kXcpStationId := 0x402000 }

/-- Modelled from the spec: element `i` of a WRITE_DAQ_MULTIPLE packet is
invalid when its size is 0 or above `XCP_MAX_ODT_ENTRY_SIZE` or its bit
offset is not `0xFF`. -/
def elementInvalid (cfg : Config) (pCmd : tXcpCto) (i : Nat) : Prop :=
  pCmd.CRO_WRITE_DAQ_MULTIPLE_SIZE i = 0 ∨
    pCmd.CRO_WRITE_DAQ_MULTIPLE_SIZE i > cfg.XCP_MAX_ODT_ENTRY_SIZE ∨
    pCmd.CRO_WRITE_DAQ_MULTIPLE_BITOFFSET i ≠ 0xFF

instance (cfg : Config) (pCmd : tXcpCto) (i : Nat) : Decidable (elementInvalid cfg pCmd i) := by
  unfold elementInvalid; infer_instance

/-- The WRITE_DAQ packet for element `i` of a WRITE_DAQ_MULTIPLE packet. -/
def elementWRITE_DAQ (pCmd : tXcpCto) (i : Nat) : tXcpCto :=
  mkWRITE_DAQ (pCmd.CRO_WRITE_DAQ_MULTIPLE_SIZE i) (pCmd.CRO_WRITE_DAQ_MULTIPLE_EXT i)
    (pCmd.CRO_WRITE_DAQ_MULTIPLE_ADDR i)

/-- The elements of a WRITE_DAQ_MULTIPLE packet before the first invalid
one, in order. -/
def validElements (cfg : Config) (pCmd : tXcpCto) : List Nat :=
  (List.range pCmd.CRO_WRITE_DAQ_MULTIPLE_NODAQ).takeWhile
    (fun i => decide (¬ elementInvalid cfg pCmd i))

/-- Modelled from the spec: the state after WRITE_DAQ has been issued for
the elements of a WRITE_DAQ_MULTIPLE packet in order up to, and not
including, the first invalid one. -/
def writeDaqRepeated (cfg : Config) (w : Slave) (pCmd : tXcpCto) : Slave :=
  runCommands cfg w ((validElements cfg pCmd).map (elementWRITE_DAQ pCmd))

/-- The WRITE_DAQ_MULTIPLE packet for the elements `(bit offset, size,
address, extension)`. -/
def mkWRITE_DAQ_MULTIPLE (es : List (Nat × Nat × Nat × Nat)) : tXcpCto :=
  { CRO_CMD := .CC_WRITE_DAQ_MULTIPLE
    CRO_WRITE_DAQ_MULTIPLE_NODAQ := es.length
    CRO_WRITE_DAQ_MULTIPLE_BITOFFSET := fun i => (es.getD i (0, 0, 0, 0)).1
    CRO_WRITE_DAQ_MULTIPLE_SIZE := fun i => (es.getD i (0, 0, 0, 0)).2.1
    CRO_WRITE_DAQ_MULTIPLE_ADDR := fun i => (es.getD i (0, 0, 0, 0)).2.2.1
    CRO_WRITE_DAQ_MULTIPLE_EXT := fun i => (es.getD i (0, 0, 0, 0)).2.2.2 }

/-- Every list below `DaqCount` with the flag RUNNING comes with the DAQ bit
of the session status. -/
def runningBelow (x : tXcpData) : Prop :=
  ∀ d, d < x.Daq.DaqCount → listRunning x d → daqRunning x

/-- The running invariant of the spec: `daq_running` is true if and only if
some list below `daq_count` has RUNNING set. -/
def runningInv (x : tXcpData) : Prop :=
  daqRunning x ↔ ∃ d, d < x.Daq.DaqCount ∧ listRunning x d

instance (x : tXcpData) : Decidable (runningInv x) := by
  unfold runningInv; infer_instance

/-- Scenario S3 after SET_DAQ_PTR(0, 0, 0) and one WRITE_DAQ: the only ODT
entry is written and the write cursor stands behind it. -/
def slaveCursorAtEnd : Slave :=
  runCommands cfg512 slaveConfigured [mkSET_DAQ_PTR 0 0 0, mkWRITE_DAQ 4 0 0x1000]

/-- After CONNECT and ALLOC_DAQ(1): 257 times ALLOC_ODT(0, 255), then
ALLOC_ODT(0, 1), which brings `OdtCount` from `0xFFFF` to 0 and gives list 0
the ODTs `0xFFFF .. 0xFFFF`, then START_STOP_DAQ_LIST(mode 1, daq 0). -/
def slaveOdtWrap : Slave :=
  runCommands cfg512 slaveConnected
    (mkALLOC_DAQ 1 :: (List.replicate 257 (mkALLOC_ODT 0 255) ++
      [mkALLOC_ODT 0 1, mkSTART_STOP_DAQ_LIST 1 0]))

/-- Two lists on channel 0, of which only list 0 has been given an ODT; both
are started.  The record of list 1 is zero and names ODT 0 as well. -/
def slaveSharedOdt : Slave :=
  runCommands cfg512 slaveConnected
    [mkALLOC_DAQ 2, mkALLOC_ODT 0 1, mkALLOC_ODT_ENTRY 0 0 1, mkSET_DAQ_PTR 0 0 0,
     mkWRITE_DAQ 4 0 0x1000, mkSTART_STOP_DAQ_LIST 1 0, mkSTART_STOP_DAQ_LIST 1 1]

/-- Every list record and every ODT record ends below `0xFFFF`. -/
def endsBelow (x : tXcpData) : Prop :=
  (∀ d, (x.Daq.DaqList d).lastOdt < 65535) ∧ (∀ o, (x.Odt o).lastOdtEntry < 65535)

/-- The ODT ranges of the lists in `S` lie below `OdtCount` and are pairwise
disjoint. -/
def odtsApart (x : tXcpData) (S : Finset Nat) : Prop :=
  (∀ d ∈ S, ∀ j ∈ odtRange x d, j < x.Daq.OdtCount) ∧
    ∀ d ∈ S, ∀ e ∈ S, d ≠ e → Disjoint (odtRange x d) (odtRange x e)

/-- The states of a configuration: reached from `XcpInit`, CONNECT or FREE_DAQ
by commands that keep to the domain of the embedding and none of which is
answered CRC_MEMORY_OVERFLOW.  `S` holds the lists ALLOC_ODT has been
answered `FF` for, once or several times, since the last CONNECT or
FREE_DAQ. -/
inductive Provisioned (cfg : Config) : Slave → Finset Nat → Prop
  | init (mem : Nat → Nat) (clock : Nat) :
      Provisioned cfg { xcp := XcpInit, mem := mem, clock := clock } ∅
  | reset (w : Slave) (pCmd : tXcpCto) :
      pCmd.CRO_CMD = .CC_CONNECT ∨ (pCmd.CRO_CMD = .CC_FREE_DAQ ∧ connected w.xcp) →
      Provisioned cfg (XcpCommand cfg w pCmd).1 ∅
  | alloc_odt {w : Slave} {S : Finset Nat} (pCmd : tXcpCto) :
      Provisioned cfg w S → XcpCommand.defined cfg w pCmd →
      pCmd.CRO_CMD = .CC_ALLOC_ODT →
      (XcpCommand cfg w pCmd).2 = some [0xFF] →
      Provisioned cfg (XcpCommand cfg w pCmd).1 (insert (pCmd.CRO_ALLOC_ODT_DAQ % 256) S)
  | command {w : Slave} {S : Finset Nat} (pCmd : tXcpCto) :
      Provisioned cfg w S → XcpCommand.defined cfg w pCmd →
      pCmd.CRO_CMD ≠ .CC_CONNECT → pCmd.CRO_CMD ≠ .CC_FREE_DAQ →
      (XcpCommand cfg w pCmd).2 ≠ some [0xFF] ∨ pCmd.CRO_CMD ≠ .CC_ALLOC_ODT →
      (XcpCommand cfg w pCmd).2 ≠ some [PID_ERR, CRC_MEMORY_OVERFLOW] →
      Provisioned cfg (XcpCommand cfg w pCmd).1 S
  | environment {w : Slave} {S : Finset Nat} (mem : Nat → Nat) (clock : Nat) :
      Provisioned cfg w S → Provisioned cfg { w with mem := mem, clock := clock } S

/-- The slave of `cfg512` after CONNECT and ALLOC_DAQ(255), which is answered
CRC_MEMORY_OVERFLOW: `DaqCount` is 255 and the arena pointers are null. -/
def slaveRefused : Slave := runCommands cfg512 slaveConnected [mkALLOC_DAQ 255]

/-- The slave of `cfg512` after CONNECT, ALLOC_DAQ(255) and ALLOC_ODT(0, 1),
both answered CRC_MEMORY_OVERFLOW: `DaqCount` is 255, `OdtCount` is 1 and the
arena pointers are null. -/
def slaveRefusedOdt : Slave :=
  runCommands cfg512 slaveConnected [mkALLOC_DAQ 255, mkALLOC_ODT 0 1]

/-! ## Properties -/

/-- C1: while the session is not connected, a command other than CONNECT is
dropped: no packet is handed to the transport and the whole state, response
buffer included, is unchanged. -/
theorem XcpCommand_disconnected_drop (cfg : Config) (w : Slave) (pCmd : tXcpCto)
    (hdis : ¬ connected w.xcp) (hcmd : pCmd.CRO_CMD ≠ .CC_CONNECT) :
    XcpCommand cfg w pCmd = (w, none) := by
  have h0 : w.xcp.SessionStatus &&& SS_CONNECTED = 0 := by
    simpa [connected] using hdis
  simp [XcpCommand, XcpCommand.body, hcmd, h0]

/-- Witness of C1: GET_STATUS sent to the freshly initialised slave. -/
theorem XcpCommand_disconnected_drop_witness :
    XcpCommand cfg512 slaveInit { CRO_CMD := .CC_GET_STATUS } = (slaveInit, none) :=
  XcpCommand_disconnected_drop cfg512 slaveInit { CRO_CMD := .CC_GET_STATUS }
    (by decide) (by decide)

/-- The bits cleared by `XcpFreeDaq` and set by CONNECT do not meet. -/
theorem land_not8_SS_DAQ (s : Nat) : (s &&& not8 SS_DAQ) &&& SS_DAQ = 0 := by
  rw [Nat.land_assoc]
  have : not8 SS_DAQ &&& SS_DAQ = 0 := by decide
  rw [this, Nat.and_zero]

/-- Clearing the DAQ bit keeps the connected bit. -/
theorem land_not8_SS_DAQ_connected (s : Nat) :
    (s &&& not8 SS_DAQ) &&& SS_CONNECTED = s &&& SS_CONNECTED := by
  rw [Nat.land_assoc]
  have : not8 SS_DAQ &&& SS_CONNECTED = SS_CONNECTED := by decide
  rw [this]

/-- Setting the polling bit keeps the connected bit. -/
theorem lor_SS_POLLING_connected (s : Nat) :
    (s ||| SS_POLLING) &&& SS_CONNECTED = s &&& SS_CONNECTED := by
  rw [Nat.and_distrib_right]
  have : SS_POLLING &&& SS_CONNECTED = 0 := by decide
  rw [this, Nat.or_zero]

/-- The pool after `XcpFreeDaq`: counts zero, arena zero, DAQ bit clear. -/
theorem XcpFreeDaq_pool (x : tXcpData) :
    (XcpFreeDaq x).Daq.DaqCount = 0 ∧ (XcpFreeDaq x).Daq.OdtCount = 0 ∧
      (XcpFreeDaq x).Daq.OdtEntryCount = 0 ∧ ¬ daqRunning (XcpFreeDaq x) ∧
      arenaZero (XcpFreeDaq x) := by
  refine ⟨rfl, rfl, rfl, ?_, ?_⟩
  · simp [daqRunning, XcpFreeDaq, land_not8_SS_DAQ]
  · simp [arenaZero, XcpFreeDaq]

/-- C2: CONNECT is answered in every state with one positive response (a
packet of `CRM_CONNECT_LEN` bytes whose first byte is `0xFF`) and leaves the
session connected, the three counts zero, DAQ not running and the arena
zero; counts, records and arena pointers are those `XcpFreeDaq` leaves. -/
theorem XcpCommand_CONNECT (cfg : Config) (w : Slave) (pCmd : tXcpCto)
    (hcmd : pCmd.CRO_CMD = .CC_CONNECT) :
    (∃ rest, (XcpCommand cfg w pCmd).2 = some (0xFF :: rest) ∧
        rest.length + 1 = CRM_CONNECT_LEN) ∧
      connected (XcpCommand cfg w pCmd).1.xcp ∧
      (XcpCommand cfg w pCmd).1.xcp.Daq.DaqCount = 0 ∧
      (XcpCommand cfg w pCmd).1.xcp.Daq.OdtCount = 0 ∧
      (XcpCommand cfg w pCmd).1.xcp.Daq.OdtEntryCount = 0 ∧
      ¬ daqRunning (XcpCommand cfg w pCmd).1.xcp ∧
      arenaZero (XcpCommand cfg w pCmd).1.xcp ∧
      (XcpCommand cfg w pCmd).1.xcp.Daq = (XcpFreeDaq w.xcp).Daq ∧
      (XcpCommand cfg w pCmd).1.xcp.Odt = (XcpFreeDaq w.xcp).Odt ∧
      (XcpCommand cfg w pCmd).1.xcp.OdtEntryAddr = (XcpFreeDaq w.xcp).OdtEntryAddr ∧
      (XcpCommand cfg w pCmd).1.xcp.OdtEntrySize = (XcpFreeDaq w.xcp).OdtEntrySize ∧
      (XcpCommand cfg w pCmd).1.xcp.pOdt = none ∧
      (XcpCommand cfg w pCmd).1.xcp.pOdtEntryAddr = none ∧
      (XcpCommand cfg w pCmd).1.xcp.pOdtEntrySize = none := by
  cases hb : cfg.XCP_CPUTYPE_BIGENDIAN <;>
    simp [XcpCommand, XcpCommand.body, hcmd, XcpCommand.CONNECT, XcpSendCrm, setCrmByte,
      setCrmWord, XcpFreeDaq, hb, arenaZero, CRM_CONNECT_LEN, CRM_CMD,
      CRM_CONNECT_TRANSPORT_VERSION, CRM_CONNECT_PROTOCOL_VERSION, CRM_CONNECT_MAX_CTO_SIZE,
      CRM_CONNECT_MAX_DTO_SIZE, CRM_CONNECT_RESOURCE, CRM_CONNECT_COMM_BASIC, connected,
      daqRunning, List.range_succ, Function.update] <;> decide

/-- Witness of C2: CONNECT sent to the freshly initialised slave. -/
theorem XcpCommand_CONNECT_witness :
    (∃ rest, (XcpCommand cfg512 slaveInit { CRO_CMD := .CC_CONNECT }).2 = some (0xFF :: rest) ∧
        rest.length + 1 = CRM_CONNECT_LEN) ∧
      connected (XcpCommand cfg512 slaveInit { CRO_CMD := .CC_CONNECT }).1.xcp :=
  ⟨(XcpCommand_CONNECT cfg512 slaveInit { CRO_CMD := .CC_CONNECT } rfl).1,
   (XcpCommand_CONNECT cfg512 slaveInit { CRO_CMD := .CC_CONNECT } rfl).2.1⟩

/-- The dispatcher in the connected state, for a command other than
CONNECT: the `switch` is entered with the default response prepared. -/
theorem XcpCommand.body_connected (cfg : Config) (w : Slave) (pCmd : tXcpCto)
    (hcon : connected w.xcp) (hcmd : pCmd.CRO_CMD ≠ .CC_CONNECT) :
    XcpCommand.body cfg w pCmd = XcpCommand.switch cfg (XcpCommand.entry cfg w) pCmd := by
  have h0 : w.xcp.SessionStatus &&& SS_CONNECTED ≠ 0 := hcon
  simp [XcpCommand.body, hcmd, h0]

/-- The entry of the `switch` changes the response buffer and the polling
bit only. -/
theorem XcpCommand.entry_frame (cfg : Config) (w : Slave) :
    (XcpCommand.entry cfg w).mem = w.mem ∧ (XcpCommand.entry cfg w).clock = w.clock ∧
      (XcpCommand.entry cfg w).xcp.Mta = w.xcp.Mta ∧
      (XcpCommand.entry cfg w).xcp.Daq = w.xcp.Daq ∧
      (XcpCommand.entry cfg w).xcp.Odt = w.xcp.Odt ∧
      (XcpCommand.entry cfg w).xcp.OdtEntryAddr = w.xcp.OdtEntryAddr ∧
      (XcpCommand.entry cfg w).xcp.OdtEntrySize = w.xcp.OdtEntrySize ∧
      (XcpCommand.entry cfg w).xcp.pOdt = w.xcp.pOdt ∧
      (XcpCommand.entry cfg w).xcp.pOdtEntryAddr = w.xcp.pOdtEntryAddr ∧
      (XcpCommand.entry cfg w).xcp.pOdtEntrySize = w.xcp.pOdtEntrySize ∧
      (XcpCommand.entry cfg w).xcp.DaqListPtr = w.xcp.DaqListPtr := by
  cases h : cfg.XCP_ENABLE_GET_SESSION_STATUS_API <;>
    simp [XcpCommand.entry, h, setCrmByte]

/-- At the entry of the `switch` the default response `FF` of length 1 is
prepared. -/
theorem XcpCommand.entry_Crm (cfg : Config) (w : Slave) :
    (XcpCommand.entry cfg w).xcp.Crm 0 = 0xFF ∧ (XcpCommand.entry cfg w).xcp.CrmLen = 1 := by
  simp [XcpCommand.entry, setCrmByte, CRM_CMD]

/-- The entry of the `switch` keeps the connected bit. -/
theorem XcpCommand.entry_connected (cfg : Config) (w : Slave) (hcon : connected w.xcp) :
    connected (XcpCommand.entry cfg w).xcp := by
  cases h : cfg.XCP_ENABLE_GET_SESSION_STATUS_API
  · simpa [connected, XcpCommand.entry, h, setCrmByte] using hcon
  · simpa [connected, XcpCommand.entry, h, setCrmByte, lor_SS_POLLING_connected] using hcon

/-- The entry of the `switch` keeps the DAQ bit. -/
theorem XcpCommand.entry_SS_DAQ (cfg : Config) (w : Slave) :
    (XcpCommand.entry cfg w).xcp.SessionStatus &&& SS_DAQ = w.xcp.SessionStatus &&& SS_DAQ := by
  cases h : cfg.XCP_ENABLE_GET_SESSION_STATUS_API
  · simp [XcpCommand.entry, h, setCrmByte]
  · have : SS_POLLING &&& SS_DAQ = 0 := by decide
    simp [XcpCommand.entry, h, setCrmByte, Nat.and_distrib_right, this]

/-- C3: in every connected state FREE_DAQ is answered with the positive
response `FF` and leaves the three counts zero, DAQ not running and the
whole arena zero. -/
theorem XcpCommand_FREE_DAQ (cfg : Config) (w : Slave) (pCmd : tXcpCto)
    (hcon : connected w.xcp) (hcmd : pCmd.CRO_CMD = .CC_FREE_DAQ) :
    (XcpCommand cfg w pCmd).2 = some [0xFF] ∧
      (XcpCommand cfg w pCmd).1.xcp.Daq.DaqCount = 0 ∧
      (XcpCommand cfg w pCmd).1.xcp.Daq.OdtCount = 0 ∧
      (XcpCommand cfg w pCmd).1.xcp.Daq.OdtEntryCount = 0 ∧
      ¬ daqRunning (XcpCommand cfg w pCmd).1.xcp ∧
      arenaZero (XcpCommand cfg w pCmd).1.xcp := by
  have hne : pCmd.CRO_CMD ≠ .CC_CONNECT := by rw [hcmd]; decide
  have hb := XcpCommand.body_connected cfg w pCmd hcon hne
  simp only [XcpCommand, hb, XcpCommand.switch, hcmd, XcpCommand.FREE_DAQ]
  refine ⟨?_, (XcpFreeDaq_pool _).1, (XcpFreeDaq_pool _).2.1, (XcpFreeDaq_pool _).2.2.1,
    (XcpFreeDaq_pool _).2.2.2.1, (XcpFreeDaq_pool _).2.2.2.2⟩
  simp [XcpSendCrm, XcpFreeDaq, XcpCommand.entry_Crm, List.range_succ]

/-- Witness of C3: FREE_DAQ sent to the connected slave. -/
theorem XcpCommand_FREE_DAQ_witness :
    connected slaveConnected.xcp ∧
      (XcpCommand cfg512 slaveConnected { CRO_CMD := .CC_FREE_DAQ }).2 = some [0xFF] :=
  ⟨by decide,
   (XcpCommand_FREE_DAQ cfg512 slaveConnected { CRO_CMD := .CC_FREE_DAQ } (by decide) rfl).1⟩

/-- What `XcpWriteMta` does: it returns `XCP_CMD_OK`, advances the MTA by
`size`, stores `data` at the old MTA and touches no other byte. -/
theorem XcpWriteMta_spec (size : Nat) : ∀ (w : Slave) (data : Nat → Nat),
    (XcpWriteMta w size data).2 = XCP_CMD_OK ∧
      (XcpWriteMta w size data).1.xcp = { w.xcp with Mta := w.xcp.Mta + size } ∧
      (XcpWriteMta w size data).1.clock = w.clock ∧
      (∀ i, i < size → (XcpWriteMta w size data).1.mem (w.xcp.Mta + i) = data i) ∧
      (∀ a, a < w.xcp.Mta ∨ w.xcp.Mta + size ≤ a →
        (XcpWriteMta w size data).1.mem a = w.mem a) := by
  induction size with
  | zero =>
    intro w data
    simp [XcpWriteMta]
  | succ n ih =>
    intro w data
    obtain ⟨h1, h2, h3, h4, h5⟩ := ih
      { w with
        mem := Function.update w.mem w.xcp.Mta (data 0)
        xcp := { w.xcp with Mta := w.xcp.Mta + 1 } }
      (fun i => data (i + 1))
    simp only [XcpWriteMta]
    refine ⟨h1, ?_, h3, ?_, ?_⟩
    · rw [h2]
      simp [Nat.add_assoc, Nat.add_comm 1 n]
    · intro i hi
      cases i with
      | zero =>
        have := h5 w.xcp.Mta (Or.inl (by simp))
        simpa using this
      | succ j =>
        have := h4 j (by omega)
        simpa [Nat.add_assoc, Nat.add_comm 1 j] using this
    · intro a ha
      have hne : a ≠ w.xcp.Mta := by omega
      have := h5 a (by simp only []; omega)
      simpa [Function.update, hne] using this

/-- What `XcpReadMta` does: it returns `XCP_CMD_OK`, advances the MTA by
`size`, copies the bytes at the old MTA to the response buffer from offset
`data` on and touches nothing else. -/
theorem XcpReadMta_spec (size : Nat) : ∀ (w : Slave) (data : Nat),
    (XcpReadMta w size data).2 = XCP_CMD_OK ∧
      (XcpReadMta w size data).1.mem = w.mem ∧
      (XcpReadMta w size data).1.clock = w.clock ∧
      (XcpReadMta w size data).1.xcp =
        { w.xcp with Crm := (XcpReadMta w size data).1.xcp.Crm, Mta := w.xcp.Mta + size } ∧
      (∀ i, i < size → (XcpReadMta w size data).1.xcp.Crm (data + i) = w.mem (w.xcp.Mta + i)) ∧
      (∀ j, j < data ∨ data + size ≤ j →
        (XcpReadMta w size data).1.xcp.Crm j = w.xcp.Crm j) := by
  induction size with
  | zero =>
    intro w data
    simp [XcpReadMta]
  | succ n ih =>
    intro w data
    obtain ⟨h1, h2, h3, h4, h5, h6⟩ := ih
      { w with
        xcp := { w.xcp with
          Crm := Function.update w.xcp.Crm data (w.mem w.xcp.Mta)
          Mta := w.xcp.Mta + 1 } }
      (data + 1)
    simp only [XcpReadMta]
    refine ⟨h1, h2, h3, ?_, ?_, ?_⟩
    · rw [h4]
      simp [Nat.add_assoc, Nat.add_comm 1 n]
    · intro i hi
      cases i with
      | zero =>
        have := h6 data (Or.inl (by simp))
        simpa using this
      | succ j =>
        have := h5 j (by omega)
        simpa [Nat.add_assoc, Nat.add_comm 1 j] using this
    · intro j hj
      have hne : j ≠ data := by omega
      have := h6 j (by omega)
      simpa [Function.update, hne] using this

/-- SET_MTA in the connected state: the MTA is the pointer of the address,
the memory is untouched and the session stays connected. -/
theorem XcpCommand_SET_MTA_state (cfg : Config) (w : Slave) (pCmd : tXcpCto)
    (hcon : connected w.xcp) (hcmd : pCmd.CRO_CMD = .CC_SET_MTA) :
    (XcpCommand cfg w pCmd).1.mem = w.mem ∧
      (XcpCommand cfg w pCmd).1.xcp.Mta =
        ApplXcpGetPointer cfg pCmd.CRO_SET_MTA_EXT pCmd.CRO_SET_MTA_ADDR ∧
      connected (XcpCommand cfg w pCmd).1.xcp := by
  have hne : pCmd.CRO_CMD ≠ .CC_CONNECT := by rw [hcmd]; decide
  have hb := XcpCommand.body_connected cfg w pCmd hcon hne
  have hc := XcpCommand.entry_connected cfg w hcon
  simp only [XcpCommand, hb, XcpCommand.switch, hcmd, XcpCommand.SET_MTA]
  exact ⟨(XcpCommand.entry_frame cfg w).1, trivial, hc⟩

/-- DOWNLOAD of an admissible size in the connected state: the response is
`FF`, the data bytes are stored from the MTA on, no other byte changes, the
MTA advances by the size and the session stays connected. -/
theorem XcpCommand_DOWNLOAD_state (cfg : Config) (w : Slave) (pCmd : tXcpCto)
    (hcon : connected w.xcp) (hcmd : pCmd.CRO_CMD = .CC_DOWNLOAD)
    (hsize : pCmd.CRO_DOWNLOAD_SIZE % 256 ≤ CRO_DOWNLOAD_MAX_SIZE cfg) :
    (XcpCommand cfg w pCmd).2 = some [0xFF] ∧
      (∀ i, i < pCmd.CRO_DOWNLOAD_SIZE % 256 →
        (XcpCommand cfg w pCmd).1.mem (w.xcp.Mta + i) = pCmd.CRO_DOWNLOAD_DATA i) ∧
      (∀ a, a < w.xcp.Mta ∨ w.xcp.Mta + pCmd.CRO_DOWNLOAD_SIZE % 256 ≤ a →
        (XcpCommand cfg w pCmd).1.mem a = w.mem a) ∧
      (XcpCommand cfg w pCmd).1.xcp.Mta = w.xcp.Mta + pCmd.CRO_DOWNLOAD_SIZE % 256 ∧
      connected (XcpCommand cfg w pCmd).1.xcp := by
  have hne : pCmd.CRO_CMD ≠ .CC_CONNECT := by rw [hcmd]; decide
  have hb := XcpCommand.body_connected cfg w pCmd hcon hne
  have hc := XcpCommand.entry_connected cfg w hcon
  obtain ⟨f1, -, f3, -⟩ := XcpCommand.entry_frame cfg w
  obtain ⟨c1, c2⟩ := XcpCommand.entry_Crm cfg w
  obtain ⟨e1, e2, -, e4, e5⟩ := XcpWriteMta_spec (pCmd.CRO_DOWNLOAD_SIZE % 256)
    (XcpCommand.entry cfg w) pCmd.CRO_DOWNLOAD_DATA
  rw [f3] at e2 e4 e5
  rw [f1] at e5
  have k1 : XCP_CMD_OK ≠ XCP_CMD_PENDING := by decide
  have k2 : XCP_CMD_OK ≠ XCP_CMD_DENIED := by decide
  have k3 : XCP_CMD_OK ≠ XCP_CMD_SYNTAX := by decide
  simp only [XcpCommand, hb, XcpCommand.switch, hcmd, XcpCommand.DOWNLOAD,
    not_lt.mpr hsize, if_false, e1, k1, k2, k3]
  refine ⟨?_, e4, e5, ?_, ?_⟩
  · rw [e2]
    simp [XcpSendCrm, c1, c2, List.range_succ]
  · rw [e2]
  · rw [e2]
    exact hc

/-- UPLOAD of an admissible size in the connected state: the response is
`FF` followed by the bytes at the MTA. -/
theorem XcpCommand_UPLOAD_response (cfg : Config) (w : Slave) (pCmd : tXcpCto)
    (hcon : connected w.xcp) (hcmd : pCmd.CRO_CMD = .CC_UPLOAD)
    (hsize : pCmd.CRO_UPLOAD_SIZE % 256 ≤ CRM_UPLOAD_MAX_SIZE cfg)
    (h255 : pCmd.CRO_UPLOAD_SIZE % 256 < 255) :
    (XcpCommand cfg w pCmd).2 =
      some (0xFF :: (List.range (pCmd.CRO_UPLOAD_SIZE % 256)).map
        (fun i => w.mem (w.xcp.Mta + i))) := by
  have hne : pCmd.CRO_CMD ≠ .CC_CONNECT := by rw [hcmd]; decide
  have hb := XcpCommand.body_connected cfg w pCmd hcon hne
  obtain ⟨f1, -, f3, -⟩ := XcpCommand.entry_frame cfg w
  obtain ⟨c1, c2⟩ := XcpCommand.entry_Crm cfg w
  obtain ⟨e1, -, -, -, e5, e6⟩ := XcpReadMta_spec (pCmd.CRO_UPLOAD_SIZE % 256)
    (XcpCommand.entry cfg w) CRM_UPLOAD_DATA
  rw [f1, f3] at e5
  have k1 : XCP_CMD_OK ≠ XCP_CMD_PENDING := by decide
  have k2 : XCP_CMD_OK ≠ XCP_CMD_DENIED := by decide
  have hm : CRM_UPLOAD_MAX_SIZE cfg % 256 = CRM_UPLOAD_MAX_SIZE cfg := by
    simp [CRM_UPLOAD_MAX_SIZE]
  have hlen : (CRM_UPLOAD_LEN + pCmd.CRO_UPLOAD_SIZE % 256) % 256
      = (pCmd.CRO_UPLOAD_SIZE % 256) + 1 := by
    simp only [CRM_UPLOAD_LEN]; omega
  simp only [XcpCommand, hb, XcpCommand.switch, hcmd, XcpCommand.UPLOAD, hm,
    not_lt.mpr hsize, if_false, e1, k1, k2, XcpSendCrm, hlen]
  rw [List.range_succ_eq_map, List.map_cons, List.map_map]
  congr 2
  · rw [e6 0 (Or.inl (by decide)), c1]
  · apply List.map_congr_left
    intro i hi
    have := e5 i (List.mem_range.mp hi)
    simpa [CRM_UPLOAD_DATA, Nat.add_comm] using this

/-- A list is the list of its elements read by index. -/
theorem map_range_getD (x : List Nat) :
    (List.range x.length).map (fun i => x.getD i 0) = x := by
  apply List.ext_getElem
  · simp
  · intro i h1 h2
    simp [List.getD_eq_getElem?_getD, List.getElem?_eq_getElem h2]

/-- C4: in every connected state, for every address extension `ext`, address
`a` and byte string `x` not longer than the DOWNLOAD and the UPLOAD size
limit, the sequence SET_MTA(a); DOWNLOAD(x); SET_MTA(a); UPLOAD(|x|) ends
with the positive response `FF` followed by `x`. -/
theorem download_upload_roundtrip (cfg : Config) (w : Slave) (ext a : Nat) (x : List Nat)
    (hcon : connected w.xcp)
    (hdown : x.length ≤ CRO_DOWNLOAD_MAX_SIZE cfg)
    (hup : x.length ≤ CRM_UPLOAD_MAX_SIZE cfg) :
    (XcpCommand cfg
        (runCommands cfg w [mkSET_MTA ext a, mkDOWNLOAD x, mkSET_MTA ext a])
        (mkUPLOAD x.length)).2 = some (0xFF :: x) := by
  have hlen : x.length < 255 := by
    simp only [CRO_DOWNLOAD_MAX_SIZE, CRM_UPLOAD_MAX_SIZE] at hdown hup
    omega
  have hmod : x.length % 256 = x.length := Nat.mod_eq_of_lt (by omega)
  simp only [runCommands]
  obtain ⟨-, m1, c1⟩ := XcpCommand_SET_MTA_state cfg w (mkSET_MTA ext a) hcon rfl
  obtain ⟨-, d2, -, -, c2⟩ := XcpCommand_DOWNLOAD_state cfg
    (XcpCommand cfg w (mkSET_MTA ext a)).1 (mkDOWNLOAD x) c1 rfl
    (by simpa [mkDOWNLOAD, hmod] using hdown)
  obtain ⟨s3, m3, c3⟩ := XcpCommand_SET_MTA_state cfg
    (XcpCommand cfg (XcpCommand cfg w (mkSET_MTA ext a)).1 (mkDOWNLOAD x)).1
    (mkSET_MTA ext a) c2 rfl
  rw [XcpCommand_UPLOAD_response cfg _ (mkUPLOAD x.length) c3 rfl
    (by simpa [mkUPLOAD, hmod] using hup) (by simpa [mkUPLOAD, hmod] using hlen)]
  congr 2
  conv_rhs => rw [← map_range_getD x]
  simp only [mkUPLOAD, hmod]
  apply List.map_congr_left
  intro i hi
  rw [s3, m3, ← m1]
  exact d2 i (by simpa [mkDOWNLOAD, hmod] using List.mem_range.mp hi)

/-- Witness of C4: scenario S2 of the spec, the bytes `DE AD BE EF` written
to and read back from address `0x1000`. -/
theorem download_upload_roundtrip_witness :
    connected slaveConnected.xcp ∧
      [0xDE, 0xAD, 0xBE, 0xEF].length ≤ CRO_DOWNLOAD_MAX_SIZE cfg512 ∧
      [0xDE, 0xAD, 0xBE, 0xEF].length ≤ CRM_UPLOAD_MAX_SIZE cfg512 ∧
      (XcpCommand cfg512
        (runCommands cfg512 slaveConnected
          [mkSET_MTA 0 0x1000, mkDOWNLOAD [0xDE, 0xAD, 0xBE, 0xEF], mkSET_MTA 0 0x1000])
        (mkUPLOAD [0xDE, 0xAD, 0xBE, 0xEF].length)).2 = some [0xFF, 0xDE, 0xAD, 0xBE, 0xEF] :=
  ⟨by decide, by decide, by decide,
   download_upload_roundtrip cfg512 slaveConnected 0 0x1000 [0xDE, 0xAD, 0xBE, 0xEF]
     (by decide) (by decide) (by decide)⟩

/-- The response and the state `XcpCommand` makes of a body that leaves
through `negative_response`. -/
theorem XcpCommand_of_negative (cfg : Config) (w w1 : Slave) (pCmd : tXcpCto) (err : Nat)
    (hbody : XcpCommand.body cfg w pCmd = (w1, .negative_response err)) :
    (XcpCommand cfg w pCmd).2 = some [PID_ERR, err % 256] ∧
      samePool w1.xcp (XcpCommand cfg w pCmd).1.xcp ∧
      (XcpCommand cfg w pCmd).1.xcp.SessionStatus = w1.xcp.SessionStatus ∧
      (XcpCommand cfg w pCmd).1.xcp.Mta = w1.xcp.Mta ∧
      (XcpCommand cfg w pCmd).1.xcp.DaqListPtr = w1.xcp.DaqListPtr ∧
      (XcpCommand cfg w pCmd).1.mem = w1.mem ∧
      (XcpCommand cfg w pCmd).1.clock = w1.clock := by
  simp [XcpCommand, hbody, XcpSendCrm, setCrmByte, samePool, CRM_CMD, CRM_ERR,
    List.range_succ, PID_ERR]

/-- The response and the state `XcpCommand` makes of a body that leaves
through `positive_response`. -/
theorem XcpCommand_of_positive (cfg : Config) (w w1 : Slave) (pCmd : tXcpCto)
    (hbody : XcpCommand.body cfg w pCmd = (w1, .positive_response)) :
    XcpCommand cfg w pCmd = (w1, some (XcpSendCrm w1.xcp)) := by
  simp [XcpCommand, hbody]

/-- What `XcpAllocMemory` does: overflow exactly when the 16 bit sum reaches
the arena size; only the arena pointers change. -/
theorem XcpAllocMemory_spec (cfg : Config) (x : tXcpData) :
    (XcpAllocMemory cfg x).2 =
        (if XcpAllocMemory.s cfg x.Daq ≥ cfg.kXcpDaqMemSize % 65536 then CRC_MEMORY_OVERFLOW
         else 0) ∧
      (XcpAllocMemory.s cfg x.Daq ≥ cfg.kXcpDaqMemSize % 65536 → XcpAllocMemory cfg x = (x, CRC_MEMORY_OVERFLOW)) ∧
      (XcpAllocMemory cfg x).1.Daq = x.Daq ∧ (XcpAllocMemory cfg x).1.Odt = x.Odt ∧
      (XcpAllocMemory cfg x).1.OdtEntryAddr = x.OdtEntryAddr ∧
      (XcpAllocMemory cfg x).1.OdtEntrySize = x.OdtEntrySize ∧
      (XcpAllocMemory cfg x).1.Crm = x.Crm ∧ (XcpAllocMemory cfg x).1.CrmLen = x.CrmLen ∧
      (XcpAllocMemory cfg x).1.SessionStatus = x.SessionStatus ∧
      (XcpAllocMemory cfg x).1.Mta = x.Mta ∧
      (XcpAllocMemory cfg x).1.DaqListPtr = x.DaqListPtr := by
  unfold XcpAllocMemory
  split <;> simp_all

/-- The response and the state `XcpCommand` makes of an allocation case,
which leaves through `check_error`. -/
theorem XcpCommand_of_check_error (cfg : Config) (w : Slave) (pCmd : tXcpCto)
    (r : tXcpData × Nat)
    (hbody : XcpCommand.body cfg w pCmd = check_error (XcpCommand.entry cfg w) r)
    (hCrm : r.1.Crm = (XcpCommand.entry cfg w).xcp.Crm)
    (hLen : r.1.CrmLen = (XcpCommand.entry cfg w).xcp.CrmLen) :
    (XcpCommand cfg w pCmd).2 = some (if r.2 = 0 then [0xFF] else [PID_ERR, r.2 % 256]) ∧
      samePool r.1 (XcpCommand cfg w pCmd).1.xcp ∧
      (XcpCommand cfg w pCmd).1.xcp.SessionStatus = r.1.SessionStatus ∧
      (XcpCommand cfg w pCmd).1.xcp.Mta = r.1.Mta ∧
      (XcpCommand cfg w pCmd).1.xcp.DaqListPtr = r.1.DaqListPtr ∧
      (XcpCommand cfg w pCmd).1.mem = w.mem ∧
      (XcpCommand cfg w pCmd).1.clock = w.clock := by
  obtain ⟨c1, c2⟩ := XcpCommand.entry_Crm cfg w
  obtain ⟨f1, f2, -⟩ := XcpCommand.entry_frame cfg w
  by_cases h0 : r.2 = 0
  · have hb : XcpCommand.body cfg w pCmd
        = ({ XcpCommand.entry cfg w with xcp := r.1 }, .positive_response) := by
      rw [hbody]; simp [check_error, h0]
    rw [XcpCommand_of_positive cfg w _ pCmd hb]
    simp [h0, XcpSendCrm, hCrm, hLen, c1, c2, List.range_succ, samePool, f1, f2]
  · have hb : XcpCommand.body cfg w pCmd
        = ({ XcpCommand.entry cfg w with xcp := r.1 }, .negative_response r.2) := by
      rw [hbody]; simp [check_error, h0]
    obtain ⟨g1, g2, g3, g4, g5, g6, g7⟩ := XcpCommand_of_negative cfg w _ pCmd r.2 hb
    simp only [h0, if_false]
    exact ⟨g1, g2, g3, g4, g5, by rw [g6]; exact f1, by rw [g7]; exact f2⟩
/-- The three exits of `XcpAllocDaq` with parameter checks: sequence error,
zero count, and the allocation itself. -/
theorem XcpAllocDaq_spec (cfg : Config) (x : tXcpData) (n : Nat)
    (hpc : cfg.XCP_ENABLE_PARAMETER_CHECK = true) :
    (x.Daq.OdtCount ≠ 0 ∨ x.Daq.OdtEntryCount ≠ 0 → XcpAllocDaq cfg x n = (x, CRC_SEQUENCE)) ∧
      (x.Daq.OdtCount = 0 → x.Daq.OdtEntryCount = 0 → n = 0 →
        XcpAllocDaq cfg x n = (x, CRC_OUT_OF_RANGE)) ∧
      (x.Daq.OdtCount = 0 → x.Daq.OdtEntryCount = 0 → n ≠ 0 →
        XcpAllocDaq cfg x n
          = XcpAllocMemory cfg { x with Daq := { x.Daq with DaqCount := n } }) := by
  refine ⟨?_, ?_, ?_⟩
  · intro h
    simp [XcpAllocDaq, hpc, h]
  · intro h1 h2 h3
    simp [XcpAllocDaq, hpc, h1, h2, h3]
  · intro h1 h2 h3
    simp [XcpAllocDaq, hpc, h1, h2, h3]

/-- The allocation functions leave the response buffer, the session status,
the MTA and the write cursor alone. -/
theorem XcpAllocDaq_frame (cfg : Config) (x : tXcpData) (n : Nat) :
    (XcpAllocDaq cfg x n).1.Crm = x.Crm ∧ (XcpAllocDaq cfg x n).1.CrmLen = x.CrmLen ∧
      (XcpAllocDaq cfg x n).1.SessionStatus = x.SessionStatus ∧
      (XcpAllocDaq cfg x n).1.Mta = x.Mta ∧
      (XcpAllocDaq cfg x n).1.DaqListPtr = x.DaqListPtr := by
  unfold XcpAllocDaq
  split
  · simp
  · split
    · simp
    · obtain ⟨-, -, -, -, -, -, h1, h2, h3, h4, h5⟩ :=
        XcpAllocMemory_spec cfg { x with Daq := { x.Daq with DaqCount := n } }
      exact ⟨h1, h2, h3, h4, h5⟩

/-- The dispatcher's case ALLOC_DAQ in the connected state. -/
theorem XcpCommand_ALLOC_DAQ_eq (cfg : Config) (w : Slave) (pCmd : tXcpCto)
    (hcon : connected w.xcp) (hcmd : pCmd.CRO_CMD = .CC_ALLOC_DAQ) :
    (XcpCommand cfg w pCmd).2 =
        some (if (XcpAllocDaq cfg (XcpCommand.entry cfg w).xcp
                    (pCmd.CRO_ALLOC_DAQ_COUNT % 256)).2 = 0 then [0xFF]
              else [PID_ERR, (XcpAllocDaq cfg (XcpCommand.entry cfg w).xcp
                    (pCmd.CRO_ALLOC_DAQ_COUNT % 256)).2 % 256]) ∧
      samePool (XcpAllocDaq cfg (XcpCommand.entry cfg w).xcp
        (pCmd.CRO_ALLOC_DAQ_COUNT % 256)).1 (XcpCommand cfg w pCmd).1.xcp := by
  have hne : pCmd.CRO_CMD ≠ .CC_CONNECT := by rw [hcmd]; decide
  have hb := XcpCommand.body_connected cfg w pCmd hcon hne
  simp only [XcpCommand.switch, hcmd, XcpCommand.ALLOC_DAQ] at hb
  obtain ⟨h1, h2, -⟩ := XcpAllocDaq_frame cfg (XcpCommand.entry cfg w).xcp
    (pCmd.CRO_ALLOC_DAQ_COUNT % 256)
  obtain ⟨g1, g2, -⟩ := XcpCommand_of_check_error cfg w pCmd _ hb h1 h2
  exact ⟨g1, g2⟩

/-- C5: in every connected state (parameter checks compiled in), with `n`
the count ALLOC_DAQ passes to `XcpAllocDaq`: the answer is CRC_SEQUENCE
exactly when `OdtCount` or `OdtEntryCount` is not zero, and then the pool is
unchanged; when both are zero, `n > 0` and `n` DAQ list records fit the
arena (stay below its size), the answer is positive and `DaqCount = n`. -/
theorem XcpCommand_ALLOC_DAQ_order (cfg : Config) (w : Slave) (pCmd : tXcpCto)
    (hpc : cfg.XCP_ENABLE_PARAMETER_CHECK = true)
    (hsz : cfg.sizeofDaqList < 256) (hmem : cfg.kXcpDaqMemSize < 65536)
    (hcon : connected w.xcp) (hcmd : pCmd.CRO_CMD = .CC_ALLOC_DAQ) :
    ((XcpCommand cfg w pCmd).2 = some [PID_ERR, CRC_SEQUENCE] ↔
        (w.xcp.Daq.OdtCount ≠ 0 ∨ w.xcp.Daq.OdtEntryCount ≠ 0)) ∧
      ((w.xcp.Daq.OdtCount ≠ 0 ∨ w.xcp.Daq.OdtEntryCount ≠ 0) →
        samePool w.xcp (XcpCommand cfg w pCmd).1.xcp) ∧
      (w.xcp.Daq.OdtCount = 0 → w.xcp.Daq.OdtEntryCount = 0 →
        0 < pCmd.CRO_ALLOC_DAQ_COUNT % 256 →
        pCmd.CRO_ALLOC_DAQ_COUNT % 256 * cfg.sizeofDaqList < cfg.kXcpDaqMemSize →
        (XcpCommand cfg w pCmd).2 = some [0xFF] ∧
          (XcpCommand cfg w pCmd).1.xcp.Daq.DaqCount = pCmd.CRO_ALLOC_DAQ_COUNT % 256) := by
  obtain ⟨e1, e2⟩ := XcpCommand_ALLOC_DAQ_eq cfg w pCmd hcon hcmd
  obtain ⟨-, -, -, fD, fO, fA, fS, fp1, fp2, fp3, -⟩ := XcpCommand.entry_frame cfg w
  generalize (XcpCommand.entry cfg w).xcp = x0 at *
  generalize pCmd.CRO_ALLOC_DAQ_COUNT % 256 = n at *
  obtain ⟨s1, s2, s3⟩ := XcpAllocDaq_spec cfg x0 n hpc
  obtain ⟨hs, -, hD, -⟩ := XcpAllocMemory_spec cfg { x0 with Daq := { x0.Daq with DaqCount := n } }
  have hpool : ∀ {y : tXcpData}, samePool x0 y → samePool w.xcp y := by
    intro y ⟨a1, a2, a3, a4, a5, a6, a7⟩
    exact ⟨a1.trans fD, a2.trans fO, a3.trans fA, a4.trans fS, a5.trans fp1, a6.trans fp2,
      a7.trans fp3⟩
  refine ⟨⟨?_, ?_⟩, ?_, ?_⟩
  · intro hresp
    by_contra hzero
    push_neg at hzero
    obtain ⟨z1, z2⟩ := hzero
    rw [← fD] at z1 z2
    rw [e1] at hresp
    by_cases hn : n = 0
    · rw [s2 z1 z2 hn] at hresp
      simp [PID_ERR, CRC_SEQUENCE, CRC_OUT_OF_RANGE] at hresp
    · rw [s3 z1 z2 hn, hs] at hresp
      split at hresp <;> simp [PID_ERR, CRC_SEQUENCE, CRC_MEMORY_OVERFLOW] at hresp
  · intro hseq
    rw [← fD] at hseq
    rw [e1, s1 hseq]
    simp [PID_ERR, CRC_SEQUENCE]
  · intro hseq
    rw [← fD] at hseq
    rw [s1 hseq] at e2
    exact hpool e2
  · intro z1 z2 hn hfit
    have hn0 : n ≠ 0 := by omega
    rw [← fD] at z1 z2
    rw [s3 z1 z2 hn0] at e1 e2
    have hlt : ¬ XcpAllocMemory.s cfg { x0.Daq with DaqCount := n }
        ≥ cfg.kXcpDaqMemSize % 65536 := by
      simp only [XcpAllocMemory.s, z1, z2, Nat.zero_mul, Nat.add_zero,
        Nat.mod_eq_of_lt hsz, Nat.mod_eq_of_lt hmem]
      rw [Nat.mod_eq_of_lt (by omega)]
      omega
    rw [hs, if_neg hlt] at e1
    refine ⟨by simpa using e1, ?_⟩
    rw [e2.1, hD]

/-- Witness of C5: ALLOC_DAQ(1) sent to the connected slave with an empty
pool. -/
theorem XcpCommand_ALLOC_DAQ_order_witness :
    connected slaveConnected.xcp ∧
      (XcpCommand cfg512 slaveConnected (mkALLOC_DAQ 1)).2 = some [0xFF] ∧
      (XcpCommand cfg512 slaveConnected (mkALLOC_DAQ 1)).1.xcp.Daq.DaqCount = 1 :=
  ⟨by decide,
   (XcpCommand_ALLOC_DAQ_order cfg512 slaveConnected (mkALLOC_DAQ 1) rfl (by decide)
      (by decide) (by decide) rfl).2.2 rfl rfl (by decide) (by decide)⟩

/-- C6, the code at the failing input: directly after CONNECT (`DaqCount`
is zero) ALLOC_ODT(0, 1) is answered `FE 22` (CRC_OUT_OF_RANGE) by the range
check of the dispatcher, not `FE 29`; `XcpAllocOdt`, whose sequence check
would answer CRC_SEQUENCE in that state, is not reached. -/
theorem XcpCommand_ALLOC_ODT_before_ALLOC_DAQ :
    connected slaveConnected.xcp ∧ slaveConnected.xcp.Daq.DaqCount = 0 ∧
      (XcpCommand cfg512 slaveConnected (mkALLOC_ODT 0 1)).2 = some [0xFE, 0x22] ∧
      (XcpCommand cfg512 slaveConnected (mkALLOC_ODT 0 1)).2
        ≠ some [PID_ERR, CRC_SEQUENCE] ∧
      (XcpAllocOdt cfg512 slaveConnected.xcp 0 1).2 = CRC_SEQUENCE := by
  decide


/-- The pool is untouched by the entry of the `switch`. -/
theorem XcpCommand.entry_samePool (cfg : Config) (w : Slave) :
    samePool w.xcp (XcpCommand.entry cfg w).xcp := by
  obtain ⟨-, -, -, fD, fO, fA, fS, fp1, fp2, fp3, -⟩ := XcpCommand.entry_frame cfg w
  exact ⟨fD, fO, fA, fS, fp1, fp2, fp3⟩

/-- Having the same pool is transitive. -/
theorem samePool_trans {x y z : tXcpData} (h1 : samePool x y) (h2 : samePool y z) :
    samePool x z := by
  obtain ⟨a1, a2, a3, a4, a5, a6, a7⟩ := h1
  obtain ⟨b1, b2, b3, b4, b5, b6, b7⟩ := h2
  exact ⟨b1.trans a1, b2.trans a2, b3.trans a3, b4.trans a4, b5.trans a5, b6.trans a6,
    b7.trans a7⟩

/-- A case of the `switch` that leaves through `error(e)` without a change:
the response is `FE e` and the pool is unchanged. -/
theorem XcpCommand_of_error (cfg : Config) (w : Slave) (pCmd : tXcpCto) (err : Nat)
    (hcon : connected w.xcp) (hcmd : pCmd.CRO_CMD ≠ .CC_CONNECT)
    (hsw : XcpCommand.switch cfg (XcpCommand.entry cfg w) pCmd
      = (XcpCommand.entry cfg w, .negative_response err)) :
    (XcpCommand cfg w pCmd).2 = some [PID_ERR, err % 256] ∧
      samePool w.xcp (XcpCommand cfg w pCmd).1.xcp := by
  have hb := XcpCommand.body_connected cfg w pCmd hcon hcmd
  rw [hsw] at hb
  obtain ⟨g1, g2, -⟩ := XcpCommand_of_negative cfg w _ pCmd err hb
  exact ⟨g1, samePool_trans (XcpCommand.entry_samePool cfg w) g2⟩

/-- The exits of `XcpAllocOdt` with parameter checks: sequence error, zero
count, and the allocation itself. -/
theorem XcpAllocOdt_spec (cfg : Config) (x : tXcpData) (daq n : Nat)
    (hpc : cfg.XCP_ENABLE_PARAMETER_CHECK = true) :
    (x.Daq.DaqCount = 0 ∨ x.Daq.OdtEntryCount ≠ 0 → XcpAllocOdt cfg x daq n = (x, CRC_SEQUENCE)) ∧
      (x.Daq.DaqCount ≠ 0 → x.Daq.OdtEntryCount = 0 → n = 0 →
        XcpAllocOdt cfg x daq n = (x, CRC_OUT_OF_RANGE)) := by
  refine ⟨?_, ?_⟩
  · intro h
    simp [XcpAllocOdt, hpc, h]
  · intro h1 h2 h3
    simp [XcpAllocOdt, hpc, h1, h2, h3]

/-- The exits of `XcpAllocOdtEntry` with parameter checks: sequence error and
zero count. -/
theorem XcpAllocOdtEntry_spec (cfg : Config) (x : tXcpData) (daq odt n : Nat)
    (hpc : cfg.XCP_ENABLE_PARAMETER_CHECK = true) :
    (x.Daq.DaqCount = 0 ∨ x.Daq.OdtCount = 0 →
        XcpAllocOdtEntry cfg x daq odt n = (x, CRC_SEQUENCE)) ∧
      (x.Daq.DaqCount ≠ 0 → x.Daq.OdtCount ≠ 0 → n = 0 →
        XcpAllocOdtEntry cfg x daq odt n = (x, CRC_OUT_OF_RANGE)) := by
  refine ⟨?_, ?_⟩
  · intro h
    simp [XcpAllocOdtEntry, hpc, h]
  · intro h1 h2 h3
    simp [XcpAllocOdtEntry, hpc, h1, h2, h3]

/-- The function `XcpAllocOdt` leaves the response buffer, the session
status, the MTA and the write cursor alone. -/
theorem XcpAllocOdt_frame (cfg : Config) (x : tXcpData) (daq n : Nat) :
    (XcpAllocOdt cfg x daq n).1.Crm = x.Crm ∧ (XcpAllocOdt cfg x daq n).1.CrmLen = x.CrmLen ∧
      (XcpAllocOdt cfg x daq n).1.SessionStatus = x.SessionStatus ∧
      (XcpAllocOdt cfg x daq n).1.Mta = x.Mta ∧
      (XcpAllocOdt cfg x daq n).1.DaqListPtr = x.DaqListPtr := by
  unfold XcpAllocOdt
  split
  · simp
  · split
    · simp
    · simp only []
      generalize hx3 : setDaqList _ _ _ = x3
      obtain ⟨-, -, -, -, -, -, h1, h2, h3, h4, h5⟩ := XcpAllocMemory_spec cfg x3
      rw [h1, h2, h3, h4, h5, ← hx3]
      simp [setDaqList]

/-- The function `XcpAllocOdtEntry` leaves the response buffer, the session
status, the MTA and the write cursor alone. -/
theorem XcpAllocOdtEntry_frame (cfg : Config) (x : tXcpData) (daq odt n : Nat) :
    (XcpAllocOdtEntry cfg x daq odt n).1.Crm = x.Crm ∧
      (XcpAllocOdtEntry cfg x daq odt n).1.CrmLen = x.CrmLen ∧
      (XcpAllocOdtEntry cfg x daq odt n).1.SessionStatus = x.SessionStatus ∧
      (XcpAllocOdtEntry cfg x daq odt n).1.Mta = x.Mta ∧
      (XcpAllocOdtEntry cfg x daq odt n).1.DaqListPtr = x.DaqListPtr := by
  unfold XcpAllocOdtEntry
  split
  · simp
  · split
    · simp
    · split
      · simp
      · simp only []
        generalize hx3 : setOdt _ _ _ = x3
        obtain ⟨-, -, -, -, -, -, h1, h2, h3, h4, h5⟩ := XcpAllocMemory_spec cfg x3
        rw [h1, h2, h3, h4, h5, ← hx3]
        simp [setOdt]

/-- The dispatcher's case ALLOC_ODT in the connected state: the range check
of the DAQ list number, then `XcpAllocOdt`. -/
theorem XcpCommand_ALLOC_ODT_eq (cfg : Config) (w : Slave) (pCmd : tXcpCto)
    (hcon : connected w.xcp) (hcmd : pCmd.CRO_CMD = .CC_ALLOC_ODT) :
    (cfg.XCP_ENABLE_PARAMETER_CHECK = true ∧ pCmd.CRO_ALLOC_ODT_DAQ % 256 ≥ w.xcp.Daq.DaqCount →
        (XcpCommand cfg w pCmd).2 = some [PID_ERR, CRC_OUT_OF_RANGE] ∧
          samePool w.xcp (XcpCommand cfg w pCmd).1.xcp) ∧
      (¬ (cfg.XCP_ENABLE_PARAMETER_CHECK = true ∧
            pCmd.CRO_ALLOC_ODT_DAQ % 256 ≥ w.xcp.Daq.DaqCount) →
        (XcpCommand cfg w pCmd).2 =
            some (if (XcpAllocOdt cfg (XcpCommand.entry cfg w).xcp
                    (pCmd.CRO_ALLOC_ODT_DAQ % 256) (pCmd.CRO_ALLOC_ODT_COUNT % 256)).2 = 0
                  then [0xFF]
                  else [PID_ERR, (XcpAllocOdt cfg (XcpCommand.entry cfg w).xcp
                    (pCmd.CRO_ALLOC_ODT_DAQ % 256) (pCmd.CRO_ALLOC_ODT_COUNT % 256)).2 % 256]) ∧
          samePool (XcpAllocOdt cfg (XcpCommand.entry cfg w).xcp
            (pCmd.CRO_ALLOC_ODT_DAQ % 256) (pCmd.CRO_ALLOC_ODT_COUNT % 256)).1
            (XcpCommand cfg w pCmd).1.xcp) := by
  have hne : pCmd.CRO_CMD ≠ .CC_CONNECT := by rw [hcmd]; decide
  have fD := (XcpCommand.entry_frame cfg w).2.2.2.1
  refine ⟨?_, ?_⟩
  · intro hr
    have hsw : XcpCommand.switch cfg (XcpCommand.entry cfg w) pCmd
        = (XcpCommand.entry cfg w, .negative_response CRC_OUT_OF_RANGE) := by
      simp only [XcpCommand.switch, hcmd, XcpCommand.ALLOC_ODT, fD]
      rw [if_pos (by simpa using hr)]
    exact XcpCommand_of_error cfg w pCmd _ hcon hne hsw
  · intro hr
    have hb := XcpCommand.body_connected cfg w pCmd hcon hne
    simp only [XcpCommand.switch, hcmd, XcpCommand.ALLOC_ODT, fD] at hb
    rw [if_neg (by simpa using hr)] at hb
    obtain ⟨h1, h2, -⟩ := XcpAllocOdt_frame cfg (XcpCommand.entry cfg w).xcp
      (pCmd.CRO_ALLOC_ODT_DAQ % 256) (pCmd.CRO_ALLOC_ODT_COUNT % 256)
    obtain ⟨g1, g2, -⟩ := XcpCommand_of_check_error cfg w pCmd _ hb h1 h2
    exact ⟨g1, g2⟩

/-- The number of ODTs of a list is read from the pool only. -/
theorem XcpCommand.entry_DaqListOdtCount (cfg : Config) (w : Slave) (daq : Nat) :
    DaqListOdtCount (XcpCommand.entry cfg w).xcp daq = DaqListOdtCount w.xcp daq := by
  simp [DaqListOdtCount, (XcpCommand.entry_frame cfg w).2.2.2.1]

/-- The dispatcher's case ALLOC_ODT_ENTRY in the connected state: the range
check of the DAQ list and ODT numbers, then `XcpAllocOdtEntry`. -/
theorem XcpCommand_ALLOC_ODT_ENTRY_eq (cfg : Config) (w : Slave) (pCmd : tXcpCto)
    (hcon : connected w.xcp) (hcmd : pCmd.CRO_CMD = .CC_ALLOC_ODT_ENTRY) :
    (cfg.XCP_ENABLE_PARAMETER_CHECK = true ∧
        (pCmd.CRO_ALLOC_ODT_ENTRY_DAQ % 256 ≥ w.xcp.Daq.DaqCount ∨
          pCmd.CRO_ALLOC_ODT_ENTRY_ODT % 256
            ≥ toUInt8 (DaqListOdtCount w.xcp (pCmd.CRO_ALLOC_ODT_ENTRY_DAQ % 256))) →
        (XcpCommand cfg w pCmd).2 = some [PID_ERR, CRC_OUT_OF_RANGE] ∧
          samePool w.xcp (XcpCommand cfg w pCmd).1.xcp) ∧
      (¬ (cfg.XCP_ENABLE_PARAMETER_CHECK = true ∧
          (pCmd.CRO_ALLOC_ODT_ENTRY_DAQ % 256 ≥ w.xcp.Daq.DaqCount ∨
            pCmd.CRO_ALLOC_ODT_ENTRY_ODT % 256
              ≥ toUInt8 (DaqListOdtCount w.xcp (pCmd.CRO_ALLOC_ODT_ENTRY_DAQ % 256)))) →
        (XcpCommand cfg w pCmd).2 =
            some (if (XcpAllocOdtEntry cfg (XcpCommand.entry cfg w).xcp
                    (pCmd.CRO_ALLOC_ODT_ENTRY_DAQ % 256) (pCmd.CRO_ALLOC_ODT_ENTRY_ODT % 256)
                    (pCmd.CRO_ALLOC_ODT_ENTRY_COUNT % 256)).2 = 0
                  then [0xFF]
                  else [PID_ERR, (XcpAllocOdtEntry cfg (XcpCommand.entry cfg w).xcp
                    (pCmd.CRO_ALLOC_ODT_ENTRY_DAQ % 256) (pCmd.CRO_ALLOC_ODT_ENTRY_ODT % 256)
                    (pCmd.CRO_ALLOC_ODT_ENTRY_COUNT % 256)).2 % 256]) ∧
          samePool (XcpAllocOdtEntry cfg (XcpCommand.entry cfg w).xcp
            (pCmd.CRO_ALLOC_ODT_ENTRY_DAQ % 256) (pCmd.CRO_ALLOC_ODT_ENTRY_ODT % 256)
            (pCmd.CRO_ALLOC_ODT_ENTRY_COUNT % 256)).1
            (XcpCommand cfg w pCmd).1.xcp) := by
  have hne : pCmd.CRO_CMD ≠ .CC_CONNECT := by rw [hcmd]; decide
  have fD := (XcpCommand.entry_frame cfg w).2.2.2.1
  have fC := XcpCommand.entry_DaqListOdtCount cfg w (pCmd.CRO_ALLOC_ODT_ENTRY_DAQ % 256)
  refine ⟨?_, ?_⟩
  · intro hr
    have hsw : XcpCommand.switch cfg (XcpCommand.entry cfg w) pCmd
        = (XcpCommand.entry cfg w, .negative_response CRC_OUT_OF_RANGE) := by
      simp only [XcpCommand.switch, hcmd, XcpCommand.ALLOC_ODT_ENTRY, fD, fC]
      rw [if_pos (by simpa using hr)]
    exact XcpCommand_of_error cfg w pCmd _ hcon hne hsw
  · intro hr
    have hb := XcpCommand.body_connected cfg w pCmd hcon hne
    simp only [XcpCommand.switch, hcmd, XcpCommand.ALLOC_ODT_ENTRY, fD, fC] at hb
    rw [if_neg (by simpa using hr)] at hb
    obtain ⟨h1, h2, -⟩ := XcpAllocOdtEntry_frame cfg (XcpCommand.entry cfg w).xcp
      (pCmd.CRO_ALLOC_ODT_ENTRY_DAQ % 256) (pCmd.CRO_ALLOC_ODT_ENTRY_ODT % 256)
      (pCmd.CRO_ALLOC_ODT_ENTRY_COUNT % 256)
    obtain ⟨g1, g2, -⟩ := XcpCommand_of_check_error cfg w pCmd _ hb h1 h2
    exact ⟨g1, g2⟩

/-- C7, counterexample: after CONNECT, ALLOC_DAQ(1), ALLOC_ODT(0, 1) the
session is connected and ALLOC_DAQ(0) is answered `FE 29` (CRC_SEQUENCE), not
CRC_OUT_OF_RANGE. -/
theorem XcpCommand_ALLOC_DAQ_zero_sequence :
    connected (runCommands cfg512 slaveConnected [mkALLOC_DAQ 1, mkALLOC_ODT 0 1]).xcp ∧
      (XcpCommand cfg512 (runCommands cfg512 slaveConnected [mkALLOC_DAQ 1, mkALLOC_ODT 0 1])
        (mkALLOC_DAQ 0)).2 = some [PID_ERR, CRC_SEQUENCE] ∧
      (XcpCommand cfg512 (runCommands cfg512 slaveConnected [mkALLOC_DAQ 1, mkALLOC_ODT 0 1])
        (mkALLOC_DAQ 0)).2 ≠ some [PID_ERR, CRC_OUT_OF_RANGE] := by
  decide

/-- C7, amended: in every connected state (parameter checks compiled in)
ALLOC_DAQ(0) and, when `DaqCount` is not zero, ALLOC_ODT(daq, 0) and
ALLOC_ODT_ENTRY(daq, odt, 0) are answered negatively and leave the pool
unchanged.  The answer is CRC_OUT_OF_RANGE unless the allocation order check
of the command fails first, in which case it is CRC_SEQUENCE: for ALLOC_DAQ
when `OdtCount` or `OdtEntryCount` is not zero, for ALLOC_ODT when `daq` is
in range and `OdtEntryCount` is not zero, for ALLOC_ODT_ENTRY when `daq` and
`odt` are in range and `OdtCount` is zero. -/
theorem XcpCommand_ALLOC_zero_count (cfg : Config) (w : Slave) (pCmd : tXcpCto)
    (hpc : cfg.XCP_ENABLE_PARAMETER_CHECK = true) (hcon : connected w.xcp) :
    (pCmd.CRO_CMD = .CC_ALLOC_DAQ → pCmd.CRO_ALLOC_DAQ_COUNT % 256 = 0 →
        (XcpCommand cfg w pCmd).2 =
            some [PID_ERR,
              if w.xcp.Daq.OdtCount ≠ 0 ∨ w.xcp.Daq.OdtEntryCount ≠ 0 then CRC_SEQUENCE
              else CRC_OUT_OF_RANGE] ∧
          samePool w.xcp (XcpCommand cfg w pCmd).1.xcp) ∧
      (pCmd.CRO_CMD = .CC_ALLOC_ODT → pCmd.CRO_ALLOC_ODT_COUNT % 256 = 0 →
        w.xcp.Daq.DaqCount ≠ 0 →
        (XcpCommand cfg w pCmd).2 =
            some [PID_ERR,
              if pCmd.CRO_ALLOC_ODT_DAQ % 256 < w.xcp.Daq.DaqCount ∧
                  w.xcp.Daq.OdtEntryCount ≠ 0 then CRC_SEQUENCE
              else CRC_OUT_OF_RANGE] ∧
          samePool w.xcp (XcpCommand cfg w pCmd).1.xcp) ∧
      (pCmd.CRO_CMD = .CC_ALLOC_ODT_ENTRY → pCmd.CRO_ALLOC_ODT_ENTRY_COUNT % 256 = 0 →
        w.xcp.Daq.DaqCount ≠ 0 →
        (XcpCommand cfg w pCmd).2 =
            some [PID_ERR,
              if pCmd.CRO_ALLOC_ODT_ENTRY_DAQ % 256 < w.xcp.Daq.DaqCount ∧
                  pCmd.CRO_ALLOC_ODT_ENTRY_ODT % 256
                    < toUInt8 (DaqListOdtCount w.xcp (pCmd.CRO_ALLOC_ODT_ENTRY_DAQ % 256)) ∧
                  w.xcp.Daq.OdtCount = 0 then CRC_SEQUENCE
              else CRC_OUT_OF_RANGE] ∧
          samePool w.xcp (XcpCommand cfg w pCmd).1.xcp) := by
  have fD := (XcpCommand.entry_frame cfg w).2.2.2.1
  have hP := XcpCommand.entry_samePool cfg w
  refine ⟨?_, ?_, ?_⟩
  · intro hcmd hn
    obtain ⟨e1, e2⟩ := XcpCommand_ALLOC_DAQ_eq cfg w pCmd hcon hcmd
    obtain ⟨s1, s2, -⟩ := XcpAllocDaq_spec cfg (XcpCommand.entry cfg w).xcp
      (pCmd.CRO_ALLOC_DAQ_COUNT % 256) hpc
    rw [fD] at s1 s2
    by_cases hseq : w.xcp.Daq.OdtCount ≠ 0 ∨ w.xcp.Daq.OdtEntryCount ≠ 0
    · rw [s1 hseq] at e1 e2
      rw [e1, if_pos hseq]
      exact ⟨by simp [CRC_SEQUENCE], samePool_trans hP e2⟩
    · have hz := hseq
      push_neg at hz
      rw [s2 hz.1 hz.2 hn] at e1 e2
      rw [e1, if_neg hseq]
      exact ⟨by simp [CRC_OUT_OF_RANGE], samePool_trans hP e2⟩
  · intro hcmd hn _
    obtain ⟨r1, r2⟩ := XcpCommand_ALLOC_ODT_eq cfg w pCmd hcon hcmd
    obtain ⟨s1, s2⟩ := XcpAllocOdt_spec cfg (XcpCommand.entry cfg w).xcp
      (pCmd.CRO_ALLOC_ODT_DAQ % 256) (pCmd.CRO_ALLOC_ODT_COUNT % 256) hpc
    rw [fD] at s1 s2
    by_cases hr : pCmd.CRO_ALLOC_ODT_DAQ % 256 ≥ w.xcp.Daq.DaqCount
    · obtain ⟨g1, g2⟩ := r1 ⟨hpc, hr⟩
      have hc : ¬ (pCmd.CRO_ALLOC_ODT_DAQ % 256 < w.xcp.Daq.DaqCount ∧
          w.xcp.Daq.OdtEntryCount ≠ 0) := by omega
      rw [g1, if_neg hc]
      exact ⟨rfl, g2⟩
    · obtain ⟨g1, g2⟩ := r2 (by tauto)
      have hD : w.xcp.Daq.DaqCount ≠ 0 := by omega
      by_cases he : w.xcp.Daq.OdtEntryCount ≠ 0
      · rw [s1 (Or.inr he)] at g1 g2
        have hc : pCmd.CRO_ALLOC_ODT_DAQ % 256 < w.xcp.Daq.DaqCount ∧
            w.xcp.Daq.OdtEntryCount ≠ 0 := ⟨by omega, he⟩
        rw [g1, if_pos hc]
        exact ⟨by simp [CRC_SEQUENCE], samePool_trans hP g2⟩
      · rw [s2 hD (by simpa using he) hn] at g1 g2
        have hc : ¬ (pCmd.CRO_ALLOC_ODT_DAQ % 256 < w.xcp.Daq.DaqCount ∧
            w.xcp.Daq.OdtEntryCount ≠ 0) := by tauto
        rw [g1, if_neg hc]
        exact ⟨by simp [CRC_OUT_OF_RANGE], samePool_trans hP g2⟩
  · intro hcmd hn _
    obtain ⟨r1, r2⟩ := XcpCommand_ALLOC_ODT_ENTRY_eq cfg w pCmd hcon hcmd
    obtain ⟨s1, s2⟩ := XcpAllocOdtEntry_spec cfg (XcpCommand.entry cfg w).xcp
      (pCmd.CRO_ALLOC_ODT_ENTRY_DAQ % 256) (pCmd.CRO_ALLOC_ODT_ENTRY_ODT % 256)
      (pCmd.CRO_ALLOC_ODT_ENTRY_COUNT % 256) hpc
    rw [fD] at s1 s2
    by_cases hr : pCmd.CRO_ALLOC_ODT_ENTRY_DAQ % 256 ≥ w.xcp.Daq.DaqCount ∨
          pCmd.CRO_ALLOC_ODT_ENTRY_ODT % 256
            ≥ toUInt8 (DaqListOdtCount w.xcp (pCmd.CRO_ALLOC_ODT_ENTRY_DAQ % 256))
    · obtain ⟨g1, g2⟩ := r1 ⟨hpc, hr⟩
      have hc : ¬ (pCmd.CRO_ALLOC_ODT_ENTRY_DAQ % 256 < w.xcp.Daq.DaqCount ∧
          pCmd.CRO_ALLOC_ODT_ENTRY_ODT % 256
            < toUInt8 (DaqListOdtCount w.xcp (pCmd.CRO_ALLOC_ODT_ENTRY_DAQ % 256)) ∧
          w.xcp.Daq.OdtCount = 0) := by omega
      rw [g1, if_neg hc]
      exact ⟨rfl, g2⟩
    · obtain ⟨g1, g2⟩ := r2 (by tauto)
      have hr' := hr
      push_neg at hr'
      have hD : w.xcp.Daq.DaqCount ≠ 0 := by omega
      by_cases ho : w.xcp.Daq.OdtCount = 0
      · rw [s1 (Or.inr ho)] at g1 g2
        have hc : pCmd.CRO_ALLOC_ODT_ENTRY_DAQ % 256 < w.xcp.Daq.DaqCount ∧
            pCmd.CRO_ALLOC_ODT_ENTRY_ODT % 256
              < toUInt8 (DaqListOdtCount w.xcp (pCmd.CRO_ALLOC_ODT_ENTRY_DAQ % 256)) ∧
            w.xcp.Daq.OdtCount = 0 := ⟨hr'.1, hr'.2, ho⟩
        rw [g1, if_pos hc]
        exact ⟨by simp [CRC_SEQUENCE], samePool_trans hP g2⟩
      · rw [s2 hD ho hn] at g1 g2
        have hc : ¬ (pCmd.CRO_ALLOC_ODT_ENTRY_DAQ % 256 < w.xcp.Daq.DaqCount ∧
            pCmd.CRO_ALLOC_ODT_ENTRY_ODT % 256
              < toUInt8 (DaqListOdtCount w.xcp (pCmd.CRO_ALLOC_ODT_ENTRY_DAQ % 256)) ∧
            w.xcp.Daq.OdtCount = 0) := by tauto
        rw [g1, if_neg hc]
        exact ⟨by simp [CRC_OUT_OF_RANGE], samePool_trans hP g2⟩

/-- Witness of C7, amended: ALLOC_DAQ(0) sent to the connected slave with an
empty pool is answered CRC_OUT_OF_RANGE. -/
theorem XcpCommand_ALLOC_zero_count_witness :
    connected slaveConnected.xcp ∧
      (XcpCommand cfg512 slaveConnected (mkALLOC_DAQ 0)).2 = some [PID_ERR, CRC_OUT_OF_RANGE] :=
  ⟨by decide,
   ((XcpCommand_ALLOC_zero_count cfg512 slaveConnected (mkALLOC_DAQ 0) rfl (by decide)).1
      rfl rfl).1⟩


/-- When `XcpAllocMemory` reports an overflow it changes nothing. -/
theorem XcpAllocMemory_overflow (cfg : Config) (x : tXcpData)
    (h : (XcpAllocMemory cfg x).2 = CRC_MEMORY_OVERFLOW) : (XcpAllocMemory cfg x).1 = x := by
  unfold XcpAllocMemory at h ⊢
  split
  · rfl
  · rename_i hc
    rw [if_neg hc] at h
    simp [CRC_MEMORY_OVERFLOW] at h

/-- The status of `XcpAllocMemory` is a byte. -/
theorem XcpAllocMemory_lt (cfg : Config) (x : tXcpData) : (XcpAllocMemory cfg x).2 < 256 := by
  rw [(XcpAllocMemory_spec cfg x).1]
  split <;> simp [CRC_MEMORY_OVERFLOW]

/-- The status of `XcpAllocDaq` is a byte. -/
theorem XcpAllocDaq_lt (cfg : Config) (x : tXcpData) (n : Nat) :
    (XcpAllocDaq cfg x n).2 < 256 := by
  unfold XcpAllocDaq
  split
  · simp [CRC_SEQUENCE]
  · split
    · simp [CRC_OUT_OF_RANGE]
    · exact XcpAllocMemory_lt cfg _

/-- The status of `XcpAllocOdt` is a byte. -/
theorem XcpAllocOdt_lt (cfg : Config) (x : tXcpData) (daq n : Nat) :
    (XcpAllocOdt cfg x daq n).2 < 256 := by
  unfold XcpAllocOdt
  split
  · simp [CRC_SEQUENCE]
  · split
    · simp [CRC_OUT_OF_RANGE]
    · exact XcpAllocMemory_lt cfg _

/-- The status of `XcpAllocOdtEntry` is a byte. -/
theorem XcpAllocOdtEntry_lt (cfg : Config) (x : tXcpData) (daq odt n : Nat) :
    (XcpAllocOdtEntry cfg x daq odt n).2 < 256 := by
  unfold XcpAllocOdtEntry
  split
  · simp [CRC_SEQUENCE]
  · split
    · simp [CRC_OUT_OF_RANGE]
    · split
      · simp [CRC_MEMORY_OVERFLOW]
      · exact XcpAllocMemory_lt cfg _

/-- The response made of a status byte `e` names the error `c` exactly when
`e` is `c`. -/
theorem response_eq_error_iff (e c : Nat) (he : e < 256) (hc : c ≠ 0) :
    some (if e = 0 then [0xFF] else [PID_ERR, e % 256]) = some [PID_ERR, c] ↔ e = c := by
  rw [Nat.mod_eq_of_lt he]
  constructor
  · intro h
    split at h
    · simp [PID_ERR] at h
    · simpa using h
  · intro h
    subst h
    simp [hc]

/-- The state `XcpAllocDaq` leaves when it reports an overflow: the new
`DaqCount` is kept. -/
theorem XcpAllocDaq_overflow (cfg : Config) (x : tXcpData) (n : Nat)
    (h : (XcpAllocDaq cfg x n).2 = CRC_MEMORY_OVERFLOW) :
    (XcpAllocDaq cfg x n).1 = { x with Daq := { x.Daq with DaqCount := n } } := by
  unfold XcpAllocDaq at h ⊢
  split
  · rename_i hc
    rw [if_pos hc] at h
    simp [CRC_SEQUENCE, CRC_MEMORY_OVERFLOW] at h
  · rename_i hc
    rw [if_neg hc] at h
    split
    · rename_i hc2
      rw [if_pos hc2] at h
      simp [CRC_OUT_OF_RANGE, CRC_MEMORY_OVERFLOW] at h
    · rename_i hc2
      rw [if_neg hc2] at h
      exact XcpAllocMemory_overflow cfg _ h

/-- The state `XcpAllocOdt` leaves when it reports an overflow: the new
`OdtCount` and the ODT range of the list are kept. -/
theorem XcpAllocOdt_overflow (cfg : Config) (x : tXcpData) (daq n : Nat)
    (h : (XcpAllocOdt cfg x daq n).2 = CRC_MEMORY_OVERFLOW) :
    (XcpAllocOdt cfg x daq n).1 =
      { x with Daq := { x.Daq with
          OdtCount := (x.Daq.OdtCount + n) % 65536
          DaqList := Function.update x.Daq.DaqList daq
            { x.Daq.DaqList daq with
              firstOdt := x.Daq.OdtCount
              lastOdt := ((x.Daq.OdtCount + n) % 65536 + 65535) % 65536 } } } := by
  unfold XcpAllocOdt at h ⊢
  split
  · rename_i hc
    rw [if_pos hc] at h
    simp [CRC_SEQUENCE, CRC_MEMORY_OVERFLOW] at h
  · rename_i hc
    rw [if_neg hc] at h
    split
    · rename_i hc2
      rw [if_pos hc2] at h
      simp [CRC_OUT_OF_RANGE, CRC_MEMORY_OVERFLOW] at h
    · rename_i hc2
      rw [if_neg hc2] at h
      rw [XcpAllocMemory_overflow cfg _ h]
      simp [setDaqList]

/-- The state `XcpAllocOdtEntry` leaves when it reports an overflow: nothing
changes when the entry count would pass `0xFFFF`; otherwise the new
`OdtEntryCount` and the entry range of the ODT are kept. -/
theorem XcpAllocOdtEntry_overflow (cfg : Config) (x : tXcpData) (daq odt n : Nat)
    (h : (XcpAllocOdtEntry cfg x daq odt n).2 = CRC_MEMORY_OVERFLOW) :
    (XcpAllocOdtEntry cfg x daq odt n).1 =
      (if x.Daq.OdtEntryCount > 0xFFFF - n then x
       else
        { x with
          Daq := { x.Daq with OdtEntryCount := (x.Daq.OdtEntryCount + n) % 65536 }
          Odt := Function.update x.Odt ((x.Daq.DaqList daq).firstOdt + odt)
            { x.Odt ((x.Daq.DaqList daq).firstOdt + odt) with
              firstOdtEntry := x.Daq.OdtEntryCount
              lastOdtEntry := ((x.Daq.OdtEntryCount + n) % 65536 + 65535) % 65536 } }) := by
  unfold XcpAllocOdtEntry at h ⊢
  split
  · rename_i hc
    rw [if_pos hc] at h
    simp [CRC_SEQUENCE, CRC_MEMORY_OVERFLOW] at h
  · rename_i hc
    rw [if_neg hc] at h
    split
    · rename_i hc2
      rw [if_pos hc2] at h
      simp [CRC_OUT_OF_RANGE, CRC_MEMORY_OVERFLOW] at h
    · rename_i hc2
      rw [if_neg hc2] at h
      split
      · rfl
      · rename_i hc3
        rw [if_neg hc3] at h
        rw [XcpAllocMemory_overflow cfg _ h]
        simp [setOdt]

/-- C8, the code at the failing input: directly after CONNECT on the 512 byte
pool, ALLOC_DAQ(255) is answered CRC_MEMORY_OVERFLOW and `DaqCount`, zero
before the command, is 255 after it. -/
theorem XcpCommand_ALLOC_DAQ_overflow_keeps_count :
    connected slaveConnected.xcp ∧ slaveConnected.xcp.Daq.DaqCount = 0 ∧
      (XcpCommand cfg512 slaveConnected (mkALLOC_DAQ 255)).2
        = some [PID_ERR, CRC_MEMORY_OVERFLOW] ∧
      (XcpCommand cfg512 slaveConnected (mkALLOC_DAQ 255)).1.xcp.Daq.DaqCount = 255 := by
  decide

/-- A property kept by every step of a left fold is kept by the fold. -/
theorem foldl_preserves {α β : Type} (P : β → Prop) (f : β → α → β) (l : List α) :
    ∀ b, P b → (∀ b a, P b → P (f b a)) → P (l.foldl f b) := by
  induction l with
  | nil => intro b hb _; exact hb
  | cons a l ih => intro b hb hf; exact ih (f b a) (hf b a hb) hf

/-- Having the same counts is reflexive. -/
theorem sameCounts_refl (x : tXcpData) : sameCounts x x := ⟨rfl, rfl, rfl⟩

/-- Having the same counts is transitive. -/
theorem sameCounts_trans {x y z : tXcpData} (h1 : sameCounts x y) (h2 : sameCounts y z) :
    sameCounts x z :=
  ⟨h2.1.trans h1.1, h2.2.1.trans h1.2.1, h2.2.2.trans h1.2.2⟩

/-- The function `XcpStopDaq` keeps the counts. -/
theorem XcpStopDaq_counts (x : tXcpData) (daq : Nat) : sameCounts x (XcpStopDaq x daq) := by
  unfold XcpStopDaq
  simp only []
  split <;> exact ⟨rfl, rfl, rfl⟩

/-- The function `XcpStartAllSelectedDaq` keeps the counts. -/
theorem XcpStartAllSelectedDaq_counts (x : tXcpData) :
    sameCounts x (XcpStartAllSelectedDaq x) := by
  unfold XcpStartAllSelectedDaq
  apply foldl_preserves (sameCounts x) _ _ x (sameCounts_refl x)
  intro b a hb
  split
  · exact sameCounts_trans hb ⟨rfl, rfl, rfl⟩
  · exact hb

/-- The function `XcpStopAllSelectedDaq` keeps the counts. -/
theorem XcpStopAllSelectedDaq_counts (x : tXcpData) :
    sameCounts x (XcpStopAllSelectedDaq x) := by
  unfold XcpStopAllSelectedDaq
  apply foldl_preserves (sameCounts x) _ _ x (sameCounts_refl x)
  intro b a hb
  split
  · exact sameCounts_trans hb (sameCounts_trans (XcpStopDaq_counts b a) ⟨rfl, rfl, rfl⟩)
  · exact hb

/-- The function `XcpStopAllDaq` keeps the counts. -/
theorem XcpStopAllDaq_counts (x : tXcpData) : sameCounts x (XcpStopAllDaq x) := by
  unfold XcpStopAllDaq
  have h := foldl_preserves (sameCounts x)
    (fun x daq => setDaqList x daq (fun l =>
      { l with flags := l.flags &&& (DAQ_FLAG_DIRECTION ||| DAQ_FLAG_TIMESTAMP ||| DAQ_FLAG_NO_PID) }))
    (List.range x.Daq.DaqCount) x (sameCounts_refl x)
    (fun b a hb => sameCounts_trans hb ⟨rfl, rfl, rfl⟩)
  exact sameCounts_trans h ⟨rfl, rfl, rfl⟩

/-- The loop of WRITE_DAQ_MULTIPLE keeps the counts. -/
theorem XcpCommand.WRITE_DAQ_MULTIPLE.loop_counts (cfg : Config) (pCmd : tXcpCto) (n : Nat) :
    ∀ (i : Nat) (w : Slave),
      sameCounts w.xcp (XcpCommand.WRITE_DAQ_MULTIPLE.loop cfg pCmd n i w).1.xcp := by
  induction n with
  | zero => intro i w; exact sameCounts_refl _
  | succ n ih =>
    intro i w
    unfold XcpCommand.WRITE_DAQ_MULTIPLE.loop
    split
    · exact sameCounts_refl _
    · split
      · exact sameCounts_refl _
      · split
        · exact sameCounts_refl _
        · exact sameCounts_trans ⟨rfl, rfl, rfl⟩ (ih _ _)

/-- Stores into the response buffer keep the counts. -/
theorem setCrmByte_counts (x : tXcpData) (i v : Nat) : sameCounts x (setCrmByte x i v) :=
  ⟨rfl, rfl, rfl⟩

/-- Word stores into the response buffer keep the counts. -/
theorem setCrmWord_counts (cfg : Config) (x : tXcpData) (i v : Nat) :
    sameCounts x (setCrmWord cfg x i v) := by
  unfold setCrmWord
  split <;> exact ⟨rfl, rfl, rfl⟩

/-- Double word stores into the response buffer keep the counts. -/
theorem setCrmDWord_counts (cfg : Config) (x : tXcpData) (i v : Nat) :
    sameCounts x (setCrmDWord cfg x i v) := by
  unfold setCrmDWord
  split <;>
    exact sameCounts_trans (setCrmWord_counts cfg _ _ _) (setCrmWord_counts cfg _ _ _)

/-- Case SYNC keeps the counts. -/
theorem XcpCommand.SYNC_counts (w : Slave) : sameCounts w.xcp (XcpCommand.SYNC w).1.xcp :=
  ⟨rfl, rfl, rfl⟩

/-- Case GET_COMM_MODE_INFO keeps the counts. -/
theorem XcpCommand.GET_COMM_MODE_INFO_counts (cfg : Config) (w : Slave) :
    sameCounts w.xcp (XcpCommand.GET_COMM_MODE_INFO cfg w).1.xcp :=
  ⟨rfl, rfl, rfl⟩

/-- Case DISCONNECT keeps the counts. -/
theorem XcpCommand.DISCONNECT_counts (w : Slave) :
    sameCounts w.xcp (XcpCommand.DISCONNECT w).1.xcp := by
  unfold XcpCommand.DISCONNECT XcpDisconnect
  simp only []
  exact sameCounts_trans (y := { { w.xcp with CrmLen := CRM_DISCONNECT_LEN } with
        SessionStatus := w.xcp.SessionStatus &&& not8 SS_CONNECTED }) ⟨rfl, rfl, rfl⟩
      (XcpStopAllDaq_counts _)

/-- Case GET_ID keeps the counts. -/
theorem XcpCommand.GET_ID_counts (cfg : Config) (w : Slave) (pCmd : tXcpCto) :
    sameCounts w.xcp (XcpCommand.GET_ID cfg w pCmd).1.xcp := by
  unfold XcpCommand.GET_ID
  simp only []
  have h1 : sameCounts w.xcp (setCrmDWord cfg
      (setCrmByte { w.xcp with CrmLen := CRM_GET_ID_LEN } CRM_GET_ID_MODE 0)
      CRM_GET_ID_LENGTH 0) :=
    sameCounts_trans (y := setCrmByte { w.xcp with CrmLen := CRM_GET_ID_LEN } CRM_GET_ID_MODE 0)
      ⟨rfl, rfl, rfl⟩ (setCrmDWord_counts cfg _ _ _)
  split
  · exact sameCounts_trans h1 (sameCounts_trans (setCrmDWord_counts cfg _ _ _) ⟨rfl, rfl, rfl⟩)
  · exact h1

/-- Case GET_STATUS keeps the counts. -/
theorem XcpCommand.GET_STATUS_counts (cfg : Config) (w : Slave) :
    sameCounts w.xcp (XcpCommand.GET_STATUS cfg w).1.xcp := by
  unfold XcpCommand.GET_STATUS
  simp only []
  exact sameCounts_trans (y := setCrmByte (setCrmByte { w.xcp with CrmLen := CRM_GET_STATUS_LEN }
      CRM_GET_STATUS_STATUS w.xcp.SessionStatus) CRM_GET_STATUS_PROTECTION 0)
    ⟨rfl, rfl, rfl⟩ (setCrmWord_counts cfg _ _ _)

/-- Case SET_MTA keeps the counts. -/
theorem XcpCommand.SET_MTA_counts (cfg : Config) (w : Slave) (pCmd : tXcpCto) :
    sameCounts w.xcp (XcpCommand.SET_MTA cfg w pCmd).1.xcp :=
  ⟨rfl, rfl, rfl⟩

/-- The function `XcpWriteMta` keeps the counts. -/
theorem XcpWriteMta_counts (w : Slave) (size : Nat) (data : Nat → Nat) :
    sameCounts w.xcp (XcpWriteMta w size data).1.xcp := by
  rw [(XcpWriteMta_spec size w data).2.1]
  exact ⟨rfl, rfl, rfl⟩

/-- The function `XcpReadMta` keeps the counts. -/
theorem XcpReadMta_counts (w : Slave) (size data : Nat) :
    sameCounts w.xcp (XcpReadMta w size data).1.xcp := by
  rw [(XcpReadMta_spec size w data).2.2.2.1]
  exact ⟨rfl, rfl, rfl⟩

/-- Case DOWNLOAD keeps the counts. -/
theorem XcpCommand.DOWNLOAD_counts (cfg : Config) (w : Slave) (pCmd : tXcpCto) :
    sameCounts w.xcp (XcpCommand.DOWNLOAD cfg w pCmd).1.xcp := by
  unfold XcpCommand.DOWNLOAD
  simp only []
  split_ifs
  · exact sameCounts_refl _
  all_goals exact XcpWriteMta_counts _ _ _

/-- Case DOWNLOAD_MAX keeps the counts. -/
theorem XcpCommand.DOWNLOAD_MAX_counts (cfg : Config) (w : Slave) (pCmd : tXcpCto) :
    sameCounts w.xcp (XcpCommand.DOWNLOAD_MAX cfg w pCmd).1.xcp := by
  unfold XcpCommand.DOWNLOAD_MAX
  simp only []
  split_ifs
  all_goals exact XcpWriteMta_counts _ _ _

/-- Case UPLOAD keeps the counts. -/
theorem XcpCommand.UPLOAD_counts (cfg : Config) (w : Slave) (pCmd : tXcpCto) :
    sameCounts w.xcp (XcpCommand.UPLOAD cfg w pCmd).1.xcp := by
  unfold XcpCommand.UPLOAD
  simp only []
  split_ifs
  · exact sameCounts_refl _
  all_goals exact sameCounts_trans (XcpReadMta_counts _ _ _) ⟨rfl, rfl, rfl⟩

/-- Case SHORT_UPLOAD keeps the counts. -/
theorem XcpCommand.SHORT_UPLOAD_counts (cfg : Config) (w : Slave) (pCmd : tXcpCto) :
    sameCounts w.xcp (XcpCommand.SHORT_UPLOAD cfg w pCmd).1.xcp := by
  unfold XcpCommand.SHORT_UPLOAD
  simp only []
  have hr := XcpReadMta_counts
    { w with xcp := { w.xcp with
      Mta := ApplXcpGetPointer cfg pCmd.CRO_SHORT_UPLOAD_EXT pCmd.CRO_SHORT_UPLOAD_ADDR } }
    (pCmd.CRO_SHORT_UPLOAD_SIZE % 256) CRM_SHORT_UPLOAD_DATA
  split_ifs
  · exact sameCounts_refl _
  all_goals exact sameCounts_trans hr ⟨rfl, rfl, rfl⟩

/-- Case GET_DAQ_PROCESSOR_INFO keeps the counts. -/
theorem XcpCommand.GET_DAQ_PROCESSOR_INFO_counts (cfg : Config) (w : Slave) :
    sameCounts w.xcp (XcpCommand.GET_DAQ_PROCESSOR_INFO cfg w).1.xcp := by
  unfold XcpCommand.GET_DAQ_PROCESSOR_INFO
  simp only []
  refine sameCounts_trans (y := setCrmWord cfg (setCrmWord cfg
    (setCrmByte { w.xcp with CrmLen := CRM_GET_DAQ_PROCESSOR_INFO_LEN }
      CRM_GET_DAQ_PROCESSOR_INFO_MIN_DAQ 0) CRM_GET_DAQ_PROCESSOR_INFO_MAX_DAQ
      w.xcp.Daq.DaqCount) CRM_GET_DAQ_PROCESSOR_INFO_MAX_EVENT 0) ?_ ⟨rfl, rfl, rfl⟩
  refine sameCounts_trans ?_ (setCrmWord_counts cfg _ _ _)
  exact sameCounts_trans (y := setCrmByte { w.xcp with CrmLen := CRM_GET_DAQ_PROCESSOR_INFO_LEN }
      CRM_GET_DAQ_PROCESSOR_INFO_MIN_DAQ 0) ⟨rfl, rfl, rfl⟩ (setCrmWord_counts cfg _ _ _)

/-- Case GET_DAQ_RESOLUTION_INFO keeps the counts. -/
theorem XcpCommand.GET_DAQ_RESOLUTION_INFO_counts (cfg : Config) (w : Slave) :
    sameCounts w.xcp (XcpCommand.GET_DAQ_RESOLUTION_INFO cfg w).1.xcp := by
  unfold XcpCommand.GET_DAQ_RESOLUTION_INFO
  simp only []
  refine sameCounts_trans ?_ (setCrmWord_counts cfg _ _ _)
  exact ⟨rfl, rfl, rfl⟩

/-- Case GET_DAQ_LIST_MODE keeps the counts. -/
theorem XcpCommand.GET_DAQ_LIST_MODE_counts (cfg : Config) (w : Slave) (pCmd : tXcpCto) :
    sameCounts w.xcp (XcpCommand.GET_DAQ_LIST_MODE cfg w pCmd).1.xcp := by
  unfold XcpCommand.GET_DAQ_LIST_MODE
  simp only []
  split
  · exact sameCounts_refl _
  · refine sameCounts_trans (y := setCrmWord cfg (setCrmByte (setCrmByte
        { w.xcp with CrmLen := CRM_GET_DAQ_LIST_MODE_LEN } CRM_GET_DAQ_LIST_MODE_MODE
        (w.xcp.Daq.DaqList (pCmd.CRO_GET_DAQ_LIST_MODE_DAQ % 256)).flags)
        CRM_GET_DAQ_LIST_MODE_PRESCALER 1) CRM_GET_DAQ_LIST_MODE_EVENTCHANNEL
        (w.xcp.Daq.DaqList (pCmd.CRO_GET_DAQ_LIST_MODE_DAQ % 256)).eventChannel)
      ?_ ⟨rfl, rfl, rfl⟩
    refine sameCounts_trans ?_ (setCrmWord_counts cfg _ _ _)
    exact ⟨rfl, rfl, rfl⟩

/-- Case SET_DAQ_LIST_MODE keeps the counts. -/
theorem XcpCommand.SET_DAQ_LIST_MODE_counts (cfg : Config) (w : Slave) (pCmd : tXcpCto) :
    sameCounts w.xcp (XcpCommand.SET_DAQ_LIST_MODE cfg w pCmd).1.xcp := by
  unfold XcpCommand.SET_DAQ_LIST_MODE
  simp only []
  split_ifs <;> exact ⟨rfl, rfl, rfl⟩

/-- Case SET_DAQ_PTR keeps the counts. -/
theorem XcpCommand.SET_DAQ_PTR_counts (cfg : Config) (w : Slave) (pCmd : tXcpCto) :
    sameCounts w.xcp (XcpCommand.SET_DAQ_PTR cfg w pCmd).1.xcp := by
  unfold XcpCommand.SET_DAQ_PTR
  simp only []
  split_ifs <;> exact ⟨rfl, rfl, rfl⟩

/-- Case WRITE_DAQ keeps the counts. -/
theorem XcpCommand.WRITE_DAQ_counts (cfg : Config) (w : Slave) (pCmd : tXcpCto) :
    sameCounts w.xcp (XcpCommand.WRITE_DAQ cfg w pCmd).1.xcp := by
  unfold XcpCommand.WRITE_DAQ
  simp only []
  split_ifs <;> exact ⟨rfl, rfl, rfl⟩

/-- Case START_STOP_DAQ_LIST keeps the counts. -/
theorem XcpCommand.START_STOP_DAQ_LIST_counts (cfg : Config) (w : Slave) (pCmd : tXcpCto) :
    sameCounts w.xcp (XcpCommand.START_STOP_DAQ_LIST cfg w pCmd).1.xcp := by
  unfold XcpCommand.START_STOP_DAQ_LIST
  simp only []
  split_ifs
  · exact ⟨rfl, rfl, rfl⟩
  · exact ⟨rfl, rfl, rfl⟩
  · exact ⟨rfl, rfl, rfl⟩
  · exact XcpStopDaq_counts _ _

/-- Case START_STOP_SYNCH keeps the counts. -/
theorem XcpCommand.START_STOP_SYNCH_counts (w : Slave) (pCmd : tXcpCto) :
    sameCounts w.xcp (XcpCommand.START_STOP_SYNCH w pCmd).1.xcp := by
  unfold XcpCommand.START_STOP_SYNCH
  split_ifs
  · exact sameCounts_refl _
  · exact XcpStopAllSelectedDaq_counts _
  · exact XcpStartAllSelectedDaq_counts _
  · exact XcpStopAllDaq_counts _

/-- Case GET_DAQ_CLOCK keeps the counts. -/
theorem XcpCommand.GET_DAQ_CLOCK_counts (cfg : Config) (w : Slave) :
    sameCounts w.xcp (XcpCommand.GET_DAQ_CLOCK cfg w).1.xcp := by
  unfold XcpCommand.GET_DAQ_CLOCK
  simp only []
  exact sameCounts_trans (y := { w.xcp with CrmLen := CRM_GET_DAQ_CLOCK_LEN })
    ⟨rfl, rfl, rfl⟩ (setCrmDWord_counts cfg _ _ _)

/-- Every case of the `switch` other than FREE_DAQ and the three allocation
commands keeps the three counts. -/
theorem XcpCommand.switch_counts (cfg : Config) (w : Slave) (pCmd : tXcpCto)
    (h1 : pCmd.CRO_CMD ≠ .CC_FREE_DAQ) (h2 : pCmd.CRO_CMD ≠ .CC_ALLOC_DAQ)
    (h3 : pCmd.CRO_CMD ≠ .CC_ALLOC_ODT) (h4 : pCmd.CRO_CMD ≠ .CC_ALLOC_ODT_ENTRY) :
    sameCounts w.xcp (XcpCommand.switch cfg w pCmd).1.xcp := by
  unfold XcpCommand.switch
  split
  case h_1 => exact XcpCommand.SYNC_counts w
  case h_2 => exact XcpCommand.GET_COMM_MODE_INFO_counts cfg w
  case h_3 => exact XcpCommand.DISCONNECT_counts w
  case h_4 => exact XcpCommand.GET_ID_counts cfg w pCmd
  case h_5 => exact XcpCommand.GET_STATUS_counts cfg w
  case h_6 => exact XcpCommand.SET_MTA_counts cfg w pCmd
  case h_7 => exact XcpCommand.DOWNLOAD_counts cfg w pCmd
  case h_8 => exact XcpCommand.DOWNLOAD_MAX_counts cfg w pCmd
  case h_9 => exact XcpCommand.UPLOAD_counts cfg w pCmd
  case h_10 => exact XcpCommand.SHORT_UPLOAD_counts cfg w pCmd
  case h_11 => exact XcpCommand.GET_DAQ_PROCESSOR_INFO_counts cfg w
  case h_12 => exact XcpCommand.GET_DAQ_RESOLUTION_INFO_counts cfg w
  case h_13 => rename_i hc; exact absurd hc h1
  case h_14 => rename_i hc; exact absurd hc h2
  case h_15 => rename_i hc; exact absurd hc h3
  case h_16 => rename_i hc; exact absurd hc h4
  case h_17 => exact XcpCommand.GET_DAQ_LIST_MODE_counts cfg w pCmd
  case h_18 => exact XcpCommand.SET_DAQ_LIST_MODE_counts cfg w pCmd
  case h_19 => exact XcpCommand.SET_DAQ_PTR_counts cfg w pCmd
  case h_20 => exact XcpCommand.WRITE_DAQ_counts cfg w pCmd
  case h_21 => exact XcpCommand.WRITE_DAQ_MULTIPLE.loop_counts cfg pCmd _ _ _
  case h_22 => exact XcpCommand.START_STOP_DAQ_LIST_counts cfg w pCmd
  case h_23 => exact XcpCommand.START_STOP_SYNCH_counts w pCmd
  case h_24 => exact XcpCommand.GET_DAQ_CLOCK_counts cfg w
  case h_25 => exact sameCounts_refl _
  case h_26 => exact sameCounts_refl _

/-- When `XcpAllocMemory` reports success the 16 bit sum is below the arena
size. -/
theorem XcpAllocMemory_ok (cfg : Config) (x : tXcpData) (h : (XcpAllocMemory cfg x).2 = 0) :
    XcpAllocMemory.s cfg x.Daq < cfg.kXcpDaqMemSize % 65536 := by
  rw [(XcpAllocMemory_spec cfg x).1] at h
  split at h
  · simp [CRC_MEMORY_OVERFLOW] at h
  · omega

/-- Without wrap of the 16 bit sum, a sum below the arena size bounds the
exact number of bytes. -/
theorem poolBytes_lt_of_s (cfg : Config) (d : tXcpDaq) (hcfg : cfg.noWrap)
    (hb : poolBytes cfg d < 65536)
    (hs : XcpAllocMemory.s cfg d < cfg.kXcpDaqMemSize % 65536) :
    poolBytes cfg d < cfg.kXcpDaqMemSize := by
  obtain ⟨h1, h2, h3, h4, -, -⟩ := hcfg
  have hm : cfg.kXcpDaqMemSize % 65536 = cfg.kXcpDaqMemSize := Nat.mod_eq_of_lt (by omega)
  simp only [XcpAllocMemory.s, Nat.mod_eq_of_lt h1, Nat.mod_eq_of_lt h2, Nat.mod_eq_of_lt h3,
    hm] at hs
  simp only [poolBytes] at hb ⊢
  rw [Nat.mod_eq_of_lt hb] at hs
  omega

/-- The outcomes of `XcpAllocDaq`: an error without any change, an overflow,
or success with the new `DaqCount` below the arena size. -/
theorem XcpAllocDaq_cases (cfg : Config) (x : tXcpData) (n : Nat) :
    ((XcpAllocDaq cfg x n).1 = x ∧ (XcpAllocDaq cfg x n).2 ≠ 0) ∨
      (XcpAllocDaq cfg x n).2 = CRC_MEMORY_OVERFLOW ∨
      ((XcpAllocDaq cfg x n).2 = 0 ∧
        (XcpAllocDaq cfg x n).1.Daq = { x.Daq with DaqCount := n } ∧
        XcpAllocMemory.s cfg { x.Daq with DaqCount := n } < cfg.kXcpDaqMemSize % 65536) := by
  unfold XcpAllocDaq
  split
  · left; exact ⟨rfl, by simp [CRC_SEQUENCE]⟩
  · split
    · left; exact ⟨rfl, by simp [CRC_OUT_OF_RANGE]⟩
    · right
      obtain ⟨hs, -, hD, -⟩ := XcpAllocMemory_spec cfg
        { x with Daq := { x.Daq with DaqCount := n } }
      by_cases h0 : (XcpAllocMemory cfg { x with Daq := { x.Daq with DaqCount := n } }).2 = 0
      · right
        exact ⟨h0, hD, XcpAllocMemory_ok cfg _ h0⟩
      · left
        rw [hs] at h0 ⊢
        split at h0
        · rename_i hc; rw [if_pos hc]
        · exact absurd rfl h0

/-- The outcomes of `XcpAllocOdt`: an error without any change, an overflow,
or success with the new `OdtCount` below the arena size. -/
theorem XcpAllocOdt_cases (cfg : Config) (x : tXcpData) (daq n : Nat) :
    ((XcpAllocOdt cfg x daq n).1 = x ∧ (XcpAllocOdt cfg x daq n).2 ≠ 0) ∨
      (XcpAllocOdt cfg x daq n).2 = CRC_MEMORY_OVERFLOW ∨
      ((XcpAllocOdt cfg x daq n).2 = 0 ∧
        (XcpAllocOdt cfg x daq n).1.Daq.DaqCount = x.Daq.DaqCount ∧
        (XcpAllocOdt cfg x daq n).1.Daq.OdtCount = (x.Daq.OdtCount + n) % 65536 ∧
        (XcpAllocOdt cfg x daq n).1.Daq.OdtEntryCount = x.Daq.OdtEntryCount ∧
        XcpAllocMemory.s cfg (XcpAllocOdt cfg x daq n).1.Daq < cfg.kXcpDaqMemSize % 65536) := by
  unfold XcpAllocOdt
  split
  · left; exact ⟨rfl, by simp [CRC_SEQUENCE]⟩
  · split
    · left; exact ⟨rfl, by simp [CRC_OUT_OF_RANGE]⟩
    · right
      simp only []
      generalize hx3 : setDaqList _ _ _ = x3
      obtain ⟨hs, -, hD, -⟩ := XcpAllocMemory_spec cfg x3
      by_cases h0 : (XcpAllocMemory cfg x3).2 = 0
      · right
        have hok := XcpAllocMemory_ok cfg _ h0
        rw [hD]
        refine ⟨h0, ?_, ?_, ?_, hok⟩ <;> (rw [← hx3]; rfl)
      · left
        rw [hs] at h0 ⊢
        split at h0
        · rename_i hc; rw [if_pos hc]
        · exact absurd rfl h0

/-- The outcomes of `XcpAllocOdtEntry`: an error without any change, an
overflow, or success with the new `OdtEntryCount`, which did not wrap, below
the arena size. -/
theorem XcpAllocOdtEntry_cases (cfg : Config) (x : tXcpData) (daq odt n : Nat)
    (hn : n < 256) :
    ((XcpAllocOdtEntry cfg x daq odt n).1 = x ∧ (XcpAllocOdtEntry cfg x daq odt n).2 ≠ 0) ∨
      (XcpAllocOdtEntry cfg x daq odt n).2 = CRC_MEMORY_OVERFLOW ∨
      ((XcpAllocOdtEntry cfg x daq odt n).2 = 0 ∧
        (XcpAllocOdtEntry cfg x daq odt n).1.Daq.DaqCount = x.Daq.DaqCount ∧
        (XcpAllocOdtEntry cfg x daq odt n).1.Daq.OdtCount = x.Daq.OdtCount ∧
        (XcpAllocOdtEntry cfg x daq odt n).1.Daq.OdtEntryCount = x.Daq.OdtEntryCount + n ∧
        x.Daq.OdtEntryCount + n ≤ 0xFFFF ∧
        XcpAllocMemory.s cfg (XcpAllocOdtEntry cfg x daq odt n).1.Daq
          < cfg.kXcpDaqMemSize % 65536) := by
  unfold XcpAllocOdtEntry
  split
  · left; exact ⟨rfl, by simp [CRC_SEQUENCE]⟩
  · split
    · left; exact ⟨rfl, by simp [CRC_OUT_OF_RANGE]⟩
    · split
      · right; left; rfl
      · rename_i hle
        right
        simp only []
        generalize hx3 : setOdt _ _ _ = x3
        obtain ⟨hs, -, hD, -⟩ := XcpAllocMemory_spec cfg x3
        by_cases h0 : (XcpAllocMemory cfg x3).2 = 0
        · right
          have hok := XcpAllocMemory_ok cfg _ h0
          rw [hD]
          have hcnt : x3.Daq.OdtEntryCount = x.Daq.OdtEntryCount + n := by
            rw [← hx3]
            show (x.Daq.OdtEntryCount + n) % 65536 = x.Daq.OdtEntryCount + n
            exact Nat.mod_eq_of_lt (by omega)
          refine ⟨h0, ?_, ?_, hcnt, by omega, hok⟩ <;> (rw [← hx3]; rfl)
        · left
          rw [hs] at h0 ⊢
          split at h0
          · rename_i hc; rw [if_pos hc]
          · exact absurd rfl h0

/-- The exit code of `XcpCommand` changes the response buffer only: the DAQ
structure is the one the body leaves. -/
theorem XcpCommand_Daq_of_body (cfg : Config) (w : Slave) (pCmd : tXcpCto) :
    (XcpCommand cfg w pCmd).1.xcp.Daq = (XcpCommand.body cfg w pCmd).1.xcp.Daq := by
  unfold XcpCommand
  split <;> (rename_i h; rw [h]; try rfl)

/-- The number of pool bytes is a function of the three counts. -/
theorem poolBytes_congr (cfg : Config) {x y : tXcpData} (h : sameCounts x y) :
    poolBytes cfg y.Daq = poolBytes cfg x.Daq := by
  obtain ⟨h1, h2, h3⟩ := h
  simp only [poolBytes, h1, h2, h3]

/-- After CONNECT the three counts are zero. -/
theorem XcpCommand_CONNECT_counts (cfg : Config) (w : Slave) (pCmd : tXcpCto)
    (hcmd : pCmd.CRO_CMD = .CC_CONNECT) :
    (XcpCommand cfg w pCmd).1.xcp.Daq.DaqCount = 0 ∧
      (XcpCommand cfg w pCmd).1.xcp.Daq.OdtCount = 0 ∧
      (XcpCommand cfg w pCmd).1.xcp.Daq.OdtEntryCount = 0 := by
  rw [XcpCommand_Daq_of_body]
  have hD : (XcpCommand.body cfg w pCmd).1.xcp.Daq = (XcpFreeDaq w.xcp).Daq := by
    cases hb : cfg.XCP_CPUTYPE_BIGENDIAN <;>
      simp [XcpCommand.body, hcmd, XcpCommand.CONNECT, setCrmByte, setCrmWord, XcpFreeDaq, hb]
  rw [hD]
  exact ⟨rfl, rfl, rfl⟩

/-- After FREE_DAQ in the connected state the three counts are zero. -/
theorem XcpCommand_FREE_DAQ_counts (cfg : Config) (w : Slave) (pCmd : tXcpCto)
    (hcon : connected w.xcp) (hcmd : pCmd.CRO_CMD = .CC_FREE_DAQ) :
    (XcpCommand cfg w pCmd).1.xcp.Daq.DaqCount = 0 ∧
      (XcpCommand cfg w pCmd).1.xcp.Daq.OdtCount = 0 ∧
      (XcpCommand cfg w pCmd).1.xcp.Daq.OdtEntryCount = 0 := by
  have hne : pCmd.CRO_CMD ≠ .CC_CONNECT := by rw [hcmd]; decide
  rw [XcpCommand_Daq_of_body, XcpCommand.body_connected cfg w pCmd hcon hne]
  simp only [XcpCommand.switch, hcmd, XcpCommand.FREE_DAQ]
  exact ⟨rfl, rfl, rfl⟩

/-- A command other than CONNECT, FREE_DAQ and the three allocation commands
keeps the three counts, in every state. -/
theorem XcpCommand_counts (cfg : Config) (w : Slave) (pCmd : tXcpCto)
    (h0 : pCmd.CRO_CMD ≠ .CC_CONNECT)
    (h1 : pCmd.CRO_CMD ≠ .CC_FREE_DAQ) (h2 : pCmd.CRO_CMD ≠ .CC_ALLOC_DAQ)
    (h3 : pCmd.CRO_CMD ≠ .CC_ALLOC_ODT) (h4 : pCmd.CRO_CMD ≠ .CC_ALLOC_ODT_ENTRY) :
    sameCounts w.xcp (XcpCommand cfg w pCmd).1.xcp := by
  have hD := XcpCommand_Daq_of_body cfg w pCmd
  by_cases hcon : connected w.xcp
  · rw [XcpCommand.body_connected cfg w pCmd hcon h0] at hD
    have hs := XcpCommand.switch_counts cfg (XcpCommand.entry cfg w) pCmd h1 h2 h3 h4
    have fD := (XcpCommand.entry_frame cfg w).2.2.2.1
    unfold sameCounts at hs ⊢
    rw [hD]
    rw [fD] at hs
    exact hs
  · have hz : w.xcp.SessionStatus &&& SS_CONNECTED = 0 := by simpa [connected] using hcon
    have hb : XcpCommand.body cfg w pCmd = (w, .no_response) := by
      simp [XcpCommand.body, h0, hz]
    unfold sameCounts
    rw [hD, hb]
    exact ⟨rfl, rfl, rfl⟩

/-- The arithmetic of a successful ALLOC_DAQ: with at most 255 lists the
exact number of bytes cannot reach `2^16`. -/
theorem poolBytes_ALLOC_DAQ (cfg : Config) (d : tXcpDaq) (n : Nat) (hcfg : cfg.noWrap)
    (hn : n < 256) (hinv : poolBytes cfg d ≤ cfg.kXcpDaqMemSize)
    (hs : XcpAllocMemory.s cfg { d with DaqCount := n } < cfg.kXcpDaqMemSize % 65536) :
    poolBytes cfg { d with DaqCount := n } < cfg.kXcpDaqMemSize := by
  apply poolBytes_lt_of_s cfg _ hcfg _ hs
  obtain ⟨-, -, -, h4, -, -⟩ := hcfg
  simp only [poolBytes] at hinv ⊢
  have h1 : n * cfg.sizeofDaqList ≤ 255 * cfg.sizeofDaqList :=
    Nat.mul_le_mul_right _ (by omega)
  omega

/-- The arithmetic of a successful ALLOC_ODT: with at most 255 new ODTs the
exact number of bytes cannot reach `2^16`. -/
theorem poolBytes_ALLOC_ODT (cfg : Config) (d d1 : tXcpDaq) (n : Nat) (hcfg : cfg.noWrap)
    (hn : n < 256) (hinv : poolBytes cfg d ≤ cfg.kXcpDaqMemSize)
    (hD : d1.DaqCount = d.DaqCount) (hO : d1.OdtCount = (d.OdtCount + n) % 65536)
    (hE : d1.OdtEntryCount = d.OdtEntryCount)
    (hs : XcpAllocMemory.s cfg d1 < cfg.kXcpDaqMemSize % 65536) :
    poolBytes cfg d1 < cfg.kXcpDaqMemSize := by
  apply poolBytes_lt_of_s cfg _ hcfg _ hs
  obtain ⟨-, -, -, -, h5, -⟩ := hcfg
  simp only [poolBytes, hD, hO, hE] at hinv ⊢
  have h1 : (d.OdtCount + n) % 65536 * cfg.sizeofOdt ≤ (d.OdtCount + n) * cfg.sizeofOdt :=
    Nat.mul_le_mul_right _ (Nat.mod_le _ _)
  have h2 : n * cfg.sizeofOdt ≤ 255 * cfg.sizeofOdt := Nat.mul_le_mul_right _ (by omega)
  rw [Nat.add_mul] at h1
  omega

/-- The arithmetic of a successful ALLOC_ODT_ENTRY: with at most 255 new
entries the exact number of bytes cannot reach `2^16`. -/
theorem poolBytes_ALLOC_ODT_ENTRY (cfg : Config) (d d1 : tXcpDaq) (n : Nat) (hcfg : cfg.noWrap)
    (hn : n < 256) (hinv : poolBytes cfg d ≤ cfg.kXcpDaqMemSize)
    (hD : d1.DaqCount = d.DaqCount) (hO : d1.OdtCount = d.OdtCount)
    (hE : d1.OdtEntryCount = d.OdtEntryCount + n)
    (hs : XcpAllocMemory.s cfg d1 < cfg.kXcpDaqMemSize % 65536) :
    poolBytes cfg d1 < cfg.kXcpDaqMemSize := by
  apply poolBytes_lt_of_s cfg _ hcfg _ hs
  obtain ⟨-, -, -, -, -, h6⟩ := hcfg
  simp only [poolBytes, hD, hO, hE] at hinv ⊢
  have h2 : n * (cfg.sizeofDaqBytePtr + 1) ≤ 255 * (cfg.sizeofDaqBytePtr + 1) :=
    Nat.mul_le_mul_right _ (by omega)
  rw [Nat.add_mul]
  omega

/-- One command that is not answered CRC_MEMORY_OVERFLOW keeps the bound of
the pool bytes, when the 16 bit sum cannot wrap. -/
theorem XcpCommand_poolBytes (cfg : Config) (w : Slave) (pCmd : tXcpCto) (hcfg : cfg.noWrap)
    (hinv : poolBytes cfg w.xcp.Daq ≤ cfg.kXcpDaqMemSize)
    (hresp : (XcpCommand cfg w pCmd).2 ≠ some [PID_ERR, CRC_MEMORY_OVERFLOW]) :
    poolBytes cfg (XcpCommand cfg w pCmd).1.xcp.Daq ≤ cfg.kXcpDaqMemSize := by
  have hov : CRC_MEMORY_OVERFLOW ≠ 0 := by decide
  have fD := (XcpCommand.entry_frame cfg w).2.2.2.1
  by_cases h0 : pCmd.CRO_CMD = .CC_CONNECT
  · obtain ⟨z1, z2, z3⟩ := XcpCommand_CONNECT_counts cfg w pCmd h0
    simp [poolBytes, z1, z2, z3]
  by_cases h1 : pCmd.CRO_CMD = .CC_FREE_DAQ
  · by_cases hcon : connected w.xcp
    · obtain ⟨z1, z2, z3⟩ := XcpCommand_FREE_DAQ_counts cfg w pCmd hcon h1
      simp [poolBytes, z1, z2, z3]
    · have hz : w.xcp.SessionStatus &&& SS_CONNECTED = 0 := by simpa [connected] using hcon
      have hb : XcpCommand.body cfg w pCmd = (w, .no_response) := by
        simp [XcpCommand.body, h0, hz]
      rw [XcpCommand_Daq_of_body, hb]
      exact hinv
  by_cases hcon : connected w.xcp
  swap
  · have hz : w.xcp.SessionStatus &&& SS_CONNECTED = 0 := by simpa [connected] using hcon
    have hb : XcpCommand.body cfg w pCmd = (w, .no_response) := by
      simp [XcpCommand.body, h0, hz]
    rw [XcpCommand_Daq_of_body, hb]
    exact hinv
  by_cases h2 : pCmd.CRO_CMD = .CC_ALLOC_DAQ
  · obtain ⟨e1, e2⟩ := XcpCommand_ALLOC_DAQ_eq cfg w pCmd hcon h2
    rw [e2.1]
    rcases XcpAllocDaq_cases cfg (XcpCommand.entry cfg w).xcp (pCmd.CRO_ALLOC_DAQ_COUNT % 256)
      with ⟨c1, -⟩ | c | ⟨-, c2, c3⟩
    · rw [c1, fD]; exact hinv
    · rw [e1, Ne, response_eq_error_iff _ _ (XcpAllocDaq_lt cfg _ _) hov] at hresp
      exact absurd c hresp
    · rw [c2]
      rw [fD] at c3 ⊢
      exact (poolBytes_ALLOC_DAQ cfg _ _ hcfg (Nat.mod_lt _ (by decide)) hinv c3).le
  by_cases h3 : pCmd.CRO_CMD = .CC_ALLOC_ODT
  · obtain ⟨r1, r2⟩ := XcpCommand_ALLOC_ODT_eq cfg w pCmd hcon h3
    by_cases hr : cfg.XCP_ENABLE_PARAMETER_CHECK = true ∧
        pCmd.CRO_ALLOC_ODT_DAQ % 256 ≥ w.xcp.Daq.DaqCount
    · rw [(r1 hr).2.1]; exact hinv
    · obtain ⟨e1, e2⟩ := r2 hr
      rw [e2.1]
      rcases XcpAllocOdt_cases cfg (XcpCommand.entry cfg w).xcp (pCmd.CRO_ALLOC_ODT_DAQ % 256)
        (pCmd.CRO_ALLOC_ODT_COUNT % 256) with ⟨c1, -⟩ | c | ⟨-, c2, c3, c4, c5⟩
      · rw [c1, fD]; exact hinv
      · rw [e1, Ne, response_eq_error_iff _ _ (XcpAllocOdt_lt cfg _ _ _) hov] at hresp
        exact absurd c hresp
      · rw [fD] at c2 c3 c4
        exact (poolBytes_ALLOC_ODT cfg _ _ _ hcfg (Nat.mod_lt _ (by decide)) hinv c2 c3 c4
          c5).le
  by_cases h4 : pCmd.CRO_CMD = .CC_ALLOC_ODT_ENTRY
  · obtain ⟨r1, r2⟩ := XcpCommand_ALLOC_ODT_ENTRY_eq cfg w pCmd hcon h4
    by_cases hr : cfg.XCP_ENABLE_PARAMETER_CHECK = true ∧
        (pCmd.CRO_ALLOC_ODT_ENTRY_DAQ % 256 ≥ w.xcp.Daq.DaqCount ∨
          pCmd.CRO_ALLOC_ODT_ENTRY_ODT % 256
            ≥ toUInt8 (DaqListOdtCount w.xcp (pCmd.CRO_ALLOC_ODT_ENTRY_DAQ % 256)))
    · rw [(r1 hr).2.1]; exact hinv
    · obtain ⟨e1, e2⟩ := r2 hr
      rw [e2.1]
      rcases XcpAllocOdtEntry_cases cfg (XcpCommand.entry cfg w).xcp
        (pCmd.CRO_ALLOC_ODT_ENTRY_DAQ % 256) (pCmd.CRO_ALLOC_ODT_ENTRY_ODT % 256)
        (pCmd.CRO_ALLOC_ODT_ENTRY_COUNT % 256) (Nat.mod_lt _ (by decide))
        with ⟨c1, -⟩ | c | ⟨-, c2, c3, c4, -, c5⟩
      · rw [c1, fD]; exact hinv
      · rw [e1, Ne, response_eq_error_iff _ _ (XcpAllocOdtEntry_lt cfg _ _ _ _) hov] at hresp
        exact absurd c hresp
      · rw [fD] at c2 c3 c4
        exact (poolBytes_ALLOC_ODT_ENTRY cfg _ _ _ hcfg (Nat.mod_lt _ (by decide)) hinv
          c2 c3 c4 c5).le
  rw [poolBytes_congr cfg (XcpCommand_counts cfg w pCmd h0 h1 h2 h3 h4)]
  exact hinv

/-- C9, the code at the failing input: on the 512 byte pool the state after
CONNECT and ALLOC_DAQ(255) (answered CRC_MEMORY_OVERFLOW) is reachable and
its counts need 2040 bytes. -/
theorem poolBytes_exceeds_after_overflow :
    Reachable cfg512 (runCommands cfg512 slaveInit [{ CRO_CMD := .CC_CONNECT }, mkALLOC_DAQ 255]) ∧
      poolBytes cfg512
        (runCommands cfg512 slaveInit [{ CRO_CMD := .CC_CONNECT }, mkALLOC_DAQ 255]).xcp.Daq
        = 2040 ∧
      cfg512.kXcpDaqMemSize = 512 :=
  ⟨Reachable.command _ (Reachable.command _ (Reachable.init _ _)), by decide, rfl⟩

/-- When `XcpAllocMemory` reports an overflow the 16 bit sum has reached the
arena size. -/
theorem XcpAllocMemory_overflow_s (cfg : Config) (x : tXcpData)
    (h : (XcpAllocMemory cfg x).2 = CRC_MEMORY_OVERFLOW) :
    cfg.kXcpDaqMemSize % 65536 ≤ XcpAllocMemory.s cfg x.Daq := by
  rw [(XcpAllocMemory_spec cfg x).1] at h
  split at h
  · assumption
  · simp [CRC_MEMORY_OVERFLOW] at h

/-- The 16 bit sum is at most the exact number of bytes. -/
theorem s_le_poolBytes (cfg : Config) (d : tXcpDaq) (hcfg : cfg.noWrap) :
    XcpAllocMemory.s cfg d ≤ poolBytes cfg d := by
  obtain ⟨h1, h2, h3, -⟩ := hcfg
  simp only [XcpAllocMemory.s, Nat.mod_eq_of_lt h1, Nat.mod_eq_of_lt h2, Nat.mod_eq_of_lt h3,
    poolBytes]
  exact Nat.mod_le _ _

/-- An overflow reported by `XcpAllocDaq` comes from `XcpAllocMemory`. -/
theorem XcpAllocDaq_overflow_s (cfg : Config) (x : tXcpData) (n : Nat)
    (h : (XcpAllocDaq cfg x n).2 = CRC_MEMORY_OVERFLOW) :
    cfg.kXcpDaqMemSize % 65536 ≤ XcpAllocMemory.s cfg (XcpAllocDaq cfg x n).1.Daq := by
  unfold XcpAllocDaq at h ⊢
  split
  · rename_i hc
    rw [if_pos hc] at h
    simp [CRC_SEQUENCE, CRC_MEMORY_OVERFLOW] at h
  · rename_i hc
    rw [if_neg hc] at h
    split
    · rename_i hc2
      rw [if_pos hc2] at h
      simp [CRC_OUT_OF_RANGE, CRC_MEMORY_OVERFLOW] at h
    · rename_i hc2
      rw [if_neg hc2] at h
      rw [(XcpAllocMemory_spec cfg _).2.2.1]
      exact XcpAllocMemory_overflow_s cfg _ h

/-- An overflow reported by `XcpAllocOdt` comes from `XcpAllocMemory`. -/
theorem XcpAllocOdt_overflow_s (cfg : Config) (x : tXcpData) (daq n : Nat)
    (h : (XcpAllocOdt cfg x daq n).2 = CRC_MEMORY_OVERFLOW) :
    cfg.kXcpDaqMemSize % 65536 ≤ XcpAllocMemory.s cfg (XcpAllocOdt cfg x daq n).1.Daq := by
  unfold XcpAllocOdt at h ⊢
  split
  · rename_i hc
    rw [if_pos hc] at h
    simp [CRC_SEQUENCE, CRC_MEMORY_OVERFLOW] at h
  · rename_i hc
    rw [if_neg hc] at h
    split
    · rename_i hc2
      rw [if_pos hc2] at h
      simp [CRC_OUT_OF_RANGE, CRC_MEMORY_OVERFLOW] at h
    · rename_i hc2
      rw [if_neg hc2] at h
      rw [(XcpAllocMemory_spec cfg _).2.2.1]
      exact XcpAllocMemory_overflow_s cfg _ h

/-- An overflow reported by `XcpAllocOdtEntry` comes from the test of the 16
bit entry count or from `XcpAllocMemory`. -/
theorem XcpAllocOdtEntry_overflow_s (cfg : Config) (x : tXcpData) (daq odt n : Nat)
    (h : (XcpAllocOdtEntry cfg x daq odt n).2 = CRC_MEMORY_OVERFLOW) :
    x.Daq.OdtEntryCount > 0xFFFF - n ∨
      cfg.kXcpDaqMemSize % 65536
        ≤ XcpAllocMemory.s cfg (XcpAllocOdtEntry cfg x daq odt n).1.Daq := by
  unfold XcpAllocOdtEntry at h ⊢
  split
  · rename_i hc
    rw [if_pos hc] at h
    simp [CRC_SEQUENCE, CRC_MEMORY_OVERFLOW] at h
  · rename_i hc
    rw [if_neg hc] at h
    split
    · rename_i hc2
      rw [if_pos hc2] at h
      simp [CRC_OUT_OF_RANGE, CRC_MEMORY_OVERFLOW] at h
    · rename_i hc2
      rw [if_neg hc2] at h
      split
      · rename_i hc3
        left; exact hc3
      · rename_i hc3
        rw [if_neg hc3] at h
        right
        rw [(XcpAllocMemory_spec cfg _).2.2.1]
        exact XcpAllocMemory_overflow_s cfg _ h

/-- The response made of a status byte is `FF` only for the status zero. -/
theorem response_eq_positive (e : Nat)
    (h : some (if e = 0 then [0xFF] else [PID_ERR, e % 256]) = some [0xFF]) : e = 0 := by
  by_contra hne
  rw [if_neg hne] at h
  simp at h

/-- C10, counterexample: on the 512 byte pool, directly after CONNECT,
ALLOC_DAQ(64) asks for exactly 512 bytes and is answered
CRC_MEMORY_OVERFLOW; ALLOC_DAQ(63) is answered positively. -/
theorem XcpCommand_ALLOC_DAQ_exact_fit_overflow :
    connected slaveConnected.xcp ∧
      poolBytes cfg512 (XcpCommand cfg512 slaveConnected (mkALLOC_DAQ 64)).1.xcp.Daq
        = cfg512.kXcpDaqMemSize ∧
      (XcpCommand cfg512 slaveConnected (mkALLOC_DAQ 64)).2
        = some [PID_ERR, CRC_MEMORY_OVERFLOW] ∧
      (XcpCommand cfg512 slaveConnected (mkALLOC_DAQ 63)).2 = some [0xFF] := by
  decide

/-- C10, amended: when the 16 bit sum cannot wrap, in every connected state
whose counts fit the arena, an allocation command is answered
CRC_MEMORY_OVERFLOW only when the total bytes used after it would reach or
exceed the arena size (for ALLOC_ODT_ENTRY also counting the entries that
would pass `0xFFFF`), and an allocation command answered positively leaves
the total below the arena size: a total equal to the arena size does not
succeed. -/
theorem XcpCommand_overflow_threshold (cfg : Config) (w : Slave) (pCmd : tXcpCto)
    (hcfg : cfg.noWrap) (hcon : connected w.xcp)
    (hinv : poolBytes cfg w.xcp.Daq ≤ cfg.kXcpDaqMemSize)
    (hcmd : pCmd.CRO_CMD = .CC_ALLOC_DAQ ∨ pCmd.CRO_CMD = .CC_ALLOC_ODT ∨
      pCmd.CRO_CMD = .CC_ALLOC_ODT_ENTRY) :
    ((XcpCommand cfg w pCmd).2 = some [PID_ERR, CRC_MEMORY_OVERFLOW] →
        cfg.kXcpDaqMemSize ≤ poolBytes cfg (XcpCommand cfg w pCmd).1.xcp.Daq ∨
        cfg.kXcpDaqMemSize ≤ poolBytes cfg { w.xcp.Daq with
          OdtEntryCount := w.xcp.Daq.OdtEntryCount + pCmd.CRO_ALLOC_ODT_ENTRY_COUNT % 256 }) ∧
      ((XcpCommand cfg w pCmd).2 = some [0xFF] →
        poolBytes cfg (XcpCommand cfg w pCmd).1.xcp.Daq < cfg.kXcpDaqMemSize) := by
  have hov : CRC_MEMORY_OVERFLOW ≠ 0 := by decide
  have hne : [PID_ERR, CRC_OUT_OF_RANGE] ≠ [PID_ERR, CRC_MEMORY_OVERFLOW] := by decide
  have hne2 : [PID_ERR, CRC_OUT_OF_RANGE] ≠ [0xFF] := by decide
  have fD := (XcpCommand.entry_frame cfg w).2.2.2.1
  have hm : cfg.kXcpDaqMemSize % 65536 = cfg.kXcpDaqMemSize :=
    Nat.mod_eq_of_lt (by have := hcfg.2.2.2.1; omega)
  rcases hcmd with h2 | h3 | h4
  · obtain ⟨e1, e2⟩ := XcpCommand_ALLOC_DAQ_eq cfg w pCmd hcon h2
    refine ⟨fun hresp => Or.inl ?_, fun hresp => ?_⟩
    · rw [e1, response_eq_error_iff _ _ (XcpAllocDaq_lt cfg _ _) hov] at hresp
      have hs := XcpAllocDaq_overflow_s cfg _ _ hresp
      rw [e2.1]
      rw [hm] at hs
      exact hs.trans (s_le_poolBytes cfg _ hcfg)
    · rw [e1] at hresp
      have h0 := response_eq_positive _ hresp
      rw [e2.1]
      rcases XcpAllocDaq_cases cfg (XcpCommand.entry cfg w).xcp (pCmd.CRO_ALLOC_DAQ_COUNT % 256)
        with ⟨-, c1⟩ | c | ⟨-, c2, c3⟩
      · exact absurd h0 c1
      · rw [c] at h0; exact absurd h0 hov
      · rw [c2]
        rw [fD] at c3 ⊢
        exact poolBytes_ALLOC_DAQ cfg _ _ hcfg (Nat.mod_lt _ (by decide)) hinv c3
  · obtain ⟨r1, r2⟩ := XcpCommand_ALLOC_ODT_eq cfg w pCmd hcon h3
    by_cases hr : cfg.XCP_ENABLE_PARAMETER_CHECK = true ∧
        pCmd.CRO_ALLOC_ODT_DAQ % 256 ≥ w.xcp.Daq.DaqCount
    · refine ⟨fun hresp => ?_, fun hresp => ?_⟩
      · rw [(r1 hr).1] at hresp
        exact absurd (Option.some.inj hresp) hne
      · rw [(r1 hr).1] at hresp
        exact absurd (Option.some.inj hresp) hne2
    · obtain ⟨e1, e2⟩ := r2 hr
      refine ⟨fun hresp => Or.inl ?_, fun hresp => ?_⟩
      · rw [e1, response_eq_error_iff _ _ (XcpAllocOdt_lt cfg _ _ _) hov] at hresp
        have hs := XcpAllocOdt_overflow_s cfg _ _ _ hresp
        rw [e2.1]
        rw [hm] at hs
        exact hs.trans (s_le_poolBytes cfg _ hcfg)
      · rw [e1] at hresp
        have h0 := response_eq_positive _ hresp
        rw [e2.1]
        rcases XcpAllocOdt_cases cfg (XcpCommand.entry cfg w).xcp (pCmd.CRO_ALLOC_ODT_DAQ % 256)
          (pCmd.CRO_ALLOC_ODT_COUNT % 256) with ⟨-, c1⟩ | c | ⟨-, c2, c3, c4, c5⟩
        · exact absurd h0 c1
        · rw [c] at h0; exact absurd h0 hov
        · rw [fD] at c2 c3 c4
          exact poolBytes_ALLOC_ODT cfg _ _ _ hcfg (Nat.mod_lt _ (by decide)) hinv c2 c3 c4 c5
  · obtain ⟨r1, r2⟩ := XcpCommand_ALLOC_ODT_ENTRY_eq cfg w pCmd hcon h4
    by_cases hr : cfg.XCP_ENABLE_PARAMETER_CHECK = true ∧
        (pCmd.CRO_ALLOC_ODT_ENTRY_DAQ % 256 ≥ w.xcp.Daq.DaqCount ∨
          pCmd.CRO_ALLOC_ODT_ENTRY_ODT % 256
            ≥ toUInt8 (DaqListOdtCount w.xcp (pCmd.CRO_ALLOC_ODT_ENTRY_DAQ % 256)))
    · refine ⟨fun hresp => ?_, fun hresp => ?_⟩
      · rw [(r1 hr).1] at hresp
        exact absurd (Option.some.inj hresp) hne
      · rw [(r1 hr).1] at hresp
        exact absurd (Option.some.inj hresp) hne2
    · obtain ⟨e1, e2⟩ := r2 hr
      refine ⟨fun hresp => ?_, fun hresp => ?_⟩
      · rw [e1, response_eq_error_iff _ _ (XcpAllocOdtEntry_lt cfg _ _ _ _) hov] at hresp
        rcases XcpAllocOdtEntry_overflow_s cfg _ _ _ _ hresp with h16 | hs
        · right
          rw [fD] at h16
          have hn : pCmd.CRO_ALLOC_ODT_ENTRY_COUNT % 256 < 256 := Nat.mod_lt _ (by decide)
          have hge : 65536 ≤ w.xcp.Daq.OdtEntryCount + pCmd.CRO_ALLOC_ODT_ENTRY_COUNT % 256 := by
            omega
          have hmul : 65536 * (cfg.sizeofDaqBytePtr + 1)
              ≤ (w.xcp.Daq.OdtEntryCount + pCmd.CRO_ALLOC_ODT_ENTRY_COUNT % 256)
                * (cfg.sizeofDaqBytePtr + 1) := Nat.mul_le_mul_right _ hge
          have := hcfg.2.2.2.1
          simp only [poolBytes]
          omega
        · left
          rw [e2.1]
          rw [hm] at hs
          exact hs.trans (s_le_poolBytes cfg _ hcfg)
      · rw [e1] at hresp
        have h0 := response_eq_positive _ hresp
        rw [e2.1]
        rcases XcpAllocOdtEntry_cases cfg (XcpCommand.entry cfg w).xcp
          (pCmd.CRO_ALLOC_ODT_ENTRY_DAQ % 256) (pCmd.CRO_ALLOC_ODT_ENTRY_ODT % 256)
          (pCmd.CRO_ALLOC_ODT_ENTRY_COUNT % 256) (Nat.mod_lt _ (by decide))
          with ⟨-, c1⟩ | c | ⟨-, c2, c3, c4, -, c5⟩
        · exact absurd h0 c1
        · rw [c] at h0; exact absurd h0 hov
        · rw [fD] at c2 c3 c4
          exact poolBytes_ALLOC_ODT_ENTRY cfg _ _ _ hcfg (Nat.mod_lt _ (by decide)) hinv
            c2 c3 c4 c5

/-- Witness of C10, amended: ALLOC_DAQ(63) on the 512 byte pool is answered
positively and uses 504 bytes. -/
theorem XcpCommand_overflow_threshold_witness :
    cfg512.noWrap ∧ connected slaveConnected.xcp ∧
      poolBytes cfg512 slaveConnected.xcp.Daq ≤ cfg512.kXcpDaqMemSize ∧
      (XcpCommand cfg512 slaveConnected (mkALLOC_DAQ 63)).2 = some [0xFF] ∧
      poolBytes cfg512 (XcpCommand cfg512 slaveConnected (mkALLOC_DAQ 63)).1.xcp.Daq
        < cfg512.kXcpDaqMemSize :=
  ⟨by decide, by decide, by decide, by decide,
   (XcpCommand_overflow_threshold cfg512 slaveConnected (mkALLOC_DAQ 63) (by decide)
      (by decide) (by decide) (Or.inl rfl)).2 (by decide)⟩

/-! ### Monotony of the counts -/

/-- The counts `XcpAllocDaq` leaves: those before, or `DaqCount` set to the
count passed. -/
theorem XcpAllocDaq_Daq (cfg : Config) (x : tXcpData) (n : Nat) :
    (XcpAllocDaq cfg x n).1.Daq = x.Daq ∨
      (XcpAllocDaq cfg x n).1.Daq = { x.Daq with DaqCount := n } := by
  unfold XcpAllocDaq
  split
  · left; rfl
  · split
    · left; rfl
    · right
      exact (XcpAllocMemory_spec cfg _).2.2.1

/-- The counts `XcpAllocOdt` leaves: those before, or `OdtCount` advanced by
the count passed, modulo `2^16`. -/
theorem XcpAllocOdt_Daq (cfg : Config) (x : tXcpData) (daq n : Nat) :
    (XcpAllocOdt cfg x daq n).1 = x ∨
      ((XcpAllocOdt cfg x daq n).1.Daq.DaqCount = x.Daq.DaqCount ∧
        (XcpAllocOdt cfg x daq n).1.Daq.OdtCount = (x.Daq.OdtCount + n) % 65536 ∧
        (XcpAllocOdt cfg x daq n).1.Daq.OdtEntryCount = x.Daq.OdtEntryCount) := by
  unfold XcpAllocOdt
  split
  · left; rfl
  · split
    · left; rfl
    · right
      simp only []
      generalize hx3 : setDaqList _ _ _ = x3
      rw [(XcpAllocMemory_spec cfg x3).2.2.1, ← hx3]
      exact ⟨rfl, rfl, rfl⟩

/-- The counts `XcpAllocOdtEntry` leaves: those before, or `OdtEntryCount`
advanced by the count passed, without wrap. -/
theorem XcpAllocOdtEntry_Daq (cfg : Config) (x : tXcpData) (daq odt n : Nat) (hn : n < 256) :
    (XcpAllocOdtEntry cfg x daq odt n).1 = x ∨
      ((XcpAllocOdtEntry cfg x daq odt n).1.Daq.DaqCount = x.Daq.DaqCount ∧
        (XcpAllocOdtEntry cfg x daq odt n).1.Daq.OdtCount = x.Daq.OdtCount ∧
        (XcpAllocOdtEntry cfg x daq odt n).1.Daq.OdtEntryCount = x.Daq.OdtEntryCount + n ∧
        x.Daq.OdtEntryCount + n ≤ 0xFFFF) := by
  unfold XcpAllocOdtEntry
  split
  · left; rfl
  · split
    · left; rfl
    · split
      · left; rfl
      · rename_i hle
        right
        simp only []
        generalize hx3 : setOdt _ _ _ = x3
        rw [(XcpAllocMemory_spec cfg x3).2.2.1, ← hx3]
        refine ⟨rfl, rfl, ?_, by omega⟩
        show (x.Daq.OdtEntryCount + n) % 65536 = x.Daq.OdtEntryCount + n
        exact Nat.mod_eq_of_lt (by omega)

/-- A command other than CONNECT leaves a session that is not connected as
it is. -/
theorem XcpCommand_not_connected (cfg : Config) (w : Slave) (pCmd : tXcpCto)
    (hcon : ¬ connected w.xcp) (hcmd : pCmd.CRO_CMD ≠ .CC_CONNECT) :
    XcpCommand cfg w pCmd = (w, none) := by
  have h0 : w.xcp.SessionStatus &&& SS_CONNECTED = 0 := by simpa [connected] using hcon
  simp [XcpCommand, XcpCommand.body, hcmd, h0]

/-- C11, counterexample: after CONNECT and ALLOC_DAQ(5) on the 512 byte pool
`DaqCount` is 5; ALLOC_DAQ(2), which is neither FREE_DAQ nor CONNECT, is
answered `FF` and lowers `DaqCount` to 2. -/
theorem XcpCommand_ALLOC_DAQ_lowers_count :
    (runCommands cfg512 slaveConnected [mkALLOC_DAQ 5]).xcp.Daq.DaqCount = 5 ∧
      (mkALLOC_DAQ 2).CRO_CMD ≠ .CC_FREE_DAQ ∧ (mkALLOC_DAQ 2).CRO_CMD ≠ .CC_CONNECT ∧
      (XcpCommand cfg512 (runCommands cfg512 slaveConnected [mkALLOC_DAQ 5])
        (mkALLOC_DAQ 2)).2 = some [0xFF] ∧
      (XcpCommand cfg512 (runCommands cfg512 slaveConnected [mkALLOC_DAQ 5])
        (mkALLOC_DAQ 2)).1.xcp.Daq.DaqCount = 2 ∧
      (XcpCommand cfg512 (runCommands cfg512 slaveConnected [mkALLOC_DAQ 5])
        (mkALLOC_DAQ 2)).1.xcp.Daq.DaqCount
        < (runCommands cfg512 slaveConnected [mkALLOC_DAQ 5]).xcp.Daq.DaqCount := by
  decide

/-- C11, amended: for every state and every command other than FREE_DAQ and
CONNECT that keeps to the domain of the embedding (a DOWNLOAD writes outside
of `xcp`, and every access through an arena pointer goes to the array the
pointer was placed for), from the state before the command to the state after
it: `OdtEntryCount` does not decrease; `OdtCount` does not decrease when it is
below `2^16 - 255` (ALLOC_ODT advances it modulo `2^16`); `DaqCount` is
unchanged by every command but ALLOC_DAQ, and ALLOC_DAQ leaves it as it was
or sets it to the count of the packet. -/
theorem XcpCommand_counts_step (cfg : Config) (w : Slave) (pCmd : tXcpCto)
    (hc : pCmd.CRO_CMD ≠ .CC_CONNECT) (hf : pCmd.CRO_CMD ≠ .CC_FREE_DAQ)
    (_hdef : XcpCommand.defined cfg w pCmd) :
    w.xcp.Daq.OdtEntryCount ≤ (XcpCommand cfg w pCmd).1.xcp.Daq.OdtEntryCount ∧
      (w.xcp.Daq.OdtCount + 255 < 65536 →
        w.xcp.Daq.OdtCount ≤ (XcpCommand cfg w pCmd).1.xcp.Daq.OdtCount) ∧
      (pCmd.CRO_CMD ≠ .CC_ALLOC_DAQ →
        (XcpCommand cfg w pCmd).1.xcp.Daq.DaqCount = w.xcp.Daq.DaqCount) ∧
      (pCmd.CRO_CMD = .CC_ALLOC_DAQ →
        (XcpCommand cfg w pCmd).1.xcp.Daq.DaqCount = w.xcp.Daq.DaqCount ∨
        (XcpCommand cfg w pCmd).1.xcp.Daq.DaqCount = pCmd.CRO_ALLOC_DAQ_COUNT % 256) := by
  by_cases hcon : connected w.xcp
  swap
  · rw [XcpCommand_not_connected cfg w pCmd hcon hc]
    exact ⟨le_refl _, fun _ => le_refl _, fun _ => rfl, fun _ => Or.inl rfl⟩
  have fD := (XcpCommand.entry_frame cfg w).2.2.2.1
  by_cases h2 : pCmd.CRO_CMD = .CC_ALLOC_DAQ
  · obtain ⟨-, e2⟩ := XcpCommand_ALLOC_DAQ_eq cfg w pCmd hcon h2
    rw [e2.1]
    rcases XcpAllocDaq_Daq cfg (XcpCommand.entry cfg w).xcp (pCmd.CRO_ALLOC_DAQ_COUNT % 256)
      with c | c
    · rw [c, fD]
      exact ⟨le_refl _, fun _ => le_refl _, fun _ => rfl, fun _ => Or.inl rfl⟩
    · rw [c, fD]
      exact ⟨le_refl _, fun _ => le_refl _, fun h => absurd h2 h, fun _ => Or.inr rfl⟩
  by_cases h3 : pCmd.CRO_CMD = .CC_ALLOC_ODT
  · have h3' : ¬ pCmd.CRO_CMD = .CC_ALLOC_DAQ := h2
    obtain ⟨r1, r2⟩ := XcpCommand_ALLOC_ODT_eq cfg w pCmd hcon h3
    by_cases hr : cfg.XCP_ENABLE_PARAMETER_CHECK = true ∧
        pCmd.CRO_ALLOC_ODT_DAQ % 256 ≥ w.xcp.Daq.DaqCount
    · rw [(r1 hr).2.1]
      exact ⟨le_refl _, fun _ => le_refl _, fun _ => rfl, fun h => absurd h h2⟩
    · obtain ⟨-, e2⟩ := r2 hr
      rw [e2.1]
      rcases XcpAllocOdt_Daq cfg (XcpCommand.entry cfg w).xcp (pCmd.CRO_ALLOC_ODT_DAQ % 256)
        (pCmd.CRO_ALLOC_ODT_COUNT % 256) with c | ⟨c1, c2, c3⟩
      · rw [c, fD]
        exact ⟨le_refl _, fun _ => le_refl _, fun _ => rfl, fun h => absurd h h2⟩
      · rw [fD] at c1 c2 c3
        rw [c1, c2, c3]
        refine ⟨le_refl _, fun hlt => ?_, fun _ => rfl, fun h => absurd h h2⟩
        have := Nat.mod_lt pCmd.CRO_ALLOC_ODT_COUNT (show 256 > 0 by decide)
        rw [Nat.mod_eq_of_lt (by omega)]
        omega
  by_cases h4 : pCmd.CRO_CMD = .CC_ALLOC_ODT_ENTRY
  · obtain ⟨r1, r2⟩ := XcpCommand_ALLOC_ODT_ENTRY_eq cfg w pCmd hcon h4
    by_cases hr : cfg.XCP_ENABLE_PARAMETER_CHECK = true ∧
        (pCmd.CRO_ALLOC_ODT_ENTRY_DAQ % 256 ≥ w.xcp.Daq.DaqCount ∨
          pCmd.CRO_ALLOC_ODT_ENTRY_ODT % 256
            ≥ toUInt8 (DaqListOdtCount w.xcp (pCmd.CRO_ALLOC_ODT_ENTRY_DAQ % 256)))
    · rw [(r1 hr).2.1]
      exact ⟨le_refl _, fun _ => le_refl _, fun _ => rfl, fun h => absurd h h2⟩
    · obtain ⟨-, e2⟩ := r2 hr
      rw [e2.1]
      rcases XcpAllocOdtEntry_Daq cfg (XcpCommand.entry cfg w).xcp
        (pCmd.CRO_ALLOC_ODT_ENTRY_DAQ % 256) (pCmd.CRO_ALLOC_ODT_ENTRY_ODT % 256)
        (pCmd.CRO_ALLOC_ODT_ENTRY_COUNT % 256) (Nat.mod_lt _ (by decide))
        with c | ⟨c1, c2, c3, -⟩
      · rw [c, fD]
        exact ⟨le_refl _, fun _ => le_refl _, fun _ => rfl, fun h => absurd h h2⟩
      · rw [fD] at c1 c2 c3
        rw [c1, c2, c3]
        exact ⟨by omega, fun _ => le_refl _, fun _ => rfl, fun h => absurd h h2⟩
  obtain ⟨s1, s2, s3⟩ := XcpCommand_counts cfg w pCmd hc hf h2 h3 h4
  rw [s1, s2, s3]
  exact ⟨le_refl _, fun _ => le_refl _, fun _ => rfl, fun h => absurd h h2⟩

/-- Witness of C11, amended: ALLOC_ODT(0, 1) sent after CONNECT and
ALLOC_DAQ(1) stores to list 0 of the array and raises `OdtCount` from 0 to
1. -/
theorem XcpCommand_counts_step_witness :
    (runCommands cfg512 slaveConnected [mkALLOC_DAQ 1]).xcp.Daq.OdtCount
      ≤ (XcpCommand cfg512 (runCommands cfg512 slaveConnected [mkALLOC_DAQ 1])
          (mkALLOC_ODT 0 1)).1.xcp.Daq.OdtCount :=
  (XcpCommand_counts_step cfg512 (runCommands cfg512 slaveConnected [mkALLOC_DAQ 1])
    (mkALLOC_ODT 0 1) (by decide) (by decide) (by decide)).2.1 (by decide)

/-! ### Start, stop and configuration of DAQ lists -/

/-- Setting the bits `m` sets them. -/
theorem lor_land_self (x m : Nat) : (x ||| m) &&& m = m := by
  apply Nat.eq_of_testBit_eq
  intro i
  simp only [Nat.testBit_and, Nat.testBit_or]
  cases x.testBit i <;> cases m.testBit i <;> rfl

/-- Setting bits outside of `k` keeps the bits `k`. -/
theorem lor_land_of_disjoint (x m k : Nat) (h : m &&& k = 0) : (x ||| m) &&& k = x &&& k := by
  rw [Nat.and_distrib_right, h, Nat.or_zero]

/-- Masking with bits outside of `k` clears the bits `k`. -/
theorem land_land_of_disjoint (x m k : Nat) (h : m &&& k = 0) : (x &&& m) &&& k = 0 := by
  rw [Nat.land_assoc, h, Nat.and_zero]

/-- Masking with a mask that holds `k` keeps the bits `k`. -/
theorem land_land_of_subset (x m k : Nat) (h : m &&& k = k) : (x &&& m) &&& k = x &&& k := by
  rw [Nat.land_assoc, h]

/-- The function `XcpStopDaq` leaves the response buffer alone. -/
theorem XcpStopDaq_Crm (x : tXcpData) (daq : Nat) :
    (XcpStopDaq x daq).Crm = x.Crm ∧ (XcpStopDaq x daq).CrmLen = x.CrmLen := by
  unfold XcpStopDaq
  simp only []
  split <;> exact ⟨rfl, rfl⟩

/-- The dispatcher's case START_STOP_DAQ_LIST in the connected state, for a
list number in range: the state is the one the case leaves and the response
is `FF 00` for the modes 1 and 2 and `FF` otherwise. -/
theorem XcpCommand_START_STOP_DAQ_LIST_eq (cfg : Config) (w : Slave) (pCmd : tXcpCto)
    (hcon : connected w.xcp) (hcmd : pCmd.CRO_CMD = .CC_START_STOP_DAQ_LIST)
    (hd : startStopDaq pCmd < w.xcp.Daq.DaqCount) :
    XcpCommand cfg w pCmd =
      ((XcpCommand.START_STOP_DAQ_LIST cfg (XcpCommand.entry cfg w) pCmd).1,
       some (if pCmd.CRO_START_STOP_MODE = 1 ∨ pCmd.CRO_START_STOP_MODE = 2 then [0xFF, 0x00]
             else [0xFF])) := by
  have hne : pCmd.CRO_CMD ≠ .CC_CONNECT := by rw [hcmd]; decide
  have hb := XcpCommand.body_connected cfg w pCmd hcon hne
  have fD := (XcpCommand.entry_frame cfg w).2.2.2.1
  obtain ⟨c0, c1⟩ := XcpCommand.entry_Crm cfg w
  have hd2 : ¬ ((pCmd.CRO_START_STOP_DAQ &&& 0xFF) % 256 ≥ w.xcp.Daq.DaqCount) := by
    simpa [startStopDaq] using hd
  simp only [XcpCommand.switch, hcmd] at hb
  have hex : (XcpCommand.START_STOP_DAQ_LIST cfg (XcpCommand.entry cfg w) pCmd).2
      = .positive_response := by
    simp only [XcpCommand.START_STOP_DAQ_LIST, fD]
    rw [if_neg (fun h => hd2 h.2)]
    split <;> rfl
  have hb2 : XcpCommand.body cfg w pCmd
      = ((XcpCommand.START_STOP_DAQ_LIST cfg (XcpCommand.entry cfg w) pCmd).1,
          .positive_response) := by
    rw [hb, ← hex]
  rw [XcpCommand_of_positive cfg w _ pCmd hb2]
  congr 2
  simp only [XcpCommand.START_STOP_DAQ_LIST, fD]
  rw [if_neg (fun h => hd2 h.2)]
  by_cases hm : pCmd.CRO_START_STOP_MODE = 1 ∨ pCmd.CRO_START_STOP_MODE = 2
  · rw [if_pos hm, if_pos hm]
    by_cases h1 : pCmd.CRO_START_STOP_MODE = 1
    · simp [h1, XcpSendCrm, setCrmByte, XcpStartDaq, setDaqList, c0,
        CRM_START_STOP_LEN, CRM_START_STOP_FIRST_PID, List.range_succ]
    · simp [h1, XcpSendCrm, setCrmByte, XcpStartDaq, setDaqList, c0,
        CRM_START_STOP_LEN, CRM_START_STOP_FIRST_PID, List.range_succ]
  · rw [if_neg hm, if_neg hm]
    simp [XcpSendCrm, (XcpStopDaq_Crm _ _).1, (XcpStopDaq_Crm _ _).2, c0, c1, List.range_succ]

/-- The configuration bits `XcpStopDaq` keeps hold neither RUNNING nor
SELECTED. -/
theorem stop_mask_bits :
    (DAQ_FLAG_DIRECTION ||| DAQ_FLAG_TIMESTAMP ||| DAQ_FLAG_NO_PID) &&& DAQ_FLAG_RUNNING = 0 ∧
      (DAQ_FLAG_DIRECTION ||| DAQ_FLAG_TIMESTAMP ||| DAQ_FLAG_NO_PID) &&& DAQ_FLAG_SELECTED = 0 := by
  decide

/-- The DAQ structure `XcpStopDaq` leaves: the flags of list `daq` masked
with the configuration bits. -/
theorem XcpStopDaq_Daq (x : tXcpData) (daq : Nat) :
    (XcpStopDaq x daq).Daq = (setDaqList x daq (fun l => { l with flags :=
      l.flags &&& (DAQ_FLAG_DIRECTION ||| DAQ_FLAG_TIMESTAMP ||| DAQ_FLAG_NO_PID) })).Daq := by
  unfold XcpStopDaq
  simp only []
  split <;> rfl

/-- The session status `XcpStopDaq` leaves: the DAQ bit is cleared when no
list below `DaqCount` is running any more, and nothing changes otherwise. -/
theorem XcpStopDaq_SessionStatus (x : tXcpData) (daq : Nat) :
    ((∃ i, i < x.Daq.DaqCount ∧ listRunning (XcpStopDaq x daq) i) →
        (XcpStopDaq x daq).SessionStatus = x.SessionStatus) ∧
      ((∀ i, i < x.Daq.DaqCount → ¬ listRunning (XcpStopDaq x daq) i) →
        (XcpStopDaq x daq).SessionStatus = x.SessionStatus &&& not8 SS_DAQ) := by
  have hD := XcpStopDaq_Daq x daq
  simp only [listRunning, hD]
  unfold XcpStopDaq
  simp only []
  split
  · rename_i hany
    refine ⟨fun _ => rfl, fun hall => ?_⟩
    rw [List.any_eq_true] at hany
    obtain ⟨i, hi, hr⟩ := hany
    rw [List.mem_range] at hi
    exact absurd (of_decide_eq_true hr) (hall i hi)
  · rename_i hany
    refine ⟨fun hex => ?_, fun _ => rfl⟩
    obtain ⟨i, hi, hr⟩ := hex
    exfalso
    apply hany
    rw [List.any_eq_true]
    exact ⟨i, List.mem_range.mpr hi, decide_eq_true hr⟩

/-- The function `XcpStopDaq` changes the flags of list `daq` and the session
status only. -/
theorem XcpStopDaq_frame (x : tXcpData) (daq : Nat) :
    (XcpStopDaq x daq).Odt = x.Odt ∧ (XcpStopDaq x daq).OdtEntryAddr = x.OdtEntryAddr ∧
      (XcpStopDaq x daq).OdtEntrySize = x.OdtEntrySize ∧ (XcpStopDaq x daq).pOdt = x.pOdt ∧
      (XcpStopDaq x daq).pOdtEntryAddr = x.pOdtEntryAddr ∧
      (XcpStopDaq x daq).pOdtEntrySize = x.pOdtEntrySize ∧
      (XcpStopDaq x daq).Mta = x.Mta ∧ (XcpStopDaq x daq).DaqListPtr = x.DaqListPtr := by
  unfold XcpStopDaq
  simp only []
  split <;> exact ⟨rfl, rfl, rfl, rfl, rfl, rfl, rfl, rfl⟩

/-- The records `setDaqList` leaves. -/
theorem setDaqList_DaqList (x : tXcpData) (i : Nat) (f : tXcpDaqList → tXcpDaqList) (d : Nat) :
    (setDaqList x i f).Daq.DaqList d = if d = i then f (x.Daq.DaqList i) else x.Daq.DaqList d := by
  simp only [setDaqList, Function.update_apply]

/-- Being the same but for the lists and the session status is reflexive. -/
theorem sameButLists_refl (x : tXcpData) : sameButLists x x :=
  ⟨rfl, rfl, rfl, rfl, rfl, rfl, rfl, rfl, rfl, rfl, rfl, rfl, rfl⟩

/-- Being the same but for the lists and the session status is transitive. -/
theorem sameButLists_trans {x y z : tXcpData} (h1 : sameButLists x y) (h2 : sameButLists y z) :
    sameButLists x z := by
  obtain ⟨a1, a2, a3, a4, a5, a6, a7, a8, a9, a10, a11, a12, a13⟩ := h1
  obtain ⟨b1, b2, b3, b4, b5, b6, b7, b8, b9, b10, b11, b12, b13⟩ := h2
  exact ⟨b1.trans a1, b2.trans a2, b3.trans a3, b4.trans a4, b5.trans a5, b6.trans a6,
    b7.trans a7, b8.trans a8, b9.trans a9, b10.trans a10, b11.trans a11, b12.trans a12,
    b13.trans a13⟩

/-- The function `XcpStopDaq` changes list records and session status only. -/
theorem XcpStopDaq_sameButLists (x : tXcpData) (daq : Nat) :
    sameButLists x (XcpStopDaq x daq) := by
  unfold XcpStopDaq
  simp only []
  split <;> exact ⟨rfl, rfl, rfl, rfl, rfl, rfl, rfl, rfl, rfl, rfl, rfl, rfl, rfl⟩

/-- The loop of `XcpStopAllDaq` over the lists below `n`: their flags are
masked with the configuration bits, nothing else changes. -/
theorem XcpStopAllDaq_loop (n : Nat) (x : tXcpData) :
    sameButLists x ((List.range n).foldl
        (fun x daq => setDaqList x daq (fun l => { l with flags :=
          l.flags &&& (DAQ_FLAG_DIRECTION ||| DAQ_FLAG_TIMESTAMP ||| DAQ_FLAG_NO_PID) })) x) ∧
      ((List.range n).foldl
        (fun x daq => setDaqList x daq (fun l => { l with flags :=
          l.flags &&& (DAQ_FLAG_DIRECTION ||| DAQ_FLAG_TIMESTAMP ||| DAQ_FLAG_NO_PID) }))
        x).SessionStatus = x.SessionStatus ∧
      ∀ d, ((List.range n).foldl
        (fun x daq => setDaqList x daq (fun l => { l with flags :=
          l.flags &&& (DAQ_FLAG_DIRECTION ||| DAQ_FLAG_TIMESTAMP ||| DAQ_FLAG_NO_PID) }))
        x).Daq.DaqList d =
          if d < n then { x.Daq.DaqList d with flags := (x.Daq.DaqList d).flags &&&
            (DAQ_FLAG_DIRECTION ||| DAQ_FLAG_TIMESTAMP ||| DAQ_FLAG_NO_PID) }
          else x.Daq.DaqList d := by
  induction n with
  | zero => exact ⟨sameButLists_refl x, rfl, fun d => by simp⟩
  | succ n ih =>
    rw [List.range_succ, List.foldl_append]
    simp only [List.foldl_cons, List.foldl_nil]
    obtain ⟨i1, i2, i3⟩ := ih
    generalize (List.range n).foldl _ x = y at *
    refine ⟨sameButLists_trans i1 ⟨rfl, rfl, rfl, rfl, rfl, rfl, rfl, rfl, rfl, rfl, rfl, rfl,
      rfl⟩, i2, ?_⟩
    intro d
    rw [setDaqList_DaqList]
    by_cases hdn : d = n
    · subst hdn
      rw [if_pos rfl, i3, if_neg (by omega), if_pos (by omega)]
    · rw [if_neg hdn, i3]
      by_cases hlt : d < n
      · rw [if_pos hlt, if_pos (by omega)]
      · rw [if_neg hlt, if_neg (by omega)]

/-- What `XcpStopAllDaq` does: the flags of the lists below `DaqCount` are
masked with the configuration bits and the DAQ bit of the session status is
cleared; nothing else changes. -/
theorem XcpStopAllDaq_spec (x : tXcpData) :
    sameButLists x (XcpStopAllDaq x) ∧
      (XcpStopAllDaq x).SessionStatus = x.SessionStatus &&& not8 SS_DAQ ∧
      ∀ d, (XcpStopAllDaq x).Daq.DaqList d =
          if d < x.Daq.DaqCount then { x.Daq.DaqList d with flags := (x.Daq.DaqList d).flags &&&
            (DAQ_FLAG_DIRECTION ||| DAQ_FLAG_TIMESTAMP ||| DAQ_FLAG_NO_PID) }
          else x.Daq.DaqList d := by
  obtain ⟨i1, i2, i3⟩ := XcpStopAllDaq_loop x.Daq.DaqCount x
  unfold XcpStopAllDaq
  simp only []
  generalize (List.range x.Daq.DaqCount).foldl _ x = y at *
  exact ⟨sameButLists_trans i1 ⟨rfl, rfl, rfl, rfl, rfl, rfl, rfl, rfl, rfl, rfl, rfl, rfl,
    rfl⟩, by rw [i2], i3⟩

/-- The loop of `XcpStartAllSelectedDaq` over the lists below `n`: the lists
that had SELECTED get RUNNING and lose SELECTED, the DAQ bit of the session
status is set when there is one, nothing else changes. -/
theorem XcpStartAllSelectedDaq_loop (n : Nat) (x : tXcpData) :
    sameButLists x ((List.range n).foldl
        (fun x daq =>
          if (x.Daq.DaqList daq).flags &&& DAQ_FLAG_SELECTED ≠ 0 then
            setDaqList (XcpStartDaq x daq) daq
              (fun l => { l with flags := l.flags &&& not8 DAQ_FLAG_SELECTED })
          else x) x) ∧
      ((∃ d, d < n ∧ listSelected x d) → ((List.range n).foldl
        (fun x daq =>
          if (x.Daq.DaqList daq).flags &&& DAQ_FLAG_SELECTED ≠ 0 then
            setDaqList (XcpStartDaq x daq) daq
              (fun l => { l with flags := l.flags &&& not8 DAQ_FLAG_SELECTED })
          else x) x).SessionStatus = x.SessionStatus ||| SS_DAQ) ∧
      ((∀ d, d < n → ¬ listSelected x d) → ((List.range n).foldl
        (fun x daq =>
          if (x.Daq.DaqList daq).flags &&& DAQ_FLAG_SELECTED ≠ 0 then
            setDaqList (XcpStartDaq x daq) daq
              (fun l => { l with flags := l.flags &&& not8 DAQ_FLAG_SELECTED })
          else x) x).SessionStatus = x.SessionStatus) ∧
      ∀ d, ((List.range n).foldl
        (fun x daq =>
          if (x.Daq.DaqList daq).flags &&& DAQ_FLAG_SELECTED ≠ 0 then
            setDaqList (XcpStartDaq x daq) daq
              (fun l => { l with flags := l.flags &&& not8 DAQ_FLAG_SELECTED })
          else x) x).Daq.DaqList d =
          if d < n ∧ listSelected x d then
            { x.Daq.DaqList d with flags :=
              ((x.Daq.DaqList d).flags ||| DAQ_FLAG_RUNNING) &&& not8 DAQ_FLAG_SELECTED }
          else x.Daq.DaqList d := by
  induction n with
  | zero => exact ⟨sameButLists_refl x, fun ⟨d, h, _⟩ => absurd h (by omega), fun _ => rfl,
      fun d => by simp⟩
  | succ n ih =>
    rw [List.range_succ, List.foldl_append]
    simp only [List.foldl_cons, List.foldl_nil]
    obtain ⟨i1, i2, i3, i4⟩ := ih
    generalize (List.range n).foldl _ x = y at *
    have hyn : y.Daq.DaqList n = x.Daq.DaqList n := by
      rw [i4, if_neg (by omega)]
    by_cases hsel : listSelected x n
    · have hsel2 : (y.Daq.DaqList n).flags &&& DAQ_FLAG_SELECTED ≠ 0 := by rw [hyn]; exact hsel
      rw [if_pos hsel2]
      refine ⟨sameButLists_trans i1 ⟨rfl, rfl, rfl, rfl, rfl, rfl, rfl, rfl, rfl, rfl, rfl, rfl,
        rfl⟩, ?_, ?_, ?_⟩
      · intro _
        show y.SessionStatus ||| SS_DAQ = x.SessionStatus ||| SS_DAQ
        by_cases hex : ∃ d, d < n ∧ listSelected x d
        · rw [i2 hex, Nat.lor_assoc, Nat.or_self]
        · rw [i3 (fun d hd hs => hex ⟨d, hd, hs⟩)]
      · intro hall
        exact absurd hsel (hall n (by omega))
      · intro d
        rw [setDaqList_DaqList]
        by_cases hdn : d = n
        · subst hdn
          rw [if_pos rfl, if_pos ⟨by omega, hsel⟩]
          simp only [XcpStartDaq, setDaqList, Function.update_same, hyn]
        · rw [if_neg hdn]
          simp only [XcpStartDaq, setDaqList, Function.update_apply, if_neg hdn]
          rw [i4]
          by_cases hc : d < n ∧ listSelected x d
          · rw [if_pos hc, if_pos ⟨by omega, hc.2⟩]
          · rw [if_neg hc, if_neg (fun h => hc ⟨by omega, h.2⟩)]
    · have hsel2 : ¬ ((y.Daq.DaqList n).flags &&& DAQ_FLAG_SELECTED ≠ 0) := by
        rw [hyn]; exact hsel
      rw [if_neg hsel2]
      refine ⟨i1, ?_, ?_, ?_⟩
      · rintro ⟨d, hd, hs⟩
        have hdn : d ≠ n := fun h => hsel (h ▸ hs)
        exact i2 ⟨d, by omega, hs⟩
      · intro hall
        exact i3 (fun d hd => hall d (by omega))
      · intro d
        rw [i4]
        by_cases hc : d < n ∧ listSelected x d
        · rw [if_pos hc, if_pos ⟨by omega, hc.2⟩]
        · rw [if_neg hc, if_neg]
          rintro ⟨h1, h2⟩
          have hdn : d ≠ n := fun h => hsel (h ▸ h2)
          exact hc ⟨by omega, h2⟩

/-- The loop of `XcpStopAllSelectedDaq` over the lists below `n`: the lists
that had SELECTED keep their configuration bits only, the other list records
and everything but the session status are unchanged. -/
theorem XcpStopAllSelectedDaq_loop (n : Nat) (x : tXcpData) :
    sameButLists x ((List.range n).foldl
        (fun x daq =>
          if (x.Daq.DaqList daq).flags &&& DAQ_FLAG_SELECTED ≠ 0 then
            setDaqList (XcpStopDaq x daq) daq
              (fun l => { l with flags := l.flags &&& not8 DAQ_FLAG_SELECTED })
          else x) x) ∧
      ∀ d, ((List.range n).foldl
        (fun x daq =>
          if (x.Daq.DaqList daq).flags &&& DAQ_FLAG_SELECTED ≠ 0 then
            setDaqList (XcpStopDaq x daq) daq
              (fun l => { l with flags := l.flags &&& not8 DAQ_FLAG_SELECTED })
          else x) x).Daq.DaqList d =
          if d < n ∧ listSelected x d then
            { x.Daq.DaqList d with flags :=
              (((x.Daq.DaqList d).flags &&&
                (DAQ_FLAG_DIRECTION ||| DAQ_FLAG_TIMESTAMP ||| DAQ_FLAG_NO_PID)) &&&
                not8 DAQ_FLAG_SELECTED) }
          else x.Daq.DaqList d := by
  induction n with
  | zero => exact ⟨sameButLists_refl x, fun d => by simp⟩
  | succ n ih =>
    rw [List.range_succ, List.foldl_append]
    simp only [List.foldl_cons, List.foldl_nil]
    obtain ⟨i1, i4⟩ := ih
    generalize (List.range n).foldl _ x = y at *
    have hyn : y.Daq.DaqList n = x.Daq.DaqList n := by
      rw [i4, if_neg (by omega)]
    by_cases hsel : listSelected x n
    · have hsel2 : (y.Daq.DaqList n).flags &&& DAQ_FLAG_SELECTED ≠ 0 := by rw [hyn]; exact hsel
      rw [if_pos hsel2]
      refine ⟨sameButLists_trans i1 (sameButLists_trans (XcpStopDaq_sameButLists y n)
        ⟨rfl, rfl, rfl, rfl, rfl, rfl, rfl, rfl, rfl, rfl, rfl, rfl, rfl⟩), ?_⟩
      intro d
      rw [setDaqList_DaqList, XcpStopDaq_Daq, setDaqList_DaqList, setDaqList_DaqList]
      by_cases hdn : d = n
      · subst hdn
        rw [if_pos rfl, if_pos rfl, if_pos ⟨by omega, hsel⟩, hyn]
      · rw [if_neg hdn, if_neg hdn, i4]
        by_cases hc : d < n ∧ listSelected x d
        · rw [if_pos hc, if_pos ⟨by omega, hc.2⟩]
        · rw [if_neg hc, if_neg (fun h => hc ⟨by omega, h.2⟩)]
    · have hsel2 : ¬ ((y.Daq.DaqList n).flags &&& DAQ_FLAG_SELECTED ≠ 0) := by
        rw [hyn]; exact hsel
      rw [if_neg hsel2]
      refine ⟨i1, ?_⟩
      intro d
      rw [i4]
      by_cases hc : d < n ∧ listSelected x d
      · rw [if_pos hc, if_pos ⟨by omega, hc.2⟩]
      · rw [if_neg hc, if_neg]
        rintro ⟨h1, h2⟩
        have hdn : d ≠ n := fun h => hsel (h ▸ h2)
        exact hc ⟨by omega, h2⟩

/-- C15, the code at the failing input: after CONNECT and ALLOC_DAQ(1) the
session is connected with `OdtCount` and `OdtEntryCount` zero, and
START_STOP_DAQ_LIST(mode 1, daq 0) is answered `FF 00`, not CRC_DAQ_CONDIF;
it sets RUNNING and SELECTED on list 0 and the DAQ bit of the session
status.  Directly after CONNECT, with all three counts zero, the answer is
CRC_OUT_OF_RANGE, not CRC_DAQ_CONDIF. -/
theorem XcpCommand_START_STOP_DAQ_LIST_empty_pool :
    connected (runCommands cfg512 slaveConnected [mkALLOC_DAQ 1]).xcp ∧
      (runCommands cfg512 slaveConnected [mkALLOC_DAQ 1]).xcp.Daq.OdtCount = 0 ∧
      (runCommands cfg512 slaveConnected [mkALLOC_DAQ 1]).xcp.Daq.OdtEntryCount = 0 ∧
      (XcpCommand cfg512 (runCommands cfg512 slaveConnected [mkALLOC_DAQ 1])
        (mkSTART_STOP_DAQ_LIST 1 0)).2 = some [0xFF, 0x00] ∧
      (XcpCommand cfg512 (runCommands cfg512 slaveConnected [mkALLOC_DAQ 1])
        (mkSTART_STOP_DAQ_LIST 1 0)).2 ≠ some [PID_ERR, CRC_DAQ_CONDIF] ∧
      ((runCommands cfg512 slaveConnected [mkALLOC_DAQ 1]).xcp.Daq.DaqList 0).flags = 0 ∧
      ((XcpCommand cfg512 (runCommands cfg512 slaveConnected [mkALLOC_DAQ 1])
        (mkSTART_STOP_DAQ_LIST 1 0)).1.xcp.Daq.DaqList 0).flags
          = DAQ_FLAG_SELECTED ||| DAQ_FLAG_RUNNING ∧
      ¬ daqRunning (runCommands cfg512 slaveConnected [mkALLOC_DAQ 1]).xcp ∧
      daqRunning (XcpCommand cfg512 (runCommands cfg512 slaveConnected [mkALLOC_DAQ 1])
        (mkSTART_STOP_DAQ_LIST 1 0)).1.xcp ∧
      connected slaveConnected.xcp ∧ slaveConnected.xcp.Daq.DaqCount = 0 ∧
      (XcpCommand cfg512 slaveConnected (mkSTART_STOP_DAQ_LIST 1 0)).2
        = some [PID_ERR, CRC_OUT_OF_RANGE] ∧
      (XcpCommand cfg512 slaveConnected (mkSTART_STOP_DAQ_LIST 1 0)).2
        ≠ some [PID_ERR, CRC_DAQ_CONDIF] := by
  decide

/-- What `XcpStartAllSelectedDaq` does: the lists below `DaqCount` that had
SELECTED get RUNNING and lose SELECTED, the DAQ bit of the session status is
set when there is one; nothing else changes. -/
theorem XcpStartAllSelectedDaq_spec (x : tXcpData) :
    sameButLists x (XcpStartAllSelectedDaq x) ∧
      ((∃ d, d < x.Daq.DaqCount ∧ listSelected x d) →
        (XcpStartAllSelectedDaq x).SessionStatus = x.SessionStatus ||| SS_DAQ) ∧
      ((∀ d, d < x.Daq.DaqCount → ¬ listSelected x d) →
        (XcpStartAllSelectedDaq x).SessionStatus = x.SessionStatus) ∧
      ∀ d, (XcpStartAllSelectedDaq x).Daq.DaqList d =
          if d < x.Daq.DaqCount ∧ listSelected x d then
            { x.Daq.DaqList d with flags :=
              ((x.Daq.DaqList d).flags ||| DAQ_FLAG_RUNNING) &&& not8 DAQ_FLAG_SELECTED }
          else x.Daq.DaqList d :=
  XcpStartAllSelectedDaq_loop x.Daq.DaqCount x

/-- What `XcpStopAllSelectedDaq` does: the lists below `DaqCount` that had
SELECTED keep their configuration bits only; the other list records and
everything but the session status are unchanged. -/
theorem XcpStopAllSelectedDaq_spec (x : tXcpData) :
    sameButLists x (XcpStopAllSelectedDaq x) ∧
      ∀ d, (XcpStopAllSelectedDaq x).Daq.DaqList d =
          if d < x.Daq.DaqCount ∧ listSelected x d then
            { x.Daq.DaqList d with flags :=
              (((x.Daq.DaqList d).flags &&&
                (DAQ_FLAG_DIRECTION ||| DAQ_FLAG_TIMESTAMP ||| DAQ_FLAG_NO_PID)) &&&
                not8 DAQ_FLAG_SELECTED) }
          else x.Daq.DaqList d :=
  XcpStopAllSelectedDaq_loop x.Daq.DaqCount x

/-- The dispatcher's case START_STOP_SYNCH in the connected state with none
of the three counts zero: the state is the one the case leaves and the
response is `FF`. -/
theorem XcpCommand_START_STOP_SYNCH_eq (cfg : Config) (w : Slave) (pCmd : tXcpCto)
    (hcon : connected w.xcp) (hcmd : pCmd.CRO_CMD = .CC_START_STOP_SYNCH)
    (h1 : w.xcp.Daq.DaqCount ≠ 0) (h2 : w.xcp.Daq.OdtCount ≠ 0)
    (h3 : w.xcp.Daq.OdtEntryCount ≠ 0) :
    XcpCommand cfg w pCmd =
      ({ XcpCommand.entry cfg w with xcp :=
          (if pCmd.CRO_START_STOP_MODE = 2 then
            XcpStopAllSelectedDaq (XcpCommand.entry cfg w).xcp
          else if pCmd.CRO_START_STOP_MODE = 1 then
            XcpStartAllSelectedDaq (XcpCommand.entry cfg w).xcp
          else XcpStopAllDaq (XcpCommand.entry cfg w).xcp) },
       some [0xFF]) := by
  have hne : pCmd.CRO_CMD ≠ .CC_CONNECT := by rw [hcmd]; decide
  have hb := XcpCommand.body_connected cfg w pCmd hcon hne
  have fD := (XcpCommand.entry_frame cfg w).2.2.2.1
  obtain ⟨c0, c1⟩ := XcpCommand.entry_Crm cfg w
  have hz : ¬ (0 = w.xcp.Daq.DaqCount ∨ 0 = w.xcp.Daq.OdtCount ∨ 0 = w.xcp.Daq.OdtEntryCount) := by
    rintro (h | h | h)
    · exact h1 h.symm
    · exact h2 h.symm
    · exact h3 h.symm
  simp only [XcpCommand.switch, hcmd, XcpCommand.START_STOP_SYNCH, fD] at hb
  rw [if_neg hz] at hb
  by_cases hm2 : pCmd.CRO_START_STOP_MODE = 2
  · rw [if_pos hm2] at hb
    rw [if_pos hm2, XcpCommand_of_positive cfg w _ pCmd hb]
    obtain ⟨⟨a1, a2, -⟩, -⟩ := XcpStopAllSelectedDaq_spec (XcpCommand.entry cfg w).xcp
    simp [XcpSendCrm, a1, a2, c0, c1, List.range_succ]
  · rw [if_neg hm2] at hb
    rw [if_neg hm2]
    by_cases hm1 : pCmd.CRO_START_STOP_MODE = 1
    · rw [if_pos hm1] at hb
      rw [if_pos hm1, XcpCommand_of_positive cfg w _ pCmd hb]
      obtain ⟨⟨a1, a2, -⟩, -⟩ := XcpStartAllSelectedDaq_spec (XcpCommand.entry cfg w).xcp
      simp [XcpSendCrm, a1, a2, c0, c1, List.range_succ]
    · rw [if_neg hm1] at hb
      rw [if_neg hm1, XcpCommand_of_positive cfg w _ pCmd hb]
      obtain ⟨⟨a1, a2, -⟩, -⟩ := XcpStopAllDaq_spec (XcpCommand.entry cfg w).xcp
      simp [XcpSendCrm, a1, a2, c0, c1, List.range_succ]

/-- C16: in every connected state.  When one of the three counts is zero
START_STOP_SYNCH is answered CRC_DAQ_CONDIF and the pool, the DAQ bit and
the connected bit of the session status, the MTA, the write cursor and the
memory are unchanged.  Otherwise the answer is `FF` and: mode 0 (any mode
other than 1 and 2) clears RUNNING on every list below `DaqCount` and clears
the DAQ bit; mode 1 sets RUNNING and clears SELECTED on the lists below
`DaqCount` that had SELECTED, sets the DAQ bit when there is one, leaves the
DAQ bit as it was when there is none, and leaves every other list record
unchanged; mode 2 clears RUNNING (and SELECTED) on the lists below `DaqCount`
that had SELECTED and leaves every other list record unchanged. -/
theorem XcpCommand_START_STOP_SYNCH (cfg : Config) (w : Slave) (pCmd : tXcpCto)
    (hcon : connected w.xcp) (hcmd : pCmd.CRO_CMD = .CC_START_STOP_SYNCH) :
    ((w.xcp.Daq.DaqCount = 0 ∨ w.xcp.Daq.OdtCount = 0 ∨ w.xcp.Daq.OdtEntryCount = 0) →
        (XcpCommand cfg w pCmd).2 = some [PID_ERR, CRC_DAQ_CONDIF] ∧
        samePool w.xcp (XcpCommand cfg w pCmd).1.xcp ∧
        (XcpCommand cfg w pCmd).1.xcp.SessionStatus &&& SS_DAQ = w.xcp.SessionStatus &&& SS_DAQ ∧
        connected (XcpCommand cfg w pCmd).1.xcp ∧
        (XcpCommand cfg w pCmd).1.xcp.Mta = w.xcp.Mta ∧
        (XcpCommand cfg w pCmd).1.xcp.DaqListPtr = w.xcp.DaqListPtr ∧
        (XcpCommand cfg w pCmd).1.mem = w.mem) ∧
      (w.xcp.Daq.DaqCount ≠ 0 → w.xcp.Daq.OdtCount ≠ 0 → w.xcp.Daq.OdtEntryCount ≠ 0 →
        (XcpCommand cfg w pCmd).2 = some [0xFF] ∧
        (pCmd.CRO_START_STOP_MODE ≠ 1 → pCmd.CRO_START_STOP_MODE ≠ 2 →
          (∀ d, d < w.xcp.Daq.DaqCount → ¬ listRunning (XcpCommand cfg w pCmd).1.xcp d) ∧
          ¬ daqRunning (XcpCommand cfg w pCmd).1.xcp) ∧
        (pCmd.CRO_START_STOP_MODE = 1 →
          (∀ d, d < w.xcp.Daq.DaqCount → listSelected w.xcp d →
            listRunning (XcpCommand cfg w pCmd).1.xcp d ∧
            ¬ listSelected (XcpCommand cfg w pCmd).1.xcp d) ∧
          (∀ d, ¬ (d < w.xcp.Daq.DaqCount ∧ listSelected w.xcp d) →
            (XcpCommand cfg w pCmd).1.xcp.Daq.DaqList d = w.xcp.Daq.DaqList d) ∧
          ((∃ d, d < w.xcp.Daq.DaqCount ∧ listSelected w.xcp d) →
            daqRunning (XcpCommand cfg w pCmd).1.xcp) ∧
          ((∀ d, d < w.xcp.Daq.DaqCount → ¬ listSelected w.xcp d) →
            (XcpCommand cfg w pCmd).1.xcp.SessionStatus &&& SS_DAQ
              = w.xcp.SessionStatus &&& SS_DAQ)) ∧
        (pCmd.CRO_START_STOP_MODE = 2 →
          (∀ d, d < w.xcp.Daq.DaqCount → listSelected w.xcp d →
            ¬ listRunning (XcpCommand cfg w pCmd).1.xcp d ∧
            ¬ listSelected (XcpCommand cfg w pCmd).1.xcp d) ∧
          (∀ d, ¬ (d < w.xcp.Daq.DaqCount ∧ listSelected w.xcp d) →
            (XcpCommand cfg w pCmd).1.xcp.Daq.DaqList d = w.xcp.Daq.DaqList d))) := by
  have hne : pCmd.CRO_CMD ≠ .CC_CONNECT := by rw [hcmd]; decide
  have fD := (XcpCommand.entry_frame cfg w).2.2.2.1
  have fS := XcpCommand.entry_SS_DAQ cfg w
  refine ⟨?_, ?_⟩
  · intro hz
    have hz2 : 0 = w.xcp.Daq.DaqCount ∨ 0 = w.xcp.Daq.OdtCount ∨ 0 = w.xcp.Daq.OdtEntryCount := by
      rcases hz with h | h | h
      · exact Or.inl h.symm
      · exact Or.inr (Or.inl h.symm)
      · exact Or.inr (Or.inr h.symm)
    have hsw : XcpCommand.switch cfg (XcpCommand.entry cfg w) pCmd
        = (XcpCommand.entry cfg w, .negative_response CRC_DAQ_CONDIF) := by
      simp only [XcpCommand.switch, hcmd, XcpCommand.START_STOP_SYNCH, fD]
      rw [if_pos hz2]
    have hb := XcpCommand.body_connected cfg w pCmd hcon hne
    rw [hsw] at hb
    obtain ⟨g1, g2, g3, g4, g5, g6, -⟩ := XcpCommand_of_negative cfg w _ pCmd _ hb
    obtain ⟨f1, -, f3, -, -, -, -, -, -, -, f11⟩ := XcpCommand.entry_frame cfg w
    refine ⟨by simpa [CRC_DAQ_CONDIF] using g1,
      samePool_trans (XcpCommand.entry_samePool cfg w) g2, by rw [g3, fS], ?_,
      by rw [g4, f3], by rw [g5, f11], by rw [g6, f1]⟩
    have := XcpCommand.entry_connected cfg w hcon
    simpa [connected, g3] using this
  · intro h1 h2 h3
    rw [XcpCommand_START_STOP_SYNCH_eq cfg w pCmd hcon hcmd h1 h2 h3]
    simp only []
    rw [← fD]
    have hsel : ∀ d, listSelected (XcpCommand.entry cfg w).xcp d ↔ listSelected w.xcp d := by
      intro d; simp only [listSelected, fD]
    generalize (XcpCommand.entry cfg w).xcp = x0 at *
    refine ⟨trivial, ?_, ?_, ?_⟩
    · intro m1 m2
      rw [if_neg m2, if_neg m1]
      obtain ⟨-, s2, s3⟩ := XcpStopAllDaq_spec x0
      refine ⟨?_, ?_⟩
      · intro d hd
        simp only [listRunning, s3, if_pos hd]
        rw [land_land_of_disjoint _ _ _ stop_mask_bits.1]; simp
      · simp only [daqRunning, s2, land_not8_SS_DAQ]; simp
    · intro m1
      rw [if_neg (by rw [m1]; decide), if_pos m1]
      obtain ⟨-, s1, s2, s3⟩ := XcpStartAllSelectedDaq_spec x0
      refine ⟨?_, ?_, ?_, ?_⟩
      · intro d hd hs
        have hs0 := (hsel d).mpr hs
        simp only [listRunning, listSelected, s3, if_pos (And.intro hd hs0)]
        refine ⟨?_, ?_⟩
        · rw [land_land_of_subset _ _ _ (by decide), lor_land_self]; decide
        · rw [land_land_of_disjoint _ _ _ (by decide)]; simp
      · intro d hn
        rw [s3, if_neg (fun h => hn ⟨h.1, (hsel d).mp h.2⟩)]
      · rintro ⟨d, hd, hs⟩
        simp only [daqRunning, s1 ⟨d, hd, (hsel d).mpr hs⟩]
        rw [lor_land_self]; decide
      · intro hall
        rw [s2 (fun d hd hs => hall d hd ((hsel d).mp hs)), fS]
    · intro m2
      rw [if_pos m2]
      obtain ⟨-, s3⟩ := XcpStopAllSelectedDaq_spec x0
      refine ⟨?_, ?_⟩
      · intro d hd hs
        have hs0 := (hsel d).mpr hs
        simp only [listRunning, listSelected, s3, if_pos (And.intro hd hs0)]
        refine ⟨?_, ?_⟩
        · rw [land_land_of_subset _ _ _ (by decide),
            land_land_of_disjoint _ _ _ stop_mask_bits.1]; simp
        · rw [land_land_of_disjoint _ _ _ (by decide)]; simp
      · intro d hn
        rw [s3, if_neg (fun h => hn ⟨h.1, (hsel d).mp h.2⟩)]

/-- C17: in every connected state (parameter checks compiled in), with `daq`
the list number the dispatcher takes from the packet.  When `daq` is not
below `DaqCount` the answer is CRC_OUT_OF_RANGE.  When it is below: every
other list record is unchanged; mode 1 is answered `FF 00` and sets SELECTED
and RUNNING on list `daq` and the DAQ bit of the session status; mode 2 sets
SELECTED on list `daq` and leaves its RUNNING flag and the DAQ bit as they
were; mode 0 (any mode other than 1 and 2) clears RUNNING and SELECTED on
list `daq`, clears the DAQ bit when no list below `DaqCount` is RUNNING
afterwards and leaves the DAQ bit as it was when one is. -/
theorem XcpCommand_START_STOP_DAQ_LIST (cfg : Config) (w : Slave) (pCmd : tXcpCto)
    (hpc : cfg.XCP_ENABLE_PARAMETER_CHECK = true) (hcon : connected w.xcp)
    (hcmd : pCmd.CRO_CMD = .CC_START_STOP_DAQ_LIST) :
    (startStopDaq pCmd ≥ w.xcp.Daq.DaqCount →
        (XcpCommand cfg w pCmd).2 = some [PID_ERR, CRC_OUT_OF_RANGE]) ∧
      (startStopDaq pCmd < w.xcp.Daq.DaqCount →
        (XcpCommand cfg w pCmd).1.xcp.Daq.DaqCount = w.xcp.Daq.DaqCount ∧
        (∀ d, d ≠ startStopDaq pCmd →
          (XcpCommand cfg w pCmd).1.xcp.Daq.DaqList d = w.xcp.Daq.DaqList d) ∧
        (pCmd.CRO_START_STOP_MODE = 1 →
          (XcpCommand cfg w pCmd).2 = some [0xFF, 0x00] ∧
          listSelected (XcpCommand cfg w pCmd).1.xcp (startStopDaq pCmd) ∧
          listRunning (XcpCommand cfg w pCmd).1.xcp (startStopDaq pCmd) ∧
          daqRunning (XcpCommand cfg w pCmd).1.xcp) ∧
        (pCmd.CRO_START_STOP_MODE = 2 →
          listSelected (XcpCommand cfg w pCmd).1.xcp (startStopDaq pCmd) ∧
          ((XcpCommand cfg w pCmd).1.xcp.Daq.DaqList (startStopDaq pCmd)).flags
              &&& DAQ_FLAG_RUNNING
            = (w.xcp.Daq.DaqList (startStopDaq pCmd)).flags &&& DAQ_FLAG_RUNNING ∧
          (XcpCommand cfg w pCmd).1.xcp.SessionStatus &&& SS_DAQ
            = w.xcp.SessionStatus &&& SS_DAQ) ∧
        (pCmd.CRO_START_STOP_MODE ≠ 1 → pCmd.CRO_START_STOP_MODE ≠ 2 →
          ¬ listRunning (XcpCommand cfg w pCmd).1.xcp (startStopDaq pCmd) ∧
          ¬ listSelected (XcpCommand cfg w pCmd).1.xcp (startStopDaq pCmd) ∧
          ((∀ i, i < w.xcp.Daq.DaqCount → ¬ listRunning (XcpCommand cfg w pCmd).1.xcp i) →
            ¬ daqRunning (XcpCommand cfg w pCmd).1.xcp) ∧
          ((∃ i, i < w.xcp.Daq.DaqCount ∧ listRunning (XcpCommand cfg w pCmd).1.xcp i) →
            (XcpCommand cfg w pCmd).1.xcp.SessionStatus &&& SS_DAQ
              = w.xcp.SessionStatus &&& SS_DAQ))) := by
  have hne : pCmd.CRO_CMD ≠ .CC_CONNECT := by rw [hcmd]; decide
  have fD := (XcpCommand.entry_frame cfg w).2.2.2.1
  have fS := XcpCommand.entry_SS_DAQ cfg w
  refine ⟨?_, ?_⟩
  · intro hd
    have hsw : XcpCommand.switch cfg (XcpCommand.entry cfg w) pCmd
        = (XcpCommand.entry cfg w, .negative_response CRC_OUT_OF_RANGE) := by
      simp only [XcpCommand.switch, hcmd, XcpCommand.START_STOP_DAQ_LIST, fD, hpc, true_and]
      rw [if_pos (by simpa [startStopDaq] using hd)]
    simpa [CRC_OUT_OF_RANGE] using (XcpCommand_of_error cfg w pCmd _ hcon hne hsw).1
  · intro hd
    have hd2 : ¬ ((pCmd.CRO_START_STOP_DAQ &&& 0xFF) % 256 ≥ w.xcp.Daq.DaqCount) := by
      simpa [startStopDaq] using hd
    rw [XcpCommand_START_STOP_DAQ_LIST_eq cfg w pCmd hcon hcmd hd]
    simp only [XcpCommand.START_STOP_DAQ_LIST, fD]
    rw [if_neg (fun h => hd2 h.2)]
    generalize (XcpCommand.entry cfg w).xcp = x0 at *
    have hdq : (pCmd.CRO_START_STOP_DAQ &&& 0xFF) % 256 = startStopDaq pCmd := rfl
    rw [hdq]
    generalize startStopDaq pCmd = daq at *
    refine ⟨?_, ?_, ?_, ?_, ?_⟩
    · split
      · split <;> simp [setCrmByte, XcpStartDaq, setDaqList, fD]
      · simp only [XcpStopDaq_Daq]
        simp [setDaqList, fD]
    · intro d hdne
      split
      · split <;> simp [setCrmByte, XcpStartDaq, setDaqList, fD, Function.update_apply, hdne]
      · simp only [XcpStopDaq_Daq]
        simp [setDaqList, fD, Function.update_apply, hdne]
    · intro h1
      simp only [h1, true_or, if_true, listSelected, listRunning, daqRunning]
      simp only [setCrmByte, XcpStartDaq, setDaqList, Function.update_same]
      refine ⟨trivial, ?_, ?_, ?_⟩
      · rw [lor_land_of_disjoint _ _ _ (by decide), lor_land_self]; decide
      · rw [lor_land_self]; decide
      · rw [lor_land_self]; decide
    · intro h2
      simp only [h2, or_true, if_true, listSelected, show ¬ (2 = 1) by decide, if_false]
      simp only [setCrmByte, setDaqList, Function.update_same, fD]
      refine ⟨?_, ?_, ?_⟩
      · rw [lor_land_self]; decide
      · rw [lor_land_of_disjoint _ _ _ (by decide)]
      · exact fS
    · intro h1 h2
      have hm : ¬ (pCmd.CRO_START_STOP_MODE = 1 ∨ pCmd.CRO_START_STOP_MODE = 2) := by
        rintro (h | h)
        · exact h1 h
        · exact h2 h
      simp only [hm, if_false, listSelected, listRunning, daqRunning]
      obtain ⟨s1, s2⟩ := XcpStopDaq_SessionStatus x0 daq
      rw [fD] at s1 s2
      refine ⟨?_, ?_, ?_, ?_⟩
      · simp only [XcpStopDaq_Daq, setDaqList, Function.update_same]
        rw [land_land_of_disjoint _ _ _ stop_mask_bits.1]; simp
      · simp only [XcpStopDaq_Daq, setDaqList, Function.update_same]
        rw [land_land_of_disjoint _ _ _ stop_mask_bits.2]; simp
      · intro hall
        rw [s2 hall, land_not8_SS_DAQ]; simp
      · intro hex
        rw [s1 hex]; exact fS

/-- A response `FF` comes from the exit `positive_response`, and the state is
the one the body leaves. -/
theorem XcpCommand_positive_exit (cfg : Config) (w : Slave) (pCmd : tXcpCto)
    (h : (XcpCommand cfg w pCmd).2 = some [0xFF]) :
    (XcpCommand.body cfg w pCmd).2 = .positive_response ∧
      (XcpCommand cfg w pCmd).1 = (XcpCommand.body cfg w pCmd).1 := by
  unfold XcpCommand at h ⊢
  split at h
  · simp [XcpSendCrm, setCrmByte, List.range_succ] at h
  · rename_i hb; rw [hb]; exact ⟨rfl, rfl⟩
  · simp at h

/-- The loop of WRITE_DAQ_MULTIPLE with parameter checks: when it ends in
`positive_response`, every entry size is the one before the loop or a size
the check accepts. -/
theorem XcpCommand.WRITE_DAQ_MULTIPLE.loop_size (cfg : Config) (pCmd : tXcpCto)
    (hpc : cfg.XCP_ENABLE_PARAMETER_CHECK = true) (n : Nat) :
    ∀ (i : Nat) (w : Slave),
      (XcpCommand.WRITE_DAQ_MULTIPLE.loop cfg pCmd n i w).2 = .positive_response →
      ∀ k, (XcpCommand.WRITE_DAQ_MULTIPLE.loop cfg pCmd n i w).1.xcp.OdtEntrySize k
            = w.xcp.OdtEntrySize k ∨
          (0 < (XcpCommand.WRITE_DAQ_MULTIPLE.loop cfg pCmd n i w).1.xcp.OdtEntrySize k ∧
            (XcpCommand.WRITE_DAQ_MULTIPLE.loop cfg pCmd n i w).1.xcp.OdtEntrySize k
              ≤ cfg.XCP_MAX_ODT_ENTRY_SIZE) := by
  induction n with
  | zero => intro i w _ k; exact Or.inl rfl
  | succ n ih =>
    intro i w
    unfold XcpCommand.WRITE_DAQ_MULTIPLE.loop
    simp only [hpc, true_and]
    split
    · intro h; simp at h
    · rename_i hsz
      split
      · intro h; simp at h
      · split
        · intro h; simp at h
        · intro hpos k
          rcases ih _ _ hpos k with h | h
          · by_cases hk : k = w.xcp.DaqListPtr
            · right
              rw [h]
              simp only [Function.update_apply, hk, if_true]
              have := Nat.mod_le cfg.XCP_MAX_ODT_ENTRY_SIZE 256
              have := Nat.mod_le (pCmd.CRO_WRITE_DAQ_MULTIPLE_SIZE i) 256
              omega
            · left
              rw [h]
              simp only [Function.update_apply, hk, if_false]
          · exact Or.inr h

/-- The loop of WRITE_DAQ_MULTIPLE with parameter checks: when it ends in
`positive_response`, the `n` entries from the write cursor on, counted modulo
`2^16`, hold sizes the check accepts. -/
theorem XcpCommand.WRITE_DAQ_MULTIPLE.loop_stored (cfg : Config) (pCmd : tXcpCto)
    (hpc : cfg.XCP_ENABLE_PARAMETER_CHECK = true) (n : Nat) :
    ∀ (i : Nat) (w : Slave), w.xcp.DaqListPtr < 65536 →
      (XcpCommand.WRITE_DAQ_MULTIPLE.loop cfg pCmd n i w).2 = .positive_response →
      ∀ j, j < n →
        0 < (XcpCommand.WRITE_DAQ_MULTIPLE.loop cfg pCmd n i w).1.xcp.OdtEntrySize
              ((w.xcp.DaqListPtr + j) % 65536) ∧
          (XcpCommand.WRITE_DAQ_MULTIPLE.loop cfg pCmd n i w).1.xcp.OdtEntrySize
              ((w.xcp.DaqListPtr + j) % 65536) ≤ cfg.XCP_MAX_ODT_ENTRY_SIZE := by
  induction n with
  | zero => intro i w _ _ j hj; exact absurd hj (Nat.not_lt_zero _)
  | succ n ih =>
    intro i w hptr
    have hsz := XcpCommand.WRITE_DAQ_MULTIPLE.loop_size cfg pCmd hpc n
    unfold XcpCommand.WRITE_DAQ_MULTIPLE.loop
    simp only [hpc, true_and]
    split
    · intro h; simp at h
    · rename_i hs
      split
      · intro h; simp at h
      · split
        · intro h; simp at h
        · intro hpos j hj
          cases j with
          | zero =>
            have e0 : (w.xcp.DaqListPtr + 0) % 65536 = w.xcp.DaqListPtr := by omega
            rw [e0]
            rcases hsz _ _ hpos w.xcp.DaqListPtr with h | h
            · rw [h]
              simp only [Function.update_same]
              have := Nat.mod_le cfg.XCP_MAX_ODT_ENTRY_SIZE 256
              have := Nat.mod_le (pCmd.CRO_WRITE_DAQ_MULTIPLE_SIZE i) 256
              omega
            · exact h
          | succ j =>
            have h := ih (i + 1) _ (Nat.mod_lt _ (by decide)) hpos j (by omega)
            have hidx : ((w.xcp.DaqListPtr + 1) % 65536 + j) % 65536
                = (w.xcp.DaqListPtr + (j + 1)) % 65536 := by omega
            simp only [] at h
            rw [hidx] at h
            exact h

/-- C20: in every connected state (parameter checks compiled in), with `daq`
the list number the dispatcher takes from the packet, SET_DAQ_LIST_MODE with
a priority other than zero or with `daq` not below `DaqCount` is answered
CRC_OUT_OF_RANGE and leaves the flags and the event channel of every list,
and the whole pool, unchanged. -/
theorem XcpCommand_SET_DAQ_LIST_MODE_rejected (cfg : Config) (w : Slave) (pCmd : tXcpCto)
    (hpc : cfg.XCP_ENABLE_PARAMETER_CHECK = true) (hcon : connected w.xcp)
    (hcmd : pCmd.CRO_CMD = .CC_SET_DAQ_LIST_MODE)
    (hrej : pCmd.CRO_SET_DAQ_LIST_MODE_PRIORITY ≠ 0 ∨
      pCmd.CRO_SET_DAQ_LIST_MODE_DAQ % 256 ≥ w.xcp.Daq.DaqCount) :
    (XcpCommand cfg w pCmd).2 = some [PID_ERR, CRC_OUT_OF_RANGE] ∧
      sameListModes w.xcp (XcpCommand cfg w pCmd).1.xcp ∧
      samePool w.xcp (XcpCommand cfg w pCmd).1.xcp := by
  have hne : pCmd.CRO_CMD ≠ .CC_CONNECT := by rw [hcmd]; decide
  have fD := (XcpCommand.entry_frame cfg w).2.2.2.1
  have hsw : XcpCommand.switch cfg (XcpCommand.entry cfg w) pCmd
      = (XcpCommand.entry cfg w, .negative_response CRC_OUT_OF_RANGE) := by
    simp only [XcpCommand.switch, hcmd, XcpCommand.SET_DAQ_LIST_MODE, fD, hpc, true_and]
    by_cases hd : pCmd.CRO_SET_DAQ_LIST_MODE_DAQ % 256 ≥ w.xcp.Daq.DaqCount
    · rw [if_pos hd]
    · rw [if_neg hd]
      have hp : pCmd.CRO_SET_DAQ_LIST_MODE_PRIORITY ≠ 0 := hrej.resolve_right hd
      rw [if_pos hp]
  obtain ⟨g1, g2⟩ := XcpCommand_of_error cfg w pCmd _ hcon hne hsw
  refine ⟨by simpa [CRC_OUT_OF_RANGE] using g1, ?_, g2⟩
  intro d
  rw [g2.1]
  exact ⟨rfl, rfl⟩

/-- Witness of C20: after CONNECT and ALLOC_DAQ(1), SET_DAQ_LIST_MODE for
list 0 with priority 1. -/
theorem XcpCommand_SET_DAQ_LIST_MODE_rejected_witness :
    (XcpCommand cfg512 (runCommands cfg512 slaveConnected [mkALLOC_DAQ 1])
      (mkSET_DAQ_LIST_MODE 0x10 0 7 1)).2 = some [PID_ERR, CRC_OUT_OF_RANGE] :=
  (XcpCommand_SET_DAQ_LIST_MODE_rejected cfg512
    (runCommands cfg512 slaveConnected [mkALLOC_DAQ 1]) (mkSET_DAQ_LIST_MODE 0x10 0 7 1)
    rfl (by decide) rfl (Or.inl (by decide))).1

/-- Witness of C17: START_STOP_DAQ_LIST(mode 1, daq 0) sent to the configured
slave. -/
theorem XcpCommand_START_STOP_DAQ_LIST_witness :
    (XcpCommand cfg512 slaveConfigured (mkSTART_STOP_DAQ_LIST 1 0)).2 = some [0xFF, 0x00] ∧
      listRunning (XcpCommand cfg512 slaveConfigured (mkSTART_STOP_DAQ_LIST 1 0)).1.xcp 0 ∧
      daqRunning (XcpCommand cfg512 slaveConfigured (mkSTART_STOP_DAQ_LIST 1 0)).1.xcp :=
  ⟨(((XcpCommand_START_STOP_DAQ_LIST cfg512 slaveConfigured (mkSTART_STOP_DAQ_LIST 1 0) rfl
      (by decide) rfl).2 (by decide)).2.2.1 rfl).1,
   (((XcpCommand_START_STOP_DAQ_LIST cfg512 slaveConfigured (mkSTART_STOP_DAQ_LIST 1 0) rfl
      (by decide) rfl).2 (by decide)).2.2.1 rfl).2.2.1,
   (((XcpCommand_START_STOP_DAQ_LIST cfg512 slaveConfigured (mkSTART_STOP_DAQ_LIST 1 0) rfl
      (by decide) rfl).2 (by decide)).2.2.1 rfl).2.2.2⟩

/-- Witness of C16: START_STOP_SYNCH(mode 1) sent to the configured slave
after START_STOP_DAQ_LIST(mode 2, daq 0) has selected list 0. -/
theorem XcpCommand_START_STOP_SYNCH_witness :
    (XcpCommand cfg512 (runCommands cfg512 slaveConfigured [mkSTART_STOP_DAQ_LIST 2 0])
        (mkSTART_STOP_SYNCH 1)).2 = some [0xFF] ∧
      daqRunning (XcpCommand cfg512
        (runCommands cfg512 slaveConfigured [mkSTART_STOP_DAQ_LIST 2 0])
        (mkSTART_STOP_SYNCH 1)).1.xcp :=
  ⟨((XcpCommand_START_STOP_SYNCH cfg512
      (runCommands cfg512 slaveConfigured [mkSTART_STOP_DAQ_LIST 2 0]) (mkSTART_STOP_SYNCH 1)
      (by decide) rfl).2 (by decide) (by decide) (by decide)).1,
   (((XcpCommand_START_STOP_SYNCH cfg512
      (runCommands cfg512 slaveConfigured [mkSTART_STOP_DAQ_LIST 2 0]) (mkSTART_STOP_SYNCH 1)
      (by decide) rfl).2 (by decide) (by decide) (by decide)).2.2.1 rfl).2.2.1
        ⟨0, by decide, by decide⟩⟩

/-! ### The RUNNING flags and the DAQ bit of the session status -/

/-- Having the same DAQ lists, ODT records and session status is reflexive. -/
theorem sameSetup_refl (x : tXcpData) : sameSetup x x := ⟨rfl, rfl, rfl⟩

/-- Having the same DAQ lists, ODT records and session status is transitive. -/
theorem sameSetup_trans {x y z : tXcpData} (h1 : sameSetup x y) (h2 : sameSetup y z) :
    sameSetup x z :=
  ⟨h2.1.trans h1.1, h2.2.1.trans h1.2.1, h2.2.2.trans h1.2.2⟩

/-- The loop of WRITE_DAQ_MULTIPLE keeps the DAQ lists, the ODT records and the session status. -/
theorem XcpCommand.WRITE_DAQ_MULTIPLE.loop_setup (cfg : Config) (pCmd : tXcpCto) (n : Nat) :
    ∀ (i : Nat) (w : Slave),
      sameSetup w.xcp (XcpCommand.WRITE_DAQ_MULTIPLE.loop cfg pCmd n i w).1.xcp := by
  induction n with
  | zero => intro i w; exact sameSetup_refl _
  | succ n ih =>
    intro i w
    unfold XcpCommand.WRITE_DAQ_MULTIPLE.loop
    split
    · exact sameSetup_refl _
    · split
      · exact sameSetup_refl _
      · split
        · exact sameSetup_refl _
        · exact sameSetup_trans ⟨rfl, rfl, rfl⟩ (ih _ _)

/-- Stores into the response buffer keep the DAQ lists, the ODT records and the session status. -/
theorem setCrmByte_setup (x : tXcpData) (i v : Nat) : sameSetup x (setCrmByte x i v) :=
  ⟨rfl, rfl, rfl⟩

/-- Word stores into the response buffer keep the DAQ lists, the ODT records and
the session status. -/
theorem setCrmWord_setup (cfg : Config) (x : tXcpData) (i v : Nat) :
    sameSetup x (setCrmWord cfg x i v) := by
  unfold setCrmWord
  split <;> exact ⟨rfl, rfl, rfl⟩

/-- Double word stores into the response buffer keep the DAQ lists, the ODT
records and the session status. -/
theorem setCrmDWord_setup (cfg : Config) (x : tXcpData) (i v : Nat) :
    sameSetup x (setCrmDWord cfg x i v) := by
  unfold setCrmDWord
  split <;>
    exact sameSetup_trans (setCrmWord_setup cfg _ _ _) (setCrmWord_setup cfg _ _ _)

/-- Case SYNC keeps the DAQ lists, the ODT records and the session status. -/
theorem XcpCommand.SYNC_setup (w : Slave) : sameSetup w.xcp (XcpCommand.SYNC w).1.xcp :=
  ⟨rfl, rfl, rfl⟩

/-- Case GET_COMM_MODE_INFO keeps the DAQ lists, the ODT records and the session status. -/
theorem XcpCommand.GET_COMM_MODE_INFO_setup (cfg : Config) (w : Slave) :
    sameSetup w.xcp (XcpCommand.GET_COMM_MODE_INFO cfg w).1.xcp :=
  ⟨rfl, rfl, rfl⟩

/-- Case GET_ID keeps the DAQ lists, the ODT records and the session status. -/
theorem XcpCommand.GET_ID_setup (cfg : Config) (w : Slave) (pCmd : tXcpCto) :
    sameSetup w.xcp (XcpCommand.GET_ID cfg w pCmd).1.xcp := by
  unfold XcpCommand.GET_ID
  simp only []
  have h1 : sameSetup w.xcp (setCrmDWord cfg
      (setCrmByte { w.xcp with CrmLen := CRM_GET_ID_LEN } CRM_GET_ID_MODE 0)
      CRM_GET_ID_LENGTH 0) :=
    sameSetup_trans (y := setCrmByte { w.xcp with CrmLen := CRM_GET_ID_LEN } CRM_GET_ID_MODE 0)
      ⟨rfl, rfl, rfl⟩ (setCrmDWord_setup cfg _ _ _)
  split
  · exact sameSetup_trans h1 (sameSetup_trans (setCrmDWord_setup cfg _ _ _) ⟨rfl, rfl, rfl⟩)
  · exact h1

/-- Case GET_STATUS keeps the DAQ lists, the ODT records and the session status. -/
theorem XcpCommand.GET_STATUS_setup (cfg : Config) (w : Slave) :
    sameSetup w.xcp (XcpCommand.GET_STATUS cfg w).1.xcp := by
  unfold XcpCommand.GET_STATUS
  simp only []
  exact sameSetup_trans (y := setCrmByte (setCrmByte { w.xcp with CrmLen := CRM_GET_STATUS_LEN }
      CRM_GET_STATUS_STATUS w.xcp.SessionStatus) CRM_GET_STATUS_PROTECTION 0)
    ⟨rfl, rfl, rfl⟩ (setCrmWord_setup cfg _ _ _)

/-- Case SET_MTA keeps the DAQ lists, the ODT records and the session status. -/
theorem XcpCommand.SET_MTA_setup (cfg : Config) (w : Slave) (pCmd : tXcpCto) :
    sameSetup w.xcp (XcpCommand.SET_MTA cfg w pCmd).1.xcp :=
  ⟨rfl, rfl, rfl⟩

/-- The function `XcpWriteMta` keeps the DAQ lists, the ODT records and the session status. -/
theorem XcpWriteMta_setup (w : Slave) (size : Nat) (data : Nat → Nat) :
    sameSetup w.xcp (XcpWriteMta w size data).1.xcp := by
  rw [(XcpWriteMta_spec size w data).2.1]
  exact ⟨rfl, rfl, rfl⟩

/-- The function `XcpReadMta` keeps the DAQ lists, the ODT records and the session status. -/
theorem XcpReadMta_setup (w : Slave) (size data : Nat) :
    sameSetup w.xcp (XcpReadMta w size data).1.xcp := by
  rw [(XcpReadMta_spec size w data).2.2.2.1]
  exact ⟨rfl, rfl, rfl⟩

/-- Case DOWNLOAD keeps the DAQ lists, the ODT records and the session status. -/
theorem XcpCommand.DOWNLOAD_setup (cfg : Config) (w : Slave) (pCmd : tXcpCto) :
    sameSetup w.xcp (XcpCommand.DOWNLOAD cfg w pCmd).1.xcp := by
  unfold XcpCommand.DOWNLOAD
  simp only []
  split_ifs
  · exact sameSetup_refl _
  all_goals exact XcpWriteMta_setup _ _ _

/-- Case DOWNLOAD_MAX keeps the DAQ lists, the ODT records and the session status. -/
theorem XcpCommand.DOWNLOAD_MAX_setup (cfg : Config) (w : Slave) (pCmd : tXcpCto) :
    sameSetup w.xcp (XcpCommand.DOWNLOAD_MAX cfg w pCmd).1.xcp := by
  unfold XcpCommand.DOWNLOAD_MAX
  simp only []
  split_ifs
  all_goals exact XcpWriteMta_setup _ _ _

/-- Case UPLOAD keeps the DAQ lists, the ODT records and the session status. -/
theorem XcpCommand.UPLOAD_setup (cfg : Config) (w : Slave) (pCmd : tXcpCto) :
    sameSetup w.xcp (XcpCommand.UPLOAD cfg w pCmd).1.xcp := by
  unfold XcpCommand.UPLOAD
  simp only []
  split_ifs
  · exact sameSetup_refl _
  all_goals exact sameSetup_trans (XcpReadMta_setup _ _ _) ⟨rfl, rfl, rfl⟩

/-- Case SHORT_UPLOAD keeps the DAQ lists, the ODT records and the session status. -/
theorem XcpCommand.SHORT_UPLOAD_setup (cfg : Config) (w : Slave) (pCmd : tXcpCto) :
    sameSetup w.xcp (XcpCommand.SHORT_UPLOAD cfg w pCmd).1.xcp := by
  unfold XcpCommand.SHORT_UPLOAD
  simp only []
  have hr := XcpReadMta_setup
    { w with xcp := { w.xcp with
      Mta := ApplXcpGetPointer cfg pCmd.CRO_SHORT_UPLOAD_EXT pCmd.CRO_SHORT_UPLOAD_ADDR } }
    (pCmd.CRO_SHORT_UPLOAD_SIZE % 256) CRM_SHORT_UPLOAD_DATA
  split_ifs
  · exact sameSetup_refl _
  all_goals exact sameSetup_trans hr ⟨rfl, rfl, rfl⟩

/-- Case GET_DAQ_PROCESSOR_INFO keeps the DAQ lists, the ODT records and the session status. -/
theorem XcpCommand.GET_DAQ_PROCESSOR_INFO_setup (cfg : Config) (w : Slave) :
    sameSetup w.xcp (XcpCommand.GET_DAQ_PROCESSOR_INFO cfg w).1.xcp := by
  unfold XcpCommand.GET_DAQ_PROCESSOR_INFO
  simp only []
  refine sameSetup_trans (y := setCrmWord cfg (setCrmWord cfg
    (setCrmByte { w.xcp with CrmLen := CRM_GET_DAQ_PROCESSOR_INFO_LEN }
      CRM_GET_DAQ_PROCESSOR_INFO_MIN_DAQ 0) CRM_GET_DAQ_PROCESSOR_INFO_MAX_DAQ
      w.xcp.Daq.DaqCount) CRM_GET_DAQ_PROCESSOR_INFO_MAX_EVENT 0) ?_ ⟨rfl, rfl, rfl⟩
  refine sameSetup_trans ?_ (setCrmWord_setup cfg _ _ _)
  exact sameSetup_trans (y := setCrmByte { w.xcp with CrmLen := CRM_GET_DAQ_PROCESSOR_INFO_LEN }
      CRM_GET_DAQ_PROCESSOR_INFO_MIN_DAQ 0) ⟨rfl, rfl, rfl⟩ (setCrmWord_setup cfg _ _ _)

/-- Case GET_DAQ_RESOLUTION_INFO keeps the DAQ lists, the ODT records and the session status. -/
theorem XcpCommand.GET_DAQ_RESOLUTION_INFO_setup (cfg : Config) (w : Slave) :
    sameSetup w.xcp (XcpCommand.GET_DAQ_RESOLUTION_INFO cfg w).1.xcp := by
  unfold XcpCommand.GET_DAQ_RESOLUTION_INFO
  simp only []
  refine sameSetup_trans ?_ (setCrmWord_setup cfg _ _ _)
  exact ⟨rfl, rfl, rfl⟩

/-- Case GET_DAQ_LIST_MODE keeps the DAQ lists, the ODT records and the session status. -/
theorem XcpCommand.GET_DAQ_LIST_MODE_setup (cfg : Config) (w : Slave) (pCmd : tXcpCto) :
    sameSetup w.xcp (XcpCommand.GET_DAQ_LIST_MODE cfg w pCmd).1.xcp := by
  unfold XcpCommand.GET_DAQ_LIST_MODE
  simp only []
  split
  · exact sameSetup_refl _
  · refine sameSetup_trans (y := setCrmWord cfg (setCrmByte (setCrmByte
        { w.xcp with CrmLen := CRM_GET_DAQ_LIST_MODE_LEN } CRM_GET_DAQ_LIST_MODE_MODE
        (w.xcp.Daq.DaqList (pCmd.CRO_GET_DAQ_LIST_MODE_DAQ % 256)).flags)
        CRM_GET_DAQ_LIST_MODE_PRESCALER 1) CRM_GET_DAQ_LIST_MODE_EVENTCHANNEL
        (w.xcp.Daq.DaqList (pCmd.CRO_GET_DAQ_LIST_MODE_DAQ % 256)).eventChannel)
      ?_ ⟨rfl, rfl, rfl⟩
    refine sameSetup_trans ?_ (setCrmWord_setup cfg _ _ _)
    exact ⟨rfl, rfl, rfl⟩

/-- Case SET_DAQ_PTR keeps the DAQ lists, the ODT records and the session status. -/
theorem XcpCommand.SET_DAQ_PTR_setup (cfg : Config) (w : Slave) (pCmd : tXcpCto) :
    sameSetup w.xcp (XcpCommand.SET_DAQ_PTR cfg w pCmd).1.xcp := by
  unfold XcpCommand.SET_DAQ_PTR
  simp only []
  split_ifs <;> exact ⟨rfl, rfl, rfl⟩

/-- Case WRITE_DAQ keeps the DAQ lists, the ODT records and the session status. -/
theorem XcpCommand.WRITE_DAQ_setup (cfg : Config) (w : Slave) (pCmd : tXcpCto) :
    sameSetup w.xcp (XcpCommand.WRITE_DAQ cfg w pCmd).1.xcp := by
  unfold XcpCommand.WRITE_DAQ
  simp only []
  split_ifs <;> exact ⟨rfl, rfl, rfl⟩

/-- Case GET_DAQ_CLOCK keeps the DAQ lists, the ODT records and the session status. -/
theorem XcpCommand.GET_DAQ_CLOCK_setup (cfg : Config) (w : Slave) :
    sameSetup w.xcp (XcpCommand.GET_DAQ_CLOCK cfg w).1.xcp := by
  unfold XcpCommand.GET_DAQ_CLOCK
  simp only []
  exact sameSetup_trans (y := { w.xcp with CrmLen := CRM_GET_DAQ_CLOCK_LEN })
    ⟨rfl, rfl, rfl⟩ (setCrmDWord_setup cfg _ _ _)

/-- Every case of the `switch` that is neither DISCONNECT, FREE_DAQ, an
allocation, SET_DAQ_LIST_MODE nor a start or stop keeps the DAQ lists, the
ODT records and the session status. -/
theorem XcpCommand.switch_setup (cfg : Config) (w : Slave) (pCmd : tXcpCto)
    (h0 : pCmd.CRO_CMD ≠ .CC_DISCONNECT)
    (h1 : pCmd.CRO_CMD ≠ .CC_FREE_DAQ) (h2 : pCmd.CRO_CMD ≠ .CC_ALLOC_DAQ)
    (h3 : pCmd.CRO_CMD ≠ .CC_ALLOC_ODT) (h4 : pCmd.CRO_CMD ≠ .CC_ALLOC_ODT_ENTRY)
    (h5 : pCmd.CRO_CMD ≠ .CC_SET_DAQ_LIST_MODE) (h6 : pCmd.CRO_CMD ≠ .CC_START_STOP_DAQ_LIST)
    (h7 : pCmd.CRO_CMD ≠ .CC_START_STOP_SYNCH) :
    sameSetup w.xcp (XcpCommand.switch cfg w pCmd).1.xcp := by
  unfold XcpCommand.switch
  split
  case h_1 => exact XcpCommand.SYNC_setup w
  case h_2 => exact XcpCommand.GET_COMM_MODE_INFO_setup cfg w
  case h_3 => rename_i hc; exact absurd hc h0
  case h_4 => exact XcpCommand.GET_ID_setup cfg w pCmd
  case h_5 => exact XcpCommand.GET_STATUS_setup cfg w
  case h_6 => exact XcpCommand.SET_MTA_setup cfg w pCmd
  case h_7 => exact XcpCommand.DOWNLOAD_setup cfg w pCmd
  case h_8 => exact XcpCommand.DOWNLOAD_MAX_setup cfg w pCmd
  case h_9 => exact XcpCommand.UPLOAD_setup cfg w pCmd
  case h_10 => exact XcpCommand.SHORT_UPLOAD_setup cfg w pCmd
  case h_11 => exact XcpCommand.GET_DAQ_PROCESSOR_INFO_setup cfg w
  case h_12 => exact XcpCommand.GET_DAQ_RESOLUTION_INFO_setup cfg w
  case h_13 => rename_i hc; exact absurd hc h1
  case h_14 => rename_i hc; exact absurd hc h2
  case h_15 => rename_i hc; exact absurd hc h3
  case h_16 => rename_i hc; exact absurd hc h4
  case h_17 => exact XcpCommand.GET_DAQ_LIST_MODE_setup cfg w pCmd
  case h_18 => rename_i hc; exact absurd hc h5
  case h_19 => exact XcpCommand.SET_DAQ_PTR_setup cfg w pCmd
  case h_20 => exact XcpCommand.WRITE_DAQ_setup cfg w pCmd
  case h_21 => exact XcpCommand.WRITE_DAQ_MULTIPLE.loop_setup cfg pCmd _ _ _
  case h_22 => rename_i hc; exact absurd hc h6
  case h_23 => rename_i hc; exact absurd hc h7
  case h_24 => exact XcpCommand.GET_DAQ_CLOCK_setup cfg w
  case h_25 => exact sameSetup_refl _
  case h_26 => exact sameSetup_refl _

/-- The exit code of `XcpCommand` changes the response buffer only: DAQ lists,
ODT records and session status are those the body leaves. -/
theorem XcpCommand_setup_of_body (cfg : Config) (w : Slave) (pCmd : tXcpCto) :
    sameSetup (XcpCommand.body cfg w pCmd).1.xcp (XcpCommand cfg w pCmd).1.xcp := by
  unfold XcpCommand
  split <;> (rename_i h; rw [h]; exact ⟨rfl, rfl, rfl⟩)

/-- The entry of the `switch` keeps `DaqCount`, the RUNNING flags and the DAQ
bit. -/
theorem XcpCommand.entry_sameRunning (cfg : Config) (w : Slave) :
    sameRunning w.xcp (XcpCommand.entry cfg w).xcp := by
  have fD := (XcpCommand.entry_frame cfg w).2.2.2.1
  exact ⟨by rw [fD], fun d => by rw [fD], XcpCommand.entry_SS_DAQ cfg w⟩

/-- Keeping the DAQ lists and the session status keeps the RUNNING flags and
the DAQ bit. -/
theorem sameRunning_of_sameSetup {x y : tXcpData} (h : sameSetup x y) : sameRunning x y :=
  ⟨by rw [h.1], fun d => by rw [h.1], by rw [h.2.2]⟩

/-- Keeping the RUNNING flags and the DAQ bit is reflexive. -/
theorem sameRunning_refl (x : tXcpData) : sameRunning x x := ⟨rfl, fun _ => rfl, rfl⟩

/-- Keeping the RUNNING flags and the DAQ bit is transitive. -/
theorem sameRunning_trans {x y z : tXcpData} (h1 : sameRunning x y) (h2 : sameRunning y z) :
    sameRunning x z :=
  ⟨h2.1.trans h1.1, fun d => (h2.2.1 d).trans (h1.2.1 d), h2.2.2.trans h1.2.2⟩

/-- The two properties of the RUNNING flags are kept with the flags. -/
theorem running_of_sameRunning {x y : tXcpData} (h : sameRunning x y) :
    (runningSound x → runningSound y) ∧ (runningComplete x → runningComplete y) := by
  obtain ⟨h1, h2, h3⟩ := h
  refine ⟨?_, ?_⟩
  · intro hs d hd
    have hd0 : listRunning x d := by simpa [listRunning, h2 d] using hd
    obtain ⟨a, b⟩ := hs d hd0
    exact ⟨by rw [h1]; exact a, by simpa [daqRunning, h3] using b⟩
  · intro hc hr
    have hr0 : daqRunning x := by simpa [daqRunning, h3] using hr
    obtain ⟨d, a, b⟩ := hc hr0
    exact ⟨d, by rw [h1]; exact a, by simpa [listRunning, h2 d] using b⟩

/-- The function `XcpStopDaq` keeps `runningSound` and establishes
`runningComplete`. -/
theorem XcpStopDaq_running (x : tXcpData) (daq : Nat) :
    (runningSound x → runningSound (XcpStopDaq x daq)) ∧ runningComplete (XcpStopDaq x daq) := by
  obtain ⟨s1, s2⟩ := XcpStopDaq_SessionStatus x daq
  have hD := XcpStopDaq_Daq x daq
  have hcnt : (XcpStopDaq x daq).Daq.DaqCount = x.Daq.DaqCount := by rw [hD]; rfl
  have hsub : ∀ d, listRunning (XcpStopDaq x daq) d → listRunning x d := by
    intro d hd
    simp only [listRunning, hD, setDaqList_DaqList] at hd
    by_cases hdd : d = daq
    · rw [if_pos hdd] at hd
      exact absurd (land_land_of_disjoint _ _ _ stop_mask_bits.1) hd
    · rw [if_neg hdd] at hd
      exact hd
  refine ⟨?_, ?_⟩
  · intro hs d hd
    obtain ⟨a, b⟩ := hs d (hsub d hd)
    refine ⟨by rw [hcnt]; exact a, ?_⟩
    simp only [daqRunning, s1 ⟨d, a, hd⟩]
    exact b
  · intro hr
    by_contra hne
    have hall : ∀ i, i < x.Daq.DaqCount → ¬ listRunning (XcpStopDaq x daq) i := by
      intro i hi hri
      exact hne ⟨i, by rw [hcnt]; exact hi, hri⟩
    simp only [daqRunning, s2 hall, land_not8_SS_DAQ] at hr
    exact hr rfl

/-- Clearing the flag SELECTED of a list keeps the RUNNING flags and the DAQ
bit. -/
theorem clearSelected_sameRunning (x : tXcpData) (daq : Nat) :
    sameRunning x (setDaqList x daq
      (fun l => { l with flags := l.flags &&& not8 DAQ_FLAG_SELECTED })) := by
  refine ⟨rfl, fun d => ?_, rfl⟩
  rw [setDaqList_DaqList]
  by_cases hdd : d = daq
  · rw [if_pos hdd, hdd]
    exact land_land_of_subset _ _ _ (by decide)
  · rw [if_neg hdd]

/-- Setting the flag SELECTED of a list keeps the RUNNING flags and the DAQ
bit. -/
theorem setSelected_sameRunning (x : tXcpData) (daq : Nat) :
    sameRunning x (setDaqList x daq
      (fun l => { l with flags := l.flags ||| DAQ_FLAG_SELECTED })) := by
  refine ⟨rfl, fun d => ?_, rfl⟩
  rw [setDaqList_DaqList]
  by_cases hdd : d = daq
  · rw [if_pos hdd, hdd]
    exact lor_land_of_disjoint _ _ _ (by decide)
  · rw [if_neg hdd]

/-- The function `XcpStartDaq` for a list below `DaqCount` keeps
`runningSound` and establishes `runningComplete`. -/
theorem XcpStartDaq_running (x : tXcpData) (daq : Nat) (hd : daq < x.Daq.DaqCount) :
    (runningSound x → runningSound (XcpStartDaq x daq)) ∧
      runningComplete (XcpStartDaq x daq) := by
  have hS : daqRunning (XcpStartDaq x daq) := by
    simp only [daqRunning, XcpStartDaq]
    rw [lor_land_self]; decide
  have hR : listRunning (XcpStartDaq x daq) daq := by
    simp only [listRunning, XcpStartDaq, setDaqList, Function.update_same]
    rw [lor_land_self]; decide
  refine ⟨?_, fun _ => ⟨daq, hd, hR⟩⟩
  intro hs d hdr
  refine ⟨?_, hS⟩
  by_cases hdd : d = daq
  · rw [hdd]; exact hd
  · have : listRunning x d := by
      simpa [listRunning, XcpStartDaq, setDaqList, Function.update_apply, hdd] using hdr
    exact (hs d this).1

/-- The function `XcpStopAllDaq` keeps `runningSound` and establishes
`runningComplete`. -/
theorem XcpStopAllDaq_running (x : tXcpData) :
    (runningSound x → runningSound (XcpStopAllDaq x)) ∧ runningComplete (XcpStopAllDaq x) := by
  obtain ⟨-, s2, s3⟩ := XcpStopAllDaq_spec x
  refine ⟨?_, ?_⟩
  · intro hs d hd
    exfalso
    simp only [listRunning, s3] at hd
    by_cases hlt : d < x.Daq.DaqCount
    · rw [if_pos hlt] at hd
      exact hd (land_land_of_disjoint _ _ _ stop_mask_bits.1)
    · rw [if_neg hlt] at hd
      exact hlt (hs d hd).1
  · intro hr
    simp only [daqRunning, s2, land_not8_SS_DAQ] at hr
    exact absurd rfl hr

/-- The function `XcpStopAllSelectedDaq` keeps both properties of the RUNNING
flags. -/
theorem XcpStopAllSelectedDaq_running (x : tXcpData) :
    (runningSound x → runningSound (XcpStopAllSelectedDaq x)) ∧
      (runningComplete x → runningComplete (XcpStopAllSelectedDaq x)) := by
  unfold XcpStopAllSelectedDaq
  refine ⟨?_, ?_⟩
  · intro hs
    apply foldl_preserves runningSound _ _ x hs
    intro b a hb
    split
    · exact (running_of_sameRunning (clearSelected_sameRunning _ a)).1
        ((XcpStopDaq_running b a).1 hb)
    · exact hb
  · intro hc
    apply foldl_preserves runningComplete _ _ x hc
    intro b a hb
    split
    · exact (running_of_sameRunning (clearSelected_sameRunning _ a)).2
        (XcpStopDaq_running b a).2
    · exact hb

/-- The function `XcpStartAllSelectedDaq` keeps both properties of the
RUNNING flags. -/
theorem XcpStartAllSelectedDaq_running (x : tXcpData) :
    (runningSound x → runningSound (XcpStartAllSelectedDaq x)) ∧
      (runningComplete x → runningComplete (XcpStartAllSelectedDaq x)) := by
  obtain ⟨sb, s1, s2, s3⟩ := XcpStartAllSelectedDaq_spec x
  have hcnt : (XcpStartAllSelectedDaq x).Daq.DaqCount = x.Daq.DaqCount := sb.2.2.2.2.1
  have hset : (∃ d, d < x.Daq.DaqCount ∧ listSelected x d) →
      daqRunning (XcpStartAllSelectedDaq x) := by
    intro hex
    simp only [daqRunning, s1 hex]
    rw [lor_land_self]; decide
  refine ⟨?_, ?_⟩
  · intro hs d hd
    simp only [listRunning, s3] at hd
    by_cases hc : d < x.Daq.DaqCount ∧ listSelected x d
    · exact ⟨by rw [hcnt]; exact hc.1, hset ⟨d, hc⟩⟩
    · rw [if_neg hc] at hd
      obtain ⟨a, b⟩ := hs d hd
      refine ⟨by rw [hcnt]; exact a, ?_⟩
      by_cases hex : ∃ d, d < x.Daq.DaqCount ∧ listSelected x d
      · exact hset hex
      · rw [daqRunning, s2 (fun d hd hsel => hex ⟨d, hd, hsel⟩)]
        exact b
  · intro hc hr
    by_cases hex : ∃ d, d < x.Daq.DaqCount ∧ listSelected x d
    · obtain ⟨d, hd, hsel⟩ := hex
      refine ⟨d, by rw [hcnt]; exact hd, ?_⟩
      simp only [listRunning, s3, if_pos (And.intro hd hsel)]
      rw [land_land_of_subset _ _ _ (by decide), lor_land_self]; decide
    · rw [daqRunning, s2 (fun d hd hsel => hex ⟨d, hd, hsel⟩)] at hr
      obtain ⟨d, hd, hrun⟩ := hc hr
      refine ⟨d, by rw [hcnt]; exact hd, ?_⟩
      simp only [listRunning, s3]
      by_cases hc2 : d < x.Daq.DaqCount ∧ listSelected x d
      · exact absurd ⟨d, hc2⟩ hex
      · rw [if_neg hc2]; exact hrun

/-- A state without a RUNNING flag and with the DAQ bit clear has both
properties of the RUNNING flags. -/
theorem running_of_none (x : tXcpData) (h1 : ∀ d, ¬ listRunning x d) (h2 : ¬ daqRunning x) :
    runningSound x ∧ runningComplete x :=
  ⟨fun d hd => absurd hd (h1 d), fun hr => absurd hr h2⟩

/-- After `XcpFreeDaq` no list is RUNNING and the DAQ bit is clear. -/
theorem XcpFreeDaq_running (x : tXcpData) :
    runningSound (XcpFreeDaq x) ∧ runningComplete (XcpFreeDaq x) := by
  apply running_of_none
  · intro d
    simp [listRunning, XcpFreeDaq, tXcpDaqList.zero]
  · simp [daqRunning, XcpFreeDaq, land_not8_SS_DAQ]

/-- Case DISCONNECT keeps `runningSound` and establishes `runningComplete`. -/
theorem XcpCommand.DISCONNECT_running (w : Slave) :
    (runningSound w.xcp → runningSound (XcpCommand.DISCONNECT w).1.xcp) ∧
      runningComplete (XcpCommand.DISCONNECT w).1.xcp := by
  unfold XcpCommand.DISCONNECT XcpDisconnect
  simp only []
  have hsr : sameRunning w.xcp { { w.xcp with CrmLen := CRM_DISCONNECT_LEN } with
      SessionStatus := w.xcp.SessionStatus &&& not8 SS_CONNECTED } :=
    ⟨rfl, fun _ => rfl, land_land_of_subset _ _ _ (by decide)⟩
  exact ⟨fun hs => (XcpStopAllDaq_running _).1 ((running_of_sameRunning hsr).1 hs),
    (XcpStopAllDaq_running _).2⟩

/-- The function `XcpAllocDaq` keeps the list records and the session
status. -/
theorem XcpAllocDaq_DaqList (cfg : Config) (x : tXcpData) (n : Nat) :
    (XcpAllocDaq cfg x n).1.Daq.DaqList = x.Daq.DaqList ∧
      (XcpAllocDaq cfg x n).1.SessionStatus = x.SessionStatus := by
  refine ⟨?_, (XcpAllocDaq_frame cfg x n).2.2.1⟩
  rcases XcpAllocDaq_Daq cfg x n with h | h <;> rw [h]

/-- Case ALLOC_DAQ, entered with the DAQ bit clear, keeps both properties of
the RUNNING flags. -/
theorem XcpCommand.ALLOC_DAQ_running (cfg : Config) (w : Slave) (pCmd : tXcpCto)
    (hb : ¬ daqRunning w.xcp) :
    (runningSound w.xcp → runningSound (XcpCommand.ALLOC_DAQ cfg w pCmd).1.xcp) ∧
      (runningComplete w.xcp → runningComplete (XcpCommand.ALLOC_DAQ cfg w pCmd).1.xcp) := by
  have hx : (XcpCommand.ALLOC_DAQ cfg w pCmd).1.xcp
      = (XcpAllocDaq cfg w.xcp (pCmd.CRO_ALLOC_DAQ_COUNT % 256)).1 := by
    unfold XcpCommand.ALLOC_DAQ check_error
    simp only []
    split <;> rfl
  rw [hx]
  obtain ⟨h1, h2⟩ := XcpAllocDaq_DaqList cfg w.xcp (pCmd.CRO_ALLOC_DAQ_COUNT % 256)
  have hnr : ¬ daqRunning (XcpAllocDaq cfg w.xcp (pCmd.CRO_ALLOC_DAQ_COUNT % 256)).1 := by
    simpa [daqRunning, h2] using hb
  refine ⟨?_, fun _ hr => absurd hr hnr⟩
  intro hs d hd
  have : listRunning w.xcp d := by simpa [listRunning, h1] using hd
  exact absurd (hs d this).2 hb

/-- The function `XcpAllocOdt` keeps `DaqCount`, the flags of every list and
the session status. -/
theorem XcpAllocOdt_sameRunning (cfg : Config) (x : tXcpData) (daq n : Nat) :
    sameRunning x (XcpAllocOdt cfg x daq n).1 := by
  refine ⟨?_, ?_, by rw [(XcpAllocOdt_frame cfg x daq n).2.2.1]⟩
  · rcases XcpAllocOdt_Daq cfg x daq n with h | h
    · rw [h]
    · exact h.1
  · intro d
    unfold XcpAllocOdt
    split
    · rfl
    · split
      · rfl
      · simp only []
        generalize hx3 : setDaqList _ _ _ = x3
        rw [(XcpAllocMemory_spec cfg x3).2.2.1, ← hx3]
        simp only [setDaqList, Function.update_apply]
        split <;> (try rename_i h; try rw [h])
        all_goals simp

/-- The function `XcpAllocOdtEntry` keeps `DaqCount`, the list records and
the session status. -/
theorem XcpAllocOdtEntry_sameRunning (cfg : Config) (x : tXcpData) (daq odt n : Nat) :
    sameRunning x (XcpAllocOdtEntry cfg x daq odt n).1 := by
  have hL : (XcpAllocOdtEntry cfg x daq odt n).1.Daq.DaqList = x.Daq.DaqList ∧
      (XcpAllocOdtEntry cfg x daq odt n).1.Daq.DaqCount = x.Daq.DaqCount := by
    unfold XcpAllocOdtEntry
    split
    · exact ⟨rfl, rfl⟩
    · split
      · exact ⟨rfl, rfl⟩
      · split
        · exact ⟨rfl, rfl⟩
        · simp only []
          generalize hx3 : setOdt _ _ _ = x3
          rw [(XcpAllocMemory_spec cfg x3).2.2.1, ← hx3]
          exact ⟨rfl, rfl⟩
  exact ⟨hL.2, fun d => by rw [hL.1], by rw [(XcpAllocOdtEntry_frame cfg x daq odt n).2.2.1]⟩

/-- The state `check_error` passes on is the one of the status. -/
theorem check_error_xcp (w : Slave) (r : tXcpData × Nat) : (check_error w r).1.xcp = r.1 := by
  unfold check_error
  split <;> rfl

/-- Case ALLOC_ODT keeps `DaqCount`, the RUNNING flags and the DAQ bit. -/
theorem XcpCommand.ALLOC_ODT_sameRunning (cfg : Config) (w : Slave) (pCmd : tXcpCto) :
    sameRunning w.xcp (XcpCommand.ALLOC_ODT cfg w pCmd).1.xcp := by
  unfold XcpCommand.ALLOC_ODT
  simp only []
  split
  · exact sameRunning_refl _
  · rw [check_error_xcp]
    exact XcpAllocOdt_sameRunning cfg _ _ _

/-- Case ALLOC_ODT_ENTRY keeps `DaqCount`, the RUNNING flags and the DAQ bit. -/
theorem XcpCommand.ALLOC_ODT_ENTRY_sameRunning (cfg : Config) (w : Slave) (pCmd : tXcpCto) :
    sameRunning w.xcp (XcpCommand.ALLOC_ODT_ENTRY cfg w pCmd).1.xcp := by
  unfold XcpCommand.ALLOC_ODT_ENTRY
  simp only []
  split
  · exact sameRunning_refl _
  · rw [check_error_xcp]
    exact XcpAllocOdtEntry_sameRunning cfg _ _ _ _

/-- Case SET_DAQ_LIST_MODE keeps `runningSound` when the mode byte does not
start the list, and `runningComplete` when it does not stop the list. -/
theorem XcpCommand.SET_DAQ_LIST_MODE_running (cfg : Config) (w : Slave) (pCmd : tXcpCto) :
    (((pCmd.CRO_SET_DAQ_LIST_MODE_MODE % 256) &&& DAQ_FLAG_RUNNING ≠ 0 →
        listRunning w.xcp (pCmd.CRO_SET_DAQ_LIST_MODE_DAQ % 256)) →
      runningSound w.xcp → runningSound (XcpCommand.SET_DAQ_LIST_MODE cfg w pCmd).1.xcp) ∧
    ((listRunning w.xcp (pCmd.CRO_SET_DAQ_LIST_MODE_DAQ % 256) →
        (pCmd.CRO_SET_DAQ_LIST_MODE_MODE % 256) &&& DAQ_FLAG_RUNNING ≠ 0) →
      runningComplete w.xcp →
      runningComplete (XcpCommand.SET_DAQ_LIST_MODE cfg w pCmd).1.xcp) := by
  unfold XcpCommand.SET_DAQ_LIST_MODE
  simp only []
  generalize pCmd.CRO_SET_DAQ_LIST_MODE_DAQ % 256 = daq
  generalize pCmd.CRO_SET_DAQ_LIST_MODE_MODE % 256 = mode
  split
  · exact ⟨fun _ h => h, fun _ h => h⟩
  · split
    · exact ⟨fun _ h => h, fun _ h => h⟩
    · refine ⟨?_, ?_⟩
      · intro ha hs d hd
        simp only [listRunning, setDaqList, Function.update_apply] at hd
        by_cases hdd : d = daq
        · simp only [hdd, if_true] at hd
          rw [hdd]
          exact hs daq (ha hd)
        · simp only [hdd, if_false] at hd
          exact hs d hd
      · intro ha hc hr
        obtain ⟨d, hd, hrun⟩ := hc hr
        refine ⟨d, hd, ?_⟩
        simp only [listRunning, setDaqList, Function.update_apply]
        by_cases hdd : d = daq
        · simp only [hdd, if_true]
          exact ha (hdd ▸ hrun)
        · simp only [hdd, if_false]
          exact hrun

/-- Case START_STOP_DAQ_LIST with parameter checks keeps both properties of
the RUNNING flags. -/
theorem XcpCommand.START_STOP_DAQ_LIST_running (cfg : Config) (w : Slave) (pCmd : tXcpCto)
    (hpc : cfg.XCP_ENABLE_PARAMETER_CHECK = true) :
    (runningSound w.xcp → runningSound (XcpCommand.START_STOP_DAQ_LIST cfg w pCmd).1.xcp) ∧
      (runningComplete w.xcp →
        runningComplete (XcpCommand.START_STOP_DAQ_LIST cfg w pCmd).1.xcp) := by
  unfold XcpCommand.START_STOP_DAQ_LIST
  simp only [hpc, true_and]
  generalize (pCmd.CRO_START_STOP_DAQ &&& 0xFF) % 256 = daq
  split
  · exact ⟨fun h => h, fun h => h⟩
  · rename_i hd
    have hd2 : daq < w.xcp.Daq.DaqCount := by omega
    split
    · have hsel := setSelected_sameRunning w.xcp daq
      by_cases h1 : pCmd.CRO_START_STOP_MODE = 1
      · simp only [h1, if_true]
        have hst := XcpStartDaq_running (setDaqList w.xcp daq
          (fun l => { l with flags := l.flags ||| DAQ_FLAG_SELECTED })) daq hd2
        have hcrm : sameRunning (XcpStartDaq (setDaqList w.xcp daq
            (fun l => { l with flags := l.flags ||| DAQ_FLAG_SELECTED })) daq)
            (setCrmByte { XcpStartDaq (setDaqList w.xcp daq
              (fun l => { l with flags := l.flags ||| DAQ_FLAG_SELECTED })) daq with
              CrmLen := CRM_START_STOP_LEN } CRM_START_STOP_FIRST_PID 0) :=
          ⟨rfl, fun _ => rfl, rfl⟩
        exact ⟨fun hs => (running_of_sameRunning hcrm).1
            (hst.1 ((running_of_sameRunning hsel).1 hs)),
          fun _ => (running_of_sameRunning hcrm).2 hst.2⟩
      · simp only [h1, if_false]
        have hcrm : sameRunning w.xcp
            (setCrmByte { setDaqList w.xcp daq
              (fun l => { l with flags := l.flags ||| DAQ_FLAG_SELECTED }) with
              CrmLen := CRM_START_STOP_LEN } CRM_START_STOP_FIRST_PID 0) :=
          sameRunning_trans hsel ⟨rfl, fun _ => rfl, rfl⟩
        exact running_of_sameRunning hcrm
    · exact ⟨(XcpStopDaq_running w.xcp daq).1, fun _ => (XcpStopDaq_running w.xcp daq).2⟩

/-- Case START_STOP_SYNCH keeps both properties of the RUNNING flags. -/
theorem XcpCommand.START_STOP_SYNCH_running (w : Slave) (pCmd : tXcpCto) :
    (runningSound w.xcp → runningSound (XcpCommand.START_STOP_SYNCH w pCmd).1.xcp) ∧
      (runningComplete w.xcp →
        runningComplete (XcpCommand.START_STOP_SYNCH w pCmd).1.xcp) := by
  unfold XcpCommand.START_STOP_SYNCH
  split_ifs
  · exact ⟨fun h => h, fun h => h⟩
  · exact XcpStopAllSelectedDaq_running w.xcp
  · exact XcpStartAllSelectedDaq_running w.xcp
  · exact ⟨(XcpStopAllDaq_running w.xcp).1, fun _ => (XcpStopAllDaq_running w.xcp).2⟩

/-- Every case of the `switch` keeps `runningSound`, when parameter checks
are compiled in, a SET_DAQ_LIST_MODE does not start its list and ALLOC_DAQ is
entered with the DAQ bit clear. -/
theorem XcpCommand.switch_runningSound (cfg : Config) (w : Slave) (pCmd : tXcpCto)
    (hpc : cfg.XCP_ENABLE_PARAMETER_CHECK = true)
    (ha : pCmd.CRO_CMD = .CC_SET_DAQ_LIST_MODE →
      (pCmd.CRO_SET_DAQ_LIST_MODE_MODE % 256) &&& DAQ_FLAG_RUNNING ≠ 0 →
      listRunning w.xcp (pCmd.CRO_SET_DAQ_LIST_MODE_DAQ % 256))
    (hb : pCmd.CRO_CMD = .CC_ALLOC_DAQ → ¬ daqRunning w.xcp)
    (hs : runningSound w.xcp) :
    runningSound (XcpCommand.switch cfg w pCmd).1.xcp := by
  by_cases h0 : pCmd.CRO_CMD = .CC_DISCONNECT
  · simp only [XcpCommand.switch, h0]
    exact (XcpCommand.DISCONNECT_running w).1 hs
  by_cases h1 : pCmd.CRO_CMD = .CC_FREE_DAQ
  · simp only [XcpCommand.switch, h1]
    exact (XcpFreeDaq_running w.xcp).1
  by_cases h2 : pCmd.CRO_CMD = .CC_ALLOC_DAQ
  · simp only [XcpCommand.switch, h2]
    exact (XcpCommand.ALLOC_DAQ_running cfg w pCmd (hb h2)).1 hs
  by_cases h3 : pCmd.CRO_CMD = .CC_ALLOC_ODT
  · simp only [XcpCommand.switch, h3]
    exact (running_of_sameRunning (XcpCommand.ALLOC_ODT_sameRunning cfg w pCmd)).1 hs
  by_cases h4 : pCmd.CRO_CMD = .CC_ALLOC_ODT_ENTRY
  · simp only [XcpCommand.switch, h4]
    exact (running_of_sameRunning (XcpCommand.ALLOC_ODT_ENTRY_sameRunning cfg w pCmd)).1 hs
  by_cases h5 : pCmd.CRO_CMD = .CC_SET_DAQ_LIST_MODE
  · simp only [XcpCommand.switch, h5]
    exact (XcpCommand.SET_DAQ_LIST_MODE_running cfg w pCmd).1 (ha h5) hs
  by_cases h6 : pCmd.CRO_CMD = .CC_START_STOP_DAQ_LIST
  · simp only [XcpCommand.switch, h6]
    exact (XcpCommand.START_STOP_DAQ_LIST_running cfg w pCmd hpc).1 hs
  by_cases h7 : pCmd.CRO_CMD = .CC_START_STOP_SYNCH
  · simp only [XcpCommand.switch, h7]
    exact (XcpCommand.START_STOP_SYNCH_running w pCmd).1 hs
  exact (running_of_sameRunning (sameRunning_of_sameSetup
    (XcpCommand.switch_setup cfg w pCmd h0 h1 h2 h3 h4 h5 h6 h7))).1 hs

/-- Every case of the `switch` keeps `runningComplete`, when parameter checks
are compiled in, a SET_DAQ_LIST_MODE does not stop its list and ALLOC_DAQ is
entered with the DAQ bit clear. -/
theorem XcpCommand.switch_runningComplete (cfg : Config) (w : Slave) (pCmd : tXcpCto)
    (hpc : cfg.XCP_ENABLE_PARAMETER_CHECK = true)
    (ha : pCmd.CRO_CMD = .CC_SET_DAQ_LIST_MODE →
      listRunning w.xcp (pCmd.CRO_SET_DAQ_LIST_MODE_DAQ % 256) →
      (pCmd.CRO_SET_DAQ_LIST_MODE_MODE % 256) &&& DAQ_FLAG_RUNNING ≠ 0)
    (hb : pCmd.CRO_CMD = .CC_ALLOC_DAQ → ¬ daqRunning w.xcp)
    (hs : runningComplete w.xcp) :
    runningComplete (XcpCommand.switch cfg w pCmd).1.xcp := by
  by_cases h0 : pCmd.CRO_CMD = .CC_DISCONNECT
  · simp only [XcpCommand.switch, h0]
    exact (XcpCommand.DISCONNECT_running w).2
  by_cases h1 : pCmd.CRO_CMD = .CC_FREE_DAQ
  · simp only [XcpCommand.switch, h1]
    exact (XcpFreeDaq_running w.xcp).2
  by_cases h2 : pCmd.CRO_CMD = .CC_ALLOC_DAQ
  · simp only [XcpCommand.switch, h2]
    exact (XcpCommand.ALLOC_DAQ_running cfg w pCmd (hb h2)).2 hs
  by_cases h3 : pCmd.CRO_CMD = .CC_ALLOC_ODT
  · simp only [XcpCommand.switch, h3]
    exact (running_of_sameRunning (XcpCommand.ALLOC_ODT_sameRunning cfg w pCmd)).2 hs
  by_cases h4 : pCmd.CRO_CMD = .CC_ALLOC_ODT_ENTRY
  · simp only [XcpCommand.switch, h4]
    exact (running_of_sameRunning (XcpCommand.ALLOC_ODT_ENTRY_sameRunning cfg w pCmd)).2 hs
  by_cases h5 : pCmd.CRO_CMD = .CC_SET_DAQ_LIST_MODE
  · simp only [XcpCommand.switch, h5]
    exact (XcpCommand.SET_DAQ_LIST_MODE_running cfg w pCmd).2 (ha h5) hs
  by_cases h6 : pCmd.CRO_CMD = .CC_START_STOP_DAQ_LIST
  · simp only [XcpCommand.switch, h6]
    exact (XcpCommand.START_STOP_DAQ_LIST_running cfg w pCmd hpc).2 hs
  by_cases h7 : pCmd.CRO_CMD = .CC_START_STOP_SYNCH
  · simp only [XcpCommand.switch, h7]
    exact (XcpCommand.START_STOP_SYNCH_running w pCmd).2 hs
  exact (running_of_sameRunning (sameRunning_of_sameSetup
    (XcpCommand.switch_setup cfg w pCmd h0 h1 h2 h3 h4 h5 h6 h7))).2 hs

/-- After the CONNECT branch no list is RUNNING and the DAQ bit is clear. -/
theorem XcpCommand.CONNECT_running (cfg : Config) (w : Slave) :
    runningSound (XcpCommand.CONNECT cfg w).1.xcp ∧
      runningComplete (XcpCommand.CONNECT cfg w).1.xcp := by
  have hD : (XcpCommand.CONNECT cfg w).1.xcp.Daq = (XcpFreeDaq w.xcp).Daq ∧
      (XcpCommand.CONNECT cfg w).1.xcp.SessionStatus = SS_CONNECTED := by
    cases hb : cfg.XCP_CPUTYPE_BIGENDIAN <;>
      simp [XcpCommand.CONNECT, setCrmByte, setCrmWord, XcpFreeDaq, hb]
  apply running_of_none
  · intro d
    simp [listRunning, hD.1, XcpFreeDaq, tXcpDaqList.zero]
  · simp only [daqRunning, hD.2]
    decide

/-- One command keeps `runningSound`, under the conditions of
`ReachableKeepStopped`. -/
theorem XcpCommand_runningSound (cfg : Config) (w : Slave) (pCmd : tXcpCto)
    (hpc : cfg.XCP_ENABLE_PARAMETER_CHECK = true)
    (ha : pCmd.CRO_CMD = .CC_SET_DAQ_LIST_MODE →
      (pCmd.CRO_SET_DAQ_LIST_MODE_MODE % 256) &&& DAQ_FLAG_RUNNING ≠ 0 →
      listRunning w.xcp (pCmd.CRO_SET_DAQ_LIST_MODE_DAQ % 256))
    (hb : pCmd.CRO_CMD = .CC_ALLOC_DAQ → ¬ daqRunning w.xcp)
    (hs : runningSound w.xcp) :
    runningSound (XcpCommand cfg w pCmd).1.xcp := by
  apply (running_of_sameRunning (sameRunning_of_sameSetup
    (XcpCommand_setup_of_body cfg w pCmd))).1
  by_cases hc : pCmd.CRO_CMD = .CC_CONNECT
  · simp only [XcpCommand.body, hc, if_true]
    exact (XcpCommand.CONNECT_running cfg w).1
  by_cases hcon : connected w.xcp
  · rw [XcpCommand.body_connected cfg w pCmd hcon hc]
    have he := XcpCommand.entry_sameRunning cfg w
    have fD := (XcpCommand.entry_frame cfg w).2.2.2.1
    apply XcpCommand.switch_runningSound cfg _ pCmd hpc
    · intro h1 h2
      simpa [listRunning, fD] using ha h1 h2
    · intro h1
      simpa [daqRunning, he.2.2] using hb h1
    · exact (running_of_sameRunning he).1 hs
  · have hz : w.xcp.SessionStatus &&& SS_CONNECTED = 0 := by simpa [connected] using hcon
    have hbody : XcpCommand.body cfg w pCmd = (w, .no_response) := by
      simp [XcpCommand.body, hc, hz]
    rw [hbody]
    exact hs

/-- One command keeps `runningComplete`, under the conditions of
`ReachableKeepRunning`. -/
theorem XcpCommand_runningComplete (cfg : Config) (w : Slave) (pCmd : tXcpCto)
    (hpc : cfg.XCP_ENABLE_PARAMETER_CHECK = true)
    (ha : pCmd.CRO_CMD = .CC_SET_DAQ_LIST_MODE →
      listRunning w.xcp (pCmd.CRO_SET_DAQ_LIST_MODE_DAQ % 256) →
      (pCmd.CRO_SET_DAQ_LIST_MODE_MODE % 256) &&& DAQ_FLAG_RUNNING ≠ 0)
    (hb : pCmd.CRO_CMD = .CC_ALLOC_DAQ → ¬ daqRunning w.xcp)
    (hs : runningComplete w.xcp) :
    runningComplete (XcpCommand cfg w pCmd).1.xcp := by
  apply (running_of_sameRunning (sameRunning_of_sameSetup
    (XcpCommand_setup_of_body cfg w pCmd))).2
  by_cases hc : pCmd.CRO_CMD = .CC_CONNECT
  · simp only [XcpCommand.body, hc, if_true]
    exact (XcpCommand.CONNECT_running cfg w).2
  by_cases hcon : connected w.xcp
  · rw [XcpCommand.body_connected cfg w pCmd hcon hc]
    have he := XcpCommand.entry_sameRunning cfg w
    have fD := (XcpCommand.entry_frame cfg w).2.2.2.1
    apply XcpCommand.switch_runningComplete cfg _ pCmd hpc
    · intro h1 h2
      apply ha h1
      simpa [listRunning, fD] using h2
    · intro h1
      simpa [daqRunning, he.2.2] using hb h1
    · exact (running_of_sameRunning he).2 hs
  · have hz : w.xcp.SessionStatus &&& SS_CONNECTED = 0 := by simpa [connected] using hcon
    have hbody : XcpCommand.body cfg w pCmd = (w, .no_response) := by
      simp [XcpCommand.body, hc, hz]
    rw [hbody]
    exact hs

/-- After `XcpInit` no list is RUNNING and the DAQ bit is clear. -/
theorem XcpInit_running : runningSound XcpInit ∧ runningComplete XcpInit := by
  apply running_of_none
  · intro d
    simp [listRunning, XcpInit, tXcpDaqList.zero]
  · simp [daqRunning, XcpInit]

/-- C13, counterexample: the state after CONNECT, ALLOC_DAQ(1),
ALLOC_ODT(0, 1), ALLOC_ODT_ENTRY(0, 0, 1) and SET_DAQ_LIST_MODE for list 0
with the RUNNING bit in the mode byte is reachable; list 0 is below
`DaqCount` and has the flag RUNNING, and the DAQ bit of the session status is
clear. -/
theorem running_without_daqRunning :
    Reachable cfg512 (runCommands cfg512 slaveInit
        [{ CRO_CMD := .CC_CONNECT }, mkALLOC_DAQ 1, mkALLOC_ODT 0 1, mkALLOC_ODT_ENTRY 0 0 1,
          mkSET_DAQ_LIST_MODE DAQ_FLAG_RUNNING 0 0 0]) ∧
      0 < (runCommands cfg512 slaveInit
        [{ CRO_CMD := .CC_CONNECT }, mkALLOC_DAQ 1, mkALLOC_ODT 0 1, mkALLOC_ODT_ENTRY 0 0 1,
          mkSET_DAQ_LIST_MODE DAQ_FLAG_RUNNING 0 0 0]).xcp.Daq.DaqCount ∧
      listRunning (runCommands cfg512 slaveInit
        [{ CRO_CMD := .CC_CONNECT }, mkALLOC_DAQ 1, mkALLOC_ODT 0 1, mkALLOC_ODT_ENTRY 0 0 1,
          mkSET_DAQ_LIST_MODE DAQ_FLAG_RUNNING 0 0 0]).xcp 0 ∧
      ¬ daqRunning (runCommands cfg512 slaveInit
        [{ CRO_CMD := .CC_CONNECT }, mkALLOC_DAQ 1, mkALLOC_ODT 0 1, mkALLOC_ODT_ENTRY 0 0 1,
          mkSET_DAQ_LIST_MODE DAQ_FLAG_RUNNING 0 0 0]).xcp :=
  ⟨Reachable.command _ (Reachable.command _ (Reachable.command _ (Reachable.command _
    (Reachable.command _ (Reachable.init _ _))))), by decide, by decide, by decide⟩

/-- C13, amended: with parameter checks compiled in, in every state reachable
from `XcpInit` by a sequence of commands that keep to the domain of the
embedding (a DOWNLOAD writes outside of `xcp`, every access through an arena
pointer goes to the array the pointer was placed for) and in which a
SET_DAQ_LIST_MODE with the RUNNING bit in its mode byte is sent only for a
list that is RUNNING and ALLOC_DAQ is sent only while the DAQ bit of the
session status is clear: if a list `d < DaqCount` has the flag RUNNING then
the DAQ bit is set. -/
theorem daqRunning_of_listRunning (cfg : Config) (w : Slave)
    (hpc : cfg.XCP_ENABLE_PARAMETER_CHECK = true) (hw : ReachableKeepStopped cfg w) :
    ∀ d, d < w.xcp.Daq.DaqCount → listRunning w.xcp d → daqRunning w.xcp := by
  have hs : runningSound w.xcp := by
    induction hw with
    | init mem clock => exact XcpInit_running.1
    | @command w1 pCmd _ _ ha hb ih => exact XcpCommand_runningSound cfg w1 pCmd hpc ha hb ih
    | environment mem clock _ ih => exact ih
  exact fun d _ hd => (hs d hd).2

/-- Witness of C13, amended: the configured slave after
START_STOP_DAQ_LIST(mode 1, daq 0); list 0 is RUNNING and the DAQ bit is
set. -/
theorem daqRunning_of_listRunning_witness :
    listRunning (XcpCommand cfg512 (XcpCommand cfg512 (XcpCommand cfg512
        (XcpCommand cfg512 (XcpCommand cfg512 slaveInit { CRO_CMD := .CC_CONNECT }).1
          (mkALLOC_DAQ 1)).1 (mkALLOC_ODT 0 1)).1 (mkALLOC_ODT_ENTRY 0 0 1)).1
        (mkSTART_STOP_DAQ_LIST 1 0)).1.xcp 0 ∧
      daqRunning (XcpCommand cfg512 (XcpCommand cfg512 (XcpCommand cfg512
        (XcpCommand cfg512 (XcpCommand cfg512 slaveInit { CRO_CMD := .CC_CONNECT }).1
          (mkALLOC_DAQ 1)).1 (mkALLOC_ODT 0 1)).1 (mkALLOC_ODT_ENTRY 0 0 1)).1
        (mkSTART_STOP_DAQ_LIST 1 0)).1.xcp :=
  ⟨by decide,
   daqRunning_of_listRunning cfg512 _ rfl
     (ReachableKeepStopped.command (mkSTART_STOP_DAQ_LIST 1 0)
       (ReachableKeepStopped.command (mkALLOC_ODT_ENTRY 0 0 1)
         (ReachableKeepStopped.command (mkALLOC_ODT 0 1)
           (ReachableKeepStopped.command (mkALLOC_DAQ 1)
             (ReachableKeepStopped.command { CRO_CMD := .CC_CONNECT }
               (ReachableKeepStopped.init _ _) (by decide) (by decide) (by decide))
             (by decide) (by decide) (by decide))
           (by decide) (by decide) (by decide))
         (by decide) (by decide) (by decide))
       (by decide) (by decide) (by decide))
     0 (by decide) (by decide)⟩

/-- C14, counterexample: the state after CONNECT, ALLOC_DAQ(1),
ALLOC_ODT(0, 1), ALLOC_ODT_ENTRY(0, 0, 1), START_STOP_DAQ_LIST(mode 1, daq 0)
and SET_DAQ_LIST_MODE for list 0 with the mode byte TIMESTAMP is reachable;
the DAQ bit of the session status is set and no list below `DaqCount` has the
flag RUNNING. -/
theorem daqRunning_without_running :
    Reachable cfg512 (runCommands cfg512 slaveInit
        [{ CRO_CMD := .CC_CONNECT }, mkALLOC_DAQ 1, mkALLOC_ODT 0 1, mkALLOC_ODT_ENTRY 0 0 1,
          mkSTART_STOP_DAQ_LIST 1 0, mkSET_DAQ_LIST_MODE DAQ_FLAG_TIMESTAMP 0 7 0]) ∧
      daqRunning (runCommands cfg512 slaveInit
        [{ CRO_CMD := .CC_CONNECT }, mkALLOC_DAQ 1, mkALLOC_ODT 0 1, mkALLOC_ODT_ENTRY 0 0 1,
          mkSTART_STOP_DAQ_LIST 1 0, mkSET_DAQ_LIST_MODE DAQ_FLAG_TIMESTAMP 0 7 0]).xcp ∧
      (runCommands cfg512 slaveInit
        [{ CRO_CMD := .CC_CONNECT }, mkALLOC_DAQ 1, mkALLOC_ODT 0 1, mkALLOC_ODT_ENTRY 0 0 1,
          mkSTART_STOP_DAQ_LIST 1 0, mkSET_DAQ_LIST_MODE DAQ_FLAG_TIMESTAMP 0 7 0]).xcp.Daq.DaqCount
        = 1 ∧
      ¬ listRunning (runCommands cfg512 slaveInit
        [{ CRO_CMD := .CC_CONNECT }, mkALLOC_DAQ 1, mkALLOC_ODT 0 1, mkALLOC_ODT_ENTRY 0 0 1,
          mkSTART_STOP_DAQ_LIST 1 0, mkSET_DAQ_LIST_MODE DAQ_FLAG_TIMESTAMP 0 7 0]).xcp 0 :=
  ⟨Reachable.command _ (Reachable.command _ (Reachable.command _ (Reachable.command _
    (Reachable.command _ (Reachable.command _ (Reachable.init _ _)))))),
   by decide, by decide, by decide⟩

/-- C14, amended: with parameter checks compiled in, in every state reachable
from `XcpInit` by a sequence of commands that keep to the domain of the
embedding (a DOWNLOAD writes outside of `xcp`, every access through an arena
pointer goes to the array the pointer was placed for) and in which a
SET_DAQ_LIST_MODE for a list that is RUNNING has the RUNNING bit in its mode byte and ALLOC_DAQ is
sent only while the DAQ bit of the session status is clear: if the DAQ bit is
set then a list `d < DaqCount` has the flag RUNNING. -/
theorem listRunning_of_daqRunning (cfg : Config) (w : Slave)
    (hpc : cfg.XCP_ENABLE_PARAMETER_CHECK = true) (hw : ReachableKeepRunning cfg w) :
    daqRunning w.xcp → ∃ d, d < w.xcp.Daq.DaqCount ∧ listRunning w.xcp d := by
  induction hw with
  | init mem clock => exact XcpInit_running.2
  | @command w1 pCmd _ _ ha hb ih => exact XcpCommand_runningComplete cfg w1 pCmd hpc ha hb ih
  | environment mem clock _ ih => exact ih

/-- Witness of C14, amended: the configured slave after
START_STOP_DAQ_LIST(mode 1, daq 0); the DAQ bit is set and a list below
`DaqCount` is RUNNING. -/
theorem listRunning_of_daqRunning_witness :
    ∃ d, d < (XcpCommand cfg512 (XcpCommand cfg512 (XcpCommand cfg512
        (XcpCommand cfg512 (XcpCommand cfg512 slaveInit { CRO_CMD := .CC_CONNECT }).1
          (mkALLOC_DAQ 1)).1 (mkALLOC_ODT 0 1)).1 (mkALLOC_ODT_ENTRY 0 0 1)).1
        (mkSTART_STOP_DAQ_LIST 1 0)).1.xcp.Daq.DaqCount ∧
      listRunning (XcpCommand cfg512 (XcpCommand cfg512 (XcpCommand cfg512
        (XcpCommand cfg512 (XcpCommand cfg512 slaveInit { CRO_CMD := .CC_CONNECT }).1
          (mkALLOC_DAQ 1)).1 (mkALLOC_ODT 0 1)).1 (mkALLOC_ODT_ENTRY 0 0 1)).1
        (mkSTART_STOP_DAQ_LIST 1 0)).1.xcp d :=
  listRunning_of_daqRunning cfg512 _ rfl
    (ReachableKeepRunning.command (mkSTART_STOP_DAQ_LIST 1 0)
      (ReachableKeepRunning.command (mkALLOC_ODT_ENTRY 0 0 1)
        (ReachableKeepRunning.command (mkALLOC_ODT 0 1)
          (ReachableKeepRunning.command (mkALLOC_DAQ 1)
            (ReachableKeepRunning.command { CRO_CMD := .CC_CONNECT }
              (ReachableKeepRunning.init _ _) (by decide) (by decide) (by decide))
            (by decide) (by decide) (by decide))
          (by decide) (by decide) (by decide))
        (by decide) (by decide) (by decide))
      (by decide) (by decide) (by decide))
    (by decide)

/-! ### Ownership of ODTs and ODT entries -/

/-- A fresh range `[c, c + n - 1]` given to a new member `a` extends a
partition of the numbers below `c` to one of the numbers below `c + n`. -/
theorem partition_insert (r r1 : Nat → Finset Nat) (S : Finset Nat) (c n a : Nat)
    (ha : a ∉ S) (hn : 0 < n)
    (hin : ∀ d ∈ S, ∀ j ∈ r d, j < c)
    (hdis : ∀ d ∈ S, ∀ e ∈ S, d ≠ e → Disjoint (r d) (r e))
    (hsum : ∑ d in S, (r d).card = c)
    (hr1 : ∀ d, d ≠ a → r1 d = r d) (hra : r1 a = Finset.Icc c (c + n - 1)) :
    (∀ d ∈ insert a S, ∀ j ∈ r1 d, j < c + n) ∧
      (∀ d ∈ insert a S, ∀ e ∈ insert a S, d ≠ e → Disjoint (r1 d) (r1 e)) ∧
      ∑ d in insert a S, (r1 d).card = c + n := by
  have hS : ∀ d ∈ S, r1 d = r d := fun d hd => hr1 d (fun h => ha (h ▸ hd))
  have hlow : ∀ d ∈ S, Disjoint (r1 d) (r1 a) := by
    intro d hd
    rw [Finset.disjoint_left]
    intro j hj hja
    rw [hS d hd] at hj
    rw [hra, Finset.mem_Icc] at hja
    have := hin d hd j hj
    omega
  refine ⟨?_, ?_, ?_⟩
  · intro d hd j hj
    rw [Finset.mem_insert] at hd
    rcases hd with hd | hd
    · rw [hd, hra, Finset.mem_Icc] at hj
      omega
    · rw [hS d hd] at hj
      have := hin d hd j hj
      omega
  · intro d hd e he hne
    rw [Finset.mem_insert] at hd he
    rcases hd with hd | hd <;> rcases he with he | he
    · exact absurd (hd.trans he.symm) hne
    · rw [hd]; exact (hlow e he).symm
    · rw [he]; exact hlow d hd
    · rw [hS d hd, hS e he]; exact hdis d hd e he hne
  · rw [Finset.sum_insert ha, Finset.sum_congr rfl (fun d hd => by rw [hS d hd]), hsum, hra,
      Nat.card_Icc]
    omega

/-- C12, counterexample: two reachable states without the ownership
partition.  After CONNECT, ALLOC_DAQ(2), ALLOC_ODT(0, 1) the records of both
lists hold the ODT range `[0, 0]`: ODT 0 is in both ranges and the sizes sum
to 2 while `OdtCount` is 1.  After CONNECT, ALLOC_DAQ(1), ALLOC_ODT(0, 1),
ALLOC_ODT(0, 1) the only list holds the range `[1, 1]` of size 1 while
`OdtCount` is 2. -/
theorem ownershipPartition_fails :
    Reachable cfg512 (runCommands cfg512 slaveInit
        [{ CRO_CMD := .CC_CONNECT }, mkALLOC_DAQ 2, mkALLOC_ODT 0 1]) ∧
      ¬ ownershipPartition (runCommands cfg512 slaveInit
        [{ CRO_CMD := .CC_CONNECT }, mkALLOC_DAQ 2, mkALLOC_ODT 0 1]).xcp ∧
      Reachable cfg512 (runCommands cfg512 slaveInit
        [{ CRO_CMD := .CC_CONNECT }, mkALLOC_DAQ 1, mkALLOC_ODT 0 1, mkALLOC_ODT 0 1]) ∧
      ¬ ownershipPartition (runCommands cfg512 slaveInit
        [{ CRO_CMD := .CC_CONNECT }, mkALLOC_DAQ 1, mkALLOC_ODT 0 1, mkALLOC_ODT 0 1]).xcp := by
  refine ⟨Reachable.command _ (Reachable.command _ (Reachable.command _ (Reachable.init _ _))),
    ?_, Reachable.command _ (Reachable.command _ (Reachable.command _ (Reachable.command _
      (Reachable.init _ _)))), ?_⟩
  · intro h
    have h2 := h.1.2
    revert h2
    decide
  · intro h
    have h2 := h.1.2
    revert h2
    decide

/-- Having the same ranges is reflexive. -/
theorem sameRanges_refl (x : tXcpData) : sameRanges x x :=
  ⟨rfl, rfl, fun _ => ⟨rfl, rfl⟩, rfl⟩

/-- Having the same ranges is transitive. -/
theorem sameRanges_trans {x y z : tXcpData} (h1 : sameRanges x y) (h2 : sameRanges y z) :
    sameRanges x z :=
  ⟨h2.1.trans h1.1, h2.2.1.trans h1.2.1,
    fun d => ⟨(h2.2.2.1 d).1.trans (h1.2.2.1 d).1, (h2.2.2.1 d).2.trans (h1.2.2.1 d).2⟩,
    h2.2.2.2.trans h1.2.2.2⟩

/-- Keeping the DAQ lists and the ODT records keeps the ranges. -/
theorem sameRanges_of_sameSetup {x y : tXcpData} (h : sameSetup x y) : sameRanges x y :=
  ⟨by rw [h.1], by rw [h.1], fun d => by rw [h.1]; exact ⟨rfl, rfl⟩, h.2.1⟩

/-- Keeping the pool keeps the ranges. -/
theorem sameRanges_of_samePool {x y : tXcpData} (h : samePool x y) : sameRanges x y :=
  ⟨by rw [h.1], by rw [h.1], fun d => by rw [h.1]; exact ⟨rfl, rfl⟩, h.2.1⟩

/-- An update of the flags or the event channel of a list keeps the ranges. -/
theorem setDaqList_sameRanges (x : tXcpData) (i : Nat) (f : tXcpDaqList → tXcpDaqList)
    (hf : ∀ l, (f l).firstOdt = l.firstOdt ∧ (f l).lastOdt = l.lastOdt) :
    sameRanges x (setDaqList x i f) := by
  refine ⟨rfl, rfl, fun d => ?_, rfl⟩
  rw [setDaqList_DaqList]
  split
  · rename_i h; rw [h]; exact hf _
  · exact ⟨rfl, rfl⟩

/-- The function `XcpStopDaq` keeps the ranges. -/
theorem XcpStopDaq_sameRanges (x : tXcpData) (daq : Nat) : sameRanges x (XcpStopDaq x daq) := by
  have hD := XcpStopDaq_Daq x daq
  have hF := XcpStopDaq_frame x daq
  have hs := setDaqList_sameRanges x daq (fun l => { l with flags :=
      l.flags &&& (DAQ_FLAG_DIRECTION ||| DAQ_FLAG_TIMESTAMP ||| DAQ_FLAG_NO_PID) })
    (fun _ => ⟨rfl, rfl⟩)
  refine ⟨by rw [hD]; exact hs.1, by rw [hD]; exact hs.2.1, fun d => ?_, hF.1⟩
  rw [hD]; exact hs.2.2.1 d

/-- The function `XcpStartDaq` keeps the ranges. -/
theorem XcpStartDaq_sameRanges (x : tXcpData) (daq : Nat) :
    sameRanges x (XcpStartDaq x daq) := by
  have hs := setDaqList_sameRanges x daq
    (fun l => { l with flags := l.flags ||| DAQ_FLAG_RUNNING }) (fun _ => ⟨rfl, rfl⟩)
  exact ⟨hs.1, hs.2.1, hs.2.2.1, hs.2.2.2⟩

/-- The function `XcpStopAllDaq` keeps the ranges. -/
theorem XcpStopAllDaq_sameRanges (x : tXcpData) : sameRanges x (XcpStopAllDaq x) := by
  obtain ⟨sb, -, s3⟩ := XcpStopAllDaq_spec x
  refine ⟨sb.2.2.2.2.2.1, sb.2.2.2.2.2.2.1, fun d => ?_, sb.2.2.2.2.2.2.2.1⟩
  rw [s3]
  split <;> exact ⟨rfl, rfl⟩

/-- The function `XcpStartAllSelectedDaq` keeps the ranges. -/
theorem XcpStartAllSelectedDaq_sameRanges (x : tXcpData) :
    sameRanges x (XcpStartAllSelectedDaq x) := by
  obtain ⟨sb, -, -, s3⟩ := XcpStartAllSelectedDaq_spec x
  refine ⟨sb.2.2.2.2.2.1, sb.2.2.2.2.2.2.1, fun d => ?_, sb.2.2.2.2.2.2.2.1⟩
  rw [s3]
  split <;> exact ⟨rfl, rfl⟩

/-- The function `XcpStopAllSelectedDaq` keeps the ranges. -/
theorem XcpStopAllSelectedDaq_sameRanges (x : tXcpData) :
    sameRanges x (XcpStopAllSelectedDaq x) := by
  obtain ⟨sb, s3⟩ := XcpStopAllSelectedDaq_spec x
  refine ⟨sb.2.2.2.2.2.1, sb.2.2.2.2.2.2.1, fun d => ?_, sb.2.2.2.2.2.2.2.1⟩
  rw [s3]
  split <;> exact ⟨rfl, rfl⟩

/-- Case DISCONNECT keeps the ranges. -/
theorem XcpCommand.DISCONNECT_sameRanges (w : Slave) :
    sameRanges w.xcp (XcpCommand.DISCONNECT w).1.xcp := by
  unfold XcpCommand.DISCONNECT XcpDisconnect
  simp only []
  exact sameRanges_trans (y := { { w.xcp with CrmLen := CRM_DISCONNECT_LEN } with
      SessionStatus := w.xcp.SessionStatus &&& not8 SS_CONNECTED })
    ⟨rfl, rfl, fun _ => ⟨rfl, rfl⟩, rfl⟩ (XcpStopAllDaq_sameRanges _)

/-- Case SET_DAQ_LIST_MODE keeps the ranges. -/
theorem XcpCommand.SET_DAQ_LIST_MODE_sameRanges (cfg : Config) (w : Slave) (pCmd : tXcpCto) :
    sameRanges w.xcp (XcpCommand.SET_DAQ_LIST_MODE cfg w pCmd).1.xcp := by
  unfold XcpCommand.SET_DAQ_LIST_MODE
  simp only []
  split
  · exact sameRanges_refl _
  · split
    · exact sameRanges_refl _
    · exact sameRanges_trans
        (setDaqList_sameRanges w.xcp (pCmd.CRO_SET_DAQ_LIST_MODE_DAQ % 256)
          (fun l => { l with
            eventChannel := (pCmd.CRO_SET_DAQ_LIST_MODE_EVENTCHANNEL &&& 0xFF) % 256 })
          (fun _ => ⟨rfl, rfl⟩))
        (setDaqList_sameRanges _ (pCmd.CRO_SET_DAQ_LIST_MODE_DAQ % 256)
          (fun l => { l with flags := pCmd.CRO_SET_DAQ_LIST_MODE_MODE % 256 })
          (fun _ => ⟨rfl, rfl⟩))

/-- Case START_STOP_DAQ_LIST keeps the ranges. -/
theorem XcpCommand.START_STOP_DAQ_LIST_sameRanges (cfg : Config) (w : Slave) (pCmd : tXcpCto) :
    sameRanges w.xcp (XcpCommand.START_STOP_DAQ_LIST cfg w pCmd).1.xcp := by
  unfold XcpCommand.START_STOP_DAQ_LIST
  simp only []
  generalize (pCmd.CRO_START_STOP_DAQ &&& 0xFF) % 256 = daq
  have hsel := setDaqList_sameRanges w.xcp daq
    (fun l => { l with flags := l.flags ||| DAQ_FLAG_SELECTED }) (fun _ => ⟨rfl, rfl⟩)
  split
  · exact sameRanges_refl _
  · split
    · split
      · exact sameRanges_trans (sameRanges_trans hsel (XcpStartDaq_sameRanges _ daq))
          ⟨rfl, rfl, fun _ => ⟨rfl, rfl⟩, rfl⟩
      · exact sameRanges_trans hsel ⟨rfl, rfl, fun _ => ⟨rfl, rfl⟩, rfl⟩
    · exact XcpStopDaq_sameRanges _ _

/-- Case START_STOP_SYNCH keeps the ranges. -/
theorem XcpCommand.START_STOP_SYNCH_sameRanges (w : Slave) (pCmd : tXcpCto) :
    sameRanges w.xcp (XcpCommand.START_STOP_SYNCH w pCmd).1.xcp := by
  unfold XcpCommand.START_STOP_SYNCH
  split_ifs
  · exact sameRanges_refl _
  · exact XcpStopAllSelectedDaq_sameRanges _
  · exact XcpStartAllSelectedDaq_sameRanges _
  · exact XcpStopAllDaq_sameRanges _

/-- Case ALLOC_DAQ keeps the ranges. -/
theorem XcpCommand.ALLOC_DAQ_sameRanges (cfg : Config) (w : Slave) (pCmd : tXcpCto) :
    sameRanges w.xcp (XcpCommand.ALLOC_DAQ cfg w pCmd).1.xcp := by
  unfold XcpCommand.ALLOC_DAQ
  simp only []
  rw [check_error_xcp]
  have hO : (XcpAllocDaq cfg w.xcp (pCmd.CRO_ALLOC_DAQ_COUNT % 256)).1.Odt = w.xcp.Odt := by
    unfold XcpAllocDaq
    split
    · rfl
    · split
      · rfl
      · exact (XcpAllocMemory_spec cfg _).2.2.2.1
  rcases XcpAllocDaq_Daq cfg w.xcp (pCmd.CRO_ALLOC_DAQ_COUNT % 256) with h | h
  · exact ⟨by rw [h], by rw [h], fun d => by rw [h]; exact ⟨rfl, rfl⟩, hO⟩
  · exact ⟨by rw [h], by rw [h], fun d => by rw [h]; exact ⟨rfl, rfl⟩, hO⟩

/-- The partition of the ODTs depends on `OdtCount` and the ODT ranges of the
lists only. -/
theorem odtInv_congr {x y : tXcpData} (S : Finset Nat)
    (h1 : y.Daq.OdtCount = x.Daq.OdtCount)
    (h3 : ∀ d, (y.Daq.DaqList d).firstOdt = (x.Daq.DaqList d).firstOdt ∧
      (y.Daq.DaqList d).lastOdt = (x.Daq.DaqList d).lastOdt) :
    odtInv x S → odtInv y S := by
  have ho : ∀ d, odtRange y d = odtRange x d := by
    intro d; simp only [odtRange, (h3 d).1, (h3 d).2]
  rintro ⟨a, b, c⟩
  refine ⟨?_, ?_, ?_⟩
  · intro d hd j hj
    rw [ho] at hj; rw [h1]; exact a d hd j hj
  · intro d hd e hee hne
    rw [ho, ho]; exact b d hd e hee hne
  · rw [Finset.sum_congr rfl (fun d _ => by rw [ho d]), h1]; exact c

/-- The partition of the entries depends on `OdtEntryCount` and the ODT
records only. -/
theorem entryInv_congr {x y : tXcpData} (T : Finset Nat)
    (h2 : y.Daq.OdtEntryCount = x.Daq.OdtEntryCount) (h4 : y.Odt = x.Odt) :
    entryInv x T → entryInv y T := by
  have he : ∀ o, entryRange y o = entryRange x o := by
    intro o; simp only [entryRange, h4]
  rintro ⟨a, b, c⟩
  refine ⟨?_, ?_, ?_⟩
  · intro d hd j hj
    rw [he] at hj; rw [h2]; exact a d hd j hj
  · intro d hd e hee hne
    rw [he, he]; exact b d hd e hee hne
  · rw [Finset.sum_congr rfl (fun d _ => by rw [he d]), h2]; exact c

/-- The two partitions are kept with the ranges. -/
theorem inv_of_sameRanges {x y : tXcpData} (h : sameRanges x y) (S T : Finset Nat) :
    (odtInv x S → odtInv y S) ∧ (entryInv x T → entryInv y T) :=
  ⟨odtInv_congr S h.1 h.2.2.1, entryInv_congr T h.2.1 h.2.2.2⟩

/-- What a successful `XcpAllocOdt` with parameter checks leaves: the count
is not zero, `OdtCount` is advanced modulo `2^16`, list `daq` gets the range
from the old to the new `OdtCount`, nothing else of the ranges changes. -/
theorem XcpAllocOdt_ok (cfg : Config) (x : tXcpData) (daq n : Nat)
    (hpc : cfg.XCP_ENABLE_PARAMETER_CHECK = true) (h0 : (XcpAllocOdt cfg x daq n).2 = 0) :
    n ≠ 0 ∧
      (XcpAllocOdt cfg x daq n).1.Daq.OdtCount = (x.Daq.OdtCount + n) % 65536 ∧
      (XcpAllocOdt cfg x daq n).1.Daq.OdtEntryCount = x.Daq.OdtEntryCount ∧
      (XcpAllocOdt cfg x daq n).1.Odt = x.Odt ∧
      ((XcpAllocOdt cfg x daq n).1.Daq.DaqList daq).firstOdt = x.Daq.OdtCount ∧
      ((XcpAllocOdt cfg x daq n).1.Daq.DaqList daq).lastOdt
        = ((x.Daq.OdtCount + n) % 65536 + 65535) % 65536 ∧
      ∀ d, d ≠ daq → (XcpAllocOdt cfg x daq n).1.Daq.DaqList d = x.Daq.DaqList d := by
  unfold XcpAllocOdt at h0 ⊢
  simp only [hpc, true_and] at h0 ⊢
  split at h0
  · simp [CRC_SEQUENCE] at h0
  · rename_i hseq
    rw [if_neg hseq]
    split at h0
    · simp [CRC_OUT_OF_RANGE] at h0
    · rename_i hn
      rw [if_neg hn]
      generalize hx3 : setDaqList _ _ _ = x3
      obtain ⟨-, -, hD, hO, -⟩ := XcpAllocMemory_spec cfg x3
      rw [hD, hO, ← hx3]
      refine ⟨hn, rfl, rfl, rfl, ?_, ?_, ?_⟩
      · simp [setDaqList]
      · simp [setDaqList]
      · intro d hd
        simp [setDaqList, Function.update_apply, hd]

/-- What a successful `XcpAllocOdtEntry` with parameter checks leaves: the
count is not zero, `OdtEntryCount` is advanced without wrap, the ODT
`first_odt(daq) + odt` gets the range from the old to the new
`OdtEntryCount`, nothing else of the ranges changes. -/
theorem XcpAllocOdtEntry_ok (cfg : Config) (x : tXcpData) (daq odt n : Nat)
    (hpc : cfg.XCP_ENABLE_PARAMETER_CHECK = true) (hn256 : n < 256)
    (h0 : (XcpAllocOdtEntry cfg x daq odt n).2 = 0) :
    n ≠ 0 ∧ x.Daq.OdtEntryCount + n ≤ 0xFFFF ∧
      (XcpAllocOdtEntry cfg x daq odt n).1.Daq.OdtEntryCount = x.Daq.OdtEntryCount + n ∧
      (XcpAllocOdtEntry cfg x daq odt n).1.Daq.OdtCount = x.Daq.OdtCount ∧
      (XcpAllocOdtEntry cfg x daq odt n).1.Daq.DaqList = x.Daq.DaqList ∧
      ((XcpAllocOdtEntry cfg x daq odt n).1.Odt ((x.Daq.DaqList daq).firstOdt + odt)).firstOdtEntry
        = x.Daq.OdtEntryCount ∧
      ((XcpAllocOdtEntry cfg x daq odt n).1.Odt ((x.Daq.DaqList daq).firstOdt + odt)).lastOdtEntry
        = x.Daq.OdtEntryCount + n - 1 ∧
      ∀ o, o ≠ (x.Daq.DaqList daq).firstOdt + odt →
        (XcpAllocOdtEntry cfg x daq odt n).1.Odt o = x.Odt o := by
  unfold XcpAllocOdtEntry at h0 ⊢
  simp only [hpc, true_and] at h0 ⊢
  split at h0
  · simp [CRC_SEQUENCE] at h0
  · rename_i hseq
    rw [if_neg hseq]
    split at h0
    · simp [CRC_OUT_OF_RANGE] at h0
    · rename_i hn
      rw [if_neg hn]
      split at h0
      · simp [CRC_MEMORY_OVERFLOW] at h0
      · rename_i hle
        rw [if_neg hle]
        generalize hx3 : setOdt _ _ _ = x3
        obtain ⟨-, -, hD, hO, -⟩ := XcpAllocMemory_spec cfg x3
        rw [hD, hO, ← hx3]
        have hmod : (x.Daq.OdtEntryCount + n) % 65536 = x.Daq.OdtEntryCount + n :=
          Nat.mod_eq_of_lt (by omega)
        refine ⟨hn, by omega, ?_, rfl, rfl, ?_, ?_, ?_⟩
        · show (x.Daq.OdtEntryCount + n) % 65536 = x.Daq.OdtEntryCount + n
          exact hmod
        · simp [setOdt]
        · simp only [setOdt, Function.update_same]
          show ((x.Daq.OdtEntryCount + n) % 65536 + 65535) % 65536 = _
          rw [hmod]
          omega
        · intro o ho
          simp [setOdt, Function.update_apply, ho]

/-- The bound of the pool bytes keeps `OdtCount` far from `2^16`, when the
16 bit sum cannot wrap and an ODT record takes at least one byte. -/
theorem OdtCount_lt_of_poolBytes (cfg : Config) (d : tXcpDaq) (hcfg : cfg.noWrap)
    (hodt : 0 < cfg.sizeofOdt) (hinv : poolBytes cfg d ≤ cfg.kXcpDaqMemSize) :
    d.OdtCount + 255 < 65536 := by
  obtain ⟨-, -, -, -, h5, -⟩ := hcfg
  simp only [poolBytes] at hinv
  have h1 : d.OdtCount ≤ d.OdtCount * cfg.sizeofOdt := Nat.le_mul_of_pos_right _ hodt
  have h2 : 255 ≤ 255 * cfg.sizeofOdt := Nat.le_mul_of_pos_right _ hodt
  omega

/-- A response `FF` is not a negative response. -/
theorem response_ne_positive (e : Nat) : some [PID_ERR, e] ≠ some [0xFF] := by
  simp

/-- A response `FF` shows that the session was connected or the command was
CONNECT. -/
theorem connected_of_positive (cfg : Config) (w : Slave) (pCmd : tXcpCto)
    (hcmd : pCmd.CRO_CMD ≠ .CC_CONNECT) (hresp : (XcpCommand cfg w pCmd).2 = some [0xFF]) :
    connected w.xcp := by
  by_cases hcon : connected w.xcp
  · exact hcon
  · rw [XcpCommand_not_connected cfg w pCmd hcon hcmd] at hresp
    simp at hresp

/-- An ALLOC_ODT answered `FF` for a list that has no ODTs yet extends the
partition of the ODTs by the list and keeps the partition of the entries. -/
theorem XcpCommand_ALLOC_ODT_partition (cfg : Config) (w : Slave) (pCmd : tXcpCto)
    (S T : Finset Nat) (hcfg : cfg.noWrap) (hodt : 0 < cfg.sizeofOdt)
    (hpc : cfg.XCP_ENABLE_PARAMETER_CHECK = true)
    (hcmd : pCmd.CRO_CMD = .CC_ALLOC_ODT) (hresp : (XcpCommand cfg w pCmd).2 = some [0xFF])
    (hnew : pCmd.CRO_ALLOC_ODT_DAQ % 256 ∉ S)
    (hpool : poolBytes cfg w.xcp.Daq ≤ cfg.kXcpDaqMemSize)
    (hO : odtInv w.xcp S) (hE : entryInv w.xcp T) :
    odtInv (XcpCommand cfg w pCmd).1.xcp (insert (pCmd.CRO_ALLOC_ODT_DAQ % 256) S) ∧
      entryInv (XcpCommand cfg w pCmd).1.xcp T := by
  have hne : pCmd.CRO_CMD ≠ .CC_CONNECT := by rw [hcmd]; decide
  have hcon := connected_of_positive cfg w pCmd hne hresp
  obtain ⟨-, -, -, fD, fO, -⟩ := XcpCommand.entry_frame cfg w
  obtain ⟨r1, r2⟩ := XcpCommand_ALLOC_ODT_eq cfg w pCmd hcon hcmd
  by_cases hr : cfg.XCP_ENABLE_PARAMETER_CHECK = true ∧
      pCmd.CRO_ALLOC_ODT_DAQ % 256 ≥ w.xcp.Daq.DaqCount
  · rw [(r1 hr).1] at hresp
    exact absurd hresp (response_ne_positive _)
  obtain ⟨e1, e2⟩ := r2 hr
  generalize pCmd.CRO_ALLOC_ODT_DAQ % 256 = daq at *
  have hn256 : pCmd.CRO_ALLOC_ODT_COUNT % 256 < 256 := Nat.mod_lt _ (by decide)
  generalize pCmd.CRO_ALLOC_ODT_COUNT % 256 = n at *
  have h0 : (XcpAllocOdt cfg (XcpCommand.entry cfg w).xcp daq n).2 = 0 := by
    by_contra hc
    rw [e1, if_neg hc] at hresp
    exact absurd hresp (response_ne_positive _)
  obtain ⟨a1, a2, a3, a4, a5, a6, a7⟩ := XcpAllocOdt_ok cfg _ daq n hpc h0
  rw [fD] at a2 a3 a5 a6 a7
  rw [fO] at a4
  have hlt := OdtCount_lt_of_poolBytes cfg w.xcp.Daq hcfg hodt hpool
  have hmod : (w.xcp.Daq.OdtCount + n) % 65536 = w.xcp.Daq.OdtCount + n :=
    Nat.mod_eq_of_lt (by omega)
  rw [hmod] at a2 a6
  have hlast : (w.xcp.Daq.OdtCount + n + 65535) % 65536 = w.xcp.Daq.OdtCount + n - 1 := by
    omega
  rw [hlast] at a6
  generalize (XcpAllocOdt cfg (XcpCommand.entry cfg w).xcp daq n).1 = y at *
  obtain ⟨p1, p2, p3, -⟩ := e2
  generalize (XcpCommand cfg w pCmd).1.xcp = z at *
  refine ⟨?_, ?_⟩
  · obtain ⟨i1, i2, i3⟩ := hO
    obtain ⟨q1, q2, q3⟩ := partition_insert (odtRange w.xcp) (odtRange z) S w.xcp.Daq.OdtCount n
      daq hnew (by omega) i1 i2 i3
      (fun d hd => by simp only [odtRange, p1, a7 d hd])
      (by simp only [odtRange, p1, a5, a6])
    refine ⟨?_, q2, ?_⟩
    · rw [p1, a2]; exact q1
    · rw [p1, a2]; exact q3
  · exact entryInv_congr T (by rw [p1, a3]) (by rw [p2, a4]) hE

/-- An ALLOC_ODT_ENTRY answered `FF` for an ODT that has no entries yet
extends the partition of the entries by the ODT and keeps the partition of
the ODTs. -/
theorem XcpCommand_ALLOC_ODT_ENTRY_partition (cfg : Config) (w : Slave) (pCmd : tXcpCto)
    (S T : Finset Nat) (hpc : cfg.XCP_ENABLE_PARAMETER_CHECK = true)
    (hcmd : pCmd.CRO_CMD = .CC_ALLOC_ODT_ENTRY)
    (hresp : (XcpCommand cfg w pCmd).2 = some [0xFF])
    (hnew : (w.xcp.Daq.DaqList (pCmd.CRO_ALLOC_ODT_ENTRY_DAQ % 256)).firstOdt
        + pCmd.CRO_ALLOC_ODT_ENTRY_ODT % 256 ∉ T)
    (hO : odtInv w.xcp S) (hE : entryInv w.xcp T) :
    odtInv (XcpCommand cfg w pCmd).1.xcp S ∧
      entryInv (XcpCommand cfg w pCmd).1.xcp
        (insert ((w.xcp.Daq.DaqList (pCmd.CRO_ALLOC_ODT_ENTRY_DAQ % 256)).firstOdt
          + pCmd.CRO_ALLOC_ODT_ENTRY_ODT % 256) T) := by
  have hne : pCmd.CRO_CMD ≠ .CC_CONNECT := by rw [hcmd]; decide
  have hcon := connected_of_positive cfg w pCmd hne hresp
  obtain ⟨-, -, -, fD, fO, -⟩ := XcpCommand.entry_frame cfg w
  obtain ⟨r1, r2⟩ := XcpCommand_ALLOC_ODT_ENTRY_eq cfg w pCmd hcon hcmd
  by_cases hr : cfg.XCP_ENABLE_PARAMETER_CHECK = true ∧
      (pCmd.CRO_ALLOC_ODT_ENTRY_DAQ % 256 ≥ w.xcp.Daq.DaqCount ∨
        pCmd.CRO_ALLOC_ODT_ENTRY_ODT % 256
          ≥ toUInt8 (DaqListOdtCount w.xcp (pCmd.CRO_ALLOC_ODT_ENTRY_DAQ % 256)))
  · rw [(r1 hr).1] at hresp
    exact absurd hresp (response_ne_positive _)
  obtain ⟨e1, e2⟩ := r2 hr
  clear r1 r2 hr
  generalize pCmd.CRO_ALLOC_ODT_ENTRY_DAQ % 256 = daq at *
  generalize pCmd.CRO_ALLOC_ODT_ENTRY_ODT % 256 = odt at *
  have hn256 : pCmd.CRO_ALLOC_ODT_ENTRY_COUNT % 256 < 256 := Nat.mod_lt _ (by decide)
  generalize pCmd.CRO_ALLOC_ODT_ENTRY_COUNT % 256 = n at *
  have h0 : (XcpAllocOdtEntry cfg (XcpCommand.entry cfg w).xcp daq odt n).2 = 0 := by
    by_contra hc
    rw [e1, if_neg hc] at hresp
    exact absurd hresp (response_ne_positive _)
  obtain ⟨a1, a2, a3, a4, a5, a6, a7, a8⟩ := XcpAllocOdtEntry_ok cfg _ daq odt n hpc hn256 h0
  rw [fD] at a2 a3 a4 a5 a6 a7 a8
  rw [fO] at a8
  generalize (XcpAllocOdtEntry cfg (XcpCommand.entry cfg w).xcp daq odt n).1 = y at *
  obtain ⟨p1, p2, -⟩ := e2
  generalize (XcpCommand cfg w pCmd).1.xcp = z at *
  refine ⟨?_, ?_⟩
  · exact odtInv_congr S (by rw [p1, a4]) (fun d => by rw [p1, a5]; exact ⟨rfl, rfl⟩) hO
  · obtain ⟨i1, i2, i3⟩ := hE
    obtain ⟨q1, q2, q3⟩ := partition_insert (entryRange w.xcp) (entryRange z) T
      w.xcp.Daq.OdtEntryCount n ((w.xcp.Daq.DaqList daq).firstOdt + odt) hnew (by omega)
      i1 i2 i3
      (fun o ho => by simp only [entryRange, p2, a8 o ho])
      (by simp only [entryRange, p2, a6, a7])
    refine ⟨?_, q2, ?_⟩
    · rw [p1, a3]; exact q1
    · rw [p1, a3]; exact q3

/-- Every case of the `switch` other than FREE_DAQ, ALLOC_ODT and
ALLOC_ODT_ENTRY keeps the ranges. -/
theorem XcpCommand.switch_sameRanges (cfg : Config) (w : Slave) (pCmd : tXcpCto)
    (h1 : pCmd.CRO_CMD ≠ .CC_FREE_DAQ) (h3 : pCmd.CRO_CMD ≠ .CC_ALLOC_ODT)
    (h4 : pCmd.CRO_CMD ≠ .CC_ALLOC_ODT_ENTRY) :
    sameRanges w.xcp (XcpCommand.switch cfg w pCmd).1.xcp := by
  by_cases h0 : pCmd.CRO_CMD = .CC_DISCONNECT
  · simp only [XcpCommand.switch, h0]
    exact XcpCommand.DISCONNECT_sameRanges w
  by_cases h2 : pCmd.CRO_CMD = .CC_ALLOC_DAQ
  · simp only [XcpCommand.switch, h2]
    exact XcpCommand.ALLOC_DAQ_sameRanges cfg w pCmd
  by_cases h5 : pCmd.CRO_CMD = .CC_SET_DAQ_LIST_MODE
  · simp only [XcpCommand.switch, h5]
    exact XcpCommand.SET_DAQ_LIST_MODE_sameRanges cfg w pCmd
  by_cases h6 : pCmd.CRO_CMD = .CC_START_STOP_DAQ_LIST
  · simp only [XcpCommand.switch, h6]
    exact XcpCommand.START_STOP_DAQ_LIST_sameRanges cfg w pCmd
  by_cases h7 : pCmd.CRO_CMD = .CC_START_STOP_SYNCH
  · simp only [XcpCommand.switch, h7]
    exact XcpCommand.START_STOP_SYNCH_sameRanges w pCmd
  exact sameRanges_of_sameSetup (XcpCommand.switch_setup cfg w pCmd h0 h1 h2 h3 h4 h5 h6 h7)

/-- A command that is neither CONNECT nor FREE_DAQ, is not answered
CRC_MEMORY_OVERFLOW and is not an ALLOC_ODT or ALLOC_ODT_ENTRY answered `FF`
keeps the ranges. -/
theorem XcpCommand_sameRanges (cfg : Config) (w : Slave) (pCmd : tXcpCto)
    (hc : pCmd.CRO_CMD ≠ .CC_CONNECT) (hf : pCmd.CRO_CMD ≠ .CC_FREE_DAQ)
    (hpos : (XcpCommand cfg w pCmd).2 ≠ some [0xFF] ∨
      (pCmd.CRO_CMD ≠ .CC_ALLOC_ODT ∧ pCmd.CRO_CMD ≠ .CC_ALLOC_ODT_ENTRY))
    (hresp : (XcpCommand cfg w pCmd).2 ≠ some [PID_ERR, CRC_MEMORY_OVERFLOW]) :
    sameRanges w.xcp (XcpCommand cfg w pCmd).1.xcp := by
  have hov : CRC_MEMORY_OVERFLOW ≠ 0 := by decide
  by_cases hcon : connected w.xcp
  swap
  · rw [XcpCommand_not_connected cfg w pCmd hcon hc]
    exact sameRanges_refl _
  have hent : sameRanges w.xcp (XcpCommand.entry cfg w).xcp :=
    sameRanges_of_samePool (XcpCommand.entry_samePool cfg w)
  by_cases h3 : pCmd.CRO_CMD = .CC_ALLOC_ODT
  · have hnp : (XcpCommand cfg w pCmd).2 ≠ some [0xFF] := hpos.resolve_right (fun h => h.1 h3)
    obtain ⟨r1, r2⟩ := XcpCommand_ALLOC_ODT_eq cfg w pCmd hcon h3
    by_cases hr : cfg.XCP_ENABLE_PARAMETER_CHECK = true ∧
        pCmd.CRO_ALLOC_ODT_DAQ % 256 ≥ w.xcp.Daq.DaqCount
    · exact sameRanges_of_samePool (r1 hr).2
    · obtain ⟨e1, e2⟩ := r2 hr
      rcases XcpAllocOdt_cases cfg (XcpCommand.entry cfg w).xcp (pCmd.CRO_ALLOC_ODT_DAQ % 256)
        (pCmd.CRO_ALLOC_ODT_COUNT % 256) with ⟨c1, -⟩ | c | ⟨c, -⟩
      · rw [c1] at e2
        exact sameRanges_trans hent (sameRanges_of_samePool e2)
      · rw [e1, Ne, response_eq_error_iff _ _ (XcpAllocOdt_lt cfg _ _ _) hov] at hresp
        exact absurd c hresp
      · rw [e1, if_pos c] at hnp
        exact absurd rfl hnp
  by_cases h4 : pCmd.CRO_CMD = .CC_ALLOC_ODT_ENTRY
  · have hnp : (XcpCommand cfg w pCmd).2 ≠ some [0xFF] := hpos.resolve_right (fun h => h.2 h4)
    obtain ⟨r1, r2⟩ := XcpCommand_ALLOC_ODT_ENTRY_eq cfg w pCmd hcon h4
    by_cases hr : cfg.XCP_ENABLE_PARAMETER_CHECK = true ∧
        (pCmd.CRO_ALLOC_ODT_ENTRY_DAQ % 256 ≥ w.xcp.Daq.DaqCount ∨
          pCmd.CRO_ALLOC_ODT_ENTRY_ODT % 256
            ≥ toUInt8 (DaqListOdtCount w.xcp (pCmd.CRO_ALLOC_ODT_ENTRY_DAQ % 256)))
    · exact sameRanges_of_samePool (r1 hr).2
    · obtain ⟨e1, e2⟩ := r2 hr
      rcases XcpAllocOdtEntry_cases cfg (XcpCommand.entry cfg w).xcp
        (pCmd.CRO_ALLOC_ODT_ENTRY_DAQ % 256) (pCmd.CRO_ALLOC_ODT_ENTRY_ODT % 256)
        (pCmd.CRO_ALLOC_ODT_ENTRY_COUNT % 256) (Nat.mod_lt _ (by decide))
        with ⟨c1, -⟩ | c | ⟨c, -⟩
      · rw [c1] at e2
        exact sameRanges_trans hent (sameRanges_of_samePool e2)
      · rw [e1, Ne, response_eq_error_iff _ _ (XcpAllocOdtEntry_lt cfg _ _ _ _) hov] at hresp
        exact absurd c hresp
      · rw [e1, if_pos c] at hnp
        exact absurd rfl hnp
  have hbody := XcpCommand.body_connected cfg w pCmd hcon hc
  have hexit := sameRanges_of_sameSetup (XcpCommand_setup_of_body cfg w pCmd)
  rw [hbody] at hexit
  exact sameRanges_trans hent
    (sameRanges_trans (XcpCommand.switch_sameRanges cfg _ pCmd hf h3 h4) hexit)

/-- With the three counts zero both partitions hold of the empty sets. -/
theorem inv_of_counts_zero (x : tXcpData) (h2 : x.Daq.OdtCount = 0)
    (h3 : x.Daq.OdtEntryCount = 0) : odtInv x ∅ ∧ entryInv x ∅ := by
  refine ⟨⟨?_, ?_, ?_⟩, ⟨?_, ?_, ?_⟩⟩
  · intro d hd; simp at hd
  · intro d hd; simp at hd
  · simp [h2]
  · intro d hd; simp at hd
  · intro d hd; simp at hd
  · simp [h3]

/-- The partitions and the bound of the pool bytes hold in every state of a
configuration that gives no list its ODTs twice and no ODT its entries
twice. -/
theorem inv_of_Configured (cfg : Config) (hcfg : cfg.noWrap) (hodt : 0 < cfg.sizeofOdt)
    (hpc : cfg.XCP_ENABLE_PARAMETER_CHECK = true) (w : Slave) (S T : Finset Nat)
    (hw : Configured cfg w S T) :
    odtInv w.xcp S ∧ entryInv w.xcp T ∧ poolBytes cfg w.xcp.Daq ≤ cfg.kXcpDaqMemSize := by
  induction hw with
  | init mem clock =>
    obtain ⟨a, b⟩ := inv_of_counts_zero XcpInit rfl rfl
    exact ⟨a, b, by simp [poolBytes, XcpInit]⟩
  | reset w1 pCmd hcmd =>
    have hz : (XcpCommand cfg w1 pCmd).1.xcp.Daq.DaqCount = 0 ∧
        (XcpCommand cfg w1 pCmd).1.xcp.Daq.OdtCount = 0 ∧
        (XcpCommand cfg w1 pCmd).1.xcp.Daq.OdtEntryCount = 0 := by
      rcases hcmd with h | ⟨h, hcon⟩
      · exact XcpCommand_CONNECT_counts cfg w1 pCmd h
      · exact XcpCommand_FREE_DAQ_counts cfg w1 pCmd hcon h
    obtain ⟨a, b⟩ := inv_of_counts_zero _ hz.2.1 hz.2.2
    exact ⟨a, b, by simp [poolBytes, hz.1, hz.2.1, hz.2.2]⟩
  | @alloc_odt w1 S1 T1 pCmd _ _ hcmd hresp hnew ih =>
    obtain ⟨i1, i2, i3⟩ := ih
    obtain ⟨a, b⟩ := XcpCommand_ALLOC_ODT_partition cfg w1 pCmd S1 T1 hcfg hodt hpc hcmd hresp
      hnew i3 i1 i2
    refine ⟨a, b, XcpCommand_poolBytes cfg w1 pCmd hcfg i3 ?_⟩
    rw [hresp]; exact (response_ne_positive _).symm
  | @alloc_odt_entry w1 S1 T1 pCmd _ _ hcmd hresp hnew ih =>
    obtain ⟨i1, i2, i3⟩ := ih
    obtain ⟨a, b⟩ := XcpCommand_ALLOC_ODT_ENTRY_partition cfg w1 pCmd S1 T1 hpc hcmd hresp
      hnew i1 i2
    refine ⟨a, b, XcpCommand_poolBytes cfg w1 pCmd hcfg i3 ?_⟩
    rw [hresp]; exact (response_ne_positive _).symm
  | @command w1 S1 T1 pCmd _ _ hc hf hpos hresp ih =>
    obtain ⟨i1, i2, i3⟩ := ih
    have hs := XcpCommand_sameRanges cfg w1 pCmd hc hf hpos hresp
    exact ⟨(inv_of_sameRanges hs S1 T1).1 i1, (inv_of_sameRanges hs S1 T1).2 i2,
      XcpCommand_poolBytes cfg w1 pCmd hcfg i3 hresp⟩
  | environment mem clock _ ih => exact ih

/-- C12, amended: when the 16 bit sum of `XcpAllocMemory` cannot wrap, an ODT
record takes at least one byte and parameter checks are compiled in, in every
state reached from `XcpInit`, CONNECT or FREE_DAQ by commands that keep to
the domain of the embedding (a DOWNLOAD writes outside of `xcp`, every access
through an arena pointer goes to the array the pointer was placed for) and
none of which is answered CRC_MEMORY_OVERFLOW, for `S` the lists ALLOC_ODT has been answered
`FF` for and `T` the ODTs ALLOC_ODT_ENTRY has been answered `FF` for, each
once: the ODT ranges `[first_odt, last_odt]` of the lists in `S` are pairwise
disjoint, lie below `OdtCount` and their sizes sum to `OdtCount`; the entry
ranges `[first_odt_entry, last_odt_entry]` of the ODTs in `T` are pairwise
disjoint, lie below `OdtEntryCount` and their sizes sum to `OdtEntryCount`.
When `S` holds all `DaqCount` lists and `T` all `OdtCount` ODTs this is the
ownership partition. -/
theorem ownershipPartition_of_Configured (cfg : Config) (hcfg : cfg.noWrap)
    (hodt : 0 < cfg.sizeofOdt) (hpc : cfg.XCP_ENABLE_PARAMETER_CHECK = true)
    (w : Slave) (S T : Finset Nat) (hw : Configured cfg w S T) :
    odtPartition w.xcp S ∧ entryPartition w.xcp T ∧
      (∀ d ∈ S, ∀ j ∈ odtRange w.xcp d, j < w.xcp.Daq.OdtCount) ∧
      (∀ o ∈ T, ∀ j ∈ entryRange w.xcp o, j < w.xcp.Daq.OdtEntryCount) ∧
      (S = Finset.range w.xcp.Daq.DaqCount → T = Finset.range w.xcp.Daq.OdtCount →
        ownershipPartition w.xcp) := by
  obtain ⟨⟨a1, a2⟩, ⟨b1, b2⟩, -⟩ := inv_of_Configured cfg hcfg hodt hpc w S T hw
  refine ⟨a2, b2, a1, b1, ?_⟩
  intro hS hT
  unfold ownershipPartition
  rw [← hS, ← hT]
  exact ⟨a2, b2⟩

/-- Witness of C12, amended: after CONNECT, ALLOC_DAQ(1), ALLOC_ODT(0, 1) and
ALLOC_ODT_ENTRY(0, 0, 1) the only list and the only ODT have been allocated
once, and the ownership partition holds. -/
theorem ownershipPartition_of_Configured_witness :
    ownershipPartition (XcpCommand cfg512 (XcpCommand cfg512 (XcpCommand cfg512
        (XcpCommand cfg512 slaveInit { CRO_CMD := .CC_CONNECT }).1
          (mkALLOC_DAQ 1)).1 (mkALLOC_ODT 0 1)).1 (mkALLOC_ODT_ENTRY 0 0 1)).1.xcp :=
  (ownershipPartition_of_Configured cfg512 (by decide) (by decide) rfl _ _ _
    (Configured.alloc_odt_entry (mkALLOC_ODT_ENTRY 0 0 1)
      (Configured.alloc_odt (mkALLOC_ODT 0 1)
        (Configured.command (mkALLOC_DAQ 1)
          (Configured.reset slaveInit { CRO_CMD := .CC_CONNECT } (Or.inl rfl))
          (by decide) (by decide) (by decide) (Or.inr ⟨by decide, by decide⟩) (by decide))
        (by decide) rfl (by decide) (by decide))
      (by decide) rfl (by decide) (by decide))).2.2.2.2 (by decide) (by decide)

/-! ### List mode round trip, responses and memory transfer -/

/-- The byte the mask `& 0xFF` and the cast to `vuint8` leave of a value. -/
theorem land_0xFF_mod (v : Nat) : (v &&& 0xFF) % 256 = v % 256 := by
  have h := Nat.and_pow_two_sub_one_eq_mod v 8
  have h2 : (2 : Nat) ^ 8 - 1 = 0xFF := by decide
  rw [h2] at h
  rw [h]
  simp

/-- C21, counterexample: after CONNECT and ALLOC_DAQ(1), SET_DAQ_LIST_MODE
for list 0 with mode `10`, event channel `0x0107` and priority 0 is answered
`FF`; GET_DAQ_LIST_MODE for list 0 then returns the event channel `0x0007`
(bytes 4 and 5 of the response), not `0x0107`. -/
theorem XcpCommand_GET_DAQ_LIST_MODE_truncates :
    (XcpCommand cfg512 (runCommands cfg512 slaveConnected [mkALLOC_DAQ 1])
        (mkSET_DAQ_LIST_MODE 0x10 0 0x0107 0)).2 = some [0xFF] ∧
      (XcpCommand cfg512
        (runCommands cfg512 slaveConnected [mkALLOC_DAQ 1, mkSET_DAQ_LIST_MODE 0x10 0 0x0107 0])
        (mkGET_DAQ_LIST_MODE 0)).2 = some [0xFF, 0x10, 0x01, 0xFA, 0x07, 0x00, 1, 0] := by
  decide

/-- C21: in every connected state, after a SET_DAQ_LIST_MODE answered `FF`
with mode byte `m` and event channel `ev`, GET_DAQ_LIST_MODE for the same
list is answered with the 8 bytes `FF`, `m`, two bytes left as they were in
the response buffer, the event channel as a 16 bit word in the byte order of
the CPU, prescaler `1` and priority `0`; the event channel returned is the
low byte of `ev`. -/
theorem XcpCommand_GET_DAQ_LIST_MODE_after_SET (cfg : Config) (w : Slave) (pS pG : tXcpCto)
    (hcon : connected w.xcp) (hS : pS.CRO_CMD = .CC_SET_DAQ_LIST_MODE)
    (hG : pG.CRO_CMD = .CC_GET_DAQ_LIST_MODE)
    (hdaq : pG.CRO_GET_DAQ_LIST_MODE_DAQ % 256 = pS.CRO_SET_DAQ_LIST_MODE_DAQ % 256)
    (hpos : (XcpCommand cfg w pS).2 = some [0xFF]) :
    ∃ r2 r3, (XcpCommand cfg (XcpCommand cfg w pS).1 pG).2 =
      some (if cfg.XCP_CPUTYPE_BIGENDIAN then
          [0xFF, pS.CRO_SET_DAQ_LIST_MODE_MODE % 256, r2, r3, 0,
            pS.CRO_SET_DAQ_LIST_MODE_EVENTCHANNEL % 256, 1, 0]
        else
          [0xFF, pS.CRO_SET_DAQ_LIST_MODE_MODE % 256, r2, r3,
            pS.CRO_SET_DAQ_LIST_MODE_EVENTCHANNEL % 256, 0, 1, 0]) := by
  have hneS : pS.CRO_CMD ≠ .CC_CONNECT := by rw [hS]; decide
  have hneG : pG.CRO_CMD ≠ .CC_CONNECT := by rw [hG]; decide
  obtain ⟨e1, e2⟩ := XcpCommand_positive_exit cfg w pS hpos
  have hb := XcpCommand.body_connected cfg w pS hcon hneS
  rw [hb] at e1 e2
  have hc := XcpCommand.entry_connected cfg w hcon
  simp only [XcpCommand.switch, hS, XcpCommand.SET_DAQ_LIST_MODE] at e1 e2
  split at e1
  · simp at e1
  · rename_i h1
    rw [if_neg h1] at e2
    split at e1
    · simp at e1
    · rename_i h2
      rw [if_neg h2] at e2
      have hcon1 : connected (XcpCommand cfg w pS).1.xcp := by
        rw [e2]; exact hc
      have hbG := XcpCommand.body_connected cfg _ pG hcon1 hneG
      obtain ⟨-, -, -, fD, -⟩ := XcpCommand.entry_frame cfg (XcpCommand cfg w pS).1
      obtain ⟨c0, -⟩ := XcpCommand.entry_Crm cfg (XcpCommand cfg w pS).1
      have hcount : (XcpCommand cfg w pS).1.xcp.Daq.DaqCount
          = (XcpCommand.entry cfg w).xcp.Daq.DaqCount := by
        rw [e2]; rfl
      have hlist : (XcpCommand cfg w pS).1.xcp.Daq.DaqList (pS.CRO_SET_DAQ_LIST_MODE_DAQ % 256)
          = { (XcpCommand.entry cfg w).xcp.Daq.DaqList (pS.CRO_SET_DAQ_LIST_MODE_DAQ % 256) with
              eventChannel := pS.CRO_SET_DAQ_LIST_MODE_EVENTCHANNEL % 256
              flags := pS.CRO_SET_DAQ_LIST_MODE_MODE % 256 } := by
        rw [e2]
        simp [setDaqList, land_0xFF_mod]
      have hsw : XcpCommand.switch cfg (XcpCommand.entry cfg (XcpCommand cfg w pS).1) pG
          = XcpCommand.GET_DAQ_LIST_MODE cfg (XcpCommand.entry cfg (XcpCommand cfg w pS).1) pG := by
        simp only [XcpCommand.switch, hG]
      rw [hsw] at hbG
      simp only [XcpCommand.GET_DAQ_LIST_MODE, fD, hdaq, hcount] at hbG
      rw [if_neg h1] at hbG
      have hev : ((XcpCommand cfg w pS).1.xcp.Daq.DaqList
          (pS.CRO_SET_DAQ_LIST_MODE_DAQ % 256)).eventChannel
          = pS.CRO_SET_DAQ_LIST_MODE_EVENTCHANNEL % 256 := by rw [hlist]
      have hfl : ((XcpCommand cfg w pS).1.xcp.Daq.DaqList
          (pS.CRO_SET_DAQ_LIST_MODE_DAQ % 256)).flags
          = pS.CRO_SET_DAQ_LIST_MODE_MODE % 256 := by rw [hlist]
      have hz : pS.CRO_SET_DAQ_LIST_MODE_EVENTCHANNEL % 256 / 256 = 0 :=
        Nat.div_eq_of_lt (Nat.mod_lt _ (by decide))
      rw [XcpCommand_of_positive cfg _ _ pG hbG]
      refine ⟨(XcpCommand.entry cfg (XcpCommand cfg w pS).1).xcp.Crm 2,
        (XcpCommand.entry cfg (XcpCommand cfg w pS).1).xcp.Crm 3, ?_⟩
      cases hbe : cfg.XCP_CPUTYPE_BIGENDIAN <;>
        simp [XcpSendCrm, setCrmByte, setCrmWord, hbe, CRM_GET_DAQ_LIST_MODE_LEN,
          CRM_GET_DAQ_LIST_MODE_MODE, CRM_GET_DAQ_LIST_MODE_PRESCALER,
          CRM_GET_DAQ_LIST_MODE_EVENTCHANNEL, CRM_GET_DAQ_LIST_MODE_PRIORITY, List.range_succ,
          Function.update, c0, hev, hfl, hz]

/-- Witness of C21: after CONNECT and ALLOC_DAQ(1), mode `10` and event
channel 7 for list 0. -/
theorem XcpCommand_GET_DAQ_LIST_MODE_after_SET_witness :
    ∃ r2 r3, (XcpCommand cfg512
        (XcpCommand cfg512 (runCommands cfg512 slaveConnected [mkALLOC_DAQ 1])
          (mkSET_DAQ_LIST_MODE 0x10 0 7 0)).1 (mkGET_DAQ_LIST_MODE 0)).2 =
      some (if cfg512.XCP_CPUTYPE_BIGENDIAN then
          [0xFF, (mkSET_DAQ_LIST_MODE 0x10 0 7 0).CRO_SET_DAQ_LIST_MODE_MODE % 256, r2, r3, 0,
            (mkSET_DAQ_LIST_MODE 0x10 0 7 0).CRO_SET_DAQ_LIST_MODE_EVENTCHANNEL % 256, 1, 0]
        else
          [0xFF, (mkSET_DAQ_LIST_MODE 0x10 0 7 0).CRO_SET_DAQ_LIST_MODE_MODE % 256, r2, r3,
            (mkSET_DAQ_LIST_MODE 0x10 0 7 0).CRO_SET_DAQ_LIST_MODE_EVENTCHANNEL % 256, 0, 1, 0]) :=
  XcpCommand_GET_DAQ_LIST_MODE_after_SET cfg512
    (runCommands cfg512 slaveConnected [mkALLOC_DAQ 1]) (mkSET_DAQ_LIST_MODE 0x10 0 7 0)
    (mkGET_DAQ_LIST_MODE 0) (by decide) rfl rfl rfl (by decide)

/-- The state after the commands of a list, none of them CONNECT, sent to a
session that is not connected: it is unchanged. -/
theorem runCommands_not_connected (cfg : Config) : ∀ (cs : List tXcpCto) (w : Slave),
    ¬ connected w.xcp → (∀ c ∈ cs, c.CRO_CMD ≠ .CC_CONNECT) → runCommands cfg w cs = w := by
  intro cs
  induction cs with
  | nil => intro w _ _; rfl
  | cons c cs ih =>
    intro w hw hcs
    simp only [runCommands]
    rw [XcpCommand_not_connected cfg w c hw (hcs c (List.mem_cons_self _ _))]
    exact ih w hw (fun c' hc' => hcs c' (List.mem_cons_of_mem _ hc'))

/-- The loop of WRITE_DAQ_MULTIPLE never leaves through `no_response`. -/
theorem XcpCommand.WRITE_DAQ_MULTIPLE.loop_exit (cfg : Config) (pCmd : tXcpCto) (n : Nat) :
    ∀ (i : Nat) (w : Slave),
      (XcpCommand.WRITE_DAQ_MULTIPLE.loop cfg pCmd n i w).2 ≠ .no_response := by
  induction n with
  | zero => intro i w; simp [XcpCommand.WRITE_DAQ_MULTIPLE.loop]
  | succ n ih =>
    intro i w
    unfold XcpCommand.WRITE_DAQ_MULTIPLE.loop
    split
    · simp
    · split
      · simp
      · split
        · simp
        · exact ih _ _

/-- No case of the `switch` leaves through `no_response`: `XcpWriteMta` and
`XcpReadMta` never return `XCP_CMD_PENDING`. -/
theorem XcpCommand.switch_exit (cfg : Config) (w : Slave) (pCmd : tXcpCto) :
    (XcpCommand.switch cfg w pCmd).2 ≠ .no_response := by
  have k1 : XCP_CMD_OK ≠ XCP_CMD_PENDING := by decide
  have hW := fun w size data => (XcpWriteMta_spec size w data).1
  have hR := fun w size data => (XcpReadMta_spec size w data).1
  unfold XcpCommand.switch
  split
  · simp [XcpCommand.SYNC]
  · simp [XcpCommand.GET_COMM_MODE_INFO]
  · simp [XcpCommand.DISCONNECT]
  · unfold XcpCommand.GET_ID; simp only []; split <;> simp
  · simp [XcpCommand.GET_STATUS]
  · simp [XcpCommand.SET_MTA]
  · unfold XcpCommand.DOWNLOAD
    simp only [hW, k1, if_false]
    split
    · simp
    · split
      · simp
      · split <;> simp
  · unfold XcpCommand.DOWNLOAD_MAX
    simp only [hW, k1, if_false]
    split
    · simp
    · split <;> simp
  · unfold XcpCommand.UPLOAD
    simp only [hR, k1, if_false]
    split
    · simp
    · split <;> simp
  · unfold XcpCommand.SHORT_UPLOAD
    simp only [hR, k1, if_false]
    split
    · simp
    · split <;> simp
  · simp [XcpCommand.GET_DAQ_PROCESSOR_INFO]
  · simp [XcpCommand.GET_DAQ_RESOLUTION_INFO]
  · simp [XcpCommand.FREE_DAQ]
  · unfold XcpCommand.ALLOC_DAQ check_error; simp only []; split <;> simp
  · unfold XcpCommand.ALLOC_ODT check_error; simp only []; split
    · simp
    · split <;> simp
  · unfold XcpCommand.ALLOC_ODT_ENTRY check_error; simp only []; split
    · simp
    · split <;> simp
  · unfold XcpCommand.GET_DAQ_LIST_MODE; simp only []; split <;> simp
  · unfold XcpCommand.SET_DAQ_LIST_MODE; simp only []; split
    · simp
    · split <;> simp
  · unfold XcpCommand.SET_DAQ_PTR; simp only []; split <;> simp
  · unfold XcpCommand.WRITE_DAQ; split
    · simp
    · split <;> simp
  · exact XcpCommand.WRITE_DAQ_MULTIPLE.loop_exit cfg pCmd _ _ _
  · unfold XcpCommand.START_STOP_DAQ_LIST; simp only []; split
    · simp
    · split <;> simp
  · unfold XcpCommand.START_STOP_SYNCH; split
    · simp
    · split
      · simp
      · split <;> simp
  · simp [XcpCommand.GET_DAQ_CLOCK]
  · simp
  · simp

/-- C27: in every connected state a command byte that is none of the labels
of the `switch` is answered with the two bytes `FE 20` (CRC_CMD_UNKNOWN); the
pool, the MTA, the write cursor of WRITE_DAQ, the memory and the clock are
unchanged, the session stays connected and the DAQ bit of the session status
is as before; the session status itself is unchanged, but for the polling bit
set with the switch `XCP_ENABLE_GET_SESSION_STATUS_API`. -/
theorem XcpCommand_unknown (cfg : Config) (w : Slave) (pCmd : tXcpCto) (b : Nat)
    (hcon : connected w.xcp) (hcmd : pCmd.CRO_CMD = .CC_OTHER b) :
    (XcpCommand cfg w pCmd).2 = some [PID_ERR, CRC_CMD_UNKNOWN] ∧
      samePool w.xcp (XcpCommand cfg w pCmd).1.xcp ∧
      (XcpCommand cfg w pCmd).1.xcp.Mta = w.xcp.Mta ∧
      (XcpCommand cfg w pCmd).1.xcp.DaqListPtr = w.xcp.DaqListPtr ∧
      (XcpCommand cfg w pCmd).1.mem = w.mem ∧
      (XcpCommand cfg w pCmd).1.clock = w.clock ∧
      connected (XcpCommand cfg w pCmd).1.xcp ∧
      (daqRunning (XcpCommand cfg w pCmd).1.xcp ↔ daqRunning w.xcp) ∧
      (XcpCommand cfg w pCmd).1.xcp.SessionStatus =
        (if cfg.XCP_ENABLE_GET_SESSION_STATUS_API then w.xcp.SessionStatus ||| SS_POLLING
          else w.xcp.SessionStatus) := by
  have hne : pCmd.CRO_CMD ≠ .CC_CONNECT := by rw [hcmd]; simp
  have hb := XcpCommand.body_connected cfg w pCmd hcon hne
  simp only [XcpCommand.switch, hcmd] at hb
  obtain ⟨g1, g2, g3, g4, g5, g6, g7⟩ := XcpCommand_of_negative cfg w _ pCmd _ hb
  obtain ⟨f1, f2, f3, -, -, -, -, -, -, -, f11⟩ := XcpCommand.entry_frame cfg w
  refine ⟨by simpa [CRC_CMD_UNKNOWN] using g1,
    samePool_trans (XcpCommand.entry_samePool cfg w) g2, by rw [g4, f3], by rw [g5, f11],
    by rw [g6, f1], by rw [g7, f2], ?_, ?_, ?_⟩
  · have := XcpCommand.entry_connected cfg w hcon
    simpa [connected, g3] using this
  · simp only [daqRunning, g3, XcpCommand.entry_SS_DAQ]
  · rw [g3]
    cases h : cfg.XCP_ENABLE_GET_SESSION_STATUS_API <;> simp [XcpCommand.entry, h, setCrmByte]

/-- Witness of C27: the command byte `C0` sent to the connected slave. -/
theorem XcpCommand_unknown_witness :
    (XcpCommand cfg512 slaveConnected { CRO_CMD := .CC_OTHER 0xC0 }).2
      = some [PID_ERR, CRC_CMD_UNKNOWN] :=
  (XcpCommand_unknown cfg512 slaveConnected { CRO_CMD := .CC_OTHER 0xC0 } 0xC0
    (by decide) rfl).1

/-- C28: in every connected state DISCONNECT is answered with the single byte
`FF`; afterwards the session is not connected, no list below `DaqCount` is
RUNNING, DAQ is not running, `DaqCount` is as before, and after any further
commands other than CONNECT every command other than CONNECT gets no
response. -/
theorem XcpCommand_DISCONNECT (cfg : Config) (w : Slave) (pCmd : tXcpCto)
    (hcon : connected w.xcp) (hcmd : pCmd.CRO_CMD = .CC_DISCONNECT) :
    (XcpCommand cfg w pCmd).2 = some [0xFF] ∧
      ¬ connected (XcpCommand cfg w pCmd).1.xcp ∧
      (XcpCommand cfg w pCmd).1.xcp.Daq.DaqCount = w.xcp.Daq.DaqCount ∧
      (∀ d, d < w.xcp.Daq.DaqCount → ¬ listRunning (XcpCommand cfg w pCmd).1.xcp d) ∧
      ¬ daqRunning (XcpCommand cfg w pCmd).1.xcp ∧
      (∀ (cs : List tXcpCto) (c : tXcpCto), (∀ c1 ∈ cs, c1.CRO_CMD ≠ .CC_CONNECT) →
        c.CRO_CMD ≠ .CC_CONNECT →
        (XcpCommand cfg (runCommands cfg (XcpCommand cfg w pCmd).1 cs) c).2 = none) := by
  have hne : pCmd.CRO_CMD ≠ .CC_CONNECT := by rw [hcmd]; decide
  have hb := XcpCommand.body_connected cfg w pCmd hcon hne
  simp only [XcpCommand.switch, hcmd, XcpCommand.DISCONNECT] at hb
  obtain ⟨-, -, -, fD, -⟩ := XcpCommand.entry_frame cfg w
  obtain ⟨c0, -⟩ := XcpCommand.entry_Crm cfg w
  rw [XcpCommand_of_positive cfg w _ pCmd hb]
  simp only [XcpDisconnect]
  obtain ⟨s1, s2, s3⟩ := XcpStopAllDaq_spec
    { (XcpCommand.entry cfg w).xcp with
      CrmLen := CRM_DISCONNECT_LEN
      SessionStatus := (XcpCommand.entry cfg w).xcp.SessionStatus &&& not8 SS_CONNECTED }
  obtain ⟨t1, t2, -, -, t5, -⟩ := s1
  have hnc : ¬ connected (XcpStopAllDaq
      { (XcpCommand.entry cfg w).xcp with
        CrmLen := CRM_DISCONNECT_LEN
        SessionStatus := (XcpCommand.entry cfg w).xcp.SessionStatus &&& not8 SS_CONNECTED }) := by
    simp only [connected, s2, ne_eq, not_not]
    rw [Nat.land_assoc, Nat.land_assoc]
    have : not8 SS_CONNECTED &&& (not8 SS_DAQ &&& SS_CONNECTED) = 0 := by decide
    rw [this, Nat.and_zero]
  refine ⟨?_, hnc, ?_, ?_, ?_, ?_⟩
  · simp only [XcpSendCrm, t1, t2]
    simp [CRM_DISCONNECT_LEN, c0, List.range_succ]
  · rw [t5]
    show (XcpCommand.entry cfg w).xcp.Daq.DaqCount = _
    rw [fD]
  · intro d hd
    have hd2 : d < (XcpCommand.entry cfg w).xcp.Daq.DaqCount := by rw [fD]; exact hd
    simp only [listRunning, s3, hd2, if_true, ne_eq, not_not]
    exact land_land_of_disjoint _ _ _ stop_mask_bits.1
  · simp only [daqRunning, s2, ne_eq, not_not]
    exact land_not8_SS_DAQ _
  · intro cs c hcs hc
    rw [runCommands_not_connected cfg cs _ hnc hcs, XcpCommand_not_connected cfg _ c hnc hc]

/-- Witness of C28: DISCONNECT sent to the configured slave. -/
theorem XcpCommand_DISCONNECT_witness :
    connected slaveConfigured.xcp ∧
      (XcpCommand cfg512 slaveConfigured { CRO_CMD := .CC_DISCONNECT }).2 = some [0xFF] ∧
      ¬ connected (XcpCommand cfg512 slaveConfigured { CRO_CMD := .CC_DISCONNECT }).1.xcp :=
  ⟨by decide,
   (XcpCommand_DISCONNECT cfg512 slaveConfigured { CRO_CMD := .CC_DISCONNECT }
     (by decide) rfl).1,
   (XcpCommand_DISCONNECT cfg512 slaveConfigured { CRO_CMD := .CC_DISCONNECT }
     (by decide) rfl).2.1⟩

/-- UPLOAD of an admissible size in the connected state: the MTA advances by
the size, the memory is untouched and the session stays connected. -/
theorem XcpCommand_UPLOAD_state (cfg : Config) (w : Slave) (pCmd : tXcpCto)
    (hcon : connected w.xcp) (hcmd : pCmd.CRO_CMD = .CC_UPLOAD)
    (hsize : pCmd.CRO_UPLOAD_SIZE % 256 ≤ CRM_UPLOAD_MAX_SIZE cfg) :
    (XcpCommand cfg w pCmd).1.mem = w.mem ∧
      (XcpCommand cfg w pCmd).1.xcp.Mta = w.xcp.Mta + pCmd.CRO_UPLOAD_SIZE % 256 ∧
      connected (XcpCommand cfg w pCmd).1.xcp := by
  have hne : pCmd.CRO_CMD ≠ .CC_CONNECT := by rw [hcmd]; decide
  have hb := XcpCommand.body_connected cfg w pCmd hcon hne
  have hc := XcpCommand.entry_connected cfg w hcon
  obtain ⟨f1, -, f3, -⟩ := XcpCommand.entry_frame cfg w
  obtain ⟨e1, e2, -, e4, -, -⟩ := XcpReadMta_spec (pCmd.CRO_UPLOAD_SIZE % 256)
    (XcpCommand.entry cfg w) CRM_UPLOAD_DATA
  have k1 : XCP_CMD_OK ≠ XCP_CMD_PENDING := by decide
  have k2 : XCP_CMD_OK ≠ XCP_CMD_DENIED := by decide
  have hm : CRM_UPLOAD_MAX_SIZE cfg % 256 = CRM_UPLOAD_MAX_SIZE cfg := by
    simp [CRM_UPLOAD_MAX_SIZE]
  simp only [XcpCommand, hb, XcpCommand.switch, hcmd, XcpCommand.UPLOAD, hm,
    not_lt.mpr hsize, if_false, e1, k1, k2]
  refine ⟨by rw [e2, f1], ?_, ?_⟩
  · show (XcpReadMta (XcpCommand.entry cfg w) (pCmd.CRO_UPLOAD_SIZE % 256)
      CRM_UPLOAD_DATA).1.xcp.Mta = _
    rw [e4, f3]
  · show connected { (XcpReadMta (XcpCommand.entry cfg w) (pCmd.CRO_UPLOAD_SIZE % 256)
      CRM_UPLOAD_DATA).1.xcp with CrmLen := _ }
    simp only [connected]
    rw [e4]
    exact hc

/-- A range outside of `xcp` begins with a byte outside of it and goes on
with a range outside of it. -/
theorem outsideXcp_succ (cfg : Config) (a n : Nat) (h : outsideXcp cfg a (n + 1)) :
    outsideXcp cfg a 1 ∧ outsideXcp cfg (a + 1) n := by
  unfold outsideXcp at *
  omega

/-- While the bytes written lie outside of `xcp`, `XcpWriteMta` with the
pointer `xcp.Mta` in the address space is `XcpWriteMta` over the process
memory. -/
theorem XcpWriteMta.aliased_eq (cfg : Config) : ∀ (size : Nat) (w : Slave) (data : Nat → Nat),
    outsideXcp cfg w.xcp.Mta size →
    XcpWriteMta.aliased cfg w size data = some (XcpWriteMta w size data).1
  | 0, w, data, _ => rfl
  | size + 1, w, data, h => by
    obtain ⟨h1, h2⟩ := outsideXcp_succ cfg _ _ h
    rw [XcpWriteMta.aliased, if_pos h1, XcpWriteMta]
    exact XcpWriteMta.aliased_eq cfg size _ _ h2

/-- C29, counterexample: in the connected slave SET_MTA(0, 0x200010) sets the
MTA to `0x600010`, the address of the pointer `xcp.Mta` itself.  A DOWNLOAD
of the one byte `00` is answered `FF`; its store `*xcp.Mta = 0` replaces the
low byte of the MTA, and the increment that follows leaves the MTA at
`0x600001`, not at the old MTA plus one, `0x600011`. -/
theorem XcpCommand_DOWNLOAD_over_Mta :
    connected (XcpCommand cfg512 slaveConnected (mkSET_MTA 0 0x200010)).1.xcp ∧
      (XcpCommand cfg512 slaveConnected (mkSET_MTA 0 0x200010)).1.xcp.Mta
        = cfg512.xcpAddr + cfg512.offsetofMta ∧
      (XcpCommand cfg512 slaveConnected (mkSET_MTA 0 0x200010)).1.xcp.Mta = 0x600010 ∧
      (mkDOWNLOAD [0]).CRO_DOWNLOAD_SIZE % 256 = 1 ∧
      (XcpCommand cfg512 (XcpCommand cfg512 slaveConnected (mkSET_MTA 0 0x200010)).1
        (mkDOWNLOAD [0])).2 = some [0xFF] ∧
      (XcpWriteMta.aliased cfg512
        (XcpCommand.entry cfg512 (XcpCommand cfg512 slaveConnected (mkSET_MTA 0 0x200010)).1)
        1 (mkDOWNLOAD [0]).CRO_DOWNLOAD_DATA).map (fun v => v.xcp.Mta) = some 0x600001 ∧
      (0x600001 : Nat) ≠ 0x600010 + 1 := by
  decide

/-- C29, amended: in every connected state, over a memory apart from the
slave's own state.  A DOWNLOAD whose size is at most `CRO_DOWNLOAD_MAX_SIZE`
and whose bytes from the MTA on lie outside of `xcp` is answered `FF`, stores
its data bytes at the addresses from the MTA on, changes no other byte and
advances the MTA by the size; a DOWNLOAD of a larger size is answered
CRC_OUT_OF_RANGE and leaves the memory and the MTA unchanged.  An UPLOAD
whose size is at most `CRM_UPLOAD_MAX_SIZE` (and below 255) and whose bytes
from the MTA on lie outside of `xcp` is answered `FF` followed by the bytes
of the memory from the MTA on, leaves the memory unchanged and advances the
MTA by the size, and a second such UPLOAD is answered with the bytes that
follow; an UPLOAD of a larger size is answered CRC_OUT_OF_RANGE and leaves
the memory and the MTA unchanged. -/
theorem XcpCommand_sequential_transfer (cfg : Config) (w : Slave) (pCmd : tXcpCto)
    (hcon : connected w.xcp) :
    (pCmd.CRO_CMD = .CC_DOWNLOAD →
      (pCmd.CRO_DOWNLOAD_SIZE % 256 ≤ CRO_DOWNLOAD_MAX_SIZE cfg →
        outsideXcp cfg w.xcp.Mta (pCmd.CRO_DOWNLOAD_SIZE % 256) →
        (XcpCommand cfg w pCmd).2 = some [0xFF] ∧
        (∀ i, i < pCmd.CRO_DOWNLOAD_SIZE % 256 →
          (XcpCommand cfg w pCmd).1.mem (w.xcp.Mta + i) = pCmd.CRO_DOWNLOAD_DATA i) ∧
        (∀ a, a < w.xcp.Mta ∨ w.xcp.Mta + pCmd.CRO_DOWNLOAD_SIZE % 256 ≤ a →
          (XcpCommand cfg w pCmd).1.mem a = w.mem a) ∧
        (XcpCommand cfg w pCmd).1.xcp.Mta = w.xcp.Mta + pCmd.CRO_DOWNLOAD_SIZE % 256) ∧
      (pCmd.CRO_DOWNLOAD_SIZE % 256 > CRO_DOWNLOAD_MAX_SIZE cfg →
        (XcpCommand cfg w pCmd).2 = some [PID_ERR, CRC_OUT_OF_RANGE] ∧
        (XcpCommand cfg w pCmd).1.mem = w.mem ∧
        (XcpCommand cfg w pCmd).1.xcp.Mta = w.xcp.Mta)) ∧
    (pCmd.CRO_CMD = .CC_UPLOAD →
      (pCmd.CRO_UPLOAD_SIZE % 256 ≤ CRM_UPLOAD_MAX_SIZE cfg → pCmd.CRO_UPLOAD_SIZE % 256 < 255 →
        outsideXcp cfg w.xcp.Mta (pCmd.CRO_UPLOAD_SIZE % 256) →
        (XcpCommand cfg w pCmd).2 =
          some (0xFF :: (List.range (pCmd.CRO_UPLOAD_SIZE % 256)).map
            (fun i => w.mem (w.xcp.Mta + i))) ∧
        (XcpCommand cfg w pCmd).1.mem = w.mem ∧
        (XcpCommand cfg w pCmd).1.xcp.Mta = w.xcp.Mta + pCmd.CRO_UPLOAD_SIZE % 256 ∧
        ∀ p2 : tXcpCto, p2.CRO_CMD = .CC_UPLOAD →
          p2.CRO_UPLOAD_SIZE % 256 ≤ CRM_UPLOAD_MAX_SIZE cfg → p2.CRO_UPLOAD_SIZE % 256 < 255 →
          outsideXcp cfg (w.xcp.Mta + pCmd.CRO_UPLOAD_SIZE % 256) (p2.CRO_UPLOAD_SIZE % 256) →
          (XcpCommand cfg (XcpCommand cfg w pCmd).1 p2).2 =
            some (0xFF :: (List.range (p2.CRO_UPLOAD_SIZE % 256)).map
              (fun i => w.mem (w.xcp.Mta + pCmd.CRO_UPLOAD_SIZE % 256 + i)))) ∧
      (pCmd.CRO_UPLOAD_SIZE % 256 > CRM_UPLOAD_MAX_SIZE cfg →
        (XcpCommand cfg w pCmd).2 = some [PID_ERR, CRC_OUT_OF_RANGE] ∧
        (XcpCommand cfg w pCmd).1.mem = w.mem ∧
        (XcpCommand cfg w pCmd).1.xcp.Mta = w.xcp.Mta)) := by
  obtain ⟨f1, -, f3, -⟩ := XcpCommand.entry_frame cfg w
  refine ⟨?_, ?_⟩
  · intro hcmd
    have hne : pCmd.CRO_CMD ≠ .CC_CONNECT := by rw [hcmd]; decide
    refine ⟨?_, ?_⟩
    · intro hsize _
      obtain ⟨d1, d2, d3, d4, -⟩ := XcpCommand_DOWNLOAD_state cfg w pCmd hcon hcmd hsize
      exact ⟨d1, d2, d3, d4⟩
    · intro hsize
      have hb := XcpCommand.body_connected cfg w pCmd hcon hne
      simp only [XcpCommand.switch, hcmd, XcpCommand.DOWNLOAD, hsize, if_true] at hb
      obtain ⟨g1, -, -, g4, -, g6, -⟩ := XcpCommand_of_negative cfg w _ pCmd _ hb
      exact ⟨by simpa [CRC_OUT_OF_RANGE] using g1, by rw [g6, f1], by rw [g4, f3]⟩
  · intro hcmd
    have hne : pCmd.CRO_CMD ≠ .CC_CONNECT := by rw [hcmd]; decide
    refine ⟨?_, ?_⟩
    · intro hsize h255 _
      obtain ⟨u1, u2, u3⟩ := XcpCommand_UPLOAD_state cfg w pCmd hcon hcmd hsize
      refine ⟨XcpCommand_UPLOAD_response cfg w pCmd hcon hcmd hsize h255, u1, u2, ?_⟩
      intro p2 hcmd2 hsize2 h2552 _
      rw [XcpCommand_UPLOAD_response cfg _ p2 u3 hcmd2 hsize2 h2552, u1, u2]
    · intro hsize
      have hm : CRM_UPLOAD_MAX_SIZE cfg % 256 = CRM_UPLOAD_MAX_SIZE cfg := by
        simp [CRM_UPLOAD_MAX_SIZE]
      have hb := XcpCommand.body_connected cfg w pCmd hcon hne
      simp only [XcpCommand.switch, hcmd, XcpCommand.UPLOAD, hm, hsize, if_true] at hb
      obtain ⟨g1, -, -, g4, -, g6, -⟩ := XcpCommand_of_negative cfg w _ pCmd _ hb
      exact ⟨by simpa [CRC_OUT_OF_RANGE] using g1, by rw [g6, f1], by rw [g4, f3]⟩

/-- Witness of C29, amended: UPLOAD of 4 bytes sent to the connected slave,
whose MTA lies outside of `xcp`, advances the MTA by 4. -/
theorem XcpCommand_sequential_transfer_witness :
    (XcpCommand cfg512 slaveConnected (mkUPLOAD 4)).1.xcp.Mta = slaveConnected.xcp.Mta + 4 :=
  (((XcpCommand_sequential_transfer cfg512 slaveConnected (mkUPLOAD 4) (by decide)).2 rfl).1
    (by decide) (by decide) (by decide)).2.2.1

/-! ### The DAQ event -/

/-- The inner loop with enough fuel, for a last entry below `0xFFFF`: the
bytes of the entries from `e` up to the first entry of size zero are appended. -/
theorem XcpEventExt.copy_spec (w : Slave) (offset el : Nat) (hel : el < 65535) :
    ∀ (fuel e : Nat) (d : List Nat), el + 1 - e < fuel →
      XcpEventExt.copy w offset el fuel e d =
        some (d ++ ((List.range' e (el + 1 - e)).takeWhile
          (fun e => decide (w.xcp.OdtEntrySize e ≠ 0))).flatMap (entryBytes w offset)) := by
  intro fuel
  induction fuel with
  | zero => intro e d h; omega
  | succ fuel ih =>
    intro e d h
    unfold XcpEventExt.copy
    by_cases he : e ≤ el
    · rw [if_pos he]
      have hk : el + 1 - e = (el - e) + 1 := by omega
      rw [hk, List.range'_succ]
      by_cases hn : w.xcp.OdtEntrySize e = 0
      · simp [hn]
      · simp only [hn, if_false]
        have hmod : (e + 1) % 65536 = e + 1 := Nat.mod_eq_of_lt (by omega)
        rw [hmod, ih (e + 1) _ (by omega)]
        have hk2 : el + 1 - (e + 1) = el - e := by omega
        rw [hk2, List.takeWhile_cons_of_pos (by simpa using hn)]
        simp [entryBytes, XcpEventExt.memcpy, List.append_assoc]
    · rw [if_neg he]
      have hk : el + 1 - e = 0 := by omega
      simp [hk]

/-- Clearing OVERRUN changes the flags of the list only. -/
theorem clearOverrun_frame (x : tXcpData) (d : Nat) :
    (clearOverrun x d).Odt = x.Odt ∧ (clearOverrun x d).OdtEntrySize = x.OdtEntrySize ∧
      (clearOverrun x d).OdtEntryAddr = x.OdtEntryAddr ∧
      (clearOverrun x d).Daq.DaqCount = x.Daq.DaqCount ∧
      (clearOverrun x d).SessionStatus = x.SessionStatus ∧
      (∀ i, ((clearOverrun x d).Daq.DaqList i).firstOdt = (x.Daq.DaqList i).firstOdt ∧
        ((clearOverrun x d).Daq.DaqList i).lastOdt = (x.Daq.DaqList i).lastOdt ∧
        ((clearOverrun x d).Daq.DaqList i).eventChannel = (x.Daq.DaqList i).eventChannel) ∧
      (∀ i, i ≠ d → (clearOverrun x d).Daq.DaqList i = x.Daq.DaqList i) := by
  unfold clearOverrun
  by_cases h : listOverrun x d
  · rw [if_pos h]
    refine ⟨rfl, rfl, rfl, rfl, rfl, ?_, ?_⟩
    · intro i
      by_cases hi : i = d
      · subst hi; simp [setDaqList]
      · simp [setDaqList, Function.update_noteq hi]
    · intro i hi
      simp [setDaqList, Function.update_noteq hi]
  · rw [if_neg h]
    exact ⟨rfl, rfl, rfl, rfl, rfl, fun _ => ⟨rfl, rfl, rfl⟩, fun _ _ => rfl⟩

/-- After OVERRUN has been cleared on a list the flag is not set. -/
theorem clearOverrun_not_overrun (x : tXcpData) (d : Nat) :
    ¬ listOverrun (clearOverrun x d) d := by
  unfold clearOverrun
  by_cases h : listOverrun x d
  · rw [if_pos h]
    simp only [listOverrun, setDaqList, Function.update_same, ne_eq, not_not]
    rw [Nat.land_assoc]
    have : not8 DAQ_FLAG_OVERRUN &&& DAQ_FLAG_OVERRUN = 0 := by decide
    rw [this, Nat.and_zero]
  · rw [if_neg h]; exact h

/-- The DTO buffer depends on the state through the ODT records, the entries,
the first ODT of the list, the memory and the clock only. -/
theorem dtoBuffer_congr (cfg : Config) (w v : Slave) (offset d o : Nat) (b7 : Bool)
    (h1 : v.xcp.Odt = w.xcp.Odt) (h2 : v.xcp.OdtEntrySize = w.xcp.OdtEntrySize)
    (h3 : v.xcp.OdtEntryAddr = w.xcp.OdtEntryAddr)
    (h4 : (v.xcp.Daq.DaqList d).firstOdt = (w.xcp.Daq.DaqList d).firstOdt)
    (h5 : v.mem = w.mem) (h6 : v.clock = w.clock) :
    dtoBuffer cfg v offset d o b7 = dtoBuffer cfg w offset d o b7 := by
  have he : entryBytes v offset = entryBytes w offset := by
    funext e
    simp [entryBytes, h2, h3, h5]
  simp only [dtoBuffer, entriesOf, h1, h2, h4, h6, he]

/-- The body of the ODT loop, for an ODT that does not end at entry `0xFFFF`
when its first entry has a size other than zero: OVERRUN is cleared on the
list, and the DTO is handed to the transport unless the first entry has size
zero. -/
theorem XcpEventExt.odt_spec (cfg : Config) (offset daq odt : Nat)
    (s : Slave × List (List Nat))
    (h : s.1.xcp.OdtEntrySize (s.1.xcp.Odt odt).firstOdtEntry ≠ 0 →
      (s.1.xcp.Odt odt).lastOdtEntry < 65535) :
    XcpEventExt.odt cfg offset daq odt s =
      some ({ s.1 with xcp := clearOverrun s.1.xcp daq },
        s.2 ++ (if s.1.xcp.OdtEntrySize (s.1.xcp.Odt odt).firstOdtEntry = 0 then []
          else [(dtoBuffer cfg s.1 offset daq odt (decide (listOverrun s.1.xcp daq))).take
            ((dtoBuffer cfg s.1 offset daq odt
              (decide (listOverrun s.1.xcp daq))).length % 256)])) := by
  obtain ⟨f1, f2, f3, -, -, f6, -⟩ := clearOverrun_frame s.1.xcp daq
  have hx : (if listOverrun s.1.xcp daq then
      setDaqList s.1.xcp daq (fun l => { l with flags := l.flags &&& not8 DAQ_FLAG_OVERRUN })
    else s.1.xcp) = clearOverrun s.1.xcp daq := rfl
  unfold XcpEventExt.odt
  simp only [listOverrun] at hx
  simp only [hx, f1, f2, f6]
  by_cases hz : s.1.xcp.OdtEntrySize (s.1.xcp.Odt odt).firstOdtEntry = 0
  · simp [hz]
  · simp only [hz, if_false]
    have hc := XcpEventExt.copy_spec { s.1 with xcp := clearOverrun s.1.xcp daq } offset
      (s.1.xcp.Odt odt).lastOdtEntry (h hz) 65537 (s.1.xcp.Odt odt).firstOdtEntry
    rw [hc _ (by omega)]
    simp only [XcpSendDto]
    have he : entryBytes { xcp := clearOverrun s.1.xcp daq, mem := s.1.mem, clock := s.1.clock }
        offset = entryBytes s.1 offset := by
      funext e
      simp [entryBytes, f2, f3]
    rw [he, f2]
    simp only [dtoBuffer, entriesOf, listOverrun]
    by_cases ho : odt = (s.1.xcp.Daq.DaqList daq).firstOdt <;>
      by_cases hov : (s.1.xcp.Daq.DaqList daq).flags &&& DAQ_FLAG_OVERRUN = 0 <;>
      simp [ho, hov]

/-- Clearing OVERRUN twice is clearing it once. -/
theorem clearOverrun_idem (x : tXcpData) (d : Nat) :
    clearOverrun (clearOverrun x d) d = clearOverrun x d := by
  have h := clearOverrun_not_overrun x d
  generalize clearOverrun x d = y at h ⊢
  unfold clearOverrun
  rw [if_neg h]

/-- The ODT loop with enough fuel, for a list that does not end at ODT
`0xFFFF` and whose ODTs from `odt` on do not end at entry `0xFFFF`: one pass
for each ODT from `odt` to the last one; the first pass sees the flag
OVERRUN of the list and clears it. -/
theorem XcpEventExt.odtLoop_spec (cfg : Config) (offset daq : Nat) :
    ∀ (k fuel odt : Nat) (s : Slave × List (List Nat)),
      k < fuel → k = (s.1.xcp.Daq.DaqList daq).lastOdt + 1 - odt →
      (s.1.xcp.Daq.DaqList daq).lastOdt < 65535 →
      (∀ o, odt ≤ o → o ≤ (s.1.xcp.Daq.DaqList daq).lastOdt →
        s.1.xcp.OdtEntrySize (s.1.xcp.Odt o).firstOdtEntry ≠ 0 →
        (s.1.xcp.Odt o).lastOdtEntry < 65535) →
      XcpEventExt.odtLoop cfg offset daq fuel odt s =
        some ({ s.1 with xcp := if k = 0 then s.1.xcp else clearOverrun s.1.xcp daq },
          s.2 ++ (List.range' odt k).flatMap (fun o =>
            odtDtos cfg s.1 offset daq o (decide (o = odt ∧ listOverrun s.1.xcp daq)))) := by
  intro k
  induction k with
  | zero =>
    intro fuel odt s hf hk hl _
    cases fuel with
    | zero => omega
    | succ fuel =>
      unfold XcpEventExt.odtLoop
      rw [if_neg (by omega)]
      simp
  | succ k ih =>
    intro fuel odt s hf hk hl hT
    cases fuel with
    | zero => omega
    | succ fuel =>
      unfold XcpEventExt.odtLoop
      have hle : odt ≤ (s.1.xcp.Daq.DaqList daq).lastOdt := by omega
      rw [if_pos hle, XcpEventExt.odt_spec cfg offset daq odt s (hT odt (le_refl _) hle)]
      simp only []
      obtain ⟨f1, f2, f3, -, -, f6, -⟩ := clearOverrun_frame s.1.xcp daq
      have hmod : (odt + 1) % 65536 = odt + 1 := Nat.mod_eq_of_lt (by omega)
      rw [hmod, ih fuel (odt + 1) _ (by omega) (by simp only [(f6 daq).2.1]; omega)
        (by simp only [(f6 daq).2.1]; exact hl)
        (by
          intro o h1 h2 h3
          simp only [(f6 daq).2.1, f1, f2] at h2 h3 ⊢
          exact hT o (by omega) h2 h3)]
      have hB : ((List.range' (odt + 1) k).flatMap fun o =>
          odtDtos cfg { s.1 with xcp := clearOverrun s.1.xcp daq } offset daq o
            (decide (o = odt + 1 ∧ listOverrun (clearOverrun s.1.xcp daq) daq)))
          = (List.range' (odt + 1) k).flatMap fun o =>
            odtDtos cfg s.1 offset daq o (decide (o = odt ∧ listOverrun s.1.xcp daq)) := by
        apply List.flatMap_congr
        intro o ho
        have ho1 : odt + 1 ≤ o := (List.mem_range'_1.mp ho).1
        have hne : o ≠ odt := by omega
        have hno := clearOverrun_not_overrun s.1.xcp daq
        simp only [odtDtos, f1, f2, hne, false_and, decide_False, hno, and_false]
        rw [dtoBuffer_congr cfg s.1 { s.1 with xcp := clearOverrun s.1.xcp daq } offset daq o
          false f1 f2 f3 (f6 daq).1 rfl rfl]
      simp only [] at hB ⊢
      rw [hB]
      simp [odtDtos, clearOverrun_idem, List.range'_succ, List.append_assoc]

/-- The packets of one pass of the ODT loop depend on the state through the
ODT records, the entries, the first ODT of the list, the memory and the
clock only. -/
theorem odtDtos_congr (cfg : Config) (w v : Slave) (offset d o : Nat) (b7 : Bool)
    (h1 : v.xcp.Odt = w.xcp.Odt) (h2 : v.xcp.OdtEntrySize = w.xcp.OdtEntrySize)
    (h3 : v.xcp.OdtEntryAddr = w.xcp.OdtEntryAddr)
    (h4 : (v.xcp.Daq.DaqList d).firstOdt = (w.xcp.Daq.DaqList d).firstOdt)
    (h5 : v.mem = w.mem) (h6 : v.clock = w.clock) :
    odtDtos cfg v offset d o b7 = odtDtos cfg w offset d o b7 := by
  simp only [odtDtos, h1, h2, dtoBuffer_congr cfg w v offset d o b7 h1 h2 h3 h4 h5 h6]

/-- The lists from `n` on are untouched while the event has processed the
lists below `n`. -/
theorem eventCleared_of_le (x : tXcpData) (event n d : Nat) (h : n ≤ d) :
    (eventCleared x event n).Daq.DaqList d = x.Daq.DaqList d := by
  simp only [eventCleared]
  rw [if_neg (by intro hc; omega)]

/-- Processing a list that is not RUNNING, not bound to the channel or
without ODT leaves the list records as they are. -/
theorem eventCleared_succ_skip (x : tXcpData) (event n : Nat)
    (h : ¬ (listRunning x n ∧ listBound x n event ∧
      (x.Daq.DaqList n).firstOdt ≤ (x.Daq.DaqList n).lastOdt)) :
    eventCleared x event (n + 1) = eventCleared x event n := by
  simp only [eventCleared]
  congr 2
  funext d
  by_cases hd : d = n
  · subst hd
    rw [if_neg (by intro hc; exact h ⟨hc.2.1, hc.2.2.1, hc.2.2.2.1⟩),
      if_neg (by intro hc; omega)]
  · have : d < n + 1 ↔ d < n := by omega
    simp only [this]

/-- Processing a list that is RUNNING, bound to the channel and has an ODT
clears its flag OVERRUN. -/
theorem eventCleared_succ_clear (x : tXcpData) (event n : Nat)
    (h : listRunning x n ∧ listBound x n event ∧
      (x.Daq.DaqList n).firstOdt ≤ (x.Daq.DaqList n).lastOdt) :
    clearOverrun (eventCleared x event n) n = eventCleared x event (n + 1) := by
  have hn := eventCleared_of_le x event n n (le_refl _)
  unfold clearOverrun
  simp only [listOverrun, hn]
  by_cases hov : (x.Daq.DaqList n).flags &&& DAQ_FLAG_OVERRUN = 0
  · simp only [hov, ne_eq, not_true_eq_false, if_false]
    simp only [eventCleared]
    congr 2
    funext d
    by_cases hd : d = n
    · subst hd
      rw [if_neg (by intro hc; exact hc.2.2.2.2 hov), if_neg (by intro hc; omega)]
    · have : d < n + 1 ↔ d < n := by omega
      simp only [this]
  · simp only [hov, ne_eq, not_false_eq_true, if_true]
    simp only [eventCleared, setDaqList]
    congr 2
    funext d
    by_cases hd : d = n
    · subst hd
      rw [Function.update_same, if_neg (by intro hc; omega),
        if_pos ⟨by omega, h.1, h.2.1, h.2.2, hov⟩]
    · have : d < n + 1 ↔ d < n := by omega
      rw [Function.update_noteq hd]
      simp only [this]

/-- The body of the DAQ list loop for list `n`, after the lists below `n`
have been processed. -/
theorem XcpEventExt.daq_spec (cfg : Config) (w : Slave) (event offset n : Nat)
    (acc : List (List Nat))
    (hT : listRunning w.xcp n → listBound w.xcp n event →
      (w.xcp.Daq.DaqList n).lastOdt < 65535 ∧
      ∀ o ∈ odtsOf w.xcp n, w.xcp.OdtEntrySize (w.xcp.Odt o).firstOdtEntry ≠ 0 →
        (w.xcp.Odt o).lastOdtEntry < 65535) :
    XcpEventExt.daq cfg event offset n ({ w with xcp := eventCleared w.xcp event n }, acc) =
      some ({ w with xcp := eventCleared w.xcp event (n + 1) },
        acc ++ listDtos cfg w event offset n) := by
  have hn := eventCleared_of_le w.xcp event n n (le_refl _)
  unfold XcpEventExt.daq
  simp only [hn, listDtos]
  by_cases hr : (w.xcp.Daq.DaqList n).flags &&& DAQ_FLAG_RUNNING = 0
  · rw [if_pos hr, if_neg (by intro hc; exact hc.1 hr),
      eventCleared_succ_skip w.xcp event n (by intro hc; exact hc.1 hr), List.append_nil]
  · rw [if_neg hr]
    by_cases hb : (w.xcp.Daq.DaqList n).eventChannel = event % 256
    · rw [if_neg (by simpa using hb), if_pos ⟨hr, hb⟩]
      obtain ⟨hl, hE⟩ := hT hr hb
      rw [XcpEventExt.odtLoop_spec cfg offset n
        ((w.xcp.Daq.DaqList n).lastOdt + 1 - (w.xcp.Daq.DaqList n).firstOdt) 65537 _ _
        (by omega) (by simp only [hn]) (by simp only [hn]; exact hl)
        (by
          intro o h1 h2 h3
          simp only [hn] at h2
          exact hE o (List.mem_range'_1.mpr ⟨h1, by omega⟩) h3)]
      simp only [hn]
      have hst : (if (w.xcp.Daq.DaqList n).lastOdt + 1 - (w.xcp.Daq.DaqList n).firstOdt = 0
          then eventCleared w.xcp event n else clearOverrun (eventCleared w.xcp event n) n)
          = eventCleared w.xcp event (n + 1) := by
        by_cases hk : (w.xcp.Daq.DaqList n).lastOdt + 1 - (w.xcp.Daq.DaqList n).firstOdt = 0
        · rw [if_pos hk, eventCleared_succ_skip w.xcp event n (by intro hc; omega)]
        · rw [if_neg hk, eventCleared_succ_clear w.xcp event n ⟨hr, hb, by omega⟩]
      rw [hst]
      congr 3
      apply List.flatMap_congr
      intro o _
      simp only [listOverrun, hn]
      exact odtDtos_congr cfg w { w with xcp := eventCleared w.xcp event n } offset n o _
        rfl rfl rfl (by simp only [hn]) rfl rfl
    · rw [if_pos (by simpa using hb), if_neg (by intro hc; exact hb hc.2),
        eventCleared_succ_skip w.xcp event n (by intro hc; exact hb hc.2.1), List.append_nil]

/-- The DAQ list loop over the lists below `n`. -/
theorem XcpEventExt.loop_spec (cfg : Config) (w : Slave) (event offset : Nat) :
    ∀ n, (∀ d, d < n → listRunning w.xcp d → listBound w.xcp d event →
        (w.xcp.Daq.DaqList d).lastOdt < 65535 ∧
        ∀ o ∈ odtsOf w.xcp d, w.xcp.OdtEntrySize (w.xcp.Odt o).firstOdtEntry ≠ 0 →
          (w.xcp.Odt o).lastOdtEntry < 65535) →
      (List.range n).foldl (fun r daq => r.bind (XcpEventExt.daq cfg event offset daq))
          (some (w, []))
        = some ({ w with xcp := eventCleared w.xcp event n },
            (List.range n).flatMap (listDtos cfg w event offset)) := by
  intro n
  induction n with
  | zero =>
    intro _
    have h0 : eventCleared w.xcp event 0 = w.xcp := by
      simp [eventCleared]
    simp [h0]
  | succ n ih =>
    intro hT
    rw [List.range_succ, List.foldl_append, ih (fun d hd => hT d (by omega))]
    simp only [List.foldl_cons, List.foldl_nil, Option.some_bind,
      List.flatMap_append, List.flatMap_singleton]
    exact XcpEventExt.daq_spec cfg w event offset n _ (hT n (by omega))

/-- Mapping a filtered list is a flat map over the list. -/
theorem map_filter_eq_flatMap {α β : Type} (p : α → Bool) (f : α → β) (l : List α) :
    (l.filter p).map f = l.flatMap (fun a => if p a then [f a] else []) := by
  induction l with
  | nil => rfl
  | cons a l ih =>
    rw [List.filter_cons, List.flatMap_cons]
    by_cases h : p a = true
    · simp [h, ih]
    · simp [h, ih]

/-- The packets of the lists below `DaqCount` are the DTOs of the ODTs the
event emits for. -/
theorem flatMap_listDtos (cfg : Config) (w : Slave) (event offset : Nat) :
    (List.range w.xcp.Daq.DaqCount).flatMap (listDtos cfg w event offset)
      = (eventOdts w.xcp event).map (fun p => dtoOf cfg w offset p.1 p.2) := by
  unfold eventOdts
  rw [List.map_flatMap]
  apply List.flatMap_congr
  intro d _
  unfold listDtos
  by_cases h : listRunning w.xcp d ∧ listBound w.xcp d event
  · rw [if_pos h, if_pos h, List.map_map, map_filter_eq_flatMap]
    apply List.flatMap_congr
    intro o _
    by_cases hz : w.xcp.OdtEntrySize (w.xcp.Odt o).firstOdtEntry = 0
    · simp [odtDtos, hz]
    · simp [odtDtos, hz, dtoOf]
  · rw [if_neg h, if_neg h, List.map_nil]

/-- What `XcpEventExt` does while DAQ is running, in a state in which it
returns: the packets handed to the transport are the DTOs of the ODTs of
`eventOdts`, in this order, and OVERRUN is cleared on every list that is
RUNNING, bound to the channel and has an ODT. -/
theorem XcpEventExt_spec (cfg : Config) (w : Slave) (event offset : Nat)
    (hrun : daqRunning w.xcp) (hT : eventReturns w.xcp event) :
    XcpEventExt cfg w event offset =
      some ({ w with xcp := eventCleared w.xcp event w.xcp.Daq.DaqCount },
        (eventOdts w.xcp event).map (fun p => dtoOf cfg w offset p.1 p.2)) := by
  unfold XcpEventExt
  rw [if_neg hrun, XcpEventExt.loop_spec cfg w event offset _ hT, flatMap_listDtos]

/-- The relative ODT number as a byte, for an ODT from the first ODT on. -/
theorem toUInt8_sub (o f : Nat) (h : f ≤ o) : toUInt8 ((o : Int) - (f : Int)) = (o - f) % 256 := by
  unfold toUInt8
  omega

/-- Membership in `eventOdts`. -/
theorem mem_eventOdts (x : tXcpData) (event d o : Nat) :
    (d, o) ∈ eventOdts x event ↔
      d < x.Daq.DaqCount ∧ listRunning x d ∧ listBound x d event ∧
        (x.Daq.DaqList d).firstOdt ≤ o ∧ o ≤ (x.Daq.DaqList d).lastOdt ∧
        x.OdtEntrySize (x.Odt o).firstOdtEntry ≠ 0 := by
  unfold eventOdts
  rw [List.mem_flatMap]
  constructor
  · rintro ⟨a, ha, hm⟩
    by_cases h : listRunning x a ∧ listBound x a event
    · rw [if_pos h, List.mem_map] at hm
      obtain ⟨o', ho', heq⟩ := hm
      simp only [Prod.mk.injEq] at heq
      obtain ⟨rfl, rfl⟩ := heq
      rw [List.mem_filter, odtsOf, List.mem_range'_1] at ho'
      refine ⟨List.mem_range.mp ha, h.1, h.2, ho'.1.1, by omega, by simpa using ho'.2⟩
    · rw [if_neg h] at hm
      exact absurd hm (List.not_mem_nil _)
  · rintro ⟨h1, h2, h3, h4, h5, h6⟩
    refine ⟨d, List.mem_range.mpr h1, ?_⟩
    rw [if_pos ⟨h2, h3⟩, List.mem_map]
    refine ⟨o, ?_, rfl⟩
    rw [List.mem_filter, odtsOf, List.mem_range'_1]
    exact ⟨⟨h4, by omega⟩, by simpa using h6⟩

/-- The ODTs of `eventOdts` come ordered by list and then by ODT number. -/
theorem pairwise_eventOdts (x : tXcpData) (event : Nat) :
    (eventOdts x event).Pairwise (fun p q => p.1 < q.1 ∨ (p.1 = q.1 ∧ p.2 < q.2)) := by
  unfold eventOdts
  rw [List.pairwise_flatMap]
  constructor
  · intro d _
    by_cases h : listRunning x d ∧ listBound x d event
    · rw [if_pos h, List.pairwise_map]
      apply List.Pairwise.filter
      exact (List.pairwise_lt_range' _ _).imp (fun h => Or.inr ⟨rfl, h⟩)
    · rw [if_neg h]
      exact List.Pairwise.nil
  · apply (List.pairwise_lt_range _).imp
    intro a b hab p hp q hq
    have hp1 : p.1 = a := by
      by_cases h : listRunning x a ∧ listBound x a event
      · rw [if_pos h, List.mem_map] at hp
        obtain ⟨_, _, rfl⟩ := hp
        rfl
      · rw [if_neg h] at hp
        exact absurd hp (List.not_mem_nil _)
    have hq1 : q.1 = b := by
      by_cases h : listRunning x b ∧ listBound x b event
      · rw [if_pos h, List.mem_map] at hq
        obtain ⟨_, _, rfl⟩ := hq
        rfl
      · rw [if_neg h] at hq
        exact absurd hq (List.not_mem_nil _)
    left
    omega

/-- C22, counterexample: in scenario S3 without its WRITE_DAQ, DAQ is
running and list 0 is RUNNING and bound to channel 7 with the one ODT 0,
yet `XcpEvent` for channel 7 returns without a DTO: the first entry of the
ODT has size zero. -/
theorem XcpEvent_unwritten_odt_no_dto :
    daqRunning slaveUnwritten.xcp ∧ slaveUnwritten.xcp.Daq.DaqCount = 1 ∧
      listRunning slaveUnwritten.xcp 0 ∧ listBound slaveUnwritten.xcp 0 7 ∧
      odtsOf slaveUnwritten.xcp 0 = [0] ∧
      (XcpEvent cfg512 slaveUnwritten 7).map (fun r => r.2) = some [] := by
  decide

/-- C22, amended: `XcpEventExt` returns without a DTO when DAQ is not running.
When DAQ is running, in a state in which the event reads the records and
entries inside the arrays, through arena pointers laid out for the counts,
fills no DTO beyond `kXcpMaxDTO` bytes, and returns, the packets handed to
the transport are, in this order, one DTO for each pair of `eventOdts`: a
pair `(d, o)` is in `eventOdts` exactly when `d < DaqCount`, list `d` is
RUNNING and bound to the channel, `o` is one of its ODTs and the first entry
of `o` has a size other than zero; the pairs are ordered by list and then by
ODT number, none occurs twice. -/
theorem XcpEventExt_dtos (cfg : Config) (w : Slave) (event offset : Nat) :
    (¬ daqRunning w.xcp → XcpEventExt cfg w event offset = some (w, [])) ∧
      (daqRunning w.xcp → XcpEventExt.defined cfg w.xcp event → eventReturns w.xcp event →
        ∃ w1, XcpEventExt cfg w event offset =
          some (w1, (eventOdts w.xcp event).map (fun p => dtoOf cfg w offset p.1 p.2))) ∧
      (∀ d o, (d, o) ∈ eventOdts w.xcp event ↔
        d < w.xcp.Daq.DaqCount ∧ listRunning w.xcp d ∧ listBound w.xcp d event ∧
          (w.xcp.Daq.DaqList d).firstOdt ≤ o ∧ o ≤ (w.xcp.Daq.DaqList d).lastOdt ∧
          w.xcp.OdtEntrySize (w.xcp.Odt o).firstOdtEntry ≠ 0) ∧
      (eventOdts w.xcp event).Pairwise (fun p q => p.1 < q.1 ∨ (p.1 = q.1 ∧ p.2 < q.2)) := by
  refine ⟨?_, ?_, mem_eventOdts w.xcp event, pairwise_eventOdts w.xcp event⟩
  · intro h
    have h0 : w.xcp.SessionStatus &&& SS_DAQ = 0 := by simpa [daqRunning] using h
    simp [XcpEventExt, h0]
  · intro hrun _ hT
    exact ⟨_, XcpEventExt_spec cfg w event offset hrun hT⟩

/-- Witness of C22, amended: the event of scenario S3. -/
theorem XcpEventExt_dtos_witness :
    daqRunning slaveMeasuring.xcp ∧ XcpEventExt.defined cfg512 slaveMeasuring.xcp 7 ∧
      eventReturns slaveMeasuring.xcp 7 ∧
      ∃ w1, XcpEventExt cfg512 slaveMeasuring 7 0 =
        some (w1, (eventOdts slaveMeasuring.xcp 7).map
          (fun p => dtoOf cfg512 slaveMeasuring 0 p.1 p.2)) :=
  ⟨by decide, by decide, by decide,
   (XcpEventExt_dtos cfg512 slaveMeasuring 7 0).2.1 (by decide) (by decide) (by decide)⟩

/-- A state reached from a reachable state by a list of commands is reachable. -/
theorem Reachable_runCommands (cfg : Config) : ∀ (cs : List tXcpCto) (w : Slave),
    Reachable cfg w → Reachable cfg (runCommands cfg w cs) := by
  intro cs
  induction cs with
  | nil => intro w h; exact h
  | cons c cs ih => intro w h; exact ih _ (Reachable.command c h)

/-- The time stamp has `kXcpDaqTimestampSize` bytes. -/
theorem XcpEventExt.timestamp_length (cfg : Config) (clock : Nat) :
    (XcpEventExt.timestamp cfg clock).length = cfg.kXcpDaqTimestampSize := by
  unfold XcpEventExt.timestamp
  split <;> simp

/-- The bytes of an entry are as many as its size. -/
theorem entryBytes_length (w : Slave) (offset e : Nat) :
    (entryBytes w offset e).length = w.xcp.OdtEntrySize e := by
  simp [entryBytes]

/-- The bytes of a list of entries are as many as the sum of their sizes. -/
theorem flatMap_entryBytes_length (w : Slave) (offset : Nat) (es : List Nat) :
    (es.flatMap (entryBytes w offset)).length = (es.map w.xcp.OdtEntrySize).sum := by
  induction es with
  | nil => rfl
  | cons e es ih =>
    rw [List.flatMap_cons, List.length_append, ih, entryBytes_length, List.map_cons,
      List.sum_cons]

set_option maxRecDepth 100000 in
/-- C23, counterexample: a list of 129 ODTs without the flag OVERRUN, whose
ODT 128 has one entry of 4 bytes: the DTO of ODT 128 has byte 0 equal to
`80`, bit 7 set.  And in scenario S3 with two entries of 200 and 50 bytes in
the ODT, both of size other than zero, the buffer holds 2 + 4 + 250 = 256
bytes and the DTO handed to the transport is the empty packet. -/
theorem XcpEvent_dto_bit7_and_length :
    ¬ listOverrun slaveManyOdts.xcp 0 ∧ eventOdts slaveManyOdts.xcp 7 = [(0, 128)] ∧
      entriesOf slaveManyOdts.xcp 128 = [1] ∧ slaveManyOdts.xcp.OdtEntrySize 1 = 4 ∧
      (XcpEvent cfg4096 slaveManyOdts 7).map (fun r => r.2) = some [[0x80, 0, 0, 0, 0, 0]] ∧
      daqRunning slaveWrapped.xcp ∧ eventOdts slaveWrapped.xcp 7 = [(0, 0)] ∧
      entriesOf slaveWrapped.xcp 0 = [0, 1] ∧
      slaveWrapped.xcp.OdtEntrySize 0 = 200 ∧ slaveWrapped.xcp.OdtEntrySize 1 = 50 ∧
      (XcpEvent cfg512 slaveWrapped 7).map (fun r => r.2) = some [[]] := by
  decide

/-- C23: while DAQ is running, in a state in which the event returns, for
the `i`-th pair `(d, o)` of `eventOdts` (list `d` is RUNNING and bound to
the channel, `o` is one of its ODTs) when every entry of `o` has a size other
than zero.  The DTO buffer `B` holds the relative ODT number `o - first_odt(d)`
as a byte, with bit 7 set when `o` is the first ODT of the list and the list
had the flag OVERRUN, then the list number, then the time stamp of
`kXcpDaqTimestampSize` bytes when `o` is the first ODT, then for each entry
of `o` in order its `size(e)` bytes read from `offset + (vuint32)addr(e)`;
`B` has 2 + time stamp + sum of the entry sizes bytes; the `i`-th DTO handed
to the transport is the first `l` bytes of `B`, `l` being the length of `B`
as a byte: it is `B` when `B` has less than 256 bytes. -/
theorem XcpEventExt_dto_content (cfg : Config) (w : Slave) (event offset : Nat)
    (hrun : daqRunning w.xcp) (hT : eventReturns w.xcp event) (i d o : Nat)
    (hi : (eventOdts w.xcp event)[i]? = some (d, o))
    (hnz : ∀ e ∈ entriesOf w.xcp o, w.xcp.OdtEntrySize e ≠ 0) :
    ∃ w1 dtos B,
      XcpEventExt cfg w event offset = some (w1, dtos) ∧
      B = [if o = (w.xcp.Daq.DaqList d).firstOdt ∧ listOverrun w.xcp d then
              (o - (w.xcp.Daq.DaqList d).firstOdt) % 256 ||| 0x80
            else (o - (w.xcp.Daq.DaqList d).firstOdt) % 256, d % 256]
          ++ (if o = (w.xcp.Daq.DaqList d).firstOdt then XcpEventExt.timestamp cfg w.clock
              else [])
          ++ (entriesOf w.xcp o).flatMap (entryBytes w offset) ∧
      B.length = 2 + (if o = (w.xcp.Daq.DaqList d).firstOdt then cfg.kXcpDaqTimestampSize else 0)
        + ((entriesOf w.xcp o).map w.xcp.OdtEntrySize).sum ∧
      dtos[i]? = some (B.take (B.length % 256)) ∧
      (B.length < 256 → dtos[i]? = some B) := by
  have hmem : (d, o) ∈ eventOdts w.xcp event := List.getElem?_mem hi
  have hfo := ((mem_eventOdts w.xcp event d o).mp hmem).2.2.2.1
  have htw : (entriesOf w.xcp o).takeWhile (fun e => decide (w.xcp.OdtEntrySize e ≠ 0))
      = entriesOf w.xcp o :=
    List.takeWhile_eq_self_iff.mpr (fun e he => by simpa using hnz e he)
  have hB : dtoBuffer cfg w offset d o
      (decide (o = (w.xcp.Daq.DaqList d).firstOdt ∧ listOverrun w.xcp d))
      = [if o = (w.xcp.Daq.DaqList d).firstOdt ∧ listOverrun w.xcp d then
              (o - (w.xcp.Daq.DaqList d).firstOdt) % 256 ||| 0x80
            else (o - (w.xcp.Daq.DaqList d).firstOdt) % 256, d % 256]
          ++ (if o = (w.xcp.Daq.DaqList d).firstOdt then XcpEventExt.timestamp cfg w.clock
              else [])
          ++ (entriesOf w.xcp o).flatMap (entryBytes w offset) := by
    unfold dtoBuffer
    rw [htw, toUInt8_sub o _ hfo]
    simp only [decide_eq_true_eq]
  have hget : ((eventOdts w.xcp event).map (fun p => dtoOf cfg w offset p.1 p.2))[i]?
      = some ((dtoBuffer cfg w offset d o
          (decide (o = (w.xcp.Daq.DaqList d).firstOdt ∧ listOverrun w.xcp d))).take
        ((dtoBuffer cfg w offset d o
          (decide (o = (w.xcp.Daq.DaqList d).firstOdt ∧ listOverrun w.xcp d))).length % 256)) := by
    rw [List.getElem?_map, hi, Option.map_some', dtoOf]
  rw [hB] at hget
  refine ⟨_, _, _, XcpEventExt_spec cfg w event offset hrun hT, rfl, ?_, hget, ?_⟩
  · rw [List.length_append, List.length_append, flatMap_entryBytes_length]
    by_cases ho : o = (w.xcp.Daq.DaqList d).firstOdt
    · simp only [ho, if_true, XcpEventExt.timestamp_length, List.length_cons, List.length_nil]
    · simp only [ho, if_false, List.length_cons, List.length_nil]
  · intro hlt
    rw [hget, Nat.mod_eq_of_lt hlt, List.take_of_length_le (le_refl _)]

/-- Witness of C23: the DTO of scenario S3, `00 00 <ts:4> <4 bytes at A>`. -/
theorem XcpEventExt_dto_content_witness :
    ∃ w1 dtos B,
      XcpEventExt cfg512 slaveMeasuring 7 0 = some (w1, dtos) ∧
      B = [if 0 = (slaveMeasuring.xcp.Daq.DaqList 0).firstOdt ∧ listOverrun slaveMeasuring.xcp 0
            then (0 - (slaveMeasuring.xcp.Daq.DaqList 0).firstOdt) % 256 ||| 0x80
            else (0 - (slaveMeasuring.xcp.Daq.DaqList 0).firstOdt) % 256, 0 % 256]
          ++ (if 0 = (slaveMeasuring.xcp.Daq.DaqList 0).firstOdt then
                XcpEventExt.timestamp cfg512 slaveMeasuring.clock
              else [])
          ++ (entriesOf slaveMeasuring.xcp 0).flatMap (entryBytes slaveMeasuring 0) ∧
      B.length = 2 + (if 0 = (slaveMeasuring.xcp.Daq.DaqList 0).firstOdt then
          cfg512.kXcpDaqTimestampSize else 0)
        + ((entriesOf slaveMeasuring.xcp 0).map slaveMeasuring.xcp.OdtEntrySize).sum ∧
      dtos[0]? = some (B.take (B.length % 256)) ∧
      (B.length < 256 → dtos[0]? = some B) :=
  XcpEventExt_dto_content cfg512 slaveMeasuring 7 0 (by decide) (by decide) 0 0 0
    (by decide) (by decide)

set_option maxRecDepth 100000 in
/-- C24: the states of scenario S3 with two entries of 200 and 48 bytes and
of 200 and 50 bytes in the one ODT are reachable by commands, each answered
positively (every WRITE_DAQ size is at most `XCP_MAX_ODT_ENTRY_SIZE` = 248).
In the first the DTO handed to the transport has 254 bytes, more than
`kXcpMaxDTO` = 250; in the second it has 0 bytes, less than the header. -/
theorem XcpEvent_dto_length_out_of_bounds :
    Reachable cfg512 slaveOverpacked ∧
      runResponses cfg512 slaveConnected
        [mkALLOC_DAQ 1, mkALLOC_ODT 0 1, mkALLOC_ODT_ENTRY 0 0 2, mkSET_DAQ_LIST_MODE 0x10 0 7 0,
         mkSET_DAQ_PTR 0 0 0, mkWRITE_DAQ 200 0 0x1000, mkWRITE_DAQ 48 0 0x2000,
         mkSTART_STOP_DAQ_LIST 1 0]
        = [some [0xFF], some [0xFF], some [0xFF], some [0xFF], some [0xFF], some [0xFF],
           some [0xFF], some [0xFF, 0]] ∧
      (XcpEvent cfg512 slaveOverpacked 7).map (fun r => r.2.map List.length) = some [254] ∧
      cfg512.kXcpMaxDTO = 250 ∧
      Reachable cfg512 slaveWrapped ∧
      runResponses cfg512 slaveConnected
        [mkALLOC_DAQ 1, mkALLOC_ODT 0 1, mkALLOC_ODT_ENTRY 0 0 2, mkSET_DAQ_LIST_MODE 0x10 0 7 0,
         mkSET_DAQ_PTR 0 0 0, mkWRITE_DAQ 200 0 0x1000, mkWRITE_DAQ 50 0 0x2000,
         mkSTART_STOP_DAQ_LIST 1 0]
        = [some [0xFF], some [0xFF], some [0xFF], some [0xFF], some [0xFF], some [0xFF],
           some [0xFF], some [0xFF, 0]] ∧
      (XcpEvent cfg512 slaveWrapped 7).map (fun r => r.2.map List.length) = some [0] :=
  ⟨Reachable_runCommands cfg512 _ _ (Reachable.command _ (Reachable.init _ _)),
   by decide, by decide, rfl,
   Reachable_runCommands cfg512 _ _ (Reachable.command _ (Reachable.init _ _)),
   by decide, by decide⟩

/-- Clearing OVERRUN keeps the flag RUNNING. -/
theorem land_not8_OVERRUN_RUNNING (f : Nat) :
    (f &&& not8 DAQ_FLAG_OVERRUN) &&& DAQ_FLAG_RUNNING = f &&& DAQ_FLAG_RUNNING :=
  land_land_of_subset f _ _ (by decide)

/-- The event changes the flag OVERRUN of the list records only, and only
by clearing it. -/
theorem eventCleared_frame (x : tXcpData) (event n : Nat) :
    (∀ d, ((eventCleared x event n).Daq.DaqList d).firstOdt = (x.Daq.DaqList d).firstOdt) ∧
      (∀ d, ((eventCleared x event n).Daq.DaqList d).lastOdt = (x.Daq.DaqList d).lastOdt) ∧
      (∀ d, ((eventCleared x event n).Daq.DaqList d).eventChannel
        = (x.Daq.DaqList d).eventChannel) ∧
      (∀ d, ((eventCleared x event n).Daq.DaqList d).flags &&& DAQ_FLAG_RUNNING
        = (x.Daq.DaqList d).flags &&& DAQ_FLAG_RUNNING) ∧
      (∀ d, listOverrun (eventCleared x event n) d → listOverrun x d) ∧
      (∀ d, d < n → listRunning x d → listBound x d event →
        (x.Daq.DaqList d).firstOdt ≤ (x.Daq.DaqList d).lastOdt →
        ¬ listOverrun (eventCleared x event n) d) := by
  refine ⟨?_, ?_, ?_, ?_, ?_, ?_⟩ <;> intro d <;> simp only [eventCleared, listOverrun]
  · split <;> rfl
  · split <;> rfl
  · split <;> rfl
  · split
    · exact land_not8_OVERRUN_RUNNING _
    · rfl
  · split
    · rename_i h
      intro _
      exact h.2.2.2.2
    · exact id
  · intro h1 h2 h3 h4
    by_cases hov : (x.Daq.DaqList d).flags &&& DAQ_FLAG_OVERRUN = 0
    · rw [if_neg (by intro hc; exact hc.2.2.2.2 hov)]
      simpa using hov
    · rw [if_pos ⟨h1, h2, h3, h4, hov⟩]
      simp only [ne_eq, not_not]
      exact land_land_of_disjoint _ _ _ (by decide)

/-- The event leaves the ODTs it emits a DTO for as they are. -/
theorem eventOdts_eventCleared (x : tXcpData) (event n : Nat) :
    eventOdts (eventCleared x event n) event = eventOdts x event := by
  obtain ⟨f1, f2, f3, f4, -, -⟩ := eventCleared_frame x event n
  have hO : (eventCleared x event n).Odt = x.Odt := rfl
  have hS : (eventCleared x event n).OdtEntrySize = x.OdtEntrySize := rfl
  have hC : (eventCleared x event n).Daq.DaqCount = x.Daq.DaqCount := rfl
  simp only [eventOdts, odtsOf, listRunning, listBound, f1, f2, f3, f4, hO, hS, hC]

/-- The event keeps to the domain of the embedding after an event of the
same channel: the event changes the flag OVERRUN only. -/
theorem XcpEventExt.defined_eventCleared (cfg : Config) (x : tXcpData) (event n : Nat)
    (h : XcpEventExt.defined cfg x event) :
    XcpEventExt.defined cfg (eventCleared x event n) event := by
  obtain ⟨f1, f2, f3, f4, -, -⟩ := eventCleared_frame x event n
  have hO : (eventCleared x event n).Odt = x.Odt := rfl
  have hS : (eventCleared x event n).OdtEntrySize = x.OdtEntrySize := rfl
  have hC : (eventCleared x event n).Daq.DaqCount = x.Daq.DaqCount := rfl
  have hC2 : (eventCleared x event n).Daq.OdtCount = x.Daq.OdtCount := rfl
  have hC3 : (eventCleared x event n).Daq.OdtEntryCount = x.Daq.OdtEntryCount := rfl
  have hA : arenaLaidOut cfg (eventCleared x event n) ↔ arenaLaidOut cfg x := Iff.rfl
  have hR : daqRunning (eventCleared x event n) ↔ daqRunning x := Iff.rfl
  simp only [XcpEventExt.defined, XcpEventExt.definedList, XcpEventExt.definedOdts,
    XcpEventExt.definedOdt, XcpEventExt.dtoBytes, entriesOf, listRunning, listBound,
    f1, f2, f3, f4, hO, hS, hC, hC2, hC3, hA, hR] at h ⊢
  exact h

/-- The length of the DTO buffer is the number of bytes the event writes for
the ODT. -/
theorem length_dtoBuffer (cfg : Config) (w : Slave) (offset d o : Nat) (b7 : Bool) :
    (dtoBuffer cfg w offset d o b7).length = XcpEventExt.dtoBytes cfg w.xcp d o := by
  have ht : (XcpEventExt.timestamp cfg w.clock).length = cfg.kXcpDaqTimestampSize := by
    unfold XcpEventExt.timestamp
    split <;> simp
  have hf : ∀ l : List Nat, (l.flatMap (entryBytes w offset)).length
      = (l.map w.xcp.OdtEntrySize).sum := by
    intro l
    induction l with
    | nil => rfl
    | cons e l ih =>
      rw [List.flatMap_cons, List.length_append, ih, List.map_cons, List.sum_cons]
      simp [entryBytes]
  unfold dtoBuffer XcpEventExt.dtoBytes
  rw [List.length_append, List.length_append, hf]
  by_cases ho : o = (w.xcp.Daq.DaqList d).firstOdt
  · rw [if_pos ho, if_pos ho, ht]; simp
  · rw [if_neg ho, if_neg ho]; simp

/-- The event returns after an event of the same channel has returned. -/
theorem eventReturns_eventCleared (x : tXcpData) (event n : Nat) (h : eventReturns x event) :
    eventReturns (eventCleared x event n) event := by
  obtain ⟨f1, f2, f3, f4, -, -⟩ := eventCleared_frame x event n
  have hO : (eventCleared x event n).Odt = x.Odt := rfl
  have hS : (eventCleared x event n).OdtEntrySize = x.OdtEntrySize := rfl
  have hC : (eventCleared x event n).Daq.DaqCount = x.Daq.DaqCount := rfl
  simp only [eventReturns, odtsOf, listRunning, listBound, f1, f2, f3, f4, hO, hS, hC]
  exact h

/-- C25, counterexample: in scenario S3, whatever the transport does with
the DTO of a first event on channel 7 (`XcpSendDto` returns nothing and
`XcpEventExt` has no input from the transport), the flag OVERRUN of list 0 is
not set after it and the DTO of the next event has byte 0 equal to `00`, bit
7 clear. -/
theorem XcpEvent_overrun_never_set :
    (XcpEvent cfg512 slaveMeasuring 7).map (fun r => decide (listOverrun r.1.xcp 0))
        = some false ∧
      ((XcpEvent cfg512 slaveMeasuring 7).bind (fun r => XcpEvent cfg512 r.1 7)).map
          (fun r => r.2)
        = some [[0x00, 0, 1, 2, 3, 4, 0xDE, 0xAD, 0xBE, 0xEF]] := by
  decide

/-- C25, amended: while DAQ is running, in a state in which the event reads
the records and entries inside the arrays, through arena pointers laid out
for the counts, fills no DTO beyond `kXcpMaxDTO` bytes, and returns, an event
and the next event of the same channel return.  The first leaves no
list with the flag OVERRUN that had not it before, and leaves every list
below `DaqCount` that is RUNNING, bound to the channel and has an ODT without
the flag.  Its DTOs are the first `l` bytes of the DTO buffers of the ODTs of
`eventOdts`, with bit 7 added to byte 0 for the first ODT of a list that had
the flag OVERRUN; the DTOs of the next event are those of the same ODTs with
no bit 7 added.  Byte 0 of the buffer is the relative ODT number, to which
bit 7 is added or not. -/
theorem XcpEventExt_overrun (cfg : Config) (w : Slave) (event offset : Nat)
    (hrun : daqRunning w.xcp) (_hdef : XcpEventExt.defined cfg w.xcp event)
    (hT : eventReturns w.xcp event) :
    ∃ w1 w2,
      XcpEventExt cfg w event offset =
        some (w1, (eventOdts w.xcp event).map (fun p =>
          (dtoBuffer cfg w offset p.1 p.2
              (decide (p.2 = (w.xcp.Daq.DaqList p.1).firstOdt ∧ listOverrun w.xcp p.1))).take
            ((dtoBuffer cfg w offset p.1 p.2
              (decide (p.2 = (w.xcp.Daq.DaqList p.1).firstOdt ∧ listOverrun w.xcp p.1))).length
              % 256))) ∧
      XcpEventExt cfg w1 event offset =
        some (w2, (eventOdts w.xcp event).map (fun p =>
          (dtoBuffer cfg w offset p.1 p.2 false).take
            ((dtoBuffer cfg w offset p.1 p.2 false).length % 256))) ∧
      (∀ d, listOverrun w1.xcp d → listOverrun w.xcp d) ∧
      (∀ d, d < w.xcp.Daq.DaqCount → listRunning w.xcp d → listBound w.xcp d event →
        (w.xcp.Daq.DaqList d).firstOdt ≤ (w.xcp.Daq.DaqList d).lastOdt →
        ¬ listOverrun w1.xcp d) ∧
      (∀ d o b7, (dtoBuffer cfg w offset d o b7).head? =
        some (if b7 then toUInt8 ((o : Int) - ((w.xcp.Daq.DaqList d).firstOdt : Int)) ||| 0x80
          else toUInt8 ((o : Int) - ((w.xcp.Daq.DaqList d).firstOdt : Int)))) := by
  obtain ⟨f1, f2, f3, f4, f5, f6⟩ := eventCleared_frame w.xcp event w.xcp.Daq.DaqCount
  have h2 := XcpEventExt_spec cfg { w with xcp := eventCleared w.xcp event w.xcp.Daq.DaqCount }
    event offset hrun (eventReturns_eventCleared w.xcp event _ hT)
  simp only [eventOdts_eventCleared] at h2
  refine ⟨_, { w with xcp := (eventCleared (eventCleared w.xcp event w.xcp.Daq.DaqCount) event
      w.xcp.Daq.DaqCount) }, XcpEventExt_spec cfg w event offset hrun hT, ?_, f5, f6, ?_⟩
  · rw [h2]
    congr 2
    apply List.map_congr_left
    intro p hp
    obtain ⟨d, o⟩ := p
    obtain ⟨g1, g2, g3, g4, g5, -⟩ := (mem_eventOdts w.xcp event d o).mp hp
    have hno := f6 d g1 g2 g3 (by omega)
    simp only [dtoOf, hno, and_false, decide_False]
    rw [dtoBuffer_congr cfg w { w with xcp := eventCleared w.xcp event w.xcp.Daq.DaqCount }
      offset d o false rfl rfl rfl (f1 d) rfl rfl]
  · intro d o b7
    simp [dtoBuffer]

/-- Witness of C25, amended: two events of scenario S3. -/
theorem XcpEventExt_overrun_witness :
    daqRunning slaveMeasuring.xcp ∧ XcpEventExt.defined cfg512 slaveMeasuring.xcp 7 ∧
      eventReturns slaveMeasuring.xcp 7 ∧
      ∃ w1 w2,
        XcpEventExt cfg512 slaveMeasuring 7 0 =
          some (w1, (eventOdts slaveMeasuring.xcp 7).map (fun p =>
            (dtoBuffer cfg512 slaveMeasuring 0 p.1 p.2
                (decide (p.2 = (slaveMeasuring.xcp.Daq.DaqList p.1).firstOdt ∧
                  listOverrun slaveMeasuring.xcp p.1))).take
              ((dtoBuffer cfg512 slaveMeasuring 0 p.1 p.2
                (decide (p.2 = (slaveMeasuring.xcp.Daq.DaqList p.1).firstOdt ∧
                  listOverrun slaveMeasuring.xcp p.1))).length % 256))) ∧
        XcpEventExt cfg512 w1 7 0 =
          some (w2, (eventOdts slaveMeasuring.xcp 7).map (fun p =>
            (dtoBuffer cfg512 slaveMeasuring 0 p.1 p.2 false).take
              ((dtoBuffer cfg512 slaveMeasuring 0 p.1 p.2 false).length % 256))) :=
  ⟨by decide, by decide, by decide,
   (XcpEventExt_overrun cfg512 slaveMeasuring 7 0 (by decide) (by decide) (by decide)).imp
     (fun _ h => h.imp (fun _ h => ⟨h.1, h.2.1⟩))⟩

/-! ### The event list -/

/-- A sequence of calls of `XcpCreateEvent` on an event list with `n` events,
for a capacity below `2^16`: the `k`-th call returns `n + k` while this is
below the capacity and `0xFFFF` afterwards, and the count ends at the
capacity at most. -/
theorem createEvents_spec (XCP_MAX_EVENT : Nat) (hmax : XCP_MAX_EVENT ≤ 0xFFFF) :
    ∀ (args : List tCreateEventArgs) (r : tXcpEventList),
      r.ApplXcpEventCount ≤ XCP_MAX_EVENT →
      (createEvents XCP_MAX_EVENT r args).2 =
          (List.range args.length).map (fun k =>
            if r.ApplXcpEventCount + k < XCP_MAX_EVENT then r.ApplXcpEventCount + k
            else 0xFFFF) ∧
        (createEvents XCP_MAX_EVENT r args).1.ApplXcpEventCount =
          min (r.ApplXcpEventCount + args.length) XCP_MAX_EVENT := by
  intro args
  induction args with
  | nil =>
    intro r hr
    simp only [createEvents, List.length_nil, List.range_zero, List.map_nil, Nat.add_zero,
      true_and]
    omega
  | cons a rest ih =>
    intro r hr
    simp only [createEvents, List.length_cons]
    rw [List.range_succ_eq_map, List.map_cons, List.map_map]
    by_cases hfull : r.ApplXcpEventCount ≥ XCP_MAX_EVENT
    · have h1 : XcpCreateEvent XCP_MAX_EVENT r a.name a.cycleTime a.sampleCount a.size
          = (r, 0xFFFF) := by
        simp [XcpCreateEvent, hfull]
      rw [h1]
      obtain ⟨i1, i2⟩ := ih r hr
      refine ⟨?_, ?_⟩
      · simp only [i1]
        congr 1
        · rw [if_neg (by omega)]
        · apply List.map_congr_left
          intro k _
          simp only [Function.comp]
          rw [if_neg (by omega), if_neg (by omega)]
      · rw [i2]; omega
    · have hmod : (r.ApplXcpEventCount + 1) % 65536 = r.ApplXcpEventCount + 1 :=
        Nat.mod_eq_of_lt (by omega)
      have h1 : (XcpCreateEvent XCP_MAX_EVENT r a.name a.cycleTime a.sampleCount a.size).2
          = r.ApplXcpEventCount := by
        simp [XcpCreateEvent, hfull]
      have h2 : (XcpCreateEvent XCP_MAX_EVENT r a.name a.cycleTime a.sampleCount
          a.size).1.ApplXcpEventCount = r.ApplXcpEventCount + 1 := by
        simp only [XcpCreateEvent, hfull, if_false, hmod]
      obtain ⟨i1, i2⟩ := ih
        (XcpCreateEvent XCP_MAX_EVENT r a.name a.cycleTime a.sampleCount a.size).1
        (by rw [h2]; omega)
      refine ⟨?_, ?_⟩
      · rw [i1, h1, h2]
        congr 1
        · rw [if_pos (by omega)]; rfl
        · apply List.map_congr_left
          intro k _
          simp only [Function.comp]
          have : r.ApplXcpEventCount + 1 + k = r.ApplXcpEventCount + (k + 1) := by omega
          rw [this]
      · rw [i2, h2]; omega

/-- C30: for an event list of a capacity below `2^16`.  While fewer than
`XCP_MAX_EVENT` events are created, `XcpCreateEvent` returns the count,
stores the descriptor at this index, changes no other descriptor and raises
the count by one; with `XCP_MAX_EVENT` events or more it returns `0xFFFF` and
leaves the event list unchanged; a count of at most `XCP_MAX_EVENT` stays so.
From the empty event list the calls return 0, 1, 2, ... in the order of the
calls while the number is below `XCP_MAX_EVENT`, and `0xFFFF` afterwards. -/
theorem XcpCreateEvent_spec (XCP_MAX_EVENT : Nat) (r : tXcpEventList)
    (name cycleTime sampleCount size : Nat) (hmax : XCP_MAX_EVENT ≤ 0xFFFF) :
    (r.ApplXcpEventCount < XCP_MAX_EVENT →
      (XcpCreateEvent XCP_MAX_EVENT r name cycleTime sampleCount size).2
        = r.ApplXcpEventCount ∧
      (XcpCreateEvent XCP_MAX_EVENT r name cycleTime sampleCount size).1.ApplXcpEventCount
        = r.ApplXcpEventCount + 1 ∧
      (XcpCreateEvent XCP_MAX_EVENT r name cycleTime sampleCount size).1.ApplXcpEventList
          r.ApplXcpEventCount
        = { name := name, timeUnit := (XcpCreateEvent.loop (cycleTime % 65536) 3).2,
            timeCycle := (XcpCreateEvent.loop (cycleTime % 65536) 3).1 % 256,
            sampleCount := sampleCount % 65536, size := size % 2 ^ 32 } ∧
      ∀ i, i ≠ r.ApplXcpEventCount →
        (XcpCreateEvent XCP_MAX_EVENT r name cycleTime sampleCount size).1.ApplXcpEventList i
          = r.ApplXcpEventList i) ∧
    (r.ApplXcpEventCount ≥ XCP_MAX_EVENT →
      XcpCreateEvent XCP_MAX_EVENT r name cycleTime sampleCount size = (r, 0xFFFF)) ∧
    (r.ApplXcpEventCount ≤ XCP_MAX_EVENT →
      (XcpCreateEvent XCP_MAX_EVENT r name cycleTime sampleCount size).1.ApplXcpEventCount
        ≤ XCP_MAX_EVENT) ∧
    (∀ args : List tCreateEventArgs,
      (createEvents XCP_MAX_EVENT eventListInit args).2 =
          (List.range args.length).map (fun k => if k < XCP_MAX_EVENT then k else 0xFFFF) ∧
        (createEvents XCP_MAX_EVENT eventListInit args).1.ApplXcpEventCount ≤ XCP_MAX_EVENT) := by
  refine ⟨?_, ?_, ?_, ?_⟩
  · intro h
    have hmod : (r.ApplXcpEventCount + 1) % 65536 = r.ApplXcpEventCount + 1 :=
      Nat.mod_eq_of_lt (by omega)
    have hn : ¬ r.ApplXcpEventCount ≥ XCP_MAX_EVENT := by omega
    simp only [XcpCreateEvent, hn, if_false, hmod, Function.update_same, true_and]
    intro i hi
    rw [Function.update_noteq hi]
  · intro h
    simp [XcpCreateEvent, h]
  · intro h
    by_cases hfull : r.ApplXcpEventCount ≥ XCP_MAX_EVENT
    · simp only [XcpCreateEvent, hfull, if_true]; exact h
    · have hmod : (r.ApplXcpEventCount + 1) % 65536 = r.ApplXcpEventCount + 1 :=
        Nat.mod_eq_of_lt (by omega)
      simp only [XcpCreateEvent, hfull, if_false, hmod]
      omega
  · intro args
    obtain ⟨i1, i2⟩ := createEvents_spec XCP_MAX_EVENT hmax args eventListInit
      (Nat.zero_le _)
    refine ⟨?_, by rw [i2]; exact Nat.min_le_right _ _⟩
    rw [i1]
    apply List.map_congr_left
    intro k _
    simp [eventListInit]

/-- Witness of C30: the first event created on a list of capacity 2 gets the
id 0. -/
theorem XcpCreateEvent_spec_witness :
    (XcpCreateEvent 2 eventListInit 0x3000 1000 1 8).2 = eventListInit.ApplXcpEventCount :=
  ((XcpCreateEvent_spec 2 eventListInit 0x3000 1000 1 8 (by decide)).1 (by decide)).1

/-! ### Event cycle and address conversion -/

/-- Successive floor divisions by 10 are one floor division by the power of
ten. -/
theorem divs10_eq (k c : Nat) : divs10 k c = c / 10 ^ k := by
  induction k generalizing c with
  | zero => simp [divs10]
  | succ k ih => rw [divs10, ih, Nat.div_div_eq_div_mul, pow_succ, Nat.mul_comm]

/-- One more division divides the result of the divisions before. -/
theorem divs10_succ (k c : Nat) : divs10 (k + 1) c = divs10 k c / 10 := by
  rw [divs10_eq, divs10_eq, Nat.div_div_eq_div_mul, pow_succ]

/-- The loop of `XcpCreateEvent` divides by 10 the least number of times that
brings the cycle time below 256 and counts the divisions in the byte
`timeUnit`. -/
theorem XcpCreateEvent.loop_divs10 (c : Nat) : ∀ u : Nat,
    ∃ k, divs10 k c < 256 ∧ (∀ j, j < k → 256 ≤ divs10 j c) ∧
      XcpCreateEvent.loop c u = (divs10 k c, if k = 0 then u else (u + k) % 256) := by
  induction c using Nat.strong_induction_on with
  | _ c ih =>
    intro u
    rw [XcpCreateEvent.loop]
    by_cases h : c ≥ 256
    · rw [dif_pos h]
      obtain ⟨k, h1, h2, h3⟩ := ih (c / 10) (by omega) ((u + 1) % 256)
      refine ⟨k + 1, h1, ?_, ?_⟩
      · intro j hj
        cases j with
        | zero => exact h
        | succ j => exact h2 j (by omega)
      · rw [h3]
        simp only [divs10, Nat.succ_ne_zero, if_false]
        congr 1
        split <;> omega
    · rw [dif_neg h]
      exact ⟨0, by simpa [divs10] using h, fun j hj => absurd hj (Nat.not_lt_zero _), rfl⟩

/-- The descriptor `XcpCreateEvent` stores for a 16 bit cycle time `c` while
the event list has room: unit `3 + k` and cycle `c / 10 / ... / 10` with `k`
divisions, `k` being the least number of divisions that brings the cycle
below 256, at most three. -/
theorem XcpCreateEvent_stored_divs10 (XCP_MAX_EVENT : Nat) (r : tXcpEventList)
    (name c sampleCount size : Nat) (hc : c < 65536)
    (hfree : r.ApplXcpEventCount < XCP_MAX_EVENT) :
    ∃ k, k ≤ 3 ∧ divs10 k c < 256 ∧ (∀ j, j < k → 256 ≤ divs10 j c) ∧
      ((XcpCreateEvent XCP_MAX_EVENT r name c sampleCount size).1.ApplXcpEventList
        r.ApplXcpEventCount).timeUnit = 3 + k ∧
      ((XcpCreateEvent XCP_MAX_EVENT r name c sampleCount size).1.ApplXcpEventList
        r.ApplXcpEventCount).timeCycle = divs10 k c := by
  obtain ⟨k, h1, h2, h3⟩ := XcpCreateEvent.loop_divs10 c 3
  have hk : k ≤ 3 := by
    by_contra hgt
    have := h2 3 (by omega)
    rw [divs10_eq] at this
    have : c / 10 ^ 3 < 66 := by
      rw [Nat.div_lt_iff_lt_mul (by norm_num)]; omega
    omega
  have hu : (if k = 0 then 3 else (3 + k) % 256) = 3 + k := by split <;> omega
  rw [hu] at h3
  have hn : ¬ r.ApplXcpEventCount ≥ XCP_MAX_EVENT := by omega
  refine ⟨k, hk, h1, h2, ?_, ?_⟩
  · simp only [XcpCreateEvent, hn, if_false, Function.update_same, Nat.mod_eq_of_lt hc, h3]
  · simp only [XcpCreateEvent, hn, if_false, Function.update_same, Nat.mod_eq_of_lt hc, h3,
      Nat.mod_eq_of_lt h1]

/-- C36: for every 16 bit cycle time `c`, while the event list has room,
`XcpCreateEvent` stores `timeUnit = 3 + k` and `timeCycle` = the result of
`k` successive floor divisions of `c` by 10, `k` being the least number of
divisions after which the value is below 256; `timeCycle` is at most 255,
`timeUnit` is between 3 and 6, and for `c < 256` the pair is `(3, c)`. -/
theorem XcpCreateEvent_cycle_algorithm (XCP_MAX_EVENT : Nat) (r : tXcpEventList)
    (name c sampleCount size : Nat) (hc : c < 65536)
    (hfree : r.ApplXcpEventCount < XCP_MAX_EVENT) :
    (∃ k, divs10 k c < 256 ∧ (∀ j, j < k → 256 ≤ divs10 j c) ∧
      ((XcpCreateEvent XCP_MAX_EVENT r name c sampleCount size).1.ApplXcpEventList
        r.ApplXcpEventCount).timeUnit = 3 + k ∧
      ((XcpCreateEvent XCP_MAX_EVENT r name c sampleCount size).1.ApplXcpEventList
        r.ApplXcpEventCount).timeCycle = divs10 k c) ∧
    ((XcpCreateEvent XCP_MAX_EVENT r name c sampleCount size).1.ApplXcpEventList
        r.ApplXcpEventCount).timeCycle ≤ 255 ∧
    3 ≤ ((XcpCreateEvent XCP_MAX_EVENT r name c sampleCount size).1.ApplXcpEventList
        r.ApplXcpEventCount).timeUnit ∧
    ((XcpCreateEvent XCP_MAX_EVENT r name c sampleCount size).1.ApplXcpEventList
        r.ApplXcpEventCount).timeUnit ≤ 6 ∧
    (c < 256 →
      ((XcpCreateEvent XCP_MAX_EVENT r name c sampleCount size).1.ApplXcpEventList
        r.ApplXcpEventCount).timeUnit = 3 ∧
      ((XcpCreateEvent XCP_MAX_EVENT r name c sampleCount size).1.ApplXcpEventList
        r.ApplXcpEventCount).timeCycle = c) := by
  obtain ⟨k, hk, h1, h2, e1, e2⟩ :=
    XcpCreateEvent_stored_divs10 XCP_MAX_EVENT r name c sampleCount size hc hfree
  rw [e1, e2]
  refine ⟨⟨k, h1, h2, rfl, rfl⟩, by omega, by omega, by omega, ?_⟩
  intro hlt
  have hk0 : k = 0 := by
    by_contra hne
    have := h2 0 (by omega)
    simp only [divs10] at this
    omega
  subst hk0
  exact ⟨rfl, rfl⟩

/-- Witness of C36: a cycle time of 2000 is stored with a unit between 3
and 6. -/
theorem XcpCreateEvent_cycle_algorithm_witness :
    3 ≤ ((XcpCreateEvent 2 eventListInit 0x3000 2000 1 8).1.ApplXcpEventList
        eventListInit.ApplXcpEventCount).timeUnit ∧
      ((XcpCreateEvent 2 eventListInit 0x3000 2000 1 8).1.ApplXcpEventList
        eventListInit.ApplXcpEventCount).timeUnit ≤ 6 :=
  ⟨(XcpCreateEvent_cycle_algorithm 2 eventListInit 0x3000 2000 1 8 (by decide) (by decide)).2.2.1,
   (XcpCreateEvent_cycle_algorithm 2 eventListInit 0x3000 2000 1 8 (by decide)
    (by decide)).2.2.2.1⟩

/-- C31, counterexample: the cycle time 10, read as milliseconds, is stored
as unit 3 (1 us) and cycle 10, a pair that denotes 10 us; the pair
`(3, 10 + 1)` denotes 11000 ns, and 10 ms are not below that. -/
theorem XcpCreateEvent_cycle_not_ms :
    ((XcpCreateEvent 2 eventListInit 0x3000 10 1 8).1.ApplXcpEventList 0).timeUnit = 3 ∧
      ((XcpCreateEvent 2 eventListInit 0x3000 10 1 8).1.ApplXcpEventList 0).timeCycle = 10 ∧
      asamCycleNs 3 (10 + 1) = 11000 ∧
      ¬ (10 * 10 ^ 6 <
        asamCycleNs ((XcpCreateEvent 2 eventListInit 0x3000 10 1 8).1.ApplXcpEventList 0).timeUnit
          (((XcpCreateEvent 2 eventListInit 0x3000 10 1 8).1.ApplXcpEventList 0).timeCycle + 1)) := by
  obtain ⟨k, -, -, h2, e1, e2⟩ :=
    XcpCreateEvent_stored_divs10 2 eventListInit 0x3000 10 1 8 (by decide) (by decide)
  have hk0 : k = 0 := by
    by_contra hne
    have := h2 0 (by omega)
    simp only [divs10] at this
    omega
  subst hk0
  have h0 : eventListInit.ApplXcpEventCount = 0 := rfl
  rw [h0] at e1 e2
  rw [e1, e2]
  exact ⟨rfl, rfl, by decide, by decide⟩

/-- C31, amended: for every 16 bit cycle time `c`, while the event list has
room, the pair of unit and cycle `XcpCreateEvent` stores denotes `c` microseconds up to
the truncation of the divisions by 10: the time of `(unit, cycle)` is at most
`c` us, which is less than the time of `(unit, cycle + 1)`. -/
theorem XcpCreateEvent_cycle_us (XCP_MAX_EVENT : Nat) (r : tXcpEventList)
    (name c sampleCount size : Nat) (hc : c < 65536)
    (hfree : r.ApplXcpEventCount < XCP_MAX_EVENT) :
    asamCycleNs
        ((XcpCreateEvent XCP_MAX_EVENT r name c sampleCount size).1.ApplXcpEventList
          r.ApplXcpEventCount).timeUnit
        ((XcpCreateEvent XCP_MAX_EVENT r name c sampleCount size).1.ApplXcpEventList
          r.ApplXcpEventCount).timeCycle ≤ c * 10 ^ 3 ∧
      c * 10 ^ 3 < asamCycleNs
        ((XcpCreateEvent XCP_MAX_EVENT r name c sampleCount size).1.ApplXcpEventList
          r.ApplXcpEventCount).timeUnit
        (((XcpCreateEvent XCP_MAX_EVENT r name c sampleCount size).1.ApplXcpEventList
          r.ApplXcpEventCount).timeCycle + 1) := by
  obtain ⟨k, -, -, -, e1, e2⟩ :=
    XcpCreateEvent_stored_divs10 XCP_MAX_EVENT r name c sampleCount size hc hfree
  rw [e1, e2, divs10_eq]
  unfold asamCycleNs
  have hpos : 0 < 10 ^ k := by positivity
  have hle : c / 10 ^ k * 10 ^ k ≤ c := Nat.div_mul_le_self c (10 ^ k)
  have hlt : c < (c / 10 ^ k + 1) * 10 ^ k := by
    have := Nat.lt_succ_self (c / 10 ^ k)
    rw [Nat.div_lt_iff_lt_mul hpos] at this
    exact this
  have hp : 10 ^ (3 + k) = 10 ^ k * 10 ^ 3 := by rw [pow_add, Nat.mul_comm]
  rw [hp, ← Nat.mul_assoc, ← Nat.mul_assoc]
  exact ⟨Nat.mul_le_mul_right _ hle, Nat.mul_lt_mul_of_pos_right hlt (by norm_num)⟩

/-- Witness of C31, amended: the cycle time 2000 is stored as a pair that denotes at
most 2000 us, and the pair with the next cycle denotes more. -/
theorem XcpCreateEvent_cycle_us_witness :
    asamCycleNs
        ((XcpCreateEvent 2 eventListInit 0x3000 2000 1 8).1.ApplXcpEventList
          eventListInit.ApplXcpEventCount).timeUnit
        ((XcpCreateEvent 2 eventListInit 0x3000 2000 1 8).1.ApplXcpEventList
          eventListInit.ApplXcpEventCount).timeCycle ≤ 2000 * 10 ^ 3 ∧
      2000 * 10 ^ 3 < asamCycleNs
        ((XcpCreateEvent 2 eventListInit 0x3000 2000 1 8).1.ApplXcpEventList
          eventListInit.ApplXcpEventCount).timeUnit
        (((XcpCreateEvent 2 eventListInit 0x3000 2000 1 8).1.ApplXcpEventList
          eventListInit.ApplXcpEventCount).timeCycle + 1) :=
  XcpCreateEvent_cycle_us 2 eventListInit 0x3000 2000 1 8 (by decide) (by decide)

/-- The `_WIN` and `_LINUX64` builds add the base address of the main module
whatever the address extension is. -/
theorem ApplXcpGetPointer_eq (cfg : Config) (addr_ext addr : Nat) :
    ApplXcpGetPointer cfg addr_ext addr = cfg.baseAddr + addr := rfl

/-- C32: for every host pointer `p` inside the 4 GiB window of the main
module, the assertions of `ApplXcpGetAddr` hold and
`ApplXcpGetPointer(0, ApplXcpGetAddr(p)) = p`; for every 32 bit address
`addr`, `ApplXcpGetAddr(ApplXcpGetPointer(0, addr)) = addr`. -/
theorem ApplXcpGetAddr_roundtrip (cfg : Config) :
    (∀ p, cfg.baseAddr ≤ p → p < cfg.baseAddr + 2 ^ 32 →
      ApplXcpGetAddr.assert cfg p ∧ ApplXcpGetAddr cfg p = p - cfg.baseAddr ∧
      ApplXcpGetPointer cfg 0 (ApplXcpGetAddr cfg p) = p) ∧
    (∀ addr, addr < 2 ^ 32 →
      cfg.baseAddr ≤ ApplXcpGetPointer cfg 0 addr ∧
      ApplXcpGetPointer cfg 0 addr < cfg.baseAddr + 2 ^ 32 ∧
      ApplXcpGetAddr cfg (ApplXcpGetPointer cfg 0 addr) = addr) := by
  refine ⟨?_, ?_⟩
  · intro p h1 h2
    have ha : ApplXcpGetAddr cfg p = p - cfg.baseAddr := by
      unfold ApplXcpGetAddr; omega
    refine ⟨⟨h1, by omega⟩, ha, ?_⟩
    rw [ha, ApplXcpGetPointer_eq]; omega
  · intro addr h
    rw [ApplXcpGetPointer_eq]
    refine ⟨by omega, by omega, ?_⟩
    unfold ApplXcpGetAddr; omega

/-- Witness of C32: the pointer `0x401000` of a module loaded at `0x400000`
has the XCP address `0x1000`, which converts back to it. -/
theorem ApplXcpGetAddr_roundtrip_witness :
    ApplXcpGetAddr cfg512 0x401000 = 0x1000 ∧
      ApplXcpGetPointer cfg512 0 (ApplXcpGetAddr cfg512 0x401000) = 0x401000 ∧
      ApplXcpGetAddr cfg512 (ApplXcpGetPointer cfg512 0 0x1000) = 0x1000 :=
  ⟨((ApplXcpGetAddr_roundtrip cfg512).1 0x401000 (by decide) (by decide)).2.1,
   ((ApplXcpGetAddr_roundtrip cfg512).1 0x401000 (by decide) (by decide)).2.2,
   ((ApplXcpGetAddr_roundtrip cfg512).2 0x1000 (by decide)).2.2⟩

/-- C33, the code at the failing input: in the `_WIN` and `_LINUX64` builds
`ApplXcpGetPointer` adds the base address of the main module for the extension `0xFF` as for every other
one.  With the main module at `0x400000` and the station identifier at
`0x402000`, `ApplXcpGetPointer(0xFF, 0x402000)` is `0x802000`, and GET_ID
with type ASAM_NAME, answered positively with the length 7, leaves the MTA at
`0x802000`, not at the station identifier.  The `XCPSIM_ENABLE_SO` build adds
no base address for an extension that is no module, so there extension
`0xFF` is the identity whenever `XCP_MAX_MODULE` is at most `0xFF`. -/
theorem ApplXcpGetPointer_0xFF_adds_base :
    (∀ (cfg : Config) (addr : Nat), ApplXcpGetPointer cfg 0xFF addr = cfg.baseAddr + addr) ∧
      cfgStation.baseAddr = 0x400000 ∧ cfgStation.kXcpStationId = 0x402000 ∧
      ApplXcpGetPointer cfgStation 0xFF 0x402000 = 0x802000 ∧
      (XcpCommand cfgStation slaveConnected (mkGET_ID IDT_ASAM_NAME)).2
        = some [0xFF, 0, 1, 0xFA, 7, 0, 0, 0] ∧
      (XcpCommand cfgStation slaveConnected (mkGET_ID IDT_ASAM_NAME)).1.xcp.Mta = 0x802000 ∧
      (∀ (XCP_MAX_MODULE : Fin 256) (gModuleProperties : Nat → Nat) (addr : Nat),
        ApplXcpGetPointer.SO XCP_MAX_MODULE.val gModuleProperties 0xFF addr = addr) := by
  refine ⟨fun _ _ => rfl, rfl, rfl, by decide, by decide, by decide, ?_⟩
  intro m g addr
  have hm : ¬ 0xFF < m.val := by have := m.isLt; omega
  simp [ApplXcpGetPointer.SO, hm]

/-! ### WRITE_DAQ and WRITE_DAQ_MULTIPLE -/

/-- WRITE_DAQ in the connected state: what the command does to the state,
and its answer, by the outcome of its checks. -/
theorem XcpCommand_WRITE_DAQ_step (cfg : Config) (w : Slave) (pCmd : tXcpCto)
    (hcon : connected w.xcp) (hcmd : pCmd.CRO_CMD = .CC_WRITE_DAQ) :
    connected (XcpCommand cfg w pCmd).1.xcp ∧
      (XcpCommand cfg w pCmd).1.xcp.Daq = w.xcp.Daq ∧
      (XcpCommand cfg w pCmd).1.xcp.Odt = w.xcp.Odt ∧
      (XcpCommand cfg w pCmd).1.xcp.Mta = w.xcp.Mta ∧
      (XcpCommand cfg w pCmd).1.mem = w.mem ∧
      (XcpCommand cfg w pCmd).1.clock = w.clock ∧
      (XcpCommand cfg w pCmd).1.xcp.SessionStatus =
        (if cfg.XCP_ENABLE_GET_SESSION_STATUS_API then w.xcp.SessionStatus ||| SS_POLLING
          else w.xcp.SessionStatus) ∧
      ((cfg.XCP_ENABLE_PARAMETER_CHECK = true ∧
          (pCmd.CRO_WRITE_DAQ_SIZE % 256 = 0
            ∨ pCmd.CRO_WRITE_DAQ_SIZE > cfg.XCP_MAX_ODT_ENTRY_SIZE % 256)) →
        (XcpCommand cfg w pCmd).2 = some [PID_ERR, CRC_OUT_OF_RANGE] ∧
        (XcpCommand cfg w pCmd).1.xcp.OdtEntrySize = w.xcp.OdtEntrySize ∧
        (XcpCommand cfg w pCmd).1.xcp.OdtEntryAddr = w.xcp.OdtEntryAddr ∧
        (XcpCommand cfg w pCmd).1.xcp.DaqListPtr = w.xcp.DaqListPtr) ∧
      (¬ (cfg.XCP_ENABLE_PARAMETER_CHECK = true ∧
          (pCmd.CRO_WRITE_DAQ_SIZE % 256 = 0
            ∨ pCmd.CRO_WRITE_DAQ_SIZE > cfg.XCP_MAX_ODT_ENTRY_SIZE % 256)) →
        (cfg.XCP_ENABLE_PARAMETER_CHECK = true ∧
          (0 = w.xcp.Daq.DaqCount ∨ 0 = w.xcp.Daq.OdtCount ∨ 0 = w.xcp.Daq.OdtEntryCount)) →
        (XcpCommand cfg w pCmd).2 = some [PID_ERR, CRC_DAQ_CONDIF] ∧
        (XcpCommand cfg w pCmd).1.xcp.OdtEntrySize = w.xcp.OdtEntrySize ∧
        (XcpCommand cfg w pCmd).1.xcp.OdtEntryAddr = w.xcp.OdtEntryAddr ∧
        (XcpCommand cfg w pCmd).1.xcp.DaqListPtr = w.xcp.DaqListPtr) ∧
      (¬ (cfg.XCP_ENABLE_PARAMETER_CHECK = true ∧
          (pCmd.CRO_WRITE_DAQ_SIZE % 256 = 0
            ∨ pCmd.CRO_WRITE_DAQ_SIZE > cfg.XCP_MAX_ODT_ENTRY_SIZE % 256)) →
        ¬ (cfg.XCP_ENABLE_PARAMETER_CHECK = true ∧
          (0 = w.xcp.Daq.DaqCount ∨ 0 = w.xcp.Daq.OdtCount ∨ 0 = w.xcp.Daq.OdtEntryCount)) →
        (XcpCommand cfg w pCmd).2 = some [0xFF] ∧
        (XcpCommand cfg w pCmd).1.xcp.OdtEntrySize =
          Function.update w.xcp.OdtEntrySize w.xcp.DaqListPtr (pCmd.CRO_WRITE_DAQ_SIZE % 256) ∧
        (XcpCommand cfg w pCmd).1.xcp.OdtEntryAddr =
          Function.update w.xcp.OdtEntryAddr w.xcp.DaqListPtr
            (ApplXcpGetPointer cfg pCmd.CRO_WRITE_DAQ_EXT pCmd.CRO_WRITE_DAQ_ADDR) ∧
        (XcpCommand cfg w pCmd).1.xcp.DaqListPtr = (w.xcp.DaqListPtr + 1) % 65536) := by
  have hne : pCmd.CRO_CMD ≠ .CC_CONNECT := by rw [hcmd]; decide
  obtain ⟨f1, f2, f3, fD, fO, fA, fS, -, -, -, fP⟩ := XcpCommand.entry_frame cfg w
  obtain ⟨c0, c1⟩ := XcpCommand.entry_Crm cfg w
  have hb := XcpCommand.body_connected cfg w pCmd hcon hne
  simp only [XcpCommand.switch, hcmd, XcpCommand.WRITE_DAQ, fD] at hb
  have hS : (XcpCommand.entry cfg w).xcp.SessionStatus =
      (if cfg.XCP_ENABLE_GET_SESSION_STATUS_API then w.xcp.SessionStatus ||| SS_POLLING
        else w.xcp.SessionStatus) := by
    cases h : cfg.XCP_ENABLE_GET_SESSION_STATUS_API <;> simp [XcpCommand.entry, h, setCrmByte]
  have hC := XcpCommand.entry_connected cfg w hcon
  by_cases h1 : cfg.XCP_ENABLE_PARAMETER_CHECK = true ∧
      (pCmd.CRO_WRITE_DAQ_SIZE % 256 = 0
        ∨ pCmd.CRO_WRITE_DAQ_SIZE > cfg.XCP_MAX_ODT_ENTRY_SIZE % 256)
  · rw [if_pos h1] at hb
    obtain ⟨g1, g2, g3, g4, g5, g6, g7⟩ := XcpCommand_of_negative cfg w _ pCmd _ hb
    refine ⟨by simpa [connected, g3] using hC, by rw [g2.1, fD], by rw [g2.2.1, fO],
      by rw [g4, f3], by rw [g6, f1], by rw [g7, f2], by rw [g3, hS], ?_, ?_, ?_⟩
    · intro _
      exact ⟨by simpa [CRC_OUT_OF_RANGE] using g1, by rw [g2.2.2.2.1, fS],
        by rw [g2.2.2.1, fA], by rw [g5, fP]⟩
    · intro h; exact absurd h1 h
    · intro h; exact absurd h1 h
  · rw [if_neg h1] at hb
    by_cases h2 : cfg.XCP_ENABLE_PARAMETER_CHECK = true ∧
        (0 = w.xcp.Daq.DaqCount ∨ 0 = w.xcp.Daq.OdtCount ∨ 0 = w.xcp.Daq.OdtEntryCount)
    · rw [if_pos h2] at hb
      obtain ⟨g1, g2, g3, g4, g5, g6, g7⟩ := XcpCommand_of_negative cfg w _ pCmd _ hb
      refine ⟨by simpa [connected, g3] using hC, by rw [g2.1, fD], by rw [g2.2.1, fO],
        by rw [g4, f3], by rw [g6, f1], by rw [g7, f2], by rw [g3, hS], ?_, ?_, ?_⟩
      · intro h; exact absurd h h1
      · intro _ _
        exact ⟨by simpa [CRC_DAQ_CONDIF] using g1, by rw [g2.2.2.2.1, fS],
          by rw [g2.2.2.1, fA], by rw [g5, fP]⟩
      · intro _ h; exact absurd h2 h
    · rw [if_neg h2] at hb
      rw [XcpCommand_of_positive cfg w _ pCmd hb]
      refine ⟨hC, rfl, fO, f3, f1, f2, hS, ?_, ?_, ?_⟩
      · intro h; exact absurd h h1
      · intro _ h; exact absurd h h2
      · intro _ _
        refine ⟨?_, ?_, ?_, ?_⟩
        · simp [XcpSendCrm, c0, c1, List.range_succ]
        · show Function.update _ _ _ = _
          rw [fS, fP]
        · show Function.update _ _ _ = _
          rw [fA, fP]
        · show (_ + 1) % 65536 = _
          rw [fP]

/-- The loop of WRITE_DAQ_MULTIPLE keeps the response buffer. -/
theorem XcpCommand.WRITE_DAQ_MULTIPLE.loop_Crm (cfg : Config) (pCmd : tXcpCto) (n : Nat) :
    ∀ (i : Nat) (w : Slave),
      (XcpCommand.WRITE_DAQ_MULTIPLE.loop cfg pCmd n i w).1.xcp.Crm = w.xcp.Crm ∧
      (XcpCommand.WRITE_DAQ_MULTIPLE.loop cfg pCmd n i w).1.xcp.CrmLen = w.xcp.CrmLen := by
  induction n with
  | zero => intro i w; exact ⟨rfl, rfl⟩
  | succ n ih =>
    intro i w
    unfold XcpCommand.WRITE_DAQ_MULTIPLE.loop
    split
    · exact ⟨rfl, rfl⟩
    · split
      · exact ⟨rfl, rfl⟩
      · split
        · exact ⟨rfl, rfl⟩
        · exact ih _ _

/-- With parameter checks, a byte size and `XCP_MAX_ODT_ENTRY_SIZE` below
256, the two checks of the loop of WRITE_DAQ_MULTIPLE on element `i` fail
exactly when the element is invalid. -/
theorem elementInvalid_iff (cfg : Config) (pCmd : tXcpCto) (i : Nat)
    (hmax : cfg.XCP_MAX_ODT_ENTRY_SIZE < 256)
    (hbyte : pCmd.CRO_WRITE_DAQ_MULTIPLE_SIZE i < 256) :
    elementInvalid cfg pCmd i ↔
      ((pCmd.CRO_WRITE_DAQ_MULTIPLE_SIZE i % 256 = 0
          ∨ pCmd.CRO_WRITE_DAQ_MULTIPLE_SIZE i > cfg.XCP_MAX_ODT_ENTRY_SIZE % 256) ∨
        pCmd.CRO_WRITE_DAQ_MULTIPLE_BITOFFSET i ≠ 0xFF) := by
  unfold elementInvalid
  rw [Nat.mod_eq_of_lt hmax, Nat.mod_eq_of_lt hbyte]
  tauto

/-- WRITE_DAQ commands sent to a connected slave with parameter checks while
one of the three counts is zero change no ODT entry and not the write
cursor. -/
theorem runCommands_WRITE_DAQ_empty (cfg : Config)
    (hpc : cfg.XCP_ENABLE_PARAMETER_CHECK = true) : ∀ (cs : List tXcpCto) (w : Slave),
    connected w.xcp → (∀ c ∈ cs, c.CRO_CMD = .CC_WRITE_DAQ) →
    (0 = w.xcp.Daq.DaqCount ∨ 0 = w.xcp.Daq.OdtCount ∨ 0 = w.xcp.Daq.OdtEntryCount) →
    (runCommands cfg w cs).xcp.OdtEntrySize = w.xcp.OdtEntrySize ∧
      (runCommands cfg w cs).xcp.OdtEntryAddr = w.xcp.OdtEntryAddr ∧
      (runCommands cfg w cs).xcp.DaqListPtr = w.xcp.DaqListPtr := by
  intro cs
  induction cs with
  | nil => intro w _ _ _; exact ⟨rfl, rfl, rfl⟩
  | cons c cs ih =>
    intro w hcon hcs hz
    simp only [runCommands]
    obtain ⟨s1, s2, -, -, -, -, -, s8, s9, -⟩ :=
      XcpCommand_WRITE_DAQ_step cfg w c hcon (hcs c (List.mem_cons_self _ _))
    obtain ⟨i1, i2, i3⟩ := ih (XcpCommand cfg w c).1 s1
      (fun c' hc' => hcs c' (List.mem_cons_of_mem _ hc')) (by rw [s2]; exact hz)
    rw [i1, i2, i3]
    by_cases h1 : cfg.XCP_ENABLE_PARAMETER_CHECK = true ∧
        (c.CRO_WRITE_DAQ_SIZE % 256 = 0
          ∨ c.CRO_WRITE_DAQ_SIZE > cfg.XCP_MAX_ODT_ENTRY_SIZE % 256)
    · exact (s8 h1).2
    · exact (s9 h1 ⟨hpc, hz⟩).2

/-- The loop of WRITE_DAQ_MULTIPLE with parameter checks, while none of the
three counts is zero, against WRITE_DAQ commands for the elements before the
first invalid one: the same ODT entries and write cursor; the loop ends in
`positive_response` when no element is invalid and in
`error(CRC_OUT_OF_RANGE)` when there is one. -/
theorem XcpCommand.WRITE_DAQ_MULTIPLE.loop_WRITE_DAQ (cfg : Config) (pCmd : tXcpCto)
    (hpc : cfg.XCP_ENABLE_PARAMETER_CHECK = true) (hmax : cfg.XCP_MAX_ODT_ENTRY_SIZE < 256)
    (hbyte : ∀ i, pCmd.CRO_WRITE_DAQ_MULTIPLE_SIZE i < 256) (n : Nat) :
    ∀ (i : Nat) (a b : Slave), connected b.xcp → a.xcp.Daq = b.xcp.Daq →
      ¬ (0 = b.xcp.Daq.DaqCount ∨ 0 = b.xcp.Daq.OdtCount ∨ 0 = b.xcp.Daq.OdtEntryCount) →
      a.xcp.OdtEntrySize = b.xcp.OdtEntrySize → a.xcp.OdtEntryAddr = b.xcp.OdtEntryAddr →
      a.xcp.DaqListPtr = b.xcp.DaqListPtr →
      (XcpCommand.WRITE_DAQ_MULTIPLE.loop cfg pCmd n i a).1.xcp.OdtEntrySize =
        (runCommands cfg b (((List.range' i n).takeWhile
          (fun i => decide (¬ elementInvalid cfg pCmd i))).map
            (elementWRITE_DAQ pCmd))).xcp.OdtEntrySize ∧
      (XcpCommand.WRITE_DAQ_MULTIPLE.loop cfg pCmd n i a).1.xcp.OdtEntryAddr =
        (runCommands cfg b (((List.range' i n).takeWhile
          (fun i => decide (¬ elementInvalid cfg pCmd i))).map
            (elementWRITE_DAQ pCmd))).xcp.OdtEntryAddr ∧
      (XcpCommand.WRITE_DAQ_MULTIPLE.loop cfg pCmd n i a).1.xcp.DaqListPtr =
        (runCommands cfg b (((List.range' i n).takeWhile
          (fun i => decide (¬ elementInvalid cfg pCmd i))).map
            (elementWRITE_DAQ pCmd))).xcp.DaqListPtr ∧
      ((∀ j ∈ List.range' i n, ¬ elementInvalid cfg pCmd j) →
        (XcpCommand.WRITE_DAQ_MULTIPLE.loop cfg pCmd n i a).2 = .positive_response) ∧
      ((∃ j ∈ List.range' i n, elementInvalid cfg pCmd j) →
        (XcpCommand.WRITE_DAQ_MULTIPLE.loop cfg pCmd n i a).2
          = .negative_response CRC_OUT_OF_RANGE) := by
  induction n with
  | zero =>
    intro i a b _ _ _ hs ha hp
    simp [XcpCommand.WRITE_DAQ_MULTIPLE.loop, runCommands, hs, ha, hp]
  | succ n ih =>
    intro i a b hcon hD hnz hs ha hp
    have hiff := elementInvalid_iff cfg pCmd i hmax (hbyte i)
    rw [List.range'_succ]
    unfold XcpCommand.WRITE_DAQ_MULTIPLE.loop
    simp only [hpc, true_and]
    by_cases hinv : elementInvalid cfg pCmd i
    · have hdec : decide (¬ elementInvalid cfg pCmd i) = false := by simp [hinv]
      rw [List.takeWhile_cons, hdec]
      simp only [Bool.false_eq_true, if_false, List.map_nil, runCommands]
      rcases hiff.mp hinv with h | h
      · rw [if_pos h]
        exact ⟨hs, ha, hp, fun hall => absurd hinv (hall i (List.mem_cons_self _ _)),
          fun _ => rfl⟩
      · by_cases h0 : pCmd.CRO_WRITE_DAQ_MULTIPLE_SIZE i % 256 = 0
            ∨ pCmd.CRO_WRITE_DAQ_MULTIPLE_SIZE i > cfg.XCP_MAX_ODT_ENTRY_SIZE % 256
        · rw [if_pos h0]
          exact ⟨hs, ha, hp, fun hall => absurd hinv (hall i (List.mem_cons_self _ _)),
            fun _ => rfl⟩
        · rw [if_neg h0, if_pos h]
          exact ⟨hs, ha, hp, fun hall => absurd hinv (hall i (List.mem_cons_self _ _)),
            fun _ => rfl⟩
    · have hdec : decide (¬ elementInvalid cfg pCmd i) = true := by simp [hinv]
      rw [List.takeWhile_cons, hdec]
      simp only [if_true, List.map_cons, runCommands]
      have hv := fun h => hinv (hiff.mpr h)
      have h0 : ¬ (pCmd.CRO_WRITE_DAQ_MULTIPLE_SIZE i % 256 = 0
          ∨ pCmd.CRO_WRITE_DAQ_MULTIPLE_SIZE i > cfg.XCP_MAX_ODT_ENTRY_SIZE % 256) :=
        fun h => hv (Or.inl h)
      have h1 : ¬ pCmd.CRO_WRITE_DAQ_MULTIPLE_BITOFFSET i ≠ 0xFF := fun h => hv (Or.inr h)
      have hnza : ¬ (0 = a.xcp.Daq.DaqCount ∨ 0 = a.xcp.Daq.OdtCount
          ∨ 0 = a.xcp.Daq.OdtEntryCount) := by rw [hD]; exact hnz
      rw [if_neg h0, if_neg h1, if_neg hnza]
      obtain ⟨s1, s2, -, -, -, -, -, -, -, s10⟩ :=
        XcpCommand_WRITE_DAQ_step cfg b (elementWRITE_DAQ pCmd i) hcon rfl
      have g1 : ¬ (cfg.XCP_ENABLE_PARAMETER_CHECK = true ∧
          ((elementWRITE_DAQ pCmd i).CRO_WRITE_DAQ_SIZE % 256 = 0
            ∨ (elementWRITE_DAQ pCmd i).CRO_WRITE_DAQ_SIZE
              > cfg.XCP_MAX_ODT_ENTRY_SIZE % 256)) := fun h => h0 h.2
      have g2 : ¬ (cfg.XCP_ENABLE_PARAMETER_CHECK = true ∧
          (0 = b.xcp.Daq.DaqCount ∨ 0 = b.xcp.Daq.OdtCount ∨ 0 = b.xcp.Daq.OdtEntryCount)) :=
        fun h => hnz h.2
      obtain ⟨-, r2, r3, r4⟩ := s10 g1 g2
      obtain ⟨i1, i2, i3, i4, i5⟩ := ih (i + 1)
        { a with xcp := { a.xcp with
            OdtEntrySize := Function.update a.xcp.OdtEntrySize a.xcp.DaqListPtr
              (pCmd.CRO_WRITE_DAQ_MULTIPLE_SIZE i % 256)
            OdtEntryAddr := Function.update a.xcp.OdtEntryAddr a.xcp.DaqListPtr
              (ApplXcpGetPointer cfg (pCmd.CRO_WRITE_DAQ_MULTIPLE_EXT i)
                (pCmd.CRO_WRITE_DAQ_MULTIPLE_ADDR i))
            DaqListPtr := (a.xcp.DaqListPtr + 1) % 65536 } }
        (XcpCommand cfg b (elementWRITE_DAQ pCmd i)).1
        s1 (by rw [s2]; exact hD) (by rw [s2]; exact hnz)
        (by show Function.update a.xcp.OdtEntrySize a.xcp.DaqListPtr _ = _
            rw [r2, hs, hp]; rfl)
        (by show Function.update a.xcp.OdtEntryAddr a.xcp.DaqListPtr _ = _
            rw [r3, ha, hp]; rfl)
        (by show (a.xcp.DaqListPtr + 1) % 65536 = _
            rw [r4, hp])
      refine ⟨i1, i2, i3, ?_, ?_⟩
      · intro hall
        exact i4 (fun j hj => hall j (List.mem_cons_of_mem _ hj))
      · rintro ⟨j, hj, hjinv⟩
        rcases List.mem_cons.mp hj with rfl | hj
        · exact absurd hjinv hinv
        · exact i5 ⟨j, hj, hjinv⟩

/-- The state and the response `XcpCommand` makes of a WRITE_DAQ_MULTIPLE in
the connected state, from the outcome of the loop. -/
theorem XcpCommand_WRITE_DAQ_MULTIPLE_of_loop (cfg : Config) (w : Slave) (pCmd : tXcpCto)
    (hcon : connected w.xcp) (hcmd : pCmd.CRO_CMD = .CC_WRITE_DAQ_MULTIPLE) :
    (XcpCommand cfg w pCmd).1.xcp.OdtEntrySize =
        (XcpCommand.WRITE_DAQ_MULTIPLE.loop cfg pCmd pCmd.CRO_WRITE_DAQ_MULTIPLE_NODAQ 0
          (XcpCommand.entry cfg w)).1.xcp.OdtEntrySize ∧
      (XcpCommand cfg w pCmd).1.xcp.OdtEntryAddr =
        (XcpCommand.WRITE_DAQ_MULTIPLE.loop cfg pCmd pCmd.CRO_WRITE_DAQ_MULTIPLE_NODAQ 0
          (XcpCommand.entry cfg w)).1.xcp.OdtEntryAddr ∧
      (XcpCommand cfg w pCmd).1.xcp.DaqListPtr =
        (XcpCommand.WRITE_DAQ_MULTIPLE.loop cfg pCmd pCmd.CRO_WRITE_DAQ_MULTIPLE_NODAQ 0
          (XcpCommand.entry cfg w)).1.xcp.DaqListPtr ∧
      ((XcpCommand.WRITE_DAQ_MULTIPLE.loop cfg pCmd pCmd.CRO_WRITE_DAQ_MULTIPLE_NODAQ 0
          (XcpCommand.entry cfg w)).2 = .positive_response →
        (XcpCommand cfg w pCmd).2 = some [0xFF]) ∧
      (∀ err, (XcpCommand.WRITE_DAQ_MULTIPLE.loop cfg pCmd pCmd.CRO_WRITE_DAQ_MULTIPLE_NODAQ 0
          (XcpCommand.entry cfg w)).2 = .negative_response err →
        (XcpCommand cfg w pCmd).2 = some [PID_ERR, err % 256]) := by
  have hne : pCmd.CRO_CMD ≠ .CC_CONNECT := by rw [hcmd]; decide
  have hb := XcpCommand.body_connected cfg w pCmd hcon hne
  simp only [XcpCommand.switch, hcmd, XcpCommand.WRITE_DAQ_MULTIPLE] at hb
  obtain ⟨c0, c1⟩ := XcpCommand.entry_Crm cfg w
  obtain ⟨l1, l2⟩ := XcpCommand.WRITE_DAQ_MULTIPLE.loop_Crm cfg pCmd
    pCmd.CRO_WRITE_DAQ_MULTIPLE_NODAQ 0 (XcpCommand.entry cfg w)
  generalize XcpCommand.WRITE_DAQ_MULTIPLE.loop cfg pCmd pCmd.CRO_WRITE_DAQ_MULTIPLE_NODAQ 0
    (XcpCommand.entry cfg w) = r at *
  obtain ⟨w1, e⟩ := r
  cases e with
  | positive_response =>
    rw [XcpCommand_of_positive cfg w _ pCmd hb]
    refine ⟨rfl, rfl, rfl, fun _ => ?_, fun err h => by simp at h⟩
    simp only [] at l1 l2
    simp [XcpSendCrm, l1, l2, c0, c1, List.range_succ]
  | negative_response err =>
    obtain ⟨g1, g2, -, -, g5, -⟩ := XcpCommand_of_negative cfg w _ pCmd _ hb
    refine ⟨g2.2.2.2.1, g2.2.2.1, g5, fun h => by simp at h, fun err' h => ?_⟩
    simp only [Exit.negative_response.injEq] at h
    rw [← h]; exact g1
  | no_response =>
    simp [XcpCommand, hb]

/-- C35, counterexample: on the connected slave with an empty pool a
WRITE_DAQ_MULTIPLE with one element, which is not invalid, is answered
`FE 2A` (CRC_DAQ_CONDIF). -/
theorem XcpCommand_WRITE_DAQ_MULTIPLE_empty_pool :
    (∀ i, i < (mkWRITE_DAQ_MULTIPLE [(0xFF, 4, 0x1000, 0)]).CRO_WRITE_DAQ_MULTIPLE_NODAQ →
        ¬ elementInvalid cfg512 (mkWRITE_DAQ_MULTIPLE [(0xFF, 4, 0x1000, 0)]) i) ∧
      slaveConnected.xcp.Daq.DaqCount = 0 ∧
      (XcpCommand cfg512 slaveConnected (mkWRITE_DAQ_MULTIPLE [(0xFF, 4, 0x1000, 0)])).2
        = some [0xFE, 0x2A] := by
  refine ⟨?_, by decide, by decide⟩
  intro i hi
  have h0 : i = 0 := by
    have : (mkWRITE_DAQ_MULTIPLE [(0xFF, 4, 0x1000, 0)]).CRO_WRITE_DAQ_MULTIPLE_NODAQ = 1 := rfl
    omega
  subst h0
  decide

/-- C35, amended: in every connected state (parameter checks compiled in,
sizes are bytes), WRITE_DAQ_MULTIPLE leaves the same ODT entries and the same write
cursor as WRITE_DAQ issued for its elements in order up to, and not
including, the first invalid one.  While none of the three counts is zero
the answer is CRC_OUT_OF_RANGE when an element is invalid and `FF` when none
is.  While one of the counts is zero the answer is `FF` for a packet without
elements and negative otherwise, CRC_OUT_OF_RANGE when the first element is
invalid and CRC_DAQ_CONDIF when it is not, and no entry and not the cursor
is changed. -/
theorem XcpCommand_WRITE_DAQ_MULTIPLE_repeated (cfg : Config) (w : Slave) (pCmd : tXcpCto)
    (hpc : cfg.XCP_ENABLE_PARAMETER_CHECK = true) (hcon : connected w.xcp)
    (hcmd : pCmd.CRO_CMD = .CC_WRITE_DAQ_MULTIPLE)
    (hmax : cfg.XCP_MAX_ODT_ENTRY_SIZE < 256)
    (hbyte : ∀ i, pCmd.CRO_WRITE_DAQ_MULTIPLE_SIZE i < 256) :
    ((XcpCommand cfg w pCmd).1.xcp.OdtEntrySize = (writeDaqRepeated cfg w pCmd).xcp.OdtEntrySize ∧
      (XcpCommand cfg w pCmd).1.xcp.OdtEntryAddr = (writeDaqRepeated cfg w pCmd).xcp.OdtEntryAddr ∧
      (XcpCommand cfg w pCmd).1.xcp.DaqListPtr = (writeDaqRepeated cfg w pCmd).xcp.DaqListPtr) ∧
    ((w.xcp.Daq.DaqCount ≠ 0 ∧ w.xcp.Daq.OdtCount ≠ 0 ∧ w.xcp.Daq.OdtEntryCount ≠ 0) →
      ((∃ i, i < pCmd.CRO_WRITE_DAQ_MULTIPLE_NODAQ ∧ elementInvalid cfg pCmd i) →
        (XcpCommand cfg w pCmd).2 = some [PID_ERR, CRC_OUT_OF_RANGE]) ∧
      ((∀ i, i < pCmd.CRO_WRITE_DAQ_MULTIPLE_NODAQ → ¬ elementInvalid cfg pCmd i) →
        (XcpCommand cfg w pCmd).2 = some [0xFF])) ∧
    ((w.xcp.Daq.DaqCount = 0 ∨ w.xcp.Daq.OdtCount = 0 ∨ w.xcp.Daq.OdtEntryCount = 0) →
      (pCmd.CRO_WRITE_DAQ_MULTIPLE_NODAQ = 0 → (XcpCommand cfg w pCmd).2 = some [0xFF]) ∧
      (0 < pCmd.CRO_WRITE_DAQ_MULTIPLE_NODAQ →
        (XcpCommand cfg w pCmd).2 = some [PID_ERR,
          if elementInvalid cfg pCmd 0 then CRC_OUT_OF_RANGE else CRC_DAQ_CONDIF]) ∧
      (XcpCommand cfg w pCmd).1.xcp.OdtEntrySize = w.xcp.OdtEntrySize ∧
      (XcpCommand cfg w pCmd).1.xcp.OdtEntryAddr = w.xcp.OdtEntryAddr ∧
      (XcpCommand cfg w pCmd).1.xcp.DaqListPtr = w.xcp.DaqListPtr) := by
  obtain ⟨-, -, -, fD, -, fA, fS, -, -, -, fP⟩ := XcpCommand.entry_frame cfg w
  obtain ⟨p1, p2, p3, p4, p5⟩ := XcpCommand_WRITE_DAQ_MULTIPLE_of_loop cfg w pCmd hcon hcmd
  have hmem : ∀ c ∈ (validElements cfg pCmd).map (elementWRITE_DAQ pCmd),
      c.CRO_CMD = .CC_WRITE_DAQ := by
    intro c hc
    obtain ⟨i, -, rfl⟩ := List.mem_map.mp hc
    rfl
  -- the case of an empty pool
  have hzero : (0 = w.xcp.Daq.DaqCount ∨ 0 = w.xcp.Daq.OdtCount ∨ 0 = w.xcp.Daq.OdtEntryCount) →
      (pCmd.CRO_WRITE_DAQ_MULTIPLE_NODAQ = 0 → (XcpCommand cfg w pCmd).2 = some [0xFF]) ∧
      (0 < pCmd.CRO_WRITE_DAQ_MULTIPLE_NODAQ →
        (XcpCommand cfg w pCmd).2 = some [PID_ERR,
          if elementInvalid cfg pCmd 0 then CRC_OUT_OF_RANGE else CRC_DAQ_CONDIF]) ∧
      (XcpCommand cfg w pCmd).1.xcp.OdtEntrySize = w.xcp.OdtEntrySize ∧
      (XcpCommand cfg w pCmd).1.xcp.OdtEntryAddr = w.xcp.OdtEntryAddr ∧
      (XcpCommand cfg w pCmd).1.xcp.DaqListPtr = w.xcp.DaqListPtr := by
    intro hz
    rw [p1, p2, p3]
    cases hn : pCmd.CRO_WRITE_DAQ_MULTIPLE_NODAQ with
    | zero =>
      rw [hn] at p4
      exact ⟨fun _ => p4 rfl, fun h => absurd h (Nat.lt_irrefl 0), fS, fA, fP⟩
    | succ n =>
      rw [hn] at p5
      have hiff := elementInvalid_iff cfg pCmd 0 hmax (hbyte 0)
      have hza : 0 = (XcpCommand.entry cfg w).xcp.Daq.DaqCount
          ∨ 0 = (XcpCommand.entry cfg w).xcp.Daq.OdtCount
          ∨ 0 = (XcpCommand.entry cfg w).xcp.Daq.OdtEntryCount := by rw [fD]; exact hz
      unfold XcpCommand.WRITE_DAQ_MULTIPLE.loop at p5 ⊢
      simp only [hpc, true_and] at p5 ⊢
      by_cases hinv : elementInvalid cfg pCmd 0
      · rw [if_pos hinv]
        by_cases h0 : pCmd.CRO_WRITE_DAQ_MULTIPLE_SIZE 0 % 256 = 0
            ∨ pCmd.CRO_WRITE_DAQ_MULTIPLE_SIZE 0 > cfg.XCP_MAX_ODT_ENTRY_SIZE % 256
        · rw [if_pos h0] at p5 ⊢
          exact ⟨fun h => by simp at h, fun _ => p5 _ rfl, fS, fA, fP⟩
        · have h1 : pCmd.CRO_WRITE_DAQ_MULTIPLE_BITOFFSET 0 ≠ 0xFF :=
            (hiff.mp hinv).resolve_left h0
          rw [if_neg h0, if_pos h1] at p5 ⊢
          exact ⟨fun h => by simp at h, fun _ => p5 _ rfl, fS, fA, fP⟩
      · rw [if_neg hinv]
        have h0 : ¬ (pCmd.CRO_WRITE_DAQ_MULTIPLE_SIZE 0 % 256 = 0
            ∨ pCmd.CRO_WRITE_DAQ_MULTIPLE_SIZE 0 > cfg.XCP_MAX_ODT_ENTRY_SIZE % 256) :=
          fun h => hinv (hiff.mpr (Or.inl h))
        have h1 : ¬ pCmd.CRO_WRITE_DAQ_MULTIPLE_BITOFFSET 0 ≠ 0xFF :=
          fun h => hinv (hiff.mpr (Or.inr h))
        rw [if_neg h0, if_neg h1, if_pos hza] at p5 ⊢
        exact ⟨fun h => by simp at h, fun _ => p5 _ rfl, fS, fA, fP⟩
  by_cases hz : 0 = w.xcp.Daq.DaqCount ∨ 0 = w.xcp.Daq.OdtCount ∨ 0 = w.xcp.Daq.OdtEntryCount
  · obtain ⟨z1, z2, z3, z4, z5⟩ := hzero hz
    obtain ⟨e1, e2, e3⟩ := runCommands_WRITE_DAQ_empty cfg hpc _ w hcon hmem hz
    refine ⟨⟨?_, ?_, ?_⟩, fun h => absurd hz (by omega), fun _ => ⟨z1, z2, z3, z4, z5⟩⟩
    · rw [z3]; exact e1.symm
    · rw [z4]; exact e2.symm
    · rw [z5]; exact e3.symm
  · obtain ⟨q1, q2, q3, q4, q5⟩ := XcpCommand.WRITE_DAQ_MULTIPLE.loop_WRITE_DAQ cfg pCmd hpc hmax
      hbyte pCmd.CRO_WRITE_DAQ_MULTIPLE_NODAQ 0 (XcpCommand.entry cfg w) w hcon fD hz fS fA fP
    rw [← List.range_eq_range'] at q1 q2 q3 q4 q5
    refine ⟨⟨by rw [p1, q1]; rfl, by rw [p2, q2]; rfl, by rw [p3, q3]; rfl⟩, fun _ => ⟨?_, ?_⟩,
      fun h => absurd (by omega) hz⟩
    · rintro ⟨i, hi, hinv⟩
      have := p5 _ (q5 ⟨i, List.mem_range.mpr hi, hinv⟩)
      simpa [CRC_OUT_OF_RANGE] using this
    · intro hall
      exact p4 (q4 (fun j hj => hall j (List.mem_range.mp hj)))

/-- Witness of C35, amended: WRITE_DAQ_MULTIPLE with one element of 4 bytes sent to
the configured slave is answered `FF`. -/
theorem XcpCommand_WRITE_DAQ_MULTIPLE_repeated_witness :
    (XcpCommand cfg512 slaveConfigured (mkWRITE_DAQ_MULTIPLE [(0xFF, 4, 0x1000, 0)])).2
      = some [0xFF] :=
  ((XcpCommand_WRITE_DAQ_MULTIPLE_repeated cfg512 slaveConfigured
    (mkWRITE_DAQ_MULTIPLE [(0xFF, 4, 0x1000, 0)]) rfl (by decide) rfl (by decide)
    (fun i => by cases i <;> simp [mkWRITE_DAQ_MULTIPLE])).2.1 (by decide)).2
    (fun i hi => by
      have h0 : i = 0 := by
        have : (mkWRITE_DAQ_MULTIPLE [(0xFF, 4, 0x1000, 0)]).CRO_WRITE_DAQ_MULTIPLE_NODAQ = 1 :=
          rfl
        omega
      subst h0
      decide)

/-- C39, the code at the failing input: after CONNECT, ALLOC_DAQ(1),
ALLOC_ODT(0, 1), ALLOC_ODT_ENTRY(0, 0, 1),
SET_DAQ_PTR(0, 0, 0) and WRITE_DAQ, both answered `FF`, there is one ODT
entry and the write cursor is 1.  A second WRITE_DAQ is answered `FF`,
passes both checks and stores at index 1, which is not below
`OdtEntryCount`: entry 1 of the address array holds its pointer afterwards,
and the cursor is 2.  A WRITE_DAQ_MULTIPLE with two elements sent after the
SET_DAQ_PTR is answered `FF` and stores its second element at index 1 as
well. -/
theorem XcpCommand_WRITE_DAQ_beyond_entries :
    Reachable cfg512 slaveCursorAtEnd ∧
      runResponses cfg512 slaveConfigured [mkSET_DAQ_PTR 0 0 0, mkWRITE_DAQ 4 0 0x1000]
        = [some [0xFF], some [0xFF]] ∧
      slaveCursorAtEnd.xcp.Daq.OdtEntryCount = 1 ∧
      slaveCursorAtEnd.xcp.DaqListPtr = 1 ∧
      (XcpCommand cfg512 slaveCursorAtEnd (mkWRITE_DAQ 4 0 0x2000)).2 = some [0xFF] ∧
      XcpCommand.WRITE_DAQ.stores cfg512 slaveCursorAtEnd (mkWRITE_DAQ 4 0 0x2000) ∧
      (XcpCommand cfg512 slaveCursorAtEnd (mkWRITE_DAQ 4 0 0x2000)).1.xcp.OdtEntryAddr 1
        = 0x402000 ∧
      (XcpCommand cfg512 slaveCursorAtEnd (mkWRITE_DAQ 4 0 0x2000)).1.xcp.DaqListPtr = 2 ∧
      (XcpCommand cfg512 slaveCursorAtEnd (mkWRITE_DAQ 4 0 0x2000)).1.xcp.Daq.OdtEntryCount = 1 ∧
      (runCommands cfg512 slaveConfigured [mkSET_DAQ_PTR 0 0 0]).xcp.DaqListPtr = 0 ∧
      (XcpCommand cfg512 (runCommands cfg512 slaveConfigured [mkSET_DAQ_PTR 0 0 0])
        (mkWRITE_DAQ_MULTIPLE [(0xFF, 4, 0x1000, 0), (0xFF, 4, 0x2000, 0)])).2 = some [0xFF] ∧
      (XcpCommand cfg512 (runCommands cfg512 slaveConfigured [mkSET_DAQ_PTR 0 0 0])
        (mkWRITE_DAQ_MULTIPLE [(0xFF, 4, 0x1000, 0), (0xFF, 4, 0x2000, 0)])).1.xcp.OdtEntryAddr 1
        = 0x402000 ∧
      (XcpCommand cfg512 (runCommands cfg512 slaveConfigured [mkSET_DAQ_PTR 0 0 0])
        (mkWRITE_DAQ_MULTIPLE [(0xFF, 4, 0x1000, 0), (0xFF, 4, 0x2000, 0)])).1.xcp.DaqListPtr
        = 2 ∧
      (XcpCommand cfg512 (runCommands cfg512 slaveConfigured [mkSET_DAQ_PTR 0 0 0])
        (mkWRITE_DAQ_MULTIPLE [(0xFF, 4, 0x1000, 0),
          (0xFF, 4, 0x2000, 0)])).1.xcp.Daq.OdtEntryCount = 1 :=
  ⟨Reachable_runCommands cfg512 _ _
    (Reachable_runCommands cfg512 _ _ (Reachable.command _ (Reachable.init _ _))),
   by decide, by decide, by decide, by decide, by decide, by decide, by decide, by decide,
   by decide, by decide, by decide, by decide, by decide⟩

/-! ### The entry count -/

/-- The guard of `XcpAllocOdtEntry` against a wrap of `OdtEntryCount`, for a
request that passes the checks of the allocation order and of the count:
the request is refused without a change when the sum would pass `0xFFFF`,
and the count is advanced by the exact sum otherwise, whatever
`XcpAllocMemory` returns. -/
theorem XcpAllocOdtEntry_guard (cfg : Config) (x : tXcpData) (daq odt n : Nat)
    (h1 : x.Daq.DaqCount ≠ 0) (h2 : x.Daq.OdtCount ≠ 0) (h3 : n ≠ 0) (hn : n < 256) :
    (x.Daq.OdtEntryCount + n > 0xFFFF →
        XcpAllocOdtEntry cfg x daq odt n = (x, CRC_MEMORY_OVERFLOW)) ∧
      (x.Daq.OdtEntryCount + n ≤ 0xFFFF →
        (XcpAllocOdtEntry cfg x daq odt n).1.Daq.OdtEntryCount = x.Daq.OdtEntryCount + n) := by
  have g1 : ¬ (cfg.XCP_ENABLE_PARAMETER_CHECK = true ∧
      (x.Daq.DaqCount = 0 ∨ x.Daq.OdtCount = 0)) := by
    rintro ⟨-, h | h⟩
    · exact h1 h
    · exact h2 h
  have g2 : ¬ (cfg.XCP_ENABLE_PARAMETER_CHECK = true ∧ n = 0) := fun h => h3 h.2
  unfold XcpAllocOdtEntry
  rw [if_neg g1, if_neg g2]
  refine ⟨?_, ?_⟩
  · intro h
    rw [if_pos (by omega)]
  · intro h
    rw [if_neg (by omega)]
    simp only []
    generalize hx3 : setOdt _ _ _ = x3
    rw [(XcpAllocMemory_spec cfg x3).2.2.1, ← hx3]
    show (x.Daq.OdtEntryCount + n) % 65536 = x.Daq.OdtEntryCount + n
    exact Nat.mod_eq_of_lt (by omega)

/-- C37, counterexample: on the freshly connected slave (no list, entry
count 0) ALLOC_ODT_ENTRY(0, 0, 1) is answered `FE 22` (CRC_OUT_OF_RANGE) and
the entry count stays 0, although `0 + 1` does not pass `0xFFFF`. -/
theorem XcpCommand_ALLOC_ODT_ENTRY_rejected_keeps_count :
    slaveConnected.xcp.Daq.OdtEntryCount = 0 ∧
      (XcpCommand cfg512 slaveConnected (mkALLOC_ODT_ENTRY 0 0 1)).2 = some [0xFE, 0x22] ∧
      (XcpCommand cfg512 slaveConnected (mkALLOC_ODT_ENTRY 0 0 1)).1.xcp.Daq.OdtEntryCount = 0 := by
  decide

/-- C37, amended: in every connected state (parameter checks compiled in),
with `daq`, `odt` and `n` the bytes the dispatcher takes from the packet, for
a request that, where it reaches the stores through `xcp.pOdt`, finds the
arena laid out for the counts and names an ODT below `OdtCount`.  A
request that passes the range and order checks (`daq` below `DaqCount`,
`odt` below the number of ODTs of the list, `OdtCount` and `n` not zero) is
answered CRC_MEMORY_OVERFLOW with the pool unchanged when
`OdtEntryCount + n` passes `0xFFFF`, and leaves `OdtEntryCount` at the exact
sum otherwise.  A request that fails these checks is answered
CRC_OUT_OF_RANGE or CRC_SEQUENCE with the pool unchanged.  In every case a
count of at most `0xFFFF` stays so. -/
theorem XcpCommand_ALLOC_ODT_ENTRY_no_wrap (cfg : Config) (w : Slave) (pCmd : tXcpCto)
    (hpc : cfg.XCP_ENABLE_PARAMETER_CHECK = true) (hcon : connected w.xcp)
    (hcmd : pCmd.CRO_CMD = .CC_ALLOC_ODT_ENTRY)
    (_hptr : XcpCommand.ALLOC_ODT_ENTRY.stores cfg w pCmd →
      arenaLaidOut cfg w.xcp ∧
      (w.xcp.Daq.DaqList (pCmd.CRO_ALLOC_ODT_ENTRY_DAQ % 256)).firstOdt
        + pCmd.CRO_ALLOC_ODT_ENTRY_ODT % 256 < w.xcp.Daq.OdtCount) :
    ((pCmd.CRO_ALLOC_ODT_ENTRY_DAQ % 256 < w.xcp.Daq.DaqCount ∧
        pCmd.CRO_ALLOC_ODT_ENTRY_ODT % 256
          < toUInt8 (DaqListOdtCount w.xcp (pCmd.CRO_ALLOC_ODT_ENTRY_DAQ % 256)) ∧
        w.xcp.Daq.OdtCount ≠ 0 ∧ pCmd.CRO_ALLOC_ODT_ENTRY_COUNT % 256 ≠ 0) →
      (w.xcp.Daq.OdtEntryCount + pCmd.CRO_ALLOC_ODT_ENTRY_COUNT % 256 > 0xFFFF →
        (XcpCommand cfg w pCmd).2 = some [PID_ERR, CRC_MEMORY_OVERFLOW] ∧
        (XcpCommand cfg w pCmd).1.xcp.Daq.OdtEntryCount = w.xcp.Daq.OdtEntryCount ∧
        (XcpCommand cfg w pCmd).1.xcp.Odt = w.xcp.Odt ∧
        samePool w.xcp (XcpCommand cfg w pCmd).1.xcp) ∧
      (w.xcp.Daq.OdtEntryCount + pCmd.CRO_ALLOC_ODT_ENTRY_COUNT % 256 ≤ 0xFFFF →
        (XcpCommand cfg w pCmd).1.xcp.Daq.OdtEntryCount
          = w.xcp.Daq.OdtEntryCount + pCmd.CRO_ALLOC_ODT_ENTRY_COUNT % 256)) ∧
    (¬ (pCmd.CRO_ALLOC_ODT_ENTRY_DAQ % 256 < w.xcp.Daq.DaqCount ∧
        pCmd.CRO_ALLOC_ODT_ENTRY_ODT % 256
          < toUInt8 (DaqListOdtCount w.xcp (pCmd.CRO_ALLOC_ODT_ENTRY_DAQ % 256)) ∧
        w.xcp.Daq.OdtCount ≠ 0 ∧ pCmd.CRO_ALLOC_ODT_ENTRY_COUNT % 256 ≠ 0) →
      ((XcpCommand cfg w pCmd).2 = some [PID_ERR, CRC_OUT_OF_RANGE] ∨
        (XcpCommand cfg w pCmd).2 = some [PID_ERR, CRC_SEQUENCE]) ∧
      samePool w.xcp (XcpCommand cfg w pCmd).1.xcp) ∧
    (w.xcp.Daq.OdtEntryCount ≤ 0xFFFF →
      (XcpCommand cfg w pCmd).1.xcp.Daq.OdtEntryCount ≤ 0xFFFF) := by
  obtain ⟨-, -, -, fD, -⟩ := XcpCommand.entry_frame cfg w
  have hent := XcpCommand.entry_samePool cfg w
  obtain ⟨r1, r2⟩ := XcpCommand_ALLOC_ODT_ENTRY_eq cfg w pCmd hcon hcmd
  generalize pCmd.CRO_ALLOC_ODT_ENTRY_DAQ % 256 = daq at *
  generalize pCmd.CRO_ALLOC_ODT_ENTRY_ODT % 256 = odt at *
  have hn256 : pCmd.CRO_ALLOC_ODT_ENTRY_COUNT % 256 < 256 := Nat.mod_lt _ (by decide)
  generalize pCmd.CRO_ALLOC_ODT_ENTRY_COUNT % 256 = n at *
  -- the accepted requests
  have hacc : (daq < w.xcp.Daq.DaqCount ∧ odt < toUInt8 (DaqListOdtCount w.xcp daq) ∧
        w.xcp.Daq.OdtCount ≠ 0 ∧ n ≠ 0) →
      (w.xcp.Daq.OdtEntryCount + n > 0xFFFF →
        (XcpCommand cfg w pCmd).2 = some [PID_ERR, CRC_MEMORY_OVERFLOW] ∧
        (XcpCommand cfg w pCmd).1.xcp.Daq.OdtEntryCount = w.xcp.Daq.OdtEntryCount ∧
        (XcpCommand cfg w pCmd).1.xcp.Odt = w.xcp.Odt ∧
        samePool w.xcp (XcpCommand cfg w pCmd).1.xcp) ∧
      (w.xcp.Daq.OdtEntryCount + n ≤ 0xFFFF →
        (XcpCommand cfg w pCmd).1.xcp.Daq.OdtEntryCount = w.xcp.Daq.OdtEntryCount + n) := by
    rintro ⟨a1, a2, a3, a4⟩
    have hr : ¬ (cfg.XCP_ENABLE_PARAMETER_CHECK = true ∧
        (daq ≥ w.xcp.Daq.DaqCount ∨ odt ≥ toUInt8 (DaqListOdtCount w.xcp daq))) := by
      rintro ⟨-, h | h⟩ <;> omega
    obtain ⟨e1, e2⟩ := r2 hr
    obtain ⟨k1, k2⟩ := XcpAllocOdtEntry_guard cfg (XcpCommand.entry cfg w).xcp daq odt n
      (by rw [fD]; omega) (by rw [fD]; exact a3) a4 hn256
    rw [fD] at k1 k2
    refine ⟨?_, ?_⟩
    · intro hov
      rw [k1 hov] at e1 e2
      have hsp := samePool_trans hent e2
      refine ⟨?_, by rw [hsp.1], hsp.2.1, hsp⟩
      rw [e1]; simp [CRC_MEMORY_OVERFLOW]
    · intro hle
      rw [e2.1, k2 hle]
  -- the rejected requests
  have hrej : ¬ (daq < w.xcp.Daq.DaqCount ∧ odt < toUInt8 (DaqListOdtCount w.xcp daq) ∧
        w.xcp.Daq.OdtCount ≠ 0 ∧ n ≠ 0) →
      ((XcpCommand cfg w pCmd).2 = some [PID_ERR, CRC_OUT_OF_RANGE] ∨
        (XcpCommand cfg w pCmd).2 = some [PID_ERR, CRC_SEQUENCE]) ∧
      samePool w.xcp (XcpCommand cfg w pCmd).1.xcp := by
    intro hna
    by_cases hr : cfg.XCP_ENABLE_PARAMETER_CHECK = true ∧
        (daq ≥ w.xcp.Daq.DaqCount ∨ odt ≥ toUInt8 (DaqListOdtCount w.xcp daq))
    · exact ⟨Or.inl (r1 hr).1, (r1 hr).2⟩
    · obtain ⟨e1, e2⟩ := r2 hr
      have hd : daq < w.xcp.Daq.DaqCount := by
        by_contra h; exact hr ⟨hpc, Or.inl (by omega)⟩
      have ho : odt < toUInt8 (DaqListOdtCount w.xcp daq) := by
        by_contra h; exact hr ⟨hpc, Or.inr (by omega)⟩
      obtain ⟨s1, s2⟩ := XcpAllocOdtEntry_spec cfg (XcpCommand.entry cfg w).xcp daq odt n hpc
      rw [fD] at s1 s2
      by_cases h2 : w.xcp.Daq.OdtCount = 0
      · rw [s1 (Or.inr h2)] at e1 e2
        refine ⟨Or.inr ?_, samePool_trans hent e2⟩
        rw [e1]; simp [CRC_SEQUENCE]
      · have h3 : n = 0 := by
          by_contra h; exact hna ⟨hd, ho, h2, h⟩
        rw [s2 (by omega) h2 h3] at e1 e2
        refine ⟨Or.inl ?_, samePool_trans hent e2⟩
        rw [e1]; simp [CRC_OUT_OF_RANGE]
  refine ⟨hacc, hrej, ?_⟩
  intro hle
  by_cases ha : daq < w.xcp.Daq.DaqCount ∧ odt < toUInt8 (DaqListOdtCount w.xcp daq) ∧
      w.xcp.Daq.OdtCount ≠ 0 ∧ n ≠ 0
  · by_cases hov : w.xcp.Daq.OdtEntryCount + n > 0xFFFF
    · rw [((hacc ha).1 hov).2.1]; exact hle
    · rw [(hacc ha).2 (by omega)]; omega
  · rw [(hrej ha).2.1]; exact hle

/-- Witness of C37, amended: ALLOC_ODT_ENTRY(0, 0, 1) sent after CONNECT,
ALLOC_DAQ(1), ALLOC_ODT(0, 1), where the arena is laid out for one list and
one ODT, raises the entry count from 0 to 1. -/
theorem XcpCommand_ALLOC_ODT_ENTRY_no_wrap_witness :
    (XcpCommand cfg512 (runCommands cfg512 slaveConnected [mkALLOC_DAQ 1, mkALLOC_ODT 0 1])
        (mkALLOC_ODT_ENTRY 0 0 1)).1.xcp.Daq.OdtEntryCount
      = (runCommands cfg512 slaveConnected
          [mkALLOC_DAQ 1, mkALLOC_ODT 0 1]).xcp.Daq.OdtEntryCount + 1 :=
  ((XcpCommand_ALLOC_ODT_ENTRY_no_wrap cfg512
    (runCommands cfg512 slaveConnected [mkALLOC_DAQ 1, mkALLOC_ODT 0 1])
    (mkALLOC_ODT_ENTRY 0 0 1) rfl (by decide) rfl (by decide)).1 (by decide)).2 (by decide)

/-! ### The running invariant -/

/-- The running invariant is `runningBelow` with `runningComplete`. -/
theorem runningInv_iff (x : tXcpData) : runningInv x ↔ runningBelow x ∧ runningComplete x := by
  unfold runningInv runningBelow runningComplete
  constructor
  · intro h
    exact ⟨fun d hd hr => h.mpr ⟨d, hd, hr⟩, h.mp⟩
  · rintro ⟨h1, h2⟩
    exact ⟨h2, fun ⟨d, hd, hr⟩ => h1 d hd hr⟩

/-- The property `runningBelow` is kept with `DaqCount`, the RUNNING flags
and the DAQ bit. -/
theorem runningBelow_of_sameRunning {x y : tXcpData} (h : sameRunning x y) :
    runningBelow x → runningBelow y := by
  obtain ⟨h1, h2, h3⟩ := h
  intro hs d hd hr
  have hr0 : listRunning x d := by simpa [listRunning, h2 d] using hr
  have := hs d (by rw [← h1]; exact hd) hr0
  simpa [daqRunning, h3] using this

/-- The running invariant is kept with `DaqCount`, the RUNNING flags and the
DAQ bit. -/
theorem runningInv_of_sameRunning {x y : tXcpData} (h : sameRunning x y) :
    runningInv x → runningInv y := by
  rw [runningInv_iff, runningInv_iff]
  rintro ⟨a, b⟩
  exact ⟨runningBelow_of_sameRunning h a, (running_of_sameRunning h).2 b⟩

/-- The function `XcpStopDaq` keeps the running invariant. -/
theorem XcpStopDaq_runningInv (x : tXcpData) (daq : Nat) :
    runningInv x → runningInv (XcpStopDaq x daq) := by
  rw [runningInv_iff, runningInv_iff]
  rintro ⟨hs, -⟩
  refine ⟨?_, (XcpStopDaq_running x daq).2⟩
  obtain ⟨s1, -⟩ := XcpStopDaq_SessionStatus x daq
  have hD := XcpStopDaq_Daq x daq
  have hcnt : (XcpStopDaq x daq).Daq.DaqCount = x.Daq.DaqCount := by rw [hD]; rfl
  intro d hd hr
  rw [hcnt] at hd
  have hr0 : listRunning x d := by
    have hr' := hr
    simp only [listRunning, hD, setDaqList_DaqList] at hr'
    by_cases hdd : d = daq
    · rw [if_pos hdd] at hr'
      exact absurd (land_land_of_disjoint _ _ _ stop_mask_bits.1) hr'
    · rw [if_neg hdd] at hr'
      exact hr'
  simp only [daqRunning, s1 ⟨d, hd, hr⟩]
  exact hs d hd hr0

/-- After `XcpStartDaq` for a list below `DaqCount` the running invariant
holds. -/
theorem XcpStartDaq_runningInv (x : tXcpData) (daq : Nat) (hd : daq < x.Daq.DaqCount) :
    runningInv (XcpStartDaq x daq) := by
  rw [runningInv_iff]
  refine ⟨?_, (XcpStartDaq_running x daq hd).2⟩
  intro d _ _
  simp only [daqRunning, XcpStartDaq]
  rw [lor_land_self]; decide

/-- After `XcpStopAllDaq` the running invariant holds. -/
theorem XcpStopAllDaq_runningInv (x : tXcpData) : runningInv (XcpStopAllDaq x) := by
  rw [runningInv_iff]
  refine ⟨?_, (XcpStopAllDaq_running x).2⟩
  obtain ⟨s1, -, s3⟩ := XcpStopAllDaq_spec x
  have hcnt : (XcpStopAllDaq x).Daq.DaqCount = x.Daq.DaqCount := s1.2.2.2.2.1
  intro d hd hr
  exfalso
  rw [hcnt] at hd
  simp only [listRunning, s3, if_pos hd] at hr
  exact hr (land_land_of_disjoint _ _ _ stop_mask_bits.1)

/-- The function `XcpStopAllSelectedDaq` keeps the running invariant. -/
theorem XcpStopAllSelectedDaq_runningInv (x : tXcpData) :
    runningInv x → runningInv (XcpStopAllSelectedDaq x) := by
  unfold XcpStopAllSelectedDaq
  intro hs
  apply foldl_preserves runningInv _ _ x hs
  intro b a hb
  split
  · exact runningInv_of_sameRunning (clearSelected_sameRunning _ a) (XcpStopDaq_runningInv b a hb)
  · exact hb

/-- The function `XcpStartAllSelectedDaq` keeps the running invariant. -/
theorem XcpStartAllSelectedDaq_runningInv (x : tXcpData) :
    runningInv x → runningInv (XcpStartAllSelectedDaq x) := by
  rw [runningInv_iff, runningInv_iff]
  rintro ⟨hs, hc⟩
  refine ⟨?_, (XcpStartAllSelectedDaq_running x).2 hc⟩
  obtain ⟨sb, s1, s2, s3⟩ := XcpStartAllSelectedDaq_spec x
  have hcnt : (XcpStartAllSelectedDaq x).Daq.DaqCount = x.Daq.DaqCount := sb.2.2.2.2.1
  intro d hd hr
  rw [hcnt] at hd
  by_cases hex : ∃ d, d < x.Daq.DaqCount ∧ listSelected x d
  · simp only [daqRunning, s1 hex]
    rw [lor_land_self]; decide
  · have hnone : ∀ d, d < x.Daq.DaqCount → ¬ listSelected x d :=
      fun d hd hsel => hex ⟨d, hd, hsel⟩
    simp only [listRunning, s3, if_neg (fun h : d < x.Daq.DaqCount ∧ listSelected x d =>
      hnone d h.1 h.2)] at hr
    rw [daqRunning, s2 hnone]
    exact hs d hd hr

/-- After `XcpFreeDaq` the running invariant holds. -/
theorem XcpFreeDaq_runningInv (x : tXcpData) : runningInv (XcpFreeDaq x) := by
  rw [runningInv_iff]
  exact ⟨fun d hd _ => absurd hd (Nat.not_lt_zero d), (XcpFreeDaq_running x).2⟩

/-- After the CONNECT branch the running invariant holds. -/
theorem XcpCommand.CONNECT_runningInv (cfg : Config) (w : Slave) :
    runningInv (XcpCommand.CONNECT cfg w).1.xcp := by
  rw [runningInv_iff]
  refine ⟨?_, (XcpCommand.CONNECT_running cfg w).2⟩
  intro d _ hr
  exact ((XcpCommand.CONNECT_running cfg w).1 d hr).2

/-- Case START_STOP_DAQ_LIST for a list below `DaqCount` keeps the running
invariant. -/
theorem XcpCommand.START_STOP_DAQ_LIST_runningInv (cfg : Config) (w : Slave) (pCmd : tXcpCto)
    (hd : startStopDaq pCmd < w.xcp.Daq.DaqCount) :
    runningInv w.xcp → runningInv (XcpCommand.START_STOP_DAQ_LIST cfg w pCmd).1.xcp := by
  unfold XcpCommand.START_STOP_DAQ_LIST
  have hdq : (pCmd.CRO_START_STOP_DAQ &&& 0xFF) % 256 = startStopDaq pCmd := rfl
  simp only [hdq]
  generalize startStopDaq pCmd = daq at hd ⊢
  have hnr : ¬ (cfg.XCP_ENABLE_PARAMETER_CHECK = true ∧ daq ≥ w.xcp.Daq.DaqCount) := by
    rintro ⟨-, h⟩; omega
  rw [if_neg hnr]
  intro hi
  split
  · have hsel := setSelected_sameRunning w.xcp daq
    by_cases h1 : pCmd.CRO_START_STOP_MODE = 1
    · simp only [h1, if_true]
      have hst := XcpStartDaq_runningInv (setDaqList w.xcp daq
        (fun l => { l with flags := l.flags ||| DAQ_FLAG_SELECTED })) daq hd
      have hcrm : sameRunning (XcpStartDaq (setDaqList w.xcp daq
          (fun l => { l with flags := l.flags ||| DAQ_FLAG_SELECTED })) daq)
          (setCrmByte { XcpStartDaq (setDaqList w.xcp daq
            (fun l => { l with flags := l.flags ||| DAQ_FLAG_SELECTED })) daq with
            CrmLen := CRM_START_STOP_LEN } CRM_START_STOP_FIRST_PID 0) :=
        ⟨rfl, fun _ => rfl, rfl⟩
      exact runningInv_of_sameRunning hcrm hst
    · simp only [h1, if_false]
      have hcrm : sameRunning w.xcp
          (setCrmByte { setDaqList w.xcp daq
            (fun l => { l with flags := l.flags ||| DAQ_FLAG_SELECTED }) with
            CrmLen := CRM_START_STOP_LEN } CRM_START_STOP_FIRST_PID 0) :=
        sameRunning_trans hsel ⟨rfl, fun _ => rfl, rfl⟩
      exact runningInv_of_sameRunning hcrm hi
  · exact XcpStopDaq_runningInv w.xcp daq hi

/-- Case START_STOP_SYNCH keeps the running invariant. -/
theorem XcpCommand.START_STOP_SYNCH_runningInv (w : Slave) (pCmd : tXcpCto) :
    runningInv w.xcp → runningInv (XcpCommand.START_STOP_SYNCH w pCmd).1.xcp := by
  unfold XcpCommand.START_STOP_SYNCH
  intro hi
  split_ifs
  · exact hi
  · exact XcpStopAllSelectedDaq_runningInv w.xcp hi
  · exact XcpStartAllSelectedDaq_runningInv w.xcp hi
  · exact XcpStopAllDaq_runningInv w.xcp

/-- Case DISCONNECT establishes the running invariant. -/
theorem XcpCommand.DISCONNECT_runningInv (w : Slave) :
    runningInv (XcpCommand.DISCONNECT w).1.xcp := by
  unfold XcpCommand.DISCONNECT XcpDisconnect
  exact XcpStopAllDaq_runningInv _

/-- C40: if a state has the running invariant (the DAQ bit of the session
status is set if and only if some list below `DaqCount` has the flag
RUNNING), so has the state after START_STOP_DAQ_LIST for a list below
`DaqCount` (any mode), START_STOP_SYNCH (any mode), FREE_DAQ, DISCONNECT and
CONNECT, whether the session is connected or not. -/
theorem XcpCommand_runningInv (cfg : Config) (w : Slave) (pCmd : tXcpCto)
    (hinv : runningInv w.xcp)
    (hcmd : (pCmd.CRO_CMD = .CC_START_STOP_DAQ_LIST ∧ startStopDaq pCmd < w.xcp.Daq.DaqCount) ∨
      pCmd.CRO_CMD = .CC_START_STOP_SYNCH ∨ pCmd.CRO_CMD = .CC_FREE_DAQ ∨
      pCmd.CRO_CMD = .CC_DISCONNECT ∨ pCmd.CRO_CMD = .CC_CONNECT) :
    runningInv (XcpCommand cfg w pCmd).1.xcp := by
  apply runningInv_of_sameRunning (sameRunning_of_sameSetup (XcpCommand_setup_of_body cfg w pCmd))
  by_cases hc : pCmd.CRO_CMD = .CC_CONNECT
  · simp only [XcpCommand.body, hc, if_true]
    exact XcpCommand.CONNECT_runningInv cfg w
  by_cases hcon : connected w.xcp
  · rw [XcpCommand.body_connected cfg w pCmd hcon hc]
    have he := XcpCommand.entry_sameRunning cfg w
    have fD := (XcpCommand.entry_frame cfg w).2.2.2.1
    have hie := runningInv_of_sameRunning he hinv
    rcases hcmd with ⟨h, hd⟩ | h | h | h | h
    · simp only [XcpCommand.switch, h]
      exact XcpCommand.START_STOP_DAQ_LIST_runningInv cfg _ pCmd (by rw [fD]; exact hd) hie
    · simp only [XcpCommand.switch, h]
      exact XcpCommand.START_STOP_SYNCH_runningInv _ pCmd hie
    · simp only [XcpCommand.switch, h, XcpCommand.FREE_DAQ]
      exact XcpFreeDaq_runningInv _
    · simp only [XcpCommand.switch, h]
      exact XcpCommand.DISCONNECT_runningInv _
    · exact absurd h hc
  · have hz : w.xcp.SessionStatus &&& SS_CONNECTED = 0 := by simpa [connected] using hcon
    have hbody : XcpCommand.body cfg w pCmd = (w, .no_response) := by
      simp [XcpCommand.body, hc, hz]
    rw [hbody]
    exact hinv

/-- Witness of C40: the configured slave has the running invariant, and so
has the state after START_STOP_DAQ_LIST(mode 1, daq 0). -/
theorem XcpCommand_runningInv_witness :
    runningInv slaveConfigured.xcp ∧
      runningInv (XcpCommand cfg512 slaveConfigured (mkSTART_STOP_DAQ_LIST 1 0)).1.xcp :=
  ⟨by decide,
   XcpCommand_runningInv cfg512 slaveConfigured (mkSTART_STOP_DAQ_LIST 1 0) (by decide)
    (Or.inl ⟨rfl, by decide⟩)⟩

/-! ### Termination of the event -/

/-- The commands of a list followed by those of another. -/
theorem runCommands_append (cfg : Config) : ∀ (a b : List tXcpCto) (w : Slave),
    runCommands cfg w (a ++ b) = runCommands cfg (runCommands cfg w a) b := by
  intro a
  induction a with
  | nil => intro b w; rfl
  | cons c a ih => intro b w; simp only [List.cons_append, runCommands]; exact ih b _

/-- ALLOC_ODT for a list below `DaqCount`, with no
ODT entry allocated and a count other than zero: whatever the answer is,
`OdtCount` is advanced modulo `2^16`, the list gets the range from the old to
the new `OdtCount`, and the other counts, the other list records, the flags
and the event channel of the list and the session status bits are kept. -/
theorem XcpCommand_ALLOC_ODT_state (cfg : Config) (w : Slave) (pCmd : tXcpCto)
    (hcon : connected w.xcp)
    (hcmd : pCmd.CRO_CMD = .CC_ALLOC_ODT)
    (hd : pCmd.CRO_ALLOC_ODT_DAQ % 256 < w.xcp.Daq.DaqCount)
    (he : w.xcp.Daq.OdtEntryCount = 0) (hn : pCmd.CRO_ALLOC_ODT_COUNT % 256 ≠ 0) :
    connected (XcpCommand cfg w pCmd).1.xcp ∧
      (XcpCommand cfg w pCmd).1.xcp.SessionStatus &&& SS_DAQ = w.xcp.SessionStatus &&& SS_DAQ ∧
      (XcpCommand cfg w pCmd).1.xcp.Daq.DaqCount = w.xcp.Daq.DaqCount ∧
      (XcpCommand cfg w pCmd).1.xcp.Daq.OdtEntryCount = 0 ∧
      (XcpCommand cfg w pCmd).1.xcp.Daq.OdtCount
        = (w.xcp.Daq.OdtCount + pCmd.CRO_ALLOC_ODT_COUNT % 256) % 65536 ∧
      (XcpCommand cfg w pCmd).1.xcp.Daq.DaqList (pCmd.CRO_ALLOC_ODT_DAQ % 256) =
        { w.xcp.Daq.DaqList (pCmd.CRO_ALLOC_ODT_DAQ % 256) with
          firstOdt := w.xcp.Daq.OdtCount
          lastOdt := ((w.xcp.Daq.OdtCount + pCmd.CRO_ALLOC_ODT_COUNT % 256) % 65536 + 65535)
            % 65536 } ∧
      (∀ d, d ≠ pCmd.CRO_ALLOC_ODT_DAQ % 256 →
        (XcpCommand cfg w pCmd).1.xcp.Daq.DaqList d = w.xcp.Daq.DaqList d) := by
  obtain ⟨-, -, -, fD, -⟩ := XcpCommand.entry_frame cfg w
  obtain ⟨-, r2⟩ := XcpCommand_ALLOC_ODT_eq cfg w pCmd hcon hcmd
  have hr : ¬ (cfg.XCP_ENABLE_PARAMETER_CHECK = true ∧
      pCmd.CRO_ALLOC_ODT_DAQ % 256 ≥ w.xcp.Daq.DaqCount) := by
    rintro ⟨-, h⟩; omega
  obtain ⟨-, e2⟩ := r2 hr
  have hne : pCmd.CRO_CMD ≠ .CC_CONNECT := by rw [hcmd]; decide
  have hS : (XcpCommand cfg w pCmd).1.xcp.SessionStatus
      = (XcpCommand.entry cfg w).xcp.SessionStatus := by
    have hsetup := XcpCommand_setup_of_body cfg w pCmd
    rw [XcpCommand.body_connected cfg w pCmd hcon hne] at hsetup
    simp only [XcpCommand.switch, hcmd, XcpCommand.ALLOC_ODT, fD] at hsetup
    rw [if_neg hr, check_error_xcp] at hsetup
    rw [hsetup.2.2, (XcpAllocOdt_frame cfg _ _ _).2.2.1]
  generalize pCmd.CRO_ALLOC_ODT_DAQ % 256 = daq at *
  generalize pCmd.CRO_ALLOC_ODT_COUNT % 256 = n at *
  have hA : (XcpAllocOdt cfg (XcpCommand.entry cfg w).xcp daq n).1.Daq =
      { w.xcp.Daq with
        OdtCount := (w.xcp.Daq.OdtCount + n) % 65536
        DaqList := Function.update w.xcp.Daq.DaqList daq
          { w.xcp.Daq.DaqList daq with
            firstOdt := w.xcp.Daq.OdtCount
            lastOdt := ((w.xcp.Daq.OdtCount + n) % 65536 + 65535) % 65536 } } := by
    have g1 : ¬ (cfg.XCP_ENABLE_PARAMETER_CHECK = true ∧
        ((XcpCommand.entry cfg w).xcp.Daq.DaqCount = 0
          ∨ (XcpCommand.entry cfg w).xcp.Daq.OdtEntryCount ≠ 0)) := by
      rw [fD]; rintro ⟨-, h | h⟩
      · omega
      · exact h he
    have g2 : ¬ (cfg.XCP_ENABLE_PARAMETER_CHECK = true ∧ n = 0) := fun h => hn h.2
    unfold XcpAllocOdt
    rw [if_neg g1, if_neg g2]
    simp only []
    generalize hx3 : setDaqList _ _ _ = x3
    rw [(XcpAllocMemory_spec cfg x3).2.2.1, ← hx3]
    simp [setDaqList, fD]
  have hz : (XcpCommand cfg w pCmd).1.xcp.Daq = _ := e2.1.trans hA
  refine ⟨?_, ?_, ?_, ?_, ?_, ?_, ?_⟩
  · have := XcpCommand.entry_connected cfg w hcon
    simpa [connected, hS] using this
  · rw [hS]; exact XcpCommand.entry_SS_DAQ cfg w
  · rw [hz]
  · rw [hz]; exact he
  · rw [hz]
  · rw [hz]; simp
  · intro d hdd
    rw [hz]; simp [Function.update_apply, hdd]

/-- The state after ALLOC_ODT(0, 255) has been sent `k` times to a connected
slave with one list and no ODT entry: `OdtCount` has advanced by `255 * k`
modulo `2^16`. -/
theorem runCommands_replicate_ALLOC_ODT (cfg : Config) (k : Nat) : ∀ w : Slave,
    connected w.xcp → w.xcp.Daq.DaqCount = 1 → w.xcp.Daq.OdtEntryCount = 0 →
    w.xcp.Daq.OdtCount < 65536 →
    connected (runCommands cfg w (List.replicate k (mkALLOC_ODT 0 255))).xcp ∧
      (runCommands cfg w (List.replicate k (mkALLOC_ODT 0 255))).xcp.SessionStatus &&& SS_DAQ
        = w.xcp.SessionStatus &&& SS_DAQ ∧
      (runCommands cfg w (List.replicate k (mkALLOC_ODT 0 255))).xcp.Daq.DaqCount = 1 ∧
      (runCommands cfg w (List.replicate k (mkALLOC_ODT 0 255))).xcp.Daq.OdtEntryCount = 0 ∧
      (runCommands cfg w (List.replicate k (mkALLOC_ODT 0 255))).xcp.Daq.OdtCount
        = (w.xcp.Daq.OdtCount + 255 * k) % 65536 ∧
      ((runCommands cfg w (List.replicate k (mkALLOC_ODT 0 255))).xcp.Daq.DaqList 0).flags
        = (w.xcp.Daq.DaqList 0).flags ∧
      ((runCommands cfg w (List.replicate k (mkALLOC_ODT 0 255))).xcp.Daq.DaqList 0).eventChannel
        = (w.xcp.Daq.DaqList 0).eventChannel := by
  induction k with
  | zero =>
    intro w hcon h1 h2 hlt
    refine ⟨hcon, rfl, h1, h2, ?_, rfl, rfl⟩
    show w.xcp.Daq.OdtCount = _
    omega
  | succ k ih =>
    intro w hcon h1 h2 hlt
    simp only [List.replicate, runCommands]
    obtain ⟨s1, s2, s3, s4, s5, s6, -⟩ := XcpCommand_ALLOC_ODT_state cfg w (mkALLOC_ODT 0 255)
      hcon rfl (by rw [h1]; decide) h2 (by decide)
    obtain ⟨i1, i2, i3, i4, i5, i6, i7⟩ := ih (XcpCommand cfg w (mkALLOC_ODT 0 255)).1 s1
      (by rw [s3, h1]) s4 (by rw [s5]; exact Nat.mod_lt _ (by decide))
    refine ⟨i1, by rw [i2, s2], i3, i4, ?_, ?_, ?_⟩
    · rw [i5, s5]
      have e : (mkALLOC_ODT 0 255).CRO_ALLOC_ODT_COUNT % 256 = 255 := rfl
      rw [e]; omega
    · rw [i6]
      have e : (mkALLOC_ODT 0 255).CRO_ALLOC_ODT_DAQ % 256 = 0 := rfl
      rw [e] at s6
      rw [s6]
    · rw [i7]
      have e : (mkALLOC_ODT 0 255).CRO_ALLOC_ODT_DAQ % 256 = 0 := rfl
      rw [e] at s6
      rw [s6]

/-- One pass of the ODT loop of the event keeps the range of the list. -/
theorem XcpEventExt.odt_lastOdt (cfg : Config) (offset daq odt : Nat)
    (s s1 : Slave × List (List Nat)) (h : XcpEventExt.odt cfg offset daq odt s = some s1) :
    (s1.1.xcp.Daq.DaqList daq).lastOdt = (s.1.xcp.Daq.DaqList daq).lastOdt := by
  unfold XcpEventExt.odt at h
  simp only [] at h
  split_ifs at h with h1 h2 h3
  all_goals (try split at h)
  all_goals (try simp only [Option.some.injEq, reduceCtorEq] at h)
  all_goals (try subst h)
  all_goals (try simp [setDaqList])

/-- The ODT loop of the event for a list that ends at ODT `0xFFFF` does not
come to an end, whatever the number of passes allowed: the 16 bit ODT number
never exceeds the last ODT. -/
theorem XcpEventExt.odtLoop_never (cfg : Config) (offset daq : Nat) (fuel : Nat) :
    ∀ (odt : Nat) (s : Slave × List (List Nat)),
      (s.1.xcp.Daq.DaqList daq).lastOdt = 65535 → odt ≤ 65535 →
      XcpEventExt.odtLoop cfg offset daq fuel odt s = none := by
  induction fuel with
  | zero => intro odt s _ _; rfl
  | succ fuel ih =>
    intro odt s hl ho
    unfold XcpEventExt.odtLoop
    rw [if_pos (by rw [hl]; exact ho)]
    cases h : XcpEventExt.odt cfg offset daq odt s with
    | none => rfl
    | some s1 =>
      simp only []
      exact ih _ s1 (by rw [XcpEventExt.odt_lastOdt cfg offset daq odt s s1 h, hl])
        (by have := Nat.mod_lt (odt + 1) (show 65536 > 0 by decide); omega)

/-- After CONNECT, and after FREE_DAQ in the connected state, every list
record and every ODT record is zero. -/
theorem XcpCommand_reset_endsBelow (cfg : Config) (w : Slave) (pCmd : tXcpCto)
    (hcmd : pCmd.CRO_CMD = .CC_CONNECT ∨ (pCmd.CRO_CMD = .CC_FREE_DAQ ∧ connected w.xcp)) :
    endsBelow (XcpCommand cfg w pCmd).1.xcp := by
  obtain ⟨s1, s2, -⟩ := XcpCommand_setup_of_body cfg w pCmd
  have hb : (XcpCommand.body cfg w pCmd).1.xcp.Daq.DaqList = (fun _ => tXcpDaqList.zero) ∧
      (XcpCommand.body cfg w pCmd).1.xcp.Odt = (fun _ => tXcpOdt.zero) := by
    rcases hcmd with h | ⟨h, hcon⟩
    · cases hb : cfg.XCP_CPUTYPE_BIGENDIAN <;>
        simp [XcpCommand.body, h, XcpCommand.CONNECT, setCrmByte, setCrmWord, XcpFreeDaq, hb]
    · have hne : pCmd.CRO_CMD ≠ .CC_CONNECT := by rw [h]; decide
      rw [XcpCommand.body_connected cfg w pCmd hcon hne]
      simp only [XcpCommand.switch, h, XcpCommand.FREE_DAQ]
      exact ⟨rfl, rfl⟩
  refine ⟨fun d => ?_, fun o => ?_⟩
  · rw [s1, hb.1]; show (0 : Nat) < 65535; decide
  · rw [s2, hb.2]; show (0 : Nat) < 65535; decide

/-- The ends of the records are kept with the ranges. -/
theorem endsBelow_of_sameRanges {x y : tXcpData} (h : sameRanges x y) (hx : endsBelow x) :
    endsBelow y := by
  obtain ⟨-, -, h3, h4⟩ := h
  refine ⟨fun d => ?_, fun o => ?_⟩
  · rw [(h3 d).2]; exact hx.1 d
  · rw [h4]; exact hx.2 o

/-- An ALLOC_ODT answered `FF` while the pool bytes fit the arena keeps every
record end below `0xFFFF`. -/
theorem XcpCommand_ALLOC_ODT_endsBelow (cfg : Config) (w : Slave) (pCmd : tXcpCto)
    (hcfg : cfg.noWrap) (hodt : 0 < cfg.sizeofOdt)
    (hpc : cfg.XCP_ENABLE_PARAMETER_CHECK = true)
    (hcmd : pCmd.CRO_CMD = .CC_ALLOC_ODT) (hresp : (XcpCommand cfg w pCmd).2 = some [0xFF])
    (hpool : poolBytes cfg w.xcp.Daq ≤ cfg.kXcpDaqMemSize)
    (hx : endsBelow w.xcp) : endsBelow (XcpCommand cfg w pCmd).1.xcp := by
  have hne : pCmd.CRO_CMD ≠ .CC_CONNECT := by rw [hcmd]; decide
  have hcon := connected_of_positive cfg w pCmd hne hresp
  obtain ⟨-, -, -, fD, fO, -⟩ := XcpCommand.entry_frame cfg w
  obtain ⟨r1, r2⟩ := XcpCommand_ALLOC_ODT_eq cfg w pCmd hcon hcmd
  by_cases hr : cfg.XCP_ENABLE_PARAMETER_CHECK = true ∧
      pCmd.CRO_ALLOC_ODT_DAQ % 256 ≥ w.xcp.Daq.DaqCount
  · rw [(r1 hr).1] at hresp
    exact absurd hresp (response_ne_positive _)
  obtain ⟨e1, e2⟩ := r2 hr
  generalize pCmd.CRO_ALLOC_ODT_DAQ % 256 = daq at *
  have hn256 : pCmd.CRO_ALLOC_ODT_COUNT % 256 < 256 := Nat.mod_lt _ (by decide)
  generalize pCmd.CRO_ALLOC_ODT_COUNT % 256 = n at *
  have h0 : (XcpAllocOdt cfg (XcpCommand.entry cfg w).xcp daq n).2 = 0 := by
    by_contra hc
    rw [e1, if_neg hc] at hresp
    exact absurd hresp (response_ne_positive _)
  obtain ⟨a1, a2, a3, a4, a5, a6, a7⟩ := XcpAllocOdt_ok cfg _ daq n hpc h0
  rw [fD] at a2 a3 a5 a6 a7
  rw [fO] at a4
  have hlt := OdtCount_lt_of_poolBytes cfg w.xcp.Daq hcfg hodt hpool
  generalize (XcpAllocOdt cfg (XcpCommand.entry cfg w).xcp daq n).1 = y at *
  obtain ⟨p1, p2, -⟩ := e2
  refine ⟨fun d => ?_, fun o => ?_⟩
  · rw [p1]
    by_cases hd : d = daq
    · rw [hd, a6]; omega
    · rw [a7 d hd]; exact hx.1 d
  · rw [p2, a4]; exact hx.2 o

/-- An ALLOC_ODT_ENTRY answered `FF` keeps every record end below `0xFFFF`. -/
theorem XcpCommand_ALLOC_ODT_ENTRY_endsBelow (cfg : Config) (w : Slave) (pCmd : tXcpCto)
    (hpc : cfg.XCP_ENABLE_PARAMETER_CHECK = true)
    (hcmd : pCmd.CRO_CMD = .CC_ALLOC_ODT_ENTRY)
    (hresp : (XcpCommand cfg w pCmd).2 = some [0xFF])
    (hx : endsBelow w.xcp) : endsBelow (XcpCommand cfg w pCmd).1.xcp := by
  have hne : pCmd.CRO_CMD ≠ .CC_CONNECT := by rw [hcmd]; decide
  have hcon := connected_of_positive cfg w pCmd hne hresp
  obtain ⟨-, -, -, fD, fO, -⟩ := XcpCommand.entry_frame cfg w
  obtain ⟨r1, r2⟩ := XcpCommand_ALLOC_ODT_ENTRY_eq cfg w pCmd hcon hcmd
  by_cases hr : cfg.XCP_ENABLE_PARAMETER_CHECK = true ∧
      (pCmd.CRO_ALLOC_ODT_ENTRY_DAQ % 256 ≥ w.xcp.Daq.DaqCount ∨
        pCmd.CRO_ALLOC_ODT_ENTRY_ODT % 256
          ≥ toUInt8 (DaqListOdtCount w.xcp (pCmd.CRO_ALLOC_ODT_ENTRY_DAQ % 256)))
  · rw [(r1 hr).1] at hresp
    exact absurd hresp (response_ne_positive _)
  obtain ⟨e1, e2⟩ := r2 hr
  clear r1 r2 hr
  generalize pCmd.CRO_ALLOC_ODT_ENTRY_DAQ % 256 = daq at *
  generalize pCmd.CRO_ALLOC_ODT_ENTRY_ODT % 256 = odt at *
  have hn256 : pCmd.CRO_ALLOC_ODT_ENTRY_COUNT % 256 < 256 := Nat.mod_lt _ (by decide)
  generalize pCmd.CRO_ALLOC_ODT_ENTRY_COUNT % 256 = n at *
  have h0 : (XcpAllocOdtEntry cfg (XcpCommand.entry cfg w).xcp daq odt n).2 = 0 := by
    by_contra hc
    rw [e1, if_neg hc] at hresp
    exact absurd hresp (response_ne_positive _)
  obtain ⟨a1, a2, a3, a4, a5, a6, a7, a8⟩ := XcpAllocOdtEntry_ok cfg _ daq odt n hpc hn256 h0
  rw [fD] at a2 a3 a4 a5 a6 a7 a8
  rw [fO] at a8
  generalize (XcpAllocOdtEntry cfg (XcpCommand.entry cfg w).xcp daq odt n).1 = y at *
  obtain ⟨p1, p2, -⟩ := e2
  refine ⟨fun d => ?_, fun o => ?_⟩
  · rw [p1, a5]; exact hx.1 d
  · rw [p2]
    by_cases ho : o = (w.xcp.Daq.DaqList daq).firstOdt + odt
    · rw [ho, a7]; omega
    · rw [a8 o ho]; exact hx.2 o

/-- The event returns for every channel when every record ends below
`0xFFFF`. -/
theorem eventReturns_of_endsBelow (x : tXcpData) (event : Nat) (h : endsBelow x) :
    eventReturns x event :=
  fun d _ _ _ => ⟨h.1 d, fun o _ _ => h.2 o⟩

/-- START_STOP_DAQ_LIST with mode 1 for a list below `DaqCount`, in the
connected state: DAQ is running, the list is RUNNING, `DaqCount` and the
event channel and ODT range of the list are kept. -/
theorem XcpCommand_START_STOP_DAQ_LIST_start (cfg : Config) (w : Slave) (pCmd : tXcpCto)
    (hcon : connected w.xcp) (hcmd : pCmd.CRO_CMD = .CC_START_STOP_DAQ_LIST)
    (hd : startStopDaq pCmd < w.xcp.Daq.DaqCount) (hm : pCmd.CRO_START_STOP_MODE = 1) :
    daqRunning (XcpCommand cfg w pCmd).1.xcp ∧
      (XcpCommand cfg w pCmd).1.xcp.Daq.DaqCount = w.xcp.Daq.DaqCount ∧
      listRunning (XcpCommand cfg w pCmd).1.xcp (startStopDaq pCmd) ∧
      ((XcpCommand cfg w pCmd).1.xcp.Daq.DaqList (startStopDaq pCmd)).eventChannel
        = (w.xcp.Daq.DaqList (startStopDaq pCmd)).eventChannel ∧
      ((XcpCommand cfg w pCmd).1.xcp.Daq.DaqList (startStopDaq pCmd)).firstOdt
        = (w.xcp.Daq.DaqList (startStopDaq pCmd)).firstOdt ∧
      ((XcpCommand cfg w pCmd).1.xcp.Daq.DaqList (startStopDaq pCmd)).lastOdt
        = (w.xcp.Daq.DaqList (startStopDaq pCmd)).lastOdt := by
  have fD := (XcpCommand.entry_frame cfg w).2.2.2.1
  have hd2 : ¬ ((pCmd.CRO_START_STOP_DAQ &&& 0xFF) % 256 ≥ w.xcp.Daq.DaqCount) := by
    simpa [startStopDaq] using hd
  rw [XcpCommand_START_STOP_DAQ_LIST_eq cfg w pCmd hcon hcmd hd]
  simp only [XcpCommand.START_STOP_DAQ_LIST, fD]
  rw [if_neg (fun h => hd2 h.2), if_pos (Or.inl hm)]
  have hS : DAQ_FLAG_RUNNING ≠ 0 := by decide
  have hQ : SS_DAQ ≠ 0 := by decide
  simp [hm, XcpStartDaq, setDaqList, setCrmByte, startStopDaq, lor_land_self, hS, hQ, fD]

/-- C38, counterexample: two states reached from `XcpInit` by commands in
which the claim fails.  In the first, list 0 has been given the one ODT and
list 1 none, every command has been answered positively and both lists are
started on channel 0: the zero record of list 1 names ODT 0 as well, and the
event hands two DTOs to the transport with `OdtCount = 1`.  In the second,
ALLOC_ODT(0, 255) has been sent 257 times and ALLOC_ODT(0, 1) once, which
wraps the 16 bit `OdtCount` to 0 and leaves list 0 the range
`0xFFFF .. 0xFFFF`; with list 0 started the ODT loop of the event does not
come to an end, whatever the number of passes allowed. -/
theorem XcpEvent_shared_or_wrapped_odt :
    (Reachable cfg512 slaveSharedOdt ∧
      runResponses cfg512 slaveConnected
        [mkALLOC_DAQ 2, mkALLOC_ODT 0 1, mkALLOC_ODT_ENTRY 0 0 1, mkSET_DAQ_PTR 0 0 0,
         mkWRITE_DAQ 4 0 0x1000, mkSTART_STOP_DAQ_LIST 1 0, mkSTART_STOP_DAQ_LIST 1 1]
        = [some [0xFF], some [0xFF], some [0xFF], some [0xFF], some [0xFF],
           some [0xFF, 0x00], some [0xFF, 0x00]] ∧
      slaveSharedOdt.xcp.Daq.OdtCount = 1 ∧
      (XcpEvent cfg512 slaveSharedOdt 0).map (fun r => r.2.length) = some 2) ∧
    (Reachable cfg512 slaveOdtWrap ∧
      daqRunning slaveOdtWrap.xcp ∧ slaveOdtWrap.xcp.Daq.DaqCount = 1 ∧
      listRunning slaveOdtWrap.xcp 0 ∧ listBound slaveOdtWrap.xcp 0 0 ∧
      slaveOdtWrap.xcp.Daq.OdtCount = 0 ∧
      (slaveOdtWrap.xcp.Daq.DaqList 0).firstOdt = 0xFFFF ∧
      (slaveOdtWrap.xcp.Daq.DaqList 0).lastOdt = 0xFFFF ∧
      (∀ fuel, XcpEventExt.odtLoop cfg512 0 0 fuel 0xFFFF (slaveOdtWrap, []) = none) ∧
      XcpEvent cfg512 slaveOdtWrap 0 = none) := by
  have hreach : Reachable cfg512 slaveConnected :=
    Reachable.command _ (Reachable.init _ _)
  refine ⟨⟨Reachable_runCommands cfg512 _ _ hreach, by decide, by decide, by decide⟩, ?_⟩
  have hR : Reachable cfg512 slaveOdtWrap := Reachable_runCommands cfg512 _ _ hreach
  refine ⟨hR, ?_⟩
  -- the state after ALLOC_DAQ(1)
  have b0 : connected (XcpCommand cfg512 slaveConnected (mkALLOC_DAQ 1)).1.xcp ∧
      (XcpCommand cfg512 slaveConnected (mkALLOC_DAQ 1)).1.xcp.Daq.DaqCount = 1 ∧
      (XcpCommand cfg512 slaveConnected (mkALLOC_DAQ 1)).1.xcp.Daq.OdtEntryCount = 0 ∧
      (XcpCommand cfg512 slaveConnected (mkALLOC_DAQ 1)).1.xcp.Daq.OdtCount = 0 ∧
      ((XcpCommand cfg512 slaveConnected (mkALLOC_DAQ 1)).1.xcp.Daq.DaqList 0).eventChannel
        = 0 := by decide
  have hw : slaveOdtWrap = (XcpCommand cfg512 (XcpCommand cfg512
      (runCommands cfg512 (XcpCommand cfg512 slaveConnected (mkALLOC_DAQ 1)).1
        (List.replicate 257 (mkALLOC_ODT 0 255))) (mkALLOC_ODT 0 1)).1
      (mkSTART_STOP_DAQ_LIST 1 0)).1 := by
    unfold slaveOdtWrap
    rw [runCommands, runCommands_append]
    rfl
  generalize (XcpCommand cfg512 slaveConnected (mkALLOC_DAQ 1)).1 = w0 at b0 hw
  obtain ⟨c1, c2, c3, c4, c5⟩ := b0
  obtain ⟨r1, -, r3, r4, r5, -, r7⟩ :=
    runCommands_replicate_ALLOC_ODT cfg512 257 w0 c1 c2 c3 (by rw [c4]; decide)
  rw [c4] at r5
  rw [c5] at r7
  generalize runCommands cfg512 w0 (List.replicate 257 (mkALLOC_ODT 0 255)) = w1 at *
  obtain ⟨s1, -, s3, -, s5, s6, -⟩ := XcpCommand_ALLOC_ODT_state cfg512 w1 (mkALLOC_ODT 0 1)
    r1 rfl (by rw [r3]; decide) r4 (by decide)
  have e0 : (mkALLOC_ODT 0 1).CRO_ALLOC_ODT_DAQ % 256 = 0 := rfl
  have e1 : (mkALLOC_ODT 0 1).CRO_ALLOC_ODT_COUNT % 256 = 1 := rfl
  rw [e1, r5] at s5
  rw [e0, e1, r5] at s6
  rw [r3] at s3
  generalize (XcpCommand cfg512 w1 (mkALLOC_ODT 0 1)).1 = w2 at *
  obtain ⟨t1, t2, t3, t4, t5, t6⟩ := XcpCommand_START_STOP_DAQ_LIST_start cfg512 w2
    (mkSTART_STOP_DAQ_LIST 1 0) s1 rfl (by rw [s3]; decide) rfl
  have e2 : startStopDaq (mkSTART_STOP_DAQ_LIST 1 0) = 0 := by decide
  rw [e2] at t3 t4 t5 t6
  rw [s3] at t2
  rw [s6] at t4 t5 t6
  simp only [] at t4 t5 t6
  rw [r7] at t4
  have hcount : (XcpCommand cfg512 w2 (mkSTART_STOP_DAQ_LIST 1 0)).1.xcp.Daq.OdtCount = 0 := by
    have hs := XcpCommand_sameRanges cfg512 w2 (mkSTART_STOP_DAQ_LIST 1 0) (by decide)
      (by decide) (Or.inr ⟨by decide, by decide⟩)
      (by rw [XcpCommand_START_STOP_DAQ_LIST_eq cfg512 w2 _ s1 rfl (by rw [e2, s3]; decide)]
          simp [mkSTART_STOP_DAQ_LIST, PID_ERR])
    rw [hs.1, s5]
  rw [hw]
  generalize (XcpCommand cfg512 w2 (mkSTART_STOP_DAQ_LIST 1 0)).1 = w3 at *
  have t5b : (w3.xcp.Daq.DaqList 0).firstOdt = 65535 := by rw [t5]
  have t6b : (w3.xcp.Daq.DaqList 0).lastOdt = 65535 := by rw [t6]
  have hnever : ∀ fuel, XcpEventExt.odtLoop cfg512 0 0 fuel 0xFFFF (w3, []) = none :=
    fun fuel => XcpEventExt.odtLoop_never cfg512 0 0 fuel 65535 (w3, []) t6b (le_refl _)
  refine ⟨t1, t2, t3, t4, hcount, t5b, t6b, hnever, ?_⟩
  unfold XcpEvent XcpEventExt
  rw [if_neg t1, t2]
  have hr1 : List.range 1 = [0] := by decide
  rw [hr1, List.foldl_cons, List.foldl_nil, Option.some_bind]
  unfold XcpEventExt.daq
  rw [if_neg t3, if_neg (by rw [t4]; decide)]
  simp only []
  rw [t5b]
  exact hnever 65537

/-! ### The event in a configuration -/

/-- The separation of the ODT ranges depends on `OdtCount` and the ODT ranges
of the lists only. -/
theorem odtsApart_congr {x y : tXcpData} (S : Finset Nat)
    (h1 : y.Daq.OdtCount = x.Daq.OdtCount)
    (h3 : ∀ d, (y.Daq.DaqList d).firstOdt = (x.Daq.DaqList d).firstOdt ∧
      (y.Daq.DaqList d).lastOdt = (x.Daq.DaqList d).lastOdt) :
    odtsApart x S → odtsApart y S := by
  have ho : ∀ d, odtRange y d = odtRange x d := by
    intro d; simp only [odtRange, (h3 d).1, (h3 d).2]
  rintro ⟨a, b⟩
  refine ⟨?_, ?_⟩
  · intro d hd j hj
    rw [ho] at hj; rw [h1]; exact a d hd j hj
  · intro d hd e hee hne
    rw [ho, ho]; exact b d hd e hee hne

/-- An ALLOC_ODT answered `FF` while the pool bytes fit the arena gives the
list a fresh range: the ranges of the lists given ODTs so far, this list
included, stay apart. -/
theorem XcpCommand_ALLOC_ODT_apart (cfg : Config) (w : Slave) (pCmd : tXcpCto)
    (S : Finset Nat) (hcfg : cfg.noWrap) (hodt : 0 < cfg.sizeofOdt)
    (hpc : cfg.XCP_ENABLE_PARAMETER_CHECK = true)
    (hcmd : pCmd.CRO_CMD = .CC_ALLOC_ODT) (hresp : (XcpCommand cfg w pCmd).2 = some [0xFF])
    (hpool : poolBytes cfg w.xcp.Daq ≤ cfg.kXcpDaqMemSize)
    (hO : odtsApart w.xcp S) :
    odtsApart (XcpCommand cfg w pCmd).1.xcp (insert (pCmd.CRO_ALLOC_ODT_DAQ % 256) S) := by
  have hne : pCmd.CRO_CMD ≠ .CC_CONNECT := by rw [hcmd]; decide
  have hcon := connected_of_positive cfg w pCmd hne hresp
  obtain ⟨-, -, -, fD, fO, -⟩ := XcpCommand.entry_frame cfg w
  obtain ⟨r1, r2⟩ := XcpCommand_ALLOC_ODT_eq cfg w pCmd hcon hcmd
  by_cases hr : cfg.XCP_ENABLE_PARAMETER_CHECK = true ∧
      pCmd.CRO_ALLOC_ODT_DAQ % 256 ≥ w.xcp.Daq.DaqCount
  · rw [(r1 hr).1] at hresp
    exact absurd hresp (response_ne_positive _)
  obtain ⟨e1, e2⟩ := r2 hr
  generalize pCmd.CRO_ALLOC_ODT_DAQ % 256 = daq at *
  have hn256 : pCmd.CRO_ALLOC_ODT_COUNT % 256 < 256 := Nat.mod_lt _ (by decide)
  generalize pCmd.CRO_ALLOC_ODT_COUNT % 256 = n at *
  have h0 : (XcpAllocOdt cfg (XcpCommand.entry cfg w).xcp daq n).2 = 0 := by
    by_contra hc
    rw [e1, if_neg hc] at hresp
    exact absurd hresp (response_ne_positive _)
  obtain ⟨a1, a2, a3, a4, a5, a6, a7⟩ := XcpAllocOdt_ok cfg _ daq n hpc h0
  rw [fD] at a2 a3 a5 a6 a7
  rw [fO] at a4
  have hlt := OdtCount_lt_of_poolBytes cfg w.xcp.Daq hcfg hodt hpool
  have hmod : (w.xcp.Daq.OdtCount + n) % 65536 = w.xcp.Daq.OdtCount + n :=
    Nat.mod_eq_of_lt (by omega)
  rw [hmod] at a2 a6
  have hlast : (w.xcp.Daq.OdtCount + n + 65535) % 65536 = w.xcp.Daq.OdtCount + n - 1 := by
    omega
  rw [hlast] at a6
  generalize (XcpAllocOdt cfg (XcpCommand.entry cfg w).xcp daq n).1 = y at *
  obtain ⟨p1, p2, p3, -⟩ := e2
  generalize (XcpCommand cfg w pCmd).1.xcp = z at *
  obtain ⟨i1, i2⟩ := hO
  have hnew : ∀ j ∈ odtRange z daq, w.xcp.Daq.OdtCount ≤ j ∧ j < w.xcp.Daq.OdtCount + n := by
    intro j hj
    simp only [odtRange, p1, a5, a6, Finset.mem_Icc] at hj
    omega
  have hold : ∀ d, d ≠ daq → odtRange z d = odtRange w.xcp d := by
    intro d hd
    simp only [odtRange, p1, a7 d hd]
  have hcount : z.Daq.OdtCount = w.xcp.Daq.OdtCount + n := by rw [p1, a2]
  refine ⟨?_, ?_⟩
  · intro d hd j hj
    rw [hcount]
    by_cases hdd : d = daq
    · rw [hdd] at hj; exact (hnew j hj).2
    · rw [hold d hdd] at hj
      have hdS : d ∈ S := (Finset.mem_insert.mp hd).resolve_left hdd
      have := i1 d hdS j hj
      omega
  · intro d hd e hee hde
    rw [Finset.disjoint_left]
    intro j hjd hje
    by_cases hdd : d = daq
    · have hed : e ≠ daq := fun h => hde (hdd.trans h.symm)
      rw [hdd] at hjd
      rw [hold e hed] at hje
      have := i1 e ((Finset.mem_insert.mp hee).resolve_left hed) j hje
      have := (hnew j hjd).1
      omega
    · rw [hold d hdd] at hjd
      have hdS : d ∈ S := (Finset.mem_insert.mp hd).resolve_left hdd
      by_cases hed : e = daq
      · rw [hed] at hje
        have := i1 d hdS j hjd
        have := (hnew j hje).1
        omega
      · rw [hold e hed] at hje
        have heS : e ∈ S := (Finset.mem_insert.mp hee).resolve_left hed
        exact Finset.disjoint_left.mp (i2 d hdS e heS hde) hjd hje

/-- An ALLOC_ODT_ENTRY answered `FF` keeps `OdtCount` and the ODT range of
every list. -/
theorem XcpCommand_ALLOC_ODT_ENTRY_apart (cfg : Config) (w : Slave) (pCmd : tXcpCto)
    (S : Finset Nat) (hpc : cfg.XCP_ENABLE_PARAMETER_CHECK = true)
    (hcmd : pCmd.CRO_CMD = .CC_ALLOC_ODT_ENTRY)
    (hresp : (XcpCommand cfg w pCmd).2 = some [0xFF])
    (hO : odtsApart w.xcp S) : odtsApart (XcpCommand cfg w pCmd).1.xcp S := by
  have hne : pCmd.CRO_CMD ≠ .CC_CONNECT := by rw [hcmd]; decide
  have hcon := connected_of_positive cfg w pCmd hne hresp
  obtain ⟨-, -, -, fD, fO, -⟩ := XcpCommand.entry_frame cfg w
  obtain ⟨r1, r2⟩ := XcpCommand_ALLOC_ODT_ENTRY_eq cfg w pCmd hcon hcmd
  by_cases hr : cfg.XCP_ENABLE_PARAMETER_CHECK = true ∧
      (pCmd.CRO_ALLOC_ODT_ENTRY_DAQ % 256 ≥ w.xcp.Daq.DaqCount ∨
        pCmd.CRO_ALLOC_ODT_ENTRY_ODT % 256
          ≥ toUInt8 (DaqListOdtCount w.xcp (pCmd.CRO_ALLOC_ODT_ENTRY_DAQ % 256)))
  · rw [(r1 hr).1] at hresp
    exact absurd hresp (response_ne_positive _)
  obtain ⟨e1, e2⟩ := r2 hr
  clear r1 r2 hr
  generalize pCmd.CRO_ALLOC_ODT_ENTRY_DAQ % 256 = daq at *
  generalize pCmd.CRO_ALLOC_ODT_ENTRY_ODT % 256 = odt at *
  have hn256 : pCmd.CRO_ALLOC_ODT_ENTRY_COUNT % 256 < 256 := Nat.mod_lt _ (by decide)
  generalize pCmd.CRO_ALLOC_ODT_ENTRY_COUNT % 256 = n at *
  have h0 : (XcpAllocOdtEntry cfg (XcpCommand.entry cfg w).xcp daq odt n).2 = 0 := by
    by_contra hc
    rw [e1, if_neg hc] at hresp
    exact absurd hresp (response_ne_positive _)
  obtain ⟨a1, a2, a3, a4, a5, a6, a7, a8⟩ := XcpAllocOdtEntry_ok cfg _ daq odt n hpc hn256 h0
  rw [fD] at a2 a3 a4 a5 a6 a7 a8
  generalize (XcpAllocOdtEntry cfg (XcpCommand.entry cfg w).xcp daq odt n).1 = y at *
  obtain ⟨p1, p2, -⟩ := e2
  exact odtsApart_congr S (by rw [p1, a4]) (fun d => by rw [p1, a5]; exact ⟨rfl, rfl⟩) hO

/-- In every state of a configuration the ODT ranges of the lists given ODTs
are apart, every record ends below `0xFFFF` and the pool bytes fit the
arena. -/
theorem inv_of_Provisioned (cfg : Config) (hcfg : cfg.noWrap) (hodt : 0 < cfg.sizeofOdt)
    (hpc : cfg.XCP_ENABLE_PARAMETER_CHECK = true) (w : Slave) (S : Finset Nat)
    (hw : Provisioned cfg w S) :
    odtsApart w.xcp S ∧ endsBelow w.xcp ∧ poolBytes cfg w.xcp.Daq ≤ cfg.kXcpDaqMemSize := by
  induction hw with
  | init mem clock =>
    refine ⟨⟨fun d hd => ?_, fun d hd => ?_⟩,
      ⟨fun d => (by decide : (0 : Nat) < 65535), fun o => (by decide : (0 : Nat) < 65535)⟩,
      by simp [poolBytes, XcpInit]⟩
    · simp at hd
    · simp at hd
  | reset w1 pCmd hcmd =>
    have hz : (XcpCommand cfg w1 pCmd).1.xcp.Daq.DaqCount = 0 ∧
        (XcpCommand cfg w1 pCmd).1.xcp.Daq.OdtCount = 0 ∧
        (XcpCommand cfg w1 pCmd).1.xcp.Daq.OdtEntryCount = 0 := by
      rcases hcmd with h | ⟨h, hcon⟩
      · exact XcpCommand_CONNECT_counts cfg w1 pCmd h
      · exact XcpCommand_FREE_DAQ_counts cfg w1 pCmd hcon h
    refine ⟨⟨fun d hd => ?_, fun d hd => ?_⟩, XcpCommand_reset_endsBelow cfg w1 pCmd hcmd,
      by simp [poolBytes, hz.1, hz.2.1, hz.2.2]⟩
    · simp at hd
    · simp at hd
  | @alloc_odt w1 S1 pCmd _ _ hcmd hresp ih =>
    obtain ⟨i1, i2, i3⟩ := ih
    refine ⟨XcpCommand_ALLOC_ODT_apart cfg w1 pCmd S1 hcfg hodt hpc hcmd hresp i3 i1,
      XcpCommand_ALLOC_ODT_endsBelow cfg w1 pCmd hcfg hodt hpc hcmd hresp i3 i2,
      XcpCommand_poolBytes cfg w1 pCmd hcfg i3 ?_⟩
    rw [hresp]; exact (response_ne_positive _).symm
  | @command w1 S1 pCmd _ _ hc hf hpos hresp ih =>
    obtain ⟨i1, i2, i3⟩ := ih
    by_cases he : pCmd.CRO_CMD = .CC_ALLOC_ODT_ENTRY ∧ (XcpCommand cfg w1 pCmd).2 = some [0xFF]
    · exact ⟨XcpCommand_ALLOC_ODT_ENTRY_apart cfg w1 pCmd S1 hpc he.1 he.2 i1,
        XcpCommand_ALLOC_ODT_ENTRY_endsBelow cfg w1 pCmd hpc he.1 he.2 i2,
        XcpCommand_poolBytes cfg w1 pCmd hcfg i3 hresp⟩
    · have hpos2 : (XcpCommand cfg w1 pCmd).2 ≠ some [0xFF] ∨
          (pCmd.CRO_CMD ≠ .CC_ALLOC_ODT ∧ pCmd.CRO_CMD ≠ .CC_ALLOC_ODT_ENTRY) := by
        by_cases hp : (XcpCommand cfg w1 pCmd).2 = some [0xFF]
        · exact Or.inr ⟨hpos.resolve_left (fun h => h hp), fun h => he ⟨h, hp⟩⟩
        · exact Or.inl hp
      have hs := XcpCommand_sameRanges cfg w1 pCmd hc hf hpos2 hresp
      exact ⟨odtsApart_congr S1 hs.1 hs.2.2.1 i1, endsBelow_of_sameRanges hs i2,
        XcpCommand_poolBytes cfg w1 pCmd hcfg i3 hresp⟩
  | environment mem clock _ ih => exact ih

/-- An event emits no more DTOs than there are ODTs, when the ODT ranges of
the lists that are RUNNING and bound to the channel are pairwise disjoint and
lie below `OdtCount`. -/
theorem length_eventOdts_le (x : tXcpData) (event : Nat) (S : Finset Nat)
    (hinv : odtsApart x S)
    (hS : ∀ d, d < x.Daq.DaqCount → listRunning x d → listBound x d event → d ∈ S) :
    (eventOdts x event).length ≤ x.Daq.OdtCount := by
  obtain ⟨hlt, hdis⟩ := hinv
  have hmem : ∀ p ∈ eventOdts x event, p.1 ∈ S ∧ p.2 ∈ odtRange x p.1 := by
    rintro ⟨d, o⟩ hp
    obtain ⟨h1, h2, h3, h4, h5, -⟩ := (mem_eventOdts x event d o).mp hp
    exact ⟨hS d h1 h2 h3, by simp [odtRange, h4, h5]⟩
  have hnd : ((eventOdts x event).map Prod.snd).Nodup := by
    rw [List.Nodup, List.pairwise_map]
    refine (pairwise_eventOdts x event).imp_of_mem ?_
    intro p q hp hq hpq heq
    rcases hpq with h | ⟨-, h⟩
    · have hd := hdis p.1 (hmem p hp).1 q.1 (hmem q hq).1 (by omega)
      exact Finset.disjoint_left.mp hd (hmem p hp).2 (heq ▸ (hmem q hq).2)
    · omega
  have hsub : (eventOdts x event).map Prod.snd ⊆ List.range x.Daq.OdtCount := by
    intro o ho
    rw [List.mem_map] at ho
    obtain ⟨p, hp, rfl⟩ := ho
    exact List.mem_range.mpr (hlt p.1 (hmem p hp).1 p.2 (hmem p hp).2)
  have := (hnd.subperm hsub).length_le
  simpa using this

/-- C38, amended: when the 16 bit sum of `XcpAllocMemory` cannot wrap, an ODT
record takes at least one byte and parameter checks are compiled in, in every
state reached from `XcpInit`, CONNECT or FREE_DAQ by commands that keep to
the domain of the embedding (no store through the MTA goes to `xcp`, every
access through an arena pointer goes to the array the pointer was placed for)
and none of which is answered CRC_MEMORY_OVERFLOW, for every channel and
offset: if the event reads the ODTs and entries inside the arrays and every
list that is RUNNING and bound to the channel has been given its ODTs by an
ALLOC_ODT answered `FF`, then `XcpEventExt` returns and the number of DTOs it
hands to the transport is at most `OdtCount`. -/
theorem XcpEventExt_returns (cfg : Config) (hcfg : cfg.noWrap) (hodt : 0 < cfg.sizeofOdt)
    (hpc : cfg.XCP_ENABLE_PARAMETER_CHECK = true) (w : Slave) (S : Finset Nat)
    (hw : Provisioned cfg w S) (event offset : Nat)
    (_hdef : XcpEventExt.defined cfg w.xcp event)
    (hS : ∀ d, d < w.xcp.Daq.DaqCount → listRunning w.xcp d → listBound w.xcp d event →
      d ∈ S) :
    ∃ w1 dtos, XcpEventExt cfg w event offset = some (w1, dtos) ∧
      dtos.length ≤ w.xcp.Daq.OdtCount := by
  obtain ⟨i1, i2, -⟩ := inv_of_Provisioned cfg hcfg hodt hpc w S hw
  by_cases hrun : daqRunning w.xcp
  · have hT := eventReturns_of_endsBelow w.xcp event i2
    refine ⟨_, _, XcpEventExt_spec cfg w event offset hrun hT, ?_⟩
    rw [List.length_map]
    exact length_eventOdts_le w.xcp event S i1 hS
  · refine ⟨w, [], ?_, Nat.zero_le _⟩
    unfold XcpEventExt
    rw [if_pos (by simpa [daqRunning] using hrun)]

/-- Witness of C38, amended: scenario S3 started is a state of a
configuration in which list 0 was given its ODT; list 0 is the one list, the
event on its channel 7 reads inside the arrays and returns with at most one
DTO. -/
theorem XcpEventExt_returns_witness :
    ∃ w1 dtos, XcpEventExt cfg512 slaveMeasuring 7 0 = some (w1, dtos) ∧
      dtos.length ≤ slaveMeasuring.xcp.Daq.OdtCount :=
  XcpEventExt_returns cfg512 (by decide) (by decide) rfl slaveMeasuring
    (insert (0 % 256) ∅)
    (Provisioned.environment _ _
      (show Provisioned cfg512 (runCommands cfg512 slaveConfigured
          [mkSET_DAQ_LIST_MODE 0x10 0 7 0, mkSET_DAQ_PTR 0 0 0, mkWRITE_DAQ 4 0 0x1000,
           mkSTART_STOP_DAQ_LIST 1 0]) _ from
       Provisioned.command (mkSTART_STOP_DAQ_LIST 1 0)
        (Provisioned.command (mkWRITE_DAQ 4 0 0x1000)
          (Provisioned.command (mkSET_DAQ_PTR 0 0 0)
            (Provisioned.command (mkSET_DAQ_LIST_MODE 0x10 0 7 0)
              (Provisioned.command (mkALLOC_ODT_ENTRY 0 0 1)
                (Provisioned.alloc_odt (mkALLOC_ODT 0 1)
                  (Provisioned.command (mkALLOC_DAQ 1)
                    (Provisioned.reset slaveInit { CRO_CMD := .CC_CONNECT } (Or.inl rfl))
                    (by decide) (by decide) (by decide) (Or.inr (by decide)) (by decide))
                  (by decide) rfl (by decide))
                (by decide) (by decide) (by decide) (Or.inr (by decide)) (by decide))
              (by decide) (by decide) (by decide) (Or.inr (by decide)) (by decide))
            (by decide) (by decide) (by decide) (Or.inr (by decide)) (by decide))
          (by decide) (by decide) (by decide) (Or.inr (by decide)) (by decide))
        (by decide) (by decide) (by decide) (Or.inr (by decide)) (by decide)))
    7 0 (by decide)
    (fun d hd _ _ => by
      have h1 : slaveMeasuring.xcp.Daq.DaqCount = 1 := by decide
      rw [h1] at hd
      have h0 : d = 0 := by omega
      rw [h0]
      simp)

/-! ### Accesses outside of the allocated arrays -/

/-- While the write cursor is below `OdtEntryCount` the size array after the
stores of WRITE_DAQ is the one of `XcpCommand.WRITE_DAQ`: the size at the
cursor is replaced, no other size changes. -/
theorem XcpCommand.WRITE_DAQ.sizes_eq (cfg : Config) (x : tXcpData) (size addr : Nat)
    (hp : x.DaqListPtr < x.Daq.OdtEntryCount) :
    XcpCommand.WRITE_DAQ.sizes cfg x size addr = Function.update x.OdtEntrySize x.DaqListPtr size := by
  funext i
  unfold XcpCommand.WRITE_DAQ.sizes
  rw [if_neg (by omega)]
  by_cases hi : i = x.DaqListPtr
  · rw [if_pos hi, hi, Function.update_same]
  · rw [if_neg hi, Function.update_noteq hi]

/-- C18, the code at the failing input: after CONNECT, ALLOC_DAQ(1),
ALLOC_ODT(0, 1), ALLOC_ODT_ENTRY(0, 0, 1), SET_DAQ_PTR(0, 0, 0) and
WRITE_DAQ(size 4, address 0x1000), all answered `FF`, the arena is laid out
for one entry, the entry holds the size 4 and the write cursor is 1.
WRITE_DAQ(size 4, address 0x10000) is answered `FF`; it stores the size 4 at
index 1 of the size array and then the pointer `0x410000` at index 1 of the
address array, which lies over the size bytes 0 to 7.  After the command
the size of entry 1, the entry stored, is 0, and so is the size of entry 0,
stored by the WRITE_DAQ before. -/
theorem XcpCommand_WRITE_DAQ_size_overwritten :
    Reachable cfg512 slaveCursorAtEnd ∧
      runResponses cfg512 slaveConfigured [mkSET_DAQ_PTR 0 0 0, mkWRITE_DAQ 4 0 0x1000]
        = [some [0xFF], some [0xFF]] ∧
      connected slaveCursorAtEnd.xcp ∧ arenaLaidOut cfg512 slaveCursorAtEnd.xcp ∧
      slaveCursorAtEnd.xcp.Daq.OdtEntryCount = 1 ∧
      slaveCursorAtEnd.xcp.DaqListPtr = 1 ∧
      slaveCursorAtEnd.xcp.OdtEntrySize 0 = 4 ∧
      (XcpCommand cfg512 slaveCursorAtEnd (mkWRITE_DAQ 4 0 0x10000)).2 = some [0xFF] ∧
      XcpCommand.WRITE_DAQ.stores cfg512 slaveCursorAtEnd (mkWRITE_DAQ 4 0 0x10000) ∧
      ApplXcpGetPointer cfg512 0 0x10000 = 0x410000 ∧
      XcpCommand.WRITE_DAQ.sizes cfg512 slaveCursorAtEnd.xcp 4 0x410000 1 = 0 ∧
      XcpCommand.WRITE_DAQ.sizes cfg512 slaveCursorAtEnd.xcp 4 0x410000 0 = 0 :=
  ⟨Reachable_runCommands cfg512 _ _
    (Reachable_runCommands cfg512 _ _ (Reachable.command _ (Reachable.init _ _))),
   by decide, by decide, by decide, by decide, by decide, by decide, by decide, by decide,
   by decide, by decide, by decide⟩

/-- C34, the code at the failing input: after CONNECT, ALLOC_DAQ(1),
ALLOC_ODT(0, 1), ALLOC_ODT_ENTRY(0, 0, 1), SET_DAQ_PTR(0, 0, 0) and
WRITE_DAQ(size 4, address 0x1000), all answered `FF`, the session is
connected, the three counts are 1, the arena is laid out for them, entry 0
holds the size 4 and the write cursor is `p = 1`.  WRITE_DAQ(size 4,
address 0x2000) is answered `FF`; it stores the size 4 at index 1 of the size
array and then the pointer `0x402000` at index 1 of the address array, which
lies over the size bytes 0 to 7.  After the command the size of the entry at
`p` is `0x20 = 32`, not 4, and the size of entry 0, another entry, is 0, not
4 as before. -/
theorem XcpCommand_WRITE_DAQ_frame_broken :
    Reachable cfg512 slaveCursorAtEnd ∧
      runResponses cfg512 slaveConfigured [mkSET_DAQ_PTR 0 0 0, mkWRITE_DAQ 4 0 0x1000]
        = [some [0xFF], some [0xFF]] ∧
      connected slaveCursorAtEnd.xcp ∧
      slaveCursorAtEnd.xcp.Daq.DaqCount = 1 ∧ slaveCursorAtEnd.xcp.Daq.OdtCount = 1 ∧
      slaveCursorAtEnd.xcp.Daq.OdtEntryCount = 1 ∧
      arenaLaidOut cfg512 slaveCursorAtEnd.xcp ∧
      slaveCursorAtEnd.xcp.DaqListPtr = 1 ∧
      slaveCursorAtEnd.xcp.OdtEntrySize 0 = 4 ∧
      (XcpCommand cfg512 slaveCursorAtEnd (mkWRITE_DAQ 4 0 0x2000)).2 = some [0xFF] ∧
      XcpCommand.WRITE_DAQ.stores cfg512 slaveCursorAtEnd (mkWRITE_DAQ 4 0 0x2000) ∧
      ApplXcpGetPointer cfg512 0 0x2000 = 0x402000 ∧
      XcpCommand.WRITE_DAQ.sizes cfg512 slaveCursorAtEnd.xcp 4 0x402000 1 = 32 ∧
      XcpCommand.WRITE_DAQ.sizes cfg512 slaveCursorAtEnd.xcp 4 0x402000 0 = 0 :=
  ⟨Reachable_runCommands cfg512 _ _
    (Reachable_runCommands cfg512 _ _ (Reachable.command _ (Reachable.init _ _))),
   by decide, by decide, by decide, by decide, by decide, by decide, by decide, by decide,
   by decide, by decide, by decide, by decide, by decide⟩

/-- C19, the code at the failing input: after CONNECT and ALLOC_DAQ(255),
answered `FE 30` (CRC_MEMORY_OVERFLOW), the session is connected, `DaqCount`
is 255 and the arena pointer `xcp.pOdt` is null.  For SET_DAQ_PTR(0, 0, 0)
list 0 is below `DaqCount` and ODT 0 is below the number of ODTs of the
record of list 0, so that the range check goes on to
`DaqListOdtEntryCount(odt0)`, which reads `xcp.pOdt[0]`. -/
theorem XcpCommand_SET_DAQ_PTR_null_pOdt :
    Reachable cfg512 slaveRefused ∧
      (XcpCommand cfg512 slaveConnected (mkALLOC_DAQ 255)).2 = some [0xFE, 0x30] ∧
      connected slaveRefused.xcp ∧ slaveRefused.xcp.Daq.DaqCount = 255 ∧
      slaveRefused.xcp.pOdt = none ∧
      (0 : Nat) < slaveRefused.xcp.Daq.DaqCount ∧
      (0 : Nat) < toUInt8 (DaqListOdtCount slaveRefused.xcp 0) ∧
      cfg512.XCP_ENABLE_PARAMETER_CHECK = true ∧
      XcpCommand.SET_DAQ_PTR.reads cfg512 slaveRefused (mkSET_DAQ_PTR 0 0 0) :=
  ⟨Reachable_runCommands cfg512 _ _ (Reachable.command _ (Reachable.init _ _)),
   by decide, by decide, by decide, by decide, by decide, by decide, by decide, by decide⟩

/-- C26, the code at the failing input: after CONNECT, ALLOC_DAQ(255) and
ALLOC_ODT(0, 1), both answered `FE 30` (CRC_MEMORY_OVERFLOW), the session is
connected, `DaqCount` is 255, `OdtCount` is 1 and the arena pointer
`xcp.pOdt` is null.  ALLOC_ODT_ENTRY(0, 0, 1) passes the range check of the
dispatcher and the three checks of `XcpAllocOdtEntry`, and so reaches the
store `xcp.pOdt[xcpFirstOdt+odt].firstOdtEntry = xcp.Daq.OdtEntryCount`
through the null pointer, before any response is sent. -/
theorem XcpCommand_ALLOC_ODT_ENTRY_null_pOdt :
    Reachable cfg512 slaveRefusedOdt ∧
      runResponses cfg512 slaveConnected [mkALLOC_DAQ 255, mkALLOC_ODT 0 1]
        = [some [0xFE, 0x30], some [0xFE, 0x30]] ∧
      connected slaveRefusedOdt.xcp ∧ slaveRefusedOdt.xcp.Daq.DaqCount = 255 ∧
      slaveRefusedOdt.xcp.Daq.OdtCount = 1 ∧ slaveRefusedOdt.xcp.Daq.OdtEntryCount = 0 ∧
      slaveRefusedOdt.xcp.pOdt = none ∧
      cfg512.XCP_ENABLE_PARAMETER_CHECK = true ∧
      XcpCommand.ALLOC_ODT_ENTRY.stores cfg512 slaveRefusedOdt (mkALLOC_ODT_ENTRY 0 0 1) :=
  ⟨Reachable_runCommands cfg512 _ _ (Reachable.command _ (Reachable.init _ _)),
   by decide, by decide, by decide, by decide, by decide, by decide, by decide, by decide⟩

end XCPlite
